import Mathlib

/-!
# StarObjectSmallGraphic: the drawing-object decoder of libstaroffice

A shallow embedding of `src/lib/StarObjectSmallGraphic.cxx`.

* The byte cursor (`STOFFInputStream`) and the record framing (`StarZone`) are
  declared outside this file; they are modelled from the specification
  (sections 4.1 and 6) as a byte list with a position and a stack of scopes.
* The readers of other modules (item pool, strings, colours, bitmaps, text
  objects) are parameters, gathered in `Env`.
* The debug stream `f`, the `ascFile` notes and the `static bool first`
  warning flags have no effect on control flow and are left out.
* `readSVDRObjectGroup` is the only function through which the decoder
  re-enters itself (directly for children, and through the user data of a
  header).  Every decode function therefore takes the group reader `grp` of
  the next level as a parameter, and `readSVDRObjectGroup` ties the knot over a
  fuel counter; a result `none` means that the fuel ran out.
-/

namespace StarOffice

/-! ## The byte cursor -/

/-- An open scope of the record stack: its end offset and its format version. -/
structure Scope where
  endPos : Nat
  version : Nat
deriving DecidableEq, Repr

/-- Modelled from the spec: `StarZone` together with its `STOFFInputStream`
(both outside `src/`): the bytes of the stream, the cursor position and the
stack of open scopes, innermost first. -/
structure StarZone where
  input : List Nat
  pos : Nat
  stack : List Scope
deriving DecidableEq, Repr

/-- Little-endian value of the `n` bytes found at `pos`; a byte past the end of
the data counts as zero. -/
@[irreducible] def leValue (input : List Nat) (pos : Nat) : Nat → Nat
  | 0 => 0
  | n + 1 => input.getD pos 0 % 256 + 256 * leValue input (pos + 1) n

/-- Two's complement reading of an `n`-byte unsigned value. -/
def toSigned (n : Nat) (v : Nat) : Int :=
  if 2 ^ (8 * n - 1) ≤ v then (v : Int) - (2 ^ (8 * n) : Nat) else (v : Int)

namespace StarZone

/-- Modelled from the spec: `input->tell()`. -/
def tell (z : StarZone) : Nat := z.pos

/-- Modelled from the spec: `input->seek(p, RVNG_SEEK_SET)`. -/
def seek (z : StarZone) (p : Nat) : StarZone := { z with pos := p }

/-- Modelled from the spec: `input->seek(n, RVNG_SEEK_CUR)` with `n ≥ 0`. -/
def skip (z : StarZone) (n : Nat) : StarZone := { z with pos := z.pos + n }

/-- Modelled from the spec: `input->seek(-n, RVNG_SEEK_CUR)`. -/
def back (z : StarZone) (n : Nat) : StarZone := { z with pos := z.pos - n }

/-- Modelled from the spec: `input->readULong(n)`, a fixed-width unsigned read
that advances the cursor by `n`. -/
def readULong (z : StarZone) (n : Nat) : Nat × StarZone :=
  (leValue z.input z.pos n, { z with pos := z.pos + n })

/-- Modelled from the spec: `input->readLong(n)`, a fixed-width signed read. -/
def readLong (z : StarZone) (n : Nat) : Int × StarZone :=
  (toSigned n (leValue z.input z.pos n), { z with pos := z.pos + n })

/-- Modelled from the spec: `*input >> b` for a `bool`, a 1-byte flag. -/
def readBool (z : StarZone) : Bool × StarZone :=
  (decide (leValue z.input z.pos 1 ≠ 0), { z with pos := z.pos + 1 })

/-- The loop `for (int i=0; i<4; ++i) magic+=(char) input->readULong(1);`. -/
def readMagic (z : StarZone) : List Nat × StarZone :=
  ([leValue z.input z.pos 1, leValue z.input (z.pos + 1) 1,
    leValue z.input (z.pos + 2) 1, leValue z.input (z.pos + 3) 1],
   { z with pos := z.pos + 4 })

/-- Modelled from the spec: `zone.getRecordLastPosition()`, the end offset of
the innermost open scope (the end of the stream when no scope is open). -/
def getRecordLastPosition (z : StarZone) : Nat :=
  match z.stack with
  | [] => z.input.length
  | s :: _ => s.endPos

/-- Modelled from the spec: `zone.getRecordLevel()`, the nesting level: the
number of scopes that are open. -/
def getRecordLevel (z : StarZone) : Nat := z.stack.length

/-- Modelled from the spec: `zone.getHeaderVersion()`, the format version
declared by the innermost magic-tagged scope; plain records inherit it. -/
def getHeaderVersion (z : StarZone) : Nat :=
  match z.stack with
  | [] => 0
  | s :: _ => s.version

/-- Modelled from the spec: `zone.openRecord()`.  The header is a 4-byte
length that counts itself; the end offset is the start plus that length.  The
call fails, without moving the cursor, when the header or the declared region
does not fit in the remaining bytes, or when the region would end after the
innermost open scope (a scope never ends after its parent). -/
def openRecord (z : StarZone) : Bool × StarZone :=
  let sz := leValue z.input z.pos 4
  if z.pos + 4 ≤ z.input.length ∧ 4 ≤ sz ∧ z.pos + sz ≤ z.input.length
      ∧ z.pos + sz ≤ z.getRecordLastPosition then
    (true, { z with pos := z.pos + 4,
                    stack := ⟨z.pos + sz, z.getHeaderVersion⟩ :: z.stack })
  else (false, z)

/-- Modelled from the spec: `zone.closeRecord(..)`: seeks to the end offset
of the innermost scope and leaves it. -/
def closeRecord (z : StarZone) : StarZone :=
  match z.stack with
  | [] => z
  | s :: rest => { z with pos := s.endPos, stack := rest }

/-- Modelled from the spec: `zone.openSDRHeader(magic)`.  Object framing is a
4-byte magic, a 16-bit version and a 32-bit region length counted from the
magic.  The call fails, without consuming input, when the tag differs from
`magic`, when the header or the declared region does not fit, or when the
region would end after the innermost open scope. -/
def openSDRHeader (z : StarZone) (magic : List Nat) : Bool × StarZone :=
  let sz := leValue z.input (z.pos + 6) 4
  if (z.readMagic).1 = magic ∧ z.pos + 10 ≤ z.input.length ∧ 10 ≤ sz
      ∧ z.pos + sz ≤ z.input.length ∧ z.pos + sz ≤ z.getRecordLastPosition then
    (true, { z with pos := z.pos + 10,
                    stack := ⟨z.pos + sz, leValue z.input (z.pos + 4) 2⟩ :: z.stack })
  else (false, z)

/-- Modelled from the spec: `zone.closeSDRHeader(..)`. -/
def closeSDRHeader (z : StarZone) : StarZone := z.closeRecord

/-- Modelled from the spec: `zone.openSCHHeader()`, a scope with its own
version: a 32-bit region length counted from its start, then a 16-bit
version.  Like the other scopes it never ends after its parent. -/
def openSCHHeader (z : StarZone) : Bool × StarZone :=
  let sz := leValue z.input z.pos 4
  if z.pos + 6 ≤ z.input.length ∧ 6 ≤ sz ∧ z.pos + sz ≤ z.input.length
      ∧ z.pos + sz ≤ z.getRecordLastPosition then
    (true, { z with pos := z.pos + 6,
                    stack := ⟨z.pos + sz, leValue z.input (z.pos + 4) 2⟩ :: z.stack })
  else (false, z)

/-- Modelled from the spec: `zone.closeSCHHeader(..)`. -/
def closeSCHHeader (z : StarZone) : StarZone := z.closeRecord

end StarZone

/-- The tag `"DrOb"`. -/
def magicDrOb : List Nat := [0x44, 0x72, 0x4f, 0x62]
/-- The tag `"DrXX"`. -/
def magicDrXX : List Nat := [0x44, 0x72, 0x58, 0x58]
/-- The tag `"DrCn"`. -/
def magicDrCn : List Nat := [0x44, 0x72, 0x43, 0x6e]
/-- The tag `"SVDr"`. -/
def magicSVDr : List Nat := [0x53, 0x56, 0x44, 0x72]
/-- The tag `"SCHU"`. -/
def magicSCHU : List Nat := [0x53, 0x43, 0x48, 0x55]
/-- The tag `"FM01"`. -/
def magicFM01 : List Nat := [0x46, 0x4d, 0x30, 0x31]
/-- The tag `"SDUD"`. -/
def magicSDUD : List Nat := [0x53, 0x44, 0x55, 0x44]

/-! ## Readers of other modules -/

/-- A resolved attribute (`shared_ptr<StarItem>`), as a handle. -/
abbrev StarItem := Nat
/-- A decoded bitmap (`shared_ptr<StarBitmap>`), as a handle. -/
abbrev StarBitmap := Nat
/-- A colour (`STOFFColor`), as its value. -/
abbrev STOFFColor := Nat
/-- The colour `STOFFColor::white()`. -/
def STOFFColor.white : STOFFColor := 0xffffff
/-- A string, as its code units (`std::vector<uint32_t>`). -/
abbrev UString := List Nat

/-- The readers of other modules.  Each one sees the zone and answers with its
result and the number of bytes it consumed. -/
structure Env where
  /-- The call `pool->loadSurrogate(zone, nWhich, false, f)`; `none` is the null item. -/
  loadSurrogate : StarZone → Nat → Option StarItem × Nat
  /-- The call `zone.readString(string)`: its result and the string. -/
  readString : StarZone → Bool × UString × Nat
  /-- The call `zone.readString(string, encoding)`. -/
  readStringEnc : StarZone → Nat → Bool × UString × Nat
  /-- The call `input->readColor(color)`: its result and the colour. -/
  readColor : StarZone → Bool × STOFFColor × Nat
  /-- The call `smallText->read(zone, lastPos)`. -/
  smallTextRead : StarZone → Nat → Bool × Nat
  /-- The call `smallGraphic.read(zone)` or `smallGraphic.read(zone, lastPos)`, with
  the bitmap it found, if any. -/
  starGraphicRead : StarZone → Option Nat → Bool × Option StarBitmap × Nat
  /-- The call `bitmap.readBitmap(zone, true, lastPos, data, dType)`, with the data. -/
  readBitmap : StarZone → Nat → Bool × List Nat × Nat

/-! ## The object model -/

/-- The class `STOFFVec2i`. -/
structure STOFFVec2i where
  x : Int
  y : Int
deriving DecidableEq, Repr

/-- The class `STOFFBox2i`. -/
structure STOFFBox2i where
  min : STOFFVec2i
  max : STOFFVec2i
deriving DecidableEq, Repr

/-- The default box `STOFFBox2i()`. -/
def STOFFBox2i.zero : STOFFBox2i := ⟨⟨0, 0⟩, ⟨0, 0⟩⟩

/-- The class `GluePoint`. -/
structure GluePoint where
  m_dimension : STOFFVec2i
  m_direction : Nat
  m_id : Nat
  m_align : Nat
  m_percent : Bool
deriving DecidableEq, Repr

/-- The constructor `GluePoint(int x=0, int y=0)`. -/
def GluePoint.new (x y : Int) : GluePoint := ⟨⟨x, y⟩, 0, 0, 0, false⟩

/-- A text object created by `new StarObjectSmallText(*this, true)` and filled by
its `read`; it is kept as the offset it was read at. -/
structure StarObjectSmallText where
  offset : Nat
deriving DecidableEq, Repr

/-- The struct `OutlinerParaObject::Zone`. -/
structure OutlinerZone where
  m_text : Option StarObjectSmallText
  m_depth : Nat
  m_backgroundColor : STOFFColor
  m_background : List Nat
  m_colorName : UString
deriving DecidableEq, Repr

/-- The class `OutlinerParaObject`. -/
structure OutlinerParaObject where
  m_version : Nat
  m_zones : List OutlinerZone
  m_textZone : Option StarObjectSmallText
  m_depthList : List Nat
  m_isEditDoc : Bool
deriving DecidableEq, Repr

/-- The constructor `OutlinerParaObject()`. -/
def OutlinerParaObject.new : OutlinerParaObject := ⟨0, [], none, [], false⟩

/-- The class `SdrGraphic` (with the identifier of its base class `Graphic`). -/
structure SdrGraphic where
  m_identifier : Int
  m_bdbox : STOFFBox2i
  m_layerId : Int
  m_anchorPosition : STOFFVec2i
  m_polygon : List GluePoint
  m_flags : List Bool
deriving DecidableEq, Repr

/-- The constructor `SdrGraphic(int id)`. -/
def SdrGraphic.new (id : Int) : SdrGraphic :=
  ⟨id, STOFFBox2i.zero, -1, ⟨0, 0⟩, [], List.replicate 6 false⟩

/-- The class `SdrGraphicAttribute`. -/
structure SdrGraphicAttribute extends SdrGraphic where
  m_itemList : List StarItem
  m_sheetStyle : UString
deriving DecidableEq, Repr

/-- The constructor `SdrGraphicAttribute(int id)`. -/
def SdrGraphicAttribute.new (id : Int) : SdrGraphicAttribute :=
  { SdrGraphic.new id with m_itemList := [], m_sheetStyle := [] }

/-- The class `SdrGraphicText`. -/
structure SdrGraphicText extends SdrGraphicAttribute where
  m_textKind : Nat
  m_textRectangle : STOFFBox2i
  m_textDrehWink : Int
  m_textShearWink : Int
  m_outlinerParaObject : Option OutlinerParaObject
  m_textBound : STOFFBox2i
deriving DecidableEq, Repr

/-- The constructor `SdrGraphicText(int id)`. -/
def SdrGraphicText.new (id : Int) : SdrGraphicText :=
  { SdrGraphicAttribute.new id with
    m_textKind := 0, m_textRectangle := STOFFBox2i.zero, m_textDrehWink := 0,
    m_textShearWink := 0, m_outlinerParaObject := none, m_textBound := STOFFBox2i.zero }

/-- The class `SdrGraphicRect`. -/
structure SdrGraphicRect extends SdrGraphicText where
  m_eckRag : Int
deriving DecidableEq, Repr

/-- The constructor `SdrGraphicRect(int id)`. -/
def SdrGraphicRect.new (id : Int) : SdrGraphicRect :=
  { SdrGraphicText.new id with m_eckRag := 0 }

/-- The class `SdrGraphicCaption`. -/
structure SdrGraphicCaption extends SdrGraphicRect where
  m_captionPolygon : List STOFFVec2i
  m_captionItem : Option StarItem
deriving DecidableEq, Repr

/-- The constructor `SdrGraphicCaption()`. -/
def SdrGraphicCaption.new : SdrGraphicCaption :=
  { SdrGraphicRect.new 25 with m_captionPolygon := [], m_captionItem := none }

/-- A finite value of the C++ type `float` (IEEE 754 binary32), kept as
`mant * 2 ^ exp` with `mant` odd; zero is `⟨0, 0⟩`. -/
structure Float32 where
  mant : Int
  exp : Int
deriving DecidableEq, Repr

/-- The rational number that a `float` stands for. -/
def Float32.toRat (x : Float32) : ℚ := x.mant * 2 ^ x.exp

/-- The position of the leading bit of `a`, zero for `a < 2`, found by halving
`a` at most `k` times. -/
def Float32.log2Aux : Nat → Nat → Nat
  | 0, _ => 0
  | k + 1, a => if a < 2 then 0 else Float32.log2Aux k (a / 2) + 1

/-- The position of the leading bit of `a`: the integer part of its binary
logarithm, zero for `a = 0`. -/
def Float32.log2 (a : Nat) : Nat := Float32.log2Aux a a

/-- The exponent of the last place of the `float` nearest to `a / d`, for `a > 0`
and `d > 0`: the `e` for which `a / (d * 2 ^ e)` lies from `2 ^ 23` to `2 ^ 24`. -/
def Float32.exponent (a d : Nat) : Int :=
  let e0 : Int := (Float32.log2 a : Int) - (Float32.log2 d : Int) - 23
  if a * 2 ^ (-e0).toNat / (d * 2 ^ e0.toNat) < 2 ^ 23 then e0 - 1 else e0

/-- The integer nearest to `p / q`, the even one of the two when `p / q` lies half
way between two integers. -/
def Float32.nearest (p q : Nat) : Nat :=
  if 2 * (p % q) > q ∨ (2 * (p % q) = q ∧ p / q % 2 = 1) then p / q + 1 else p / q

/-- The `float` nearest to `n / d`, for `d > 0`, with a significand of 24 bits
and ties going to the even significand (IEEE 754 round to nearest even): the
rounding of a conversion or of a division whose result is in the normal range of
the type, as are all the values `float(v)` and `float(v)/100.f` of a 32-bit `v`.
With `e` the exponent of the last place, the significand `m` is `|n| / (d * 2 ^ e)`
rounded to the nearest integer, and the result is `m * 2 ^ e` with the sign of `n`
and the factors 2 of `m` moved into the exponent. -/
def Float32.round (n : Int) (d : Nat) : Float32 :=
  if n = 0 ∨ d = 0 then ⟨0, 0⟩ else
  let e := Float32.exponent n.natAbs d
  let m := Float32.nearest (n.natAbs * 2 ^ (-e).toNat) (d * 2 ^ e.toNat)
  let t := Nat.gcd m (2 ^ 24)
  ⟨(if n < 0 then -1 else 1) * ((m / t : Nat) : Int), e + (Float32.log2 t : Int)⟩

/-- The conversion `float(v)` of an integer. -/
def Float32.ofInt (v : Int) : Float32 := Float32.round v 1

/-- The quotient `x / y` of two `float` values, `y` not zero: the exact quotient
`x.mant * 2 ^ x.exp / (y.mant * 2 ^ y.exp)`, rounded. -/
def Float32.div (x y : Float32) : Float32 :=
  Float32.round ((if y.mant < 0 then -1 else 1) * x.mant * 2 ^ (x.exp - y.exp).toNat)
    (y.mant.natAbs * 2 ^ (y.exp - x.exp).toNat)

/-- The literal `100.f`. -/
def Float32.hundred : Float32 := ⟨25, 2⟩

/-- The class `SdrGraphicCircle`; `m_angles` is the array `float m_angles[2]`. -/
structure SdrGraphicCircle extends SdrGraphicRect where
  m_angles : Float32 × Float32
  m_circleItem : Option StarItem
deriving DecidableEq, Repr

/-- The constructor `SdrGraphicCircle(int id)`. -/
def SdrGraphicCircle.new (id : Int) : SdrGraphicCircle :=
  { SdrGraphicRect.new id with m_angles := (⟨0, 0⟩, ⟨0, 0⟩), m_circleItem := none }

/-- The struct `SdrGraphicEdge::Information`. -/
structure EdgeInformation where
  m_points : List STOFFVec2i
  m_angles : List Int
  m_n : List Nat
  m_orthoForm : Nat
deriving DecidableEq, Repr

/-- The constructor `Information()`. -/
def EdgeInformation.new : EdgeInformation :=
  ⟨List.replicate 5 ⟨0, 0⟩, [0, 0], [0, 0, 0], 0⟩

/-- The class `SdrGraphicEdge`. -/
structure SdrGraphicEdge extends SdrGraphicText where
  m_edgePolygon : List STOFFVec2i
  m_edgePolygonFlags : List Nat
  m_edgeItem : Option StarItem
  m_info : EdgeInformation
deriving DecidableEq, Repr

/-- The constructor `SdrGraphicEdge()`. -/
def SdrGraphicEdge.new : SdrGraphicEdge :=
  { SdrGraphicText.new 24 with
    m_edgePolygon := [], m_edgePolygonFlags := [], m_edgeItem := none,
    m_info := EdgeInformation.new }

/-- The class `SdrGraphicGraph`. -/
structure SdrGraphicGraph extends SdrGraphicRect where
  m_bitmap : Option StarBitmap
  m_graphRectangle : STOFFBox2i
  m_graphNames : List UString
  m_mirrored : Bool
  m_hasGraphicLink : Bool
  m_graphItem : Option StarItem
deriving DecidableEq, Repr

/-- The constructor `SdrGraphicGraph()`. -/
def SdrGraphicGraph.new : SdrGraphicGraph :=
  { SdrGraphicRect.new 22 with
    m_bitmap := none, m_graphRectangle := STOFFBox2i.zero, m_graphNames := [[], [], []],
    m_mirrored := false, m_hasGraphicLink := false, m_graphItem := none }

/-- The class `SdrGraphicMeasure`. -/
structure SdrGraphicMeasure extends SdrGraphicText where
  m_measurePoints : List STOFFVec2i
  m_overwritten : Bool
  m_measureItem : Option StarItem
deriving DecidableEq, Repr

/-- The constructor `SdrGraphicMeasure()`. -/
def SdrGraphicMeasure.new : SdrGraphicMeasure :=
  { SdrGraphicText.new 29 with
    m_measurePoints := [⟨0, 0⟩, ⟨0, 0⟩], m_overwritten := false, m_measureItem := none }

/-- The class `SdrGraphicOLE`. -/
structure SdrGraphicOLE extends SdrGraphicRect where
  m_oleNames : List UString
  m_bitmap : Option StarBitmap
deriving DecidableEq, Repr

/-- The constructor `SdrGraphicOLE(int id)`. -/
def SdrGraphicOLE.new (id : Int) : SdrGraphicOLE :=
  { SdrGraphicRect.new id with m_oleNames := [[], []], m_bitmap := none }

/-- The class `SdrGraphicPage`. -/
structure SdrGraphicPage extends SdrGraphic where
  m_page : Int
deriving DecidableEq, Repr

/-- The constructor `SdrGraphicPage()`. -/
def SdrGraphicPage.new : SdrGraphicPage :=
  { SdrGraphic.new 28 with m_page := 0 }

/-- The class `SdrGraphicPath`. -/
structure SdrGraphicPath extends SdrGraphicText where
  m_pathPolygon : List STOFFVec2i
  m_pathPolygonFlags : List Nat
deriving DecidableEq, Repr

/-- The constructor `SdrGraphicPath(int id)`. -/
def SdrGraphicPath.new (id : Int) : SdrGraphicPath :=
  { SdrGraphicText.new id with m_pathPolygon := [], m_pathPolygonFlags := [] }

/-- The class `SdrGraphicUno`. -/
structure SdrGraphicUno extends SdrGraphicRect where
  m_unoName : UString
deriving DecidableEq, Repr

/-- The constructor `SdrGraphicUno()`. -/
def SdrGraphicUno.new : SdrGraphicUno :=
  { SdrGraphicRect.new 32 with m_unoName := [] }

/-- The class `SCHUGraphic`; `m_factor` keeps the eight bytes of the double. -/
structure SCHUGraphic where
  m_identifier : Int
  m_id : Nat
  m_adjust : Nat
  m_orientation : Nat
  m_column : Int
  m_row : Int
  m_factor : Nat
deriving DecidableEq, Repr

/-- The constructor `SCHUGraphic(int id)`. -/
def SCHUGraphic.new (id : Int) : SCHUGraphic := ⟨id, 0, 0, 0, 0, 0, 0⟩

/-- The class `SDUDGraphic`. -/
structure SDUDGraphic where
  m_identifier : Int
deriving DecidableEq, Repr

/-- The class `SDUDGraphicAnimation`. -/
structure SDUDGraphicAnimation extends SDUDGraphic where
  m_polygon : List STOFFVec2i
  m_limits : List STOFFVec2i
  m_values : List Nat
  m_colors : List STOFFColor
  m_flags : List Bool
  m_booleans : List Bool
  m_names : List UString
  m_order : Int
deriving DecidableEq, Repr

/-- The constructor `SDUDGraphicAnimation()`. -/
def SDUDGraphicAnimation.new : SDUDGraphicAnimation :=
  { m_identifier := 1, m_polygon := [], m_limits := [⟨0, 0⟩, ⟨0, 0⟩],
    m_values := List.replicate 8 0, m_colors := [STOFFColor.white, STOFFColor.white],
    m_flags := List.replicate 3 false, m_booleans := List.replicate 5 false,
    m_names := [[], [], []], m_order := 0 }

/-- The fields of the class `SdrGraphicGroup`, over the type of a child. -/
structure SdrGraphicGroupOf (Child : Type) extends SdrGraphic where
  m_groupName : UString
  m_child : List Child
  m_refPoint : STOFFVec2i
  m_hasRefPoint : Bool
  m_groupDrehWink : Int
  m_groupShearWink : Int

/-- A stored graphic: the dynamic type of a `shared_ptr<Graphic>`.  A child of a
group is a `StarObjectSmallGraphic`, kept as the graphic its state stores
(`none` for a null `m_graphic`). -/
inductive Graphic where
  | sdrGraphic (g : SdrGraphic)
  | group (g : SdrGraphicGroupOf (Option Graphic))
  | path (g : SdrGraphicPath)
  | circle (g : SdrGraphicCircle)
  | rect (g : SdrGraphicRect)
  | edge (g : SdrGraphicEdge)
  | graph (g : SdrGraphicGraph)
  | ole (g : SdrGraphicOLE)
  | caption (g : SdrGraphicCaption)
  | page (g : SdrGraphicPage)
  | measure (g : SdrGraphicMeasure)
  | uno (g : SdrGraphicUno)
  | schu (g : SCHUGraphic)
  | sdud (g : SDUDGraphic)
  | sdudAnimation (g : SDUDGraphicAnimation)

/-- The class `SdrGraphicGroup`. -/
abbrev SdrGraphicGroup := SdrGraphicGroupOf (Option Graphic)

/-- The constructor `SdrGraphicGroup(int id)`. -/
def SdrGraphicGroup.new (id : Int) : SdrGraphicGroup :=
  { SdrGraphic.new id with
    m_groupName := [], m_child := [], m_refPoint := ⟨0, 0⟩, m_hasRefPoint := false,
    m_groupDrehWink := 0, m_groupShearWink := 0 }

/-- The struct `State` of a `StarObjectSmallGraphic`, which is all the object
owns: the stored graphic `m_graphicState->m_graphic`. -/
structure StarObjectSmallGraphic where
  m_graphic : Option Graphic

/-- The constructor `StarObjectSmallGraphic(orig, duplicateState)`: a fresh state. -/
def StarObjectSmallGraphic.new : StarObjectSmallGraphic := ⟨none⟩

/-- The field `m_identifier` of the base class `Graphic`. -/
def Graphic.m_identifier : Graphic → Int
  | .sdrGraphic g => g.m_identifier
  | .group g => g.m_identifier
  | .path g => g.m_identifier
  | .circle g => g.m_identifier
  | .rect g => g.m_identifier
  | .edge g => g.m_identifier
  | .graph g => g.m_identifier
  | .ole g => g.m_identifier
  | .caption g => g.m_identifier
  | .page g => g.m_identifier
  | .measure g => g.m_identifier
  | .uno g => g.m_identifier
  | .schu g => g.m_identifier
  | .sdud g => g.m_identifier
  | .sdudAnimation g => g.m_identifier


/-- The table `wh[]` of `SdrGraphic::getName`. -/
def SdrGraphic.names : List String :=
  ["none", "group", "line", "rect", "circle",
   "sector", "arc", "ccut", "poly", "polyline",
   "pathline", "pathfill", "freeline", "freefill", "splineline",
   "splinefill", "text", "textextended", "fittext", "fitalltext",
   "titletext", "outlinetext", "graf", "ole2", "edge",
   "caption", "pathpoly", "pathline", "page", "measure",
   "dummy", "frame", "uno"]

/-- The function `SdrGraphic::getName`. -/
def SdrGraphic.getName (g : SdrGraphic) : String :=
  if g.m_identifier > 0 ∧ g.m_identifier ≤ 32 then
    SdrGraphic.names.getD g.m_identifier.toNat ""
  else "###type=" ++ toString g.m_identifier ++ ","

/-! ## Leaf readers that do not re-enter the decoder -/

/-- The loop `for (int i=0; i<n; ++i) input->readULong(w);`. -/
def readValues (w : Nat) : Nat → StarZone → StarZone
  | 0, z => z
  | n + 1, z => readValues w n (z.readULong w).2

/-- The loop reading `n` points of two signed 32-bit coordinates, appended to `acc`. -/
def readPoints : Nat → List STOFFVec2i → StarZone → List STOFFVec2i × StarZone
  | 0, acc, z => (acc, z)
  | n + 1, acc, z =>
    let (x, z) := z.readLong 4
    let (y, z) := z.readLong 4
    readPoints n (acc ++ [⟨x, y⟩]) z

/-- The loop `for (i<n) list.push_back((int) input->readULong(w));`, appending to `acc`. -/
def readULongs (w : Nat) : Nat → List Nat → StarZone → List Nat × StarZone
  | 0, acc, z => (acc, z)
  | n + 1, acc, z =>
    let (v, z) := z.readULong w
    readULongs w n (acc ++ [v]) z

/-- Four signed 32-bit values read as a box (`dim[0..3]`). -/
def readBox (z : StarZone) : STOFFBox2i × StarZone :=
  let (a, z) := z.readLong 4
  let (b, z) := z.readLong 4
  let (c, z) := z.readLong 4
  let (d, z) := z.readLong 4
  (⟨⟨a, b⟩, ⟨c, d⟩⟩, z)

/-- Two signed 32-bit values read as a point (`dim[0..1]`). -/
def readVec (z : StarZone) : STOFFVec2i × StarZone :=
  let (a, z) := z.readLong 4
  let (b, z) := z.readLong 4
  (⟨a, b⟩, z)

namespace StarZone

/-- The statement `if (c) *input >> b;`: the flag read, or `old` when nothing is read. -/
def readBoolIf (z : StarZone) (c : Bool) (old : Bool) : Bool × StarZone :=
  if c then z.readBool else (old, z)

/-- The statement `if (c) v=input->readULong(n);`. -/
def readULongIf (z : StarZone) (c : Bool) (n : Nat) (old : Nat) : Nat × StarZone :=
  if c then z.readULong n else (old, z)

/-- The statement `if (c) v=input->readLong(n);`. -/
def readLongIf (z : StarZone) (c : Bool) (n : Nat) (old : Int) : Int × StarZone :=
  if c then z.readLong n else (old, z)

/-- The statement `if (c) v=float(input->readLong(4))/100.f;`. -/
def readAngleIf (z : StarZone) (c : Bool) (old : Float32) : Float32 × StarZone :=
  if c then ((Float32.ofInt (z.readLong 4).1).div Float32.hundred, (z.readLong 4).2)
  else (old, z)

/-- The statement `if (c) input->seek(p, RVNG_SEEK_SET);`. -/
def seekIf (z : StarZone) (c : Bool) (p : Nat) : StarZone := if c then z.seek p else z

/-- The statement `if (c) input->seek(n, RVNG_SEEK_CUR);`. -/
def skipIf (z : StarZone) (c : Bool) (n : Nat) : StarZone := if c then z.skip n else z

/-- The statement `if (c) zone.closeRecord(..);`. -/
def closeRecordIf (z : StarZone) (c : Bool) : StarZone := if c then z.closeRecord else z

/-- The statement `opened = c ? zone.openRecord() : dflt;`. -/
def openRecordIf (z : StarZone) (c : Bool) (dflt : Bool) : Bool × StarZone :=
  if c then z.openRecord else (dflt, z)

end StarZone

/-- The statements
`item=pool->loadSurrogate(zone, which, false, f); if (!item || input->tell()>lastPos) ...; else field=item;`
run when `c` holds: the new value of the field (`old` when it is not set) and the zone. -/
def loadItem (env : Env) (lastPos which : Nat) (c : Bool) (old : Option StarItem)
    (z : StarZone) : Option StarItem × StarZone :=
  if c then
    ((if (env.loadSurrogate z which).1.isNone ∨ (z.skip (env.loadSurrogate z which).2).tell > lastPos
        then old else (env.loadSurrogate z which).1),
      z.skip (env.loadSurrogate z which).2)
  else (old, z)

/-- The test `!zone.readString(string) || input->tell()>lastPos`, negated, with the
string read and the zone after the read. -/
def readStringIn (env : Env) (lastPos : Nat) (z : StarZone) : Bool × UString × StarZone :=
  ((env.readString z).1 && decide (¬ (z.skip (env.readString z).2.2).tell > lastPos),
    (env.readString z).2.1, z.skip (env.readString z).2.2)

/-- The function `StarObjectSmallGraphic::readSDRObjectSurrogate`. -/
def readSDRObjectSurrogate (z : StarZone) : Bool × StarZone :=
  let lastPos := z.getRecordLastPosition
  let (id, z) := z.readULong 1
  let (ok, z) :=
    if id ≠ 0 then
      let eid := id &&& 0x1f
      let nBytes := 1 + (id >>> 6)
      let ok := decide (nBytes ≠ 3)
      let z := if ok then (z.readULong nBytes).2 else z
      let z := if ok ∧ 0x10 ≤ eid ∧ eid ≤ 0x1a then (z.readULong 2).2 else z
      if ok ∧ id &&& 0x20 ≠ 0 then
        let (grpLevel, z) := z.readULong 2
        if z.tell + nBytes * grpLevel > lastPos then (false, z)
        else (ok, readValues nBytes grpLevel z)
      else (ok, z)
    else (true, z)
  (ok && decide (z.tell ≤ lastPos), z)

/-- The function `StarObjectSmallGraphic::readSDRObjectConnection`. -/
def readSDRObjectConnection (z : StarZone) : Bool × StarZone :=
  let pos := z.tell
  let (magic, z) := z.readMagic
  let z := z.seek pos
  if magic ≠ magicDrCn then (false, z.seek pos) else
  let (opened, z) := z.openSDRHeader magic
  if !opened then (false, z.seek pos) else
  let lastPos := z.getRecordLastPosition
  let (okSurr, z) := readSDRObjectSurrogate z
  if !okSurr then (true, (z.seek lastPos).closeSDRHeader) else
  let (_, z) := z.readULong 2
  let (_, z) := z.readLong 4
  let (_, z) := z.readLong 4
  let z := readValues 1 6 z
  let z := z.skip 8
  let z := if z.tell ≠ lastPos then z.seek lastPos else z
  (true, z.closeSDRHeader)

/-- The function `StarObjectSmallGraphic::readSDRGluePoint`. -/
def readSDRGluePoint (z : StarZone) : Bool × GluePoint × StarZone :=
  let pt := GluePoint.new 0 0
  let pos := z.tell
  let (opened, z) := z.openRecord
  if !opened then (false, pt, z.seek pos) else
  let (d0, z) := z.readULong 2
  let (d1, z) := z.readULong 2
  let (dir, z) := z.readULong 2
  let (id, z) := z.readULong 2
  let (align, z) := z.readULong 2
  let (noPercent, z) := z.readBool
  (true, ⟨⟨d0, d1⟩, dir, id, align, !noPercent⟩, z.closeRecord)

/-- The loop of `readSDRGluePointList` over the `n` declared glue points. -/
def readSDRGluePoints : Nat → List GluePoint → StarZone → List GluePoint × StarZone
  | 0, acc, z => (acc, z)
  | n + 1, acc, z =>
    let pos := z.tell
    let (ok, pt, z) := readSDRGluePoint z
    let z := if !ok then z.seek pos else z
    readSDRGluePoints n (acc ++ [pt]) z

/-- The function `StarObjectSmallGraphic::readSDRGluePointList`; the list passed
by reference is cleared first, so only the new list is returned. -/
def readSDRGluePointList (z : StarZone) : Bool × List GluePoint × StarZone :=
  let pos := z.tell
  let (opened, z) := z.openRecord
  if !opened then (false, [], z.seek pos) else
  let (n, z) := z.readULong 2
  let (pts, z) := readSDRGluePoints n [] z
  (true, pts, z.closeRecord)

/-- The branch of `readSDROutlinerParaObject` that reads a background colour and its
name (`flags&1` is zero): the flag `ok`, the zone as filled, and the stream. -/
def readOutlinerColor (env : Env) (lastPos : Nat) (paraZone : OutlinerZone) (z : StarZone) :
    Bool × OutlinerZone × StarZone :=
  let (okColor, color, used) := env.readColor z
  let z := z.skip used
  let paraZone := if okColor then { paraZone with m_backgroundColor := color } else paraZone
  let z := z.skipIf okColor 16
  let (okStr, string, zs) := readStringIn env lastPos z
  let ok := okColor && okStr
  let paraZone := { paraZone with
    m_colorName := if ok then string else if okColor then paraZone.m_colorName else [] }
  let z := if okColor then zs else z
  (ok, paraZone, z.skipIf ok 12)

/-- The block `if (vers==1) {...}` of the zone loop of `readSDROutlinerParaObject`:
the flag `ok`, the zone as filled, and the stream. -/
def readOutlinerZoneV1 (env : Env) (lastPos : Nat) (paraZone : OutlinerZone) (z : StarZone) :
    Bool × OutlinerZone × StarZone :=
  let (flags, z) := z.readULong 2
  let (ok, paraZone, z) :=
    if flags &&& 1 ≠ 0 then
      let (okBitmap, data, used) := env.readBitmap z lastPos
      (okBitmap, if okBitmap then { paraZone with m_background := data } else paraZone,
        z.skip used)
    else readOutlinerColor env lastPos paraZone z
  (ok, paraZone, z.skip 8)

/-- The loop `for (long i=0; i<N; ++i)` of `readSDROutlinerParaObject`
(versions 1 to 3), with `k` iterations left; the zones read are appended to the
object.  The result is false when the function returns false inside the loop. -/
def readOutlinerZones (env : Env) (vers lastPos : Nat) :
    Nat → OutlinerParaObject → StarZone → Bool × OutlinerParaObject × StarZone
  | 0, object, z => (true, object, z)
  | k + 1, object, z =>
    let pos := z.tell
    let (okText, used) := env.smallTextRead z lastPos
    let z := z.skip used
    if !okText ∨ z.tell > lastPos then (false, object, z.seek pos) else
    let smallText : StarObjectSmallText := ⟨pos⟩
    let pos := z.tell
    let (_, z) := z.readULong 4
    let (depth, z) := z.readULong 2
    let paraZone : OutlinerZone := ⟨some smallText, depth, STOFFColor.white, [], []⟩
    let (ok, paraZone, z) :=
      if vers = 1 then readOutlinerZoneV1 env lastPos paraZone z else (true, paraZone, z)
    let ok := ok && decide (¬ z.tell > lastPos)
    if !ok then (false, object, z.seek pos) else
    let object := { object with m_zones := object.m_zones ++ [paraZone] }
    let z := if k ≠ 0 then (z.readULong 4).2 else z
    readOutlinerZones env vers lastPos k object z

/-- The version that `readSDROutlinerParaObject` reads from the sync marker; zero
stands for a marker that is not recognised. -/
def outlinerVersion (syncRef : Nat) : Nat :=
  if syncRef = 0x12345678 then 1
  else if syncRef = 0x22345678 then 2
  else if syncRef = 0x32345678 then 3
  else if syncRef = 0x42345678 then 4
  else 0

/-- The function `StarObjectSmallGraphic::readSDROutlinerParaObject`; the object
passed by reference is reset first, so only the new object is returned. -/
def readSDROutlinerParaObject (env : Env) (z : StarZone) :
    Bool × OutlinerParaObject × StarZone :=
  let object := OutlinerParaObject.new
  let lastPos := z.getRecordLastPosition
  let (N, z) := z.readULong 4
  let (syncRef, z) := z.readULong 4
  let vers := outlinerVersion syncRef
  if vers = 0 then (decide (N = 0), object, z) else
  let object := { object with m_version := vers }
  if vers ≤ 3 then
    let (ok, object, z) := readOutlinerZones env vers lastPos N object z
    if !ok then (false, object, z) else
    if vers = 3 then
      let (b, z) := z.readBool
      (true, { object with m_isEditDoc := b }, z)
    else (true, object, z)
  else
    let pos := z.tell
    let (okText, used) := env.smallTextRead z lastPos
    let z := z.skip used
    if !okText ∨ z.tell + N * 2 > lastPos then (false, object, z.seek pos) else
    let object := { object with m_textZone := some ⟨pos⟩ }
    let (depths, z) := readULongs 2 N object.m_depthList z
    let (b, z) := z.readBool
    (true, { object with m_depthList := depths, m_isEditDoc := b }, z)

/-- The loop `for (int i=0; i<2; ++i)` over the two colours of `readSDUDObject`,
with its `break`; `k` iterations are left and `i` is the index. -/
def readSDUDColors (env : Env) (endPos : Nat) :
    Nat → Nat → SDUDGraphicAnimation → StarZone → Bool × SDUDGraphicAnimation × StarZone
  | 0, _, g, z => (true, g, z)
  | k + 1, i, g, z =>
    let (okColor, color, used) := env.readColor z
    let z := z.skip used
    if !okColor ∨ z.tell > endPos then (false, g, z)
    else readSDUDColors env endPos k (i + 1) { g with m_colors := g.m_colors.set i color } z

/-- The loop `for (int i=1; i<3; ++i)` over the two names of `readSDUDObject`,
with its `break`. -/
def readSDUDNames (env : Env) (endPos encoding : Nat) :
    Nat → Nat → SDUDGraphicAnimation → StarZone → Bool × SDUDGraphicAnimation × StarZone
  | 0, _, g, z => (true, g, z)
  | k + 1, i, g, z =>
    let (okStr, string, used) := env.readStringEnc z encoding
    let z := z.skip used
    if !okStr ∨ z.tell > endPos then (false, g, z)
    else readSDUDNames env endPos encoding k (i + 1) { g with m_names := g.m_names.set i string } z

/-- The block `if (input->readULong(2)) {...}` of `readSDUDObject`: the polygon. -/
def readSDUDPolygon (endPos : Nat) (g : SDUDGraphicAnimation) (z : StarZone) :
    Bool × SDUDGraphicAnimation × StarZone :=
  let (hasPoly, z) := z.readULong 2
  if hasPoly ≠ 0 then
    let (n, z) := z.readULong 2
    if z.tell + 8 * n > endPos then (false, g, z)
    else
      let (pts, z) := readPoints n g.m_polygon z
      (true, { g with m_polygon := pts }, z)
  else (true, g, z)

/-- The first block `if (ok) {...}` of `readSDUDObject`: limits, values and flags. -/
def readSDUDLimits (endPos : Nat) (g : SDUDGraphicAnimation) (z : StarZone) :
    Bool × SDUDGraphicAnimation × StarZone :=
  let (l0, z) := readVec z
  let (l1, z) := readVec z
  let (v0, z) := z.readULong 2
  let (v1, z) := z.readULong 2
  let (f0, z) := z.readULong 2
  let (f1, z) := z.readULong 2
  let (f2, z) := z.readULong 2
  let g := { g with m_limits := [l0, l1],
                    m_values := (g.m_values.set 0 v0).set 1 v1,
                    m_flags := [decide (f0 ≠ 0), decide (f1 ≠ 0), decide (f2 ≠ 0)] }
  (decide (¬ z.tell > endPos), g, z)

/-- The block `if (ok && vers>0) {...}` of `readSDUDObject`: the encoding and the
first name; the result adds the encoding. -/
def readSDUDSound (env : Env) (endPos : Nat) (g : SDUDGraphicAnimation) (z : StarZone) :
    Bool × Nat × SDUDGraphicAnimation × StarZone :=
  let (encoding, z) := z.readULong 2
  let (okStr, string, used) := env.readStringEnc z encoding
  let z := z.skip used
  if !okStr ∨ z.tell > endPos then (false, encoding, g, z)
  else (true, encoding, { g with m_names := g.m_names.set 0 string }, z)

/-- The block `if (ok && vers>3) {...}` of `readSDUDObject`: the object surrogate. -/
def readSDUDSurrogate (endPos : Nat) (z : StarZone) : Bool × StarZone :=
  let (nFlag, z) := z.readULong 2
  if nFlag = 1 then
    let (okSurr, z) := readSDRObjectSurrogate z
    (okSurr && decide (¬ z.tell > endPos), z)
  else (true, z)

/-- The block `if (ok && vers>4) {...}` of `readSDUDObject`. -/
def readSDUDSecond (env : Env) (endPos encoding : Nat) (g : SDUDGraphicAnimation)
    (z : StarZone) : Bool × SDUDGraphicAnimation × StarZone :=
  let (v2, z) := z.readULong 2
  let (v3, z) := z.readULong 2
  let (v4, z) := z.readULong 2
  let g := { g with m_values := ((g.m_values.set 2 v2).set 3 v3).set 4 v4 }
  let (ok, g, z) := readSDUDNames env endPos encoding 2 1 g z
  let (v5, z) := z.readULongIf ok 2 (g.m_values.getD 5 0)
  let (v6, z) := z.readULongIf ok 2 (g.m_values.getD 6 0)
  (ok, { g with m_values := (g.m_values.set 5 v5).set 6 v6 }, z)

/-- The first part of the branch `identifier==1` of `readSDUDObject`: the polygon,
the limits, the colours and the first name.  The result is the flag `ok`, the
encoding, the graphic and the zone. -/
def readSDUDHead (env : Env) (vers endPos : Nat) (z : StarZone) :
    Bool × Nat × SDUDGraphicAnimation × StarZone :=
  let (ok, g, z) := readSDUDPolygon endPos SDUDGraphicAnimation.new z
  let (ok, g, z) := if ok then readSDUDLimits endPos g z else (ok, g, z)
  let (ok, g, z) := if ok then readSDUDColors env endPos 2 0 g z else (ok, g, z)
  if ok ∧ vers > 0 then readSDUDSound env endPos g z else (ok, 0, g, z)

/-- The second part of the branch `identifier==1` of `readSDUDObject`, from
`if (ok && vers>1)` to the block `if (ok && vers>4)`; `st` is the state left by
the first part.  A field that a skipped statement leaves alone is written back
with its old value. -/
def readSDUDMiddle (env : Env) (vers endPos : Nat)
    (st : Bool × Nat × SDUDGraphicAnimation × StarZone) :
    Bool × SDUDGraphicAnimation × StarZone :=
  let (ok, encoding, g, z) := st
  let (b0, z) := z.readBoolIf (ok && decide (vers > 1)) (g.m_booleans.getD 0 false)
  let (b1, z) := z.readBoolIf (ok && decide (vers > 2)) (g.m_booleans.getD 1 false)
  let g := { g with m_booleans := (g.m_booleans.set 0 b0).set 1 b1 }
  let (ok, z) := if ok ∧ vers > 3 then readSDUDSurrogate endPos z else (ok, z)
  if ok ∧ vers > 4 then readSDUDSecond env endPos encoding g z else (ok, g, z)

/-- The last part of the branch `identifier==1` of `readSDUDObject`, from
`if (ok && vers>5)` to the final seek; `st` is the state left by the second
part.  The order is `(int) input->readULong(4)`: the 32-bit value as a signed
one. -/
def readSDUDTail (vers endPos : Nat) (st : Bool × SDUDGraphicAnimation × StarZone) :
    SDUDGraphicAnimation × StarZone :=
  let (ok, g, z) := st
  let (b2, z) := z.readBoolIf (ok && decide (vers > 5)) (g.m_booleans.getD 2 false)
  let (b3, z) := z.readBoolIf (ok && decide (vers > 5)) (g.m_booleans.getD 3 false)
  let (b4, z) := z.readBoolIf (ok && decide (vers > 6)) (g.m_booleans.getD 4 false)
  let (v7, z) := z.readULongIf (ok && decide (vers > 7)) 2 (g.m_values.getD 7 0)
  let (order, z) := z.readLongIf (ok && decide (vers > 8)) 4 g.m_order
  let g := { g with m_booleans := ((g.m_booleans.set 2 b2).set 3 b3).set 4 b4,
                    m_values := g.m_values.set 7 v7, m_order := order }
  (g, z.seekIf (decide (z.tell ≠ endPos)) endPos)

/-- The branch `identifier==1` of `readSDUDObject` (`SdAnimationInfo::ReadData`),
between the opening and the closing of the SCH header. -/
def readSDUDAnimation (env : Env) (vers endPos : Nat) (z : StarZone) :
    SDUDGraphicAnimation × StarZone :=
  readSDUDTail vers endPos (readSDUDMiddle env vers endPos (readSDUDHead env vers endPos z))

/-- The function `StarObjectSmallGraphic::readSDUDObject`. -/
def readSDUDObject (env : Env) (z : StarZone) (identifier : Int) : Option Graphic × StarZone :=
  if identifier ≤ 0 ∨ identifier > 2 then (none, z) else
  let (_, z) := z.readULong 2
  let (opened, z) := z.openSCHHeader
  if !opened then (none, z) else
  let vers := z.getHeaderVersion
  let endPos := z.getRecordLastPosition
  if identifier = 1 then
    let (g, z) := readSDUDAnimation env vers endPos z
    (some (.sdudAnimation g), z.closeSCHHeader)
  else
    (some (.sdud ⟨identifier⟩), (z.seek endPos).closeSCHHeader)

/-! ## The decode chain -/

/-- The type of `readSVDRObjectGroup(zone, graphic)`: the result, the group as
filled, and the zone; `none` when the fuel ran out. -/
abbrev GroupReader := StarZone → SdrGraphicGroup → Option (Bool × SdrGraphicGroup × StarZone)

/-- The part of `StarObjectSmallGraphic::readSCHUObject` that follows the group
attempt: the identifier check and the chart user data. -/
def readSCHUData (z : StarZone) (identifier : Int) : Option Graphic × StarZone :=
  if identifier ≤ 0 ∨ identifier > 7 then (none, z) else
  let graphic := SCHUGraphic.new identifier
  let (vers, z) := z.readULong 2
  if identifier = 2 ∨ identifier = 7 then
    let (v, z) := z.readULong 2
    (some (.schu { graphic with m_id := v }), z)
  else if identifier = 3 then
    let (a, z) := z.readULong 2
    if vers ≥ 1 then
      let (o, z) := z.readULong 2
      (some (.schu { graphic with m_adjust := a, m_orientation := o }), z)
    else (some (.schu { graphic with m_adjust := a }), z)
  else if identifier = 4 then
    let (r, z) := z.readLong 2
    (some (.schu { graphic with m_row := r }), z)
  else if identifier = 5 then
    let (c, z) := z.readLong 2
    let (r, z) := z.readLong 2
    (some (.schu { graphic with m_column := c, m_row := r }), z)
  else if identifier = 6 then
    let (d, z) := z.readULong 8
    (some (.schu { graphic with m_factor := d }), z)
  else (some (.schu graphic), z)

/-- The function `StarObjectSmallGraphic::readSCHUObject`. -/
def readSCHUObject (grp : GroupReader) (z : StarZone) (identifier : Int) :
    Option (Option Graphic × StarZone) :=
  if identifier = 1 then
    match grp z (SdrGraphicGroup.new 1) with
    | none => none
    | some (ok, group, z) =>
      if ok then some (some (.group group), z) else some (readSCHUData z identifier)
  else some (readSCHUData z identifier)

/-- The end of `readSDRUserData`: `if (input->tell()!=lastPos) seek(lastPos)`, then
the record is closed when there is one. -/
def finishUserData (inRecord : Bool) (lastPos : Nat) (z : StarZone) : StarZone :=
  let z := if z.tell ≠ lastPos then z.seek lastPos else z
  if inRecord then z.closeRecord else z

/-- What `readSDRUserData` does once the object of a known type has been read:
`failed` tells that `readSCHUObject` or `readSDUDObject` returned no object. -/
def afterUserObject (inRecord failed : Bool) (lastPos : Nat) (z : StarZone) : Bool × StarZone :=
  if failed then
    if !inRecord then (false, z) else (true, finishUserData inRecord lastPos z)
  else if !inRecord then (true, finishUserData inRecord z.tell z)
  else (true, finishUserData inRecord lastPos z)

/-- The function `StarObjectSmallGraphic::readSDRUserData`. -/
def readSDRUserData (env : Env) (grp : GroupReader) (z : StarZone) (inRecord : Bool) :
    Option (Bool × StarZone) :=
  let pos := z.tell
  let (opened, z) := if inRecord then z.openRecord else (true, z)
  if !opened then some (false, z.seek pos) else
  let lastPos := z.getRecordLastPosition
  if z.tell + 6 > lastPos then some (true, finishUserData inRecord lastPos z) else
  let (type, z) := z.readMagic
  let (id, z) := z.readULong 2
  if type = magicSCHU then
    match readSCHUObject grp z id with
    | none => none
    | some (obj, z) => some (afterUserObject inRecord obj.isNone lastPos z)
  else if type = magicSDUD then
    let (obj, z) := readSDUDObject env z id
    some (afterUserObject inRecord obj.isNone lastPos z)
  else
    if !inRecord then some (false, z) else some (true, finishUserData inRecord lastPos z)

/-- The loop `for (int i=0; i<n; ++i)` of `readSDRUserDataList`. -/
def readSDRUserDatas (env : Env) (grp : GroupReader) (inRecord : Bool) :
    Nat → StarZone → Option StarZone
  | 0, z => some z
  | n + 1, z =>
    let pos := z.tell
    match readSDRUserData env grp z inRecord with
    | none => none
    | some (ok, z) =>
      let z := if !ok then z.seek pos else z
      readSDRUserDatas env grp inRecord n z

/-- The function `StarObjectSmallGraphic::readSDRUserDataList`. -/
def readSDRUserDataList (env : Env) (grp : GroupReader) (z : StarZone) (inRecord : Bool) :
    Option (Bool × StarZone) :=
  let pos := z.tell
  let (opened, z) := if inRecord then z.openRecord else (true, z)
  if !opened then some (false, z.seek pos) else
  let (n, z) := z.readULong 2
  match readSDRUserDatas env grp inRecord n z with
  | none => none
  | some z => some (true, if inRecord then z.closeRecord else z)

/-- The loop of `readSVDRObjectHeader` over the inline polygon (format < 11). -/
def readHeaderPoints : Nat → List GluePoint → StarZone → List GluePoint × StarZone
  | 0, acc, z => (acc, z)
  | n + 1, acc, z =>
    let (x, z) := z.readLong 4
    let (y, z) := z.readLong 4
    readHeaderPoints n (acc ++ [GluePoint.new x y]) z

/-- The block `if (ok && vers<11) {...}` of `readSVDRObjectHeader`: the inline
polygon. -/
def readHeaderPolygon (lastPos : Nat) (graphic : SdrGraphic) (z : StarZone) :
    Bool × SdrGraphic × StarZone :=
  let (n, z) := z.readULong 2
  if z.tell + 8 * n > lastPos then (false, graphic, z)
  else
    let (pts, z) := readHeaderPoints n graphic.m_polygon z
    (true, { graphic with m_polygon := pts }, z)

/-- The block `if (ok && vers>=11) {...}` of `readSVDRObjectHeader`: the glue-point
list. -/
def readHeaderGlue (graphic : SdrGraphic) (z : StarZone) : Bool × SdrGraphic × StarZone :=
  let (bTmp, z) := z.readBool
  if bTmp then
    let (okGlue, pts, z) := readSDRGluePointList z
    (okGlue, { graphic with m_polygon := pts }, z)
  else (true, graphic, z)

/-- The fixed fields at the start of the record of `readSVDRObjectHeader`: the
bounding box, the layer, the anchor and five flags, then the sixth flag from the
format version 4 on. -/
def readHeaderFixed (z : StarZone) (graphic : SdrGraphic) : SdrGraphic × StarZone :=
  let vers := z.getHeaderVersion
  let (bdbox, z) := readBox z
  let (layerId, z) := z.readULong 2
  let (anchor, z) := readVec z
  let (f0, z) := z.readBool
  let (f1, z) := z.readBool
  let (f2, z) := z.readBool
  let (f3, z) := z.readBool
  let (f4, z) := z.readBool
  let (f5, z) := z.readBoolIf (decide (vers ≥ 4)) (graphic.m_flags.getD 5 false)
  ({ graphic with m_bdbox := bdbox, m_layerId := layerId, m_anchorPosition := anchor,
                  m_flags := [f0, f1, f2, f3, f4, f5] }, z)

/-- The part of `readSVDRObjectHeader` between the opening of the record and the
user data: the fixed fields, then the inline polygon (format < 11) or the
glue-point list (format ≥ 11).  The result is the flag `ok`, the graphic and the
zone. -/
def readHeaderFields (z : StarZone) (graphic : SdrGraphic) : Bool × SdrGraphic × StarZone :=
  let lastPos := z.getRecordLastPosition
  let vers := z.getHeaderVersion
  let (graphic, z) := readHeaderFixed z graphic
  if z.tell > lastPos then (false, graphic, z)
  else if vers < 11 then readHeaderPolygon lastPos graphic z
  else readHeaderGlue graphic z

/-- The function `StarObjectSmallGraphic::readSVDRObjectHeader`. -/
def readSVDRObjectHeader (env : Env) (grp : GroupReader) (z : StarZone) (graphic : SdrGraphic) :
    Option (Bool × SdrGraphic × StarZone) :=
  let pos := z.tell
  let (opened, z) := z.openRecord
  if !opened then some (false, graphic, z.seek pos) else
  let vers := z.getHeaderVersion
  let (ok, graphic, z) := readHeaderFields z graphic
  if !ok then some (true, graphic, z.closeRecord) else
  let (readUser, z) := z.readBoolIf (decide (vers ≥ 11)) true
  if !readUser then some (true, graphic, z.closeRecord) else
  match readSDRUserDataList env grp z (decide (vers ≥ 11)) with
  | none => none
  | some (_, z) => some (true, graphic, z.closeRecord)

/-- The table `what[]` of `readSVDRObjectAttrib`: the item-set ids. -/
def attribWhich : List Nat := [1017, 1047, 1066, 1079, 1096, 1126]

/-- The loop `for (int i=0; i<6; ++i)` of `readSVDRObjectAttrib`, with `k`
iterations left at index `i`; the result is the flag `ok`. -/
def readAttribItems (env : Env) (vers lastPos : Nat) :
    Nat → Nat → List StarItem → StarZone → Bool × List StarItem × StarZone
  | 0, _, items, z => (true, items, z)
  | k + 1, i, items, z =>
    let z := z.skipIf (decide (vers < 11)) 2
    let (item, used) := env.loadSurrogate z (attribWhich.getD i 0)
    let z := z.skip used
    if item.isNone ∨ z.tell > lastPos then (false, items, z) else
    let items := items ++ item.toList
    if vers < 5 ∧ i = 3 then (true, items, z)
    else if vers < 6 ∧ i = 4 then (true, items, z)
    else readAttribItems env vers lastPos k (i + 1) items z

/-- The style-sheet name of `readSVDRObjectAttrib`, read when the items were
(`ok` on entry): the name, the family and, for format versions 1 to 10, the
character set. -/
def readAttribStyle (env : Env) (vers lastPos : Nat) (graphic : SdrGraphicAttribute)
    (z : StarZone) : Bool × SdrGraphicAttribute × StarZone :=
  let (okStr, string, z) := readStringIn env lastPos z
  if !okStr then (false, graphic, z)
  else if string ≠ [] then
    let (_, z) := z.readULong 2
    let (_, z) := z.readULongIf (decide (vers > 0 ∧ vers < 11)) 2 0
    (true, { graphic with m_sheetStyle := string }, z)
  else (true, graphic, z)

/-- The statement
`if (ok && vers==9 && input->tell()+2==lastPos) f << input->readULong(2)`
of `readSVDRObjectAttrib` ("probably a charset even when string.empty()"). -/
def readAttribCharSetGuess (vers lastPos : Nat) (ok : Bool) (z : StarZone) : StarZone :=
  (z.readULongIf (ok && decide (vers = 9 ∧ z.tell + 2 = lastPos)) 2 0).2

/-- The function `StarObjectSmallGraphic::readSVDRObjectAttrib`. -/
def readSVDRObjectAttrib (env : Env) (grp : GroupReader) (z : StarZone)
    (graphic : SdrGraphicAttribute) : Option (Bool × SdrGraphicAttribute × StarZone) :=
  let pos := z.tell
  match readSVDRObjectHeader env grp z graphic.toSdrGraphic with
  | none => none
  | some (okHeader, base, z) =>
    let graphic := { graphic with toSdrGraphic := base }
    if !okHeader then some (false, graphic, z.seek pos) else
    let pos := z.tell
    let (opened, z) := z.openRecord
    if !opened then some (false, graphic, z.seek pos) else
    let lastPos := z.getRecordLastPosition
    let vers := z.getHeaderVersion
    let (ok, items, z) := readAttribItems env vers lastPos 6 0 graphic.m_itemList z
    let graphic := { graphic with m_itemList := items }
    let (ok, graphic, z) :=
      if ok then readAttribStyle env vers lastPos graphic z else (ok, graphic, z)
    let z := readAttribCharSetGuess vers lastPos ok z
    some (true, graphic, (z.seek lastPos).closeRecord)

/-- The block `if (paraObjectValid) {...}` of `readSVDRObjectText`. -/
def readTextParaObject (env : Env) (vers : Nat) (ok : Bool) (graphic : SdrGraphicText)
    (z : StarZone) : Bool × SdrGraphicText × StarZone :=
  let (opened, z) := z.openRecordIf (decide (vers ≥ 11)) true
  if !opened then (false, graphic, z)
  else
    let (okPara, paraObject, z) := readSDROutlinerParaObject env z
    let graphic :=
      if okPara then { graphic with m_outlinerParaObject := some paraObject } else graphic
    (decide (vers ≥ 11) || (okPara && ok), graphic, z.closeRecordIf (decide (vers ≥ 11)))

/-- The block `if (ok && vers>=10) {...}` of `readSVDRObjectText`: the text bound. -/
def readTextBound (graphic : SdrGraphicText) (z : StarZone) : SdrGraphicText × StarZone :=
  let (hasBound, z) := z.readBool
  if hasBound then
    let (bound, z) := readBox z
    ({ graphic with m_textBound := bound }, z)
  else (graphic, z)

/-- The fixed fields at the start of the record of `readSVDRObjectText`: the
kind, the rectangle, the rotation and the shear, then the flag `paraObjectValid`,
which is the first component of the result. -/
def readTextFixed (z : StarZone) (graphic : SdrGraphicText) :
    Bool × SdrGraphicText × StarZone :=
  let (textKind, z) := z.readULong 1
  let (rect, z) := readBox z
  let (dreh, z) := z.readLong 4
  let (shear, z) := z.readLong 4
  let graphic := { graphic with m_textKind := textKind, m_textRectangle := rect,
                                m_textDrehWink := dreh, m_textShearWink := shear }
  let (paraObjectValid, z) := z.readBool
  (paraObjectValid, graphic, z)

/-- The function `StarObjectSmallGraphic::readSVDRObjectText`. -/
def readSVDRObjectText (env : Env) (grp : GroupReader) (z : StarZone)
    (graphic : SdrGraphicText) : Option (Bool × SdrGraphicText × StarZone) :=
  match readSVDRObjectAttrib env grp z graphic.toSdrGraphicAttribute with
  | none => none
  | some (okAttrib, base, z) =>
    let graphic := { graphic with toSdrGraphicAttribute := base }
    if !okAttrib then some (false, graphic, z) else
    let pos := z.tell
    let (opened, z) := z.openRecord
    if !opened then some (false, graphic, z.seek pos) else
    let lastPos := z.getRecordLastPosition
    let vers := z.getHeaderVersion
    let (paraObjectValid, graphic, z) := readTextFixed z graphic
    let ok := decide (z.tell ≤ lastPos)
    let (ok, graphic, z) :=
      if paraObjectValid then readTextParaObject env vers ok graphic z else (ok, graphic, z)
    let (graphic, z) := if ok ∧ vers ≥ 10 then readTextBound graphic z else (graphic, z)
    some (true, graphic, (z.seek lastPos).closeRecord)

/-- The function `StarObjectSmallGraphic::readSVDRObjectRect`. -/
def readSVDRObjectRect (env : Env) (grp : GroupReader) (z : StarZone)
    (graphic : SdrGraphicRect) : Option (Bool × SdrGraphicRect × StarZone) :=
  match readSVDRObjectText env grp z graphic.toSdrGraphicText with
  | none => none
  | some (okText, base, z) =>
    let graphic := { graphic with toSdrGraphicText := base }
    if !okText then some (false, graphic, z) else
    let id := graphic.m_identifier
    let pos := z.tell
    let vers := z.getHeaderVersion
    if vers < 3 ∧ (id = 16 ∨ id = 17 ∨ id = 20 ∨ id = 21) then some (true, graphic, z) else
    let (opened, z) := z.openRecord
    if !opened then some (false, graphic, z.seek pos) else
    let (eckRag, z) := z.readLongIf (decide (vers ≤ 5)) 4 graphic.m_eckRag
    some (true, { graphic with m_eckRag := eckRag }, z.closeRecord)

/-- The function `StarObjectSmallGraphic::readSVDRObjectCaption`. -/
def readSVDRObjectCaption (env : Env) (grp : GroupReader) (z : StarZone)
    (graphic : SdrGraphicCaption) : Option (Bool × SdrGraphicCaption × StarZone) :=
  match readSVDRObjectRect env grp z graphic.toSdrGraphicRect with
  | none => none
  | some (okRect, base, z) =>
    let graphic := { graphic with toSdrGraphicRect := base }
    if !okRect then some (false, graphic, z) else
    let pos := z.tell
    let (opened, z) := z.openRecord
    if !opened then some (false, graphic, z.seek pos) else
    let lastPos := z.getRecordLastPosition
    let (n, z) := z.readULong 2
    let ok := decide (¬ z.tell + 8 * n > lastPos)
    let n := if ok then n else 0
    let (pts, z) := readPoints n graphic.m_captionPolygon z
    let (item, z) := loadItem env lastPos 1195 ok graphic.m_captionItem z
    let graphic := { graphic with m_captionPolygon := pts, m_captionItem := item }
    some (true, graphic, (z.seekIf (!ok) lastPos).closeRecord)

/-- The function `StarObjectSmallGraphic::readSVDRObjectCircle`. -/
def readSVDRObjectCircle (env : Env) (grp : GroupReader) (z : StarZone)
    (graphic : SdrGraphicCircle) : Option (Bool × SdrGraphicCircle × StarZone) :=
  match readSVDRObjectRect env grp z graphic.toSdrGraphicRect with
  | none => none
  | some (okRect, base, z) =>
    let graphic := { graphic with toSdrGraphicRect := base }
    if !okRect then some (false, graphic, z) else
    let id := graphic.m_identifier
    let pos := z.tell
    let (opened, z) := z.openRecord
    if !opened then some (false, graphic, z.seek pos) else
    let lastPos := z.getRecordLastPosition
    let (a0, z) := z.readAngleIf (decide (id ≠ 4)) graphic.m_angles.1
    let (a1, z) := z.readAngleIf (decide (id ≠ 4)) graphic.m_angles.2
    let (item, z) := loadItem env lastPos 1179 (decide (z.tell ≠ lastPos)) graphic.m_circleItem z
    let graphic := { graphic with m_angles := (a0, a1), m_circleItem := item }
    some (true, graphic, z.closeRecord)

/-- The block `if (ok) {...}` of `readSVDRObjectEdge` that reads the edge track:
the count, the points and their flags. -/
def readEdgePolygon (graphic : SdrGraphicEdge) (z : StarZone) :
    Bool × SdrGraphicEdge × StarZone :=
  let (n, z) := z.readULong 2
  if z.tell + 9 * n > z.getRecordLastPosition then (false, graphic, z)
  else
    let (pts, z) := readPoints n graphic.m_edgePolygon z
    let (flags, z) := readULongs 1 n graphic.m_edgePolygonFlags z
    (true, { graphic with m_edgePolygon := pts, m_edgePolygonFlags := flags }, z)

/-- The start of `readSVDRObjectEdge` after its record is open: the version test,
the record of the edge track (format ≥ 11) and the edge track itself; the result is
the flag `ok`, the graphic and the zone. -/
def readEdgeTrack (vers : Nat) (graphic : SdrGraphicEdge) (z : StarZone) :
    Bool × SdrGraphicEdge × StarZone :=
  let ok := decide (¬ vers < 2)
  let (openRec, z) := z.openRecordIf (ok && decide (vers ≥ 11)) false
  let ok := ok && (decide (vers < 11) || openRec)
  let (ok, graphic, z) := if ok then readEdgePolygon graphic z else (ok, graphic, z)
  (ok, graphic, (z.seekIf (openRec && !ok) z.getRecordLastPosition).closeRecordIf openRec)

/-- The loop `for (int i=0; i<2; ++i)` over the connections of `readSVDRObjectEdge`. -/
def readEdgeConnections : Nat → StarZone → Bool × StarZone
  | 0, z => (true, z)
  | k + 1, z =>
    let (okConn, z) := readSDRObjectConnection z
    if !okConn then (false, z) else readEdgeConnections k z

/-- The block of `readSVDRObjectEdge` that reads the record `SdrEdgeInfoRec`. -/
def readEdgeInfo (lastPos : Nat) (graphic : SdrGraphicEdge) (z : StarZone) :
    SdrGraphicEdge × StarZone :=
  if z.tell + 5 * 8 + 2 * 4 + 3 * 2 + 1 > lastPos then (graphic, z)
  else
    let (pts, z) := readPoints 5 [] z
    let (a0, z) := z.readLong 4
    let (a1, z) := z.readLong 4
    let (n0, z) := z.readULong 2
    let (n1, z) := z.readULong 2
    let (n2, z) := z.readULong 2
    let (ortho, z) := z.readULong 1
    ({ graphic with m_info := ⟨pts, [a0, a1], [n0, n1, n2], ortho⟩ }, z)

/-- The function `StarObjectSmallGraphic::readSVDRObjectEdge`. -/
def readSVDRObjectEdge (env : Env) (grp : GroupReader) (z : StarZone)
    (graphic : SdrGraphicEdge) : Option (Bool × SdrGraphicEdge × StarZone) :=
  match readSVDRObjectText env grp z graphic.toSdrGraphicText with
  | none => none
  | some (okText, base, z) =>
    let graphic := { graphic with toSdrGraphicText := base }
    if !okText then some (false, graphic, z) else
    let pos := z.tell
    let (opened, z) := z.openRecord
    if !opened then some (false, graphic, z.seek pos) else
    let lastPos := z.getRecordLastPosition
    let vers := z.getHeaderVersion
    let (ok, graphic, z) := readEdgeTrack vers graphic z
    let (ok, z) := if ok ∧ z.tell < lastPos then readEdgeConnections 2 z else (ok, z)
    let (item, z) :=
      loadItem env lastPos 1146 (ok && decide (z.tell < lastPos)) graphic.m_edgeItem z
    let graphic := { graphic with m_edgeItem := item }
    let (graphic, z) :=
      if ok ∧ z.tell < lastPos then readEdgeInfo lastPos graphic z else (graphic, z)
    some (true, graphic, (z.seek lastPos).closeRecord)

/-- The loop `for (int i=0; i<3; ++i)` over the names of `readSVDRObjectGraph`
(format ≥ 11), with its `break`. -/
def readGraphNames (env : Env) (lastPos : Nat) :
    Nat → Nat → SdrGraphicGraph → StarZone → Bool × SdrGraphicGraph × StarZone
  | 0, _, g, z => (true, g, z)
  | k + 1, i, g, z =>
    let (okStr, string, z) := readStringIn env lastPos z
    if !okStr then (false, g, z)
    else
      readGraphNames env lastPos k (i + 1) { g with m_graphNames := g.m_graphNames.set i string } z

/-- One name of `readSVDRObjectGraph` (format < 11), stored at index `i`. -/
def readGraphName (env : Env) (lastPos i : Nat) (g : SdrGraphicGraph) (z : StarZone) :
    Bool × SdrGraphicGraph × StarZone :=
  let (okStr, string, z) := readStringIn env lastPos z
  (okStr, if okStr then { g with m_graphNames := g.m_graphNames.set i string } else g, z)

/-- The branch `vers<11` of `readSVDRObjectGraph` (`ReadDataTilV10`). -/
def readGraphV10 (env : Env) (vers lastPos : Nat) (graphic : SdrGraphicGraph) (z : StarZone) :
    SdrGraphicGraph × StarZone :=
  let (okRead, bitmap, used) := env.starGraphicRead z none
  let z := z.skip used
  let ok := okRead && decide (¬ z.tell > lastPos)
  let graphic := if ok ∧ bitmap.isSome then { graphic with m_bitmap := bitmap } else graphic
  let (box, z) := if ok ∧ vers ≥ 6 then readBox z else (graphic.m_graphRectangle, z)
  let graphic := { graphic with m_graphRectangle := box }
  let (ok, graphic, z) :=
    if ok ∧ vers ≥ 8 then readGraphName env lastPos 1 graphic z else (ok, graphic, z)
  let (_, graphic, z) :=
    if ok ∧ vers ≥ 9 then readGraphName env lastPos 2 graphic z else (ok, graphic, z)
  (graphic, z)

/-- The block `if (hasGraphic) {...}` of `readSVDRObjectGraph` (format ≥ 11): the
graphic in its own record. -/
def readGraphBitmap (env : Env) (graphic : SdrGraphicGraph) (z : StarZone) :
    Bool × SdrGraphicGraph × StarZone :=
  let (opened, z) := z.openRecord
  if !opened then (false, graphic, z)
  else
    let (okRead, bitmap, used) := env.starGraphicRead z (some z.getRecordLastPosition)
    let z := z.skip used
    let bad := !okRead || decide (z.tell > z.getRecordLastPosition)
    let graphic := if !bad ∧ bitmap.isSome then { graphic with m_bitmap := bitmap } else graphic
    (true, graphic, (z.seekIf bad z.getRecordLastPosition).closeRecord)

/-- The branch `vers>=11` of `readSVDRObjectGraph`. -/
def readGraphV11 (env : Env) (lastPos : Nat) (graphic : SdrGraphicGraph) (z : StarZone) :
    SdrGraphicGraph × StarZone :=
  let (hasGraphic, z) := z.readBool
  let (ok, graphic, z) := if hasGraphic then readGraphBitmap env graphic z else (true, graphic, z)
  let (box, z) := if ok then readBox z else (graphic.m_graphRectangle, z)
  let (mirrored, z) := z.readBoolIf ok graphic.m_mirrored
  let graphic := { graphic with m_graphRectangle := box, m_mirrored := mirrored }
  let (ok, graphic, z) := if ok then readGraphNames env lastPos 3 0 graphic z else (ok, graphic, z)
  let (link, z) := z.readBoolIf ok graphic.m_hasGraphicLink
  let (item, z) :=
    loadItem env lastPos 1243 (ok && decide (z.tell < lastPos)) graphic.m_graphItem z
  ({ graphic with m_hasGraphicLink := link, m_graphItem := item }, z)

/-- The function `StarObjectSmallGraphic::readSVDRObjectGraph`. -/
def readSVDRObjectGraph (env : Env) (grp : GroupReader) (z : StarZone)
    (graphic : SdrGraphicGraph) : Option (Bool × SdrGraphicGraph × StarZone) :=
  match readSVDRObjectRect env grp z graphic.toSdrGraphicRect with
  | none => none
  | some (okRect, base, z) =>
    let graphic := { graphic with toSdrGraphicRect := base }
    if !okRect then some (false, graphic, z) else
    let pos := z.tell
    let (opened, z) := z.openRecord
    if !opened then some (false, graphic, z.seek pos) else
    let lastPos := z.getRecordLastPosition
    let vers := z.getHeaderVersion
    let (graphic, z) :=
      if vers < 11 then readGraphV10 env vers lastPos graphic z
      else readGraphV11 env lastPos graphic z
    some (true, graphic, (z.seek lastPos).closeRecord)

/-- The fixed fields at the start of the record of `readSVDRObjectMeasure`: the
two points and the flag `m_overwritten`. -/
def readMeasureFixed (z : StarZone) (graphic : SdrGraphicMeasure) :
    SdrGraphicMeasure × StarZone :=
  let (p0, z) := readVec z
  let (p1, z) := readVec z
  let (overwritten, z) := z.readBool
  ({ graphic with m_measurePoints := [p0, p1], m_overwritten := overwritten }, z)

/-- The function `StarObjectSmallGraphic::readSVDRObjectMeasure`. -/
def readSVDRObjectMeasure (env : Env) (grp : GroupReader) (z : StarZone)
    (graphic : SdrGraphicMeasure) : Option (Bool × SdrGraphicMeasure × StarZone) :=
  match readSVDRObjectText env grp z graphic.toSdrGraphicText with
  | none => none
  | some (okText, base, z) =>
    let graphic := { graphic with toSdrGraphicText := base }
    if !okText then some (false, graphic, z) else
    let pos := z.tell
    let (opened, z) := z.openRecord
    if !opened then some (false, graphic, z.seek pos) else
    let lastPos := z.getRecordLastPosition
    let (graphic, z) := readMeasureFixed z graphic
    let (item, z) := loadItem env lastPos 1171 true graphic.m_measureItem z
    let graphic := { graphic with m_measureItem := item }
    some (true, graphic, z.closeRecord)

/-- The loop `for (int i=0; i<2; ++i)` over the names of `readSVDRObjectOLE`,
with its `break`. -/
def readOLENames (env : Env) (lastPos : Nat) :
    Nat → Nat → SdrGraphicOLE → StarZone → Bool × SdrGraphicOLE × StarZone
  | 0, _, g, z => (true, g, z)
  | k + 1, i, g, z =>
    let (okStr, string, z) := readStringIn env lastPos z
    if !okStr then (false, g, z)
    else
      let g := if string ≠ [] then { g with m_oleNames := g.m_oleNames.set i string } else g
      readOLENames env lastPos k (i + 1) g z

/-- The block `if (ok) {...}` of `readSVDRObjectOLE`: the two flags and the graphic. -/
def readOLEGraphic (env : Env) (lastPos : Nat) (graphic : SdrGraphicOLE) (z : StarZone) :
    SdrGraphicOLE × StarZone :=
  let (_, z) := z.readBool
  let (hasGraphic, z) := z.readBool
  if hasGraphic then
    let (okRead, bitmap, used) := env.starGraphicRead z (some lastPos)
    let z := z.skip used
    if !okRead ∨ z.tell > lastPos then (graphic, z)
    else ({ graphic with m_bitmap := bitmap }, z)
  else (graphic, z)

/-- The function `StarObjectSmallGraphic::readSVDRObjectOLE`. -/
def readSVDRObjectOLE (env : Env) (grp : GroupReader) (z : StarZone)
    (graphic : SdrGraphicOLE) : Option (Bool × SdrGraphicOLE × StarZone) :=
  match readSVDRObjectRect env grp z graphic.toSdrGraphicRect with
  | none => none
  | some (okRect, base, z) =>
    let graphic := { graphic with toSdrGraphicRect := base }
    if !okRect then some (false, graphic, z) else
    let pos := z.tell
    let (opened, z) := z.openRecord
    if !opened then some (false, graphic, z.seek pos) else
    let lastPos := z.getRecordLastPosition
    let (ok, graphic, z) := readOLENames env lastPos 2 0 graphic z
    let (graphic, z) := if ok then readOLEGraphic env lastPos graphic z else (graphic, z)
    some (true, graphic, (z.seek lastPos).closeRecord)

/-- The loop `for (int poly=0; poly<nPoly; ++poly)` of `readSVDRObjectPath`, with
its `break`; `w` is 8 for plain point lists and 9 for flagged ones. -/
def readPathPolys (w lastPos : Nat) :
    Nat → SdrGraphicPath → StarZone → Bool × SdrGraphicPath × StarZone
  | 0, g, z => (true, g, z)
  | k + 1, g, z =>
    let (n, z) := z.readULong 2
    if z.tell + w * n > lastPos then (false, g, z) else
    let (pts, z) := readPoints n g.m_pathPolygon z
    let (flags, z) := readULongs 1 (if w = 9 then n else 0) g.m_pathPolygonFlags z
    readPathPolys w lastPos k { g with m_pathPolygon := pts, m_pathPolygonFlags := flags } z

/-- The branch `vers<=6 && (id==2 || id==8 || id==9)` of `readSVDRObjectPath`. -/
def readPathLegacy (lastPos : Nat) (id : Int) (graphic : SdrGraphicPath) (z : StarZone) :
    Bool × SdrGraphicPath × StarZone :=
  let (nPoly, z) := z.readULongIf (decide (id ≠ 2 ∧ id ≠ 8)) 2 (if id = 2 then 2 else 1)
  readPathPolys 8 lastPos nPoly graphic z

/-- The other branch of `readSVDRObjectPath`: flagged polygons, in their own record
from format 11 on; it always ends with `ok=false`. -/
def readPathFlagged (vers lastPos : Nat) (graphic : SdrGraphicPath) (z : StarZone) :
    Bool × SdrGraphicPath × StarZone :=
  let (recOpened, z) := z.openRecordIf (decide (vers ≥ 11)) false
  let ok := decide (vers < 11) || recOpened
  let (nPoly, z) := z.readULongIf ok 2 0
  let (_, graphic, z) := readPathPolys 9 lastPos nPoly graphic z
  (false, graphic, (z.seekIf recOpened z.getRecordLastPosition).closeRecordIf recOpened)

/-- The function `StarObjectSmallGraphic::readSVDRObjectPath`. -/
def readSVDRObjectPath (env : Env) (grp : GroupReader) (z : StarZone)
    (graphic : SdrGraphicPath) : Option (Bool × SdrGraphicPath × StarZone) :=
  match readSVDRObjectText env grp z graphic.toSdrGraphicText with
  | none => none
  | some (okText, base, z) =>
    let graphic := { graphic with toSdrGraphicText := base }
    if !okText then some (false, graphic, z) else
    let id := graphic.m_identifier
    let pos := z.tell
    let vers := z.getHeaderVersion
    let (opened, z) := z.openRecord
    if !opened then some (false, graphic, z.seek pos) else
    let lastPos := z.getRecordLastPosition
    let (ok, graphic, z) :=
      if vers ≤ 6 ∧ (id = 2 ∨ id = 8 ∨ id = 9) then readPathLegacy lastPos id graphic z
      else readPathFlagged vers lastPos graphic z
    some (true, graphic, (z.seekIf (!ok) lastPos).closeRecord)

/-- The case 28 (page) of the switch of `readSVDRObject`. -/
def readSVDRObjectPage (env : Env) (grp : GroupReader) (z : StarZone)
    (graphicPage : SdrGraphicPage) : Option (Bool × SdrGraphicPage × StarZone) :=
  match readSVDRObjectHeader env grp z graphicPage.toSdrGraphic with
  | none => none
  | some (ok, base, z) =>
    let graphicPage := { graphicPage with toSdrGraphic := base }
    if !ok then some (false, graphicPage, z) else
    let pos := z.tell
    let (opened, z) := z.openRecord
    if !opened then some (false, graphicPage, z.seek pos) else
    let (page, z) := z.readULong 2
    let ok := decide (z.tell ≤ z.getRecordLastPosition)
    some (ok, { graphicPage with m_page := page }, z.closeRecord)

/-- The string of the uno record, read by `readSVDRObject` (case 32) and by
`readFmFormObject` when the record is not empty: the negation of the test
`!zone.readString(string) || input->tell()>zone.getRecordLastPosition()`, the
string and the zone. -/
def readUnoName (env : Env) (z : StarZone) : Bool × UString × StarZone :=
  if z.tell ≠ z.getRecordLastPosition then readStringIn env z.getRecordLastPosition z
  else (true, [], z)

/-- The case 32 (uno) of the switch of `readSVDRObject`. -/
def readSVDRObjectUno (env : Env) (grp : GroupReader) (z : StarZone)
    (graphicUno : SdrGraphicUno) : Option (Bool × SdrGraphicUno × StarZone) :=
  match readSVDRObjectRect env grp z graphicUno.toSdrGraphicRect with
  | none => none
  | some (ok, base, z) =>
    let graphicUno := { graphicUno with toSdrGraphicRect := base }
    let pos := z.tell
    let (opened, z) := z.openRecord
    if !opened then some (false, graphicUno, z.seek pos) else
    let (okName, string, z) := readUnoName env z
    let graphicUno :=
      if okName ∧ string ≠ [] then { graphicUno with m_unoName := string } else graphicUno
    some (ok && okName, graphicUno, z.closeRecord)

/-- The function `StarObjectSmallGraphic::readFmFormObject`. -/
def readFmFormObject (env : Env) (grp : GroupReader) (z : StarZone) (identifier : Int) :
    Option (Option Graphic × StarZone) :=
  if identifier ≠ 33 then some (none, z) else
  match readSVDRObjectRect env grp z SdrGraphicUno.new.toSdrGraphicRect with
  | none => none
  | some (okRect, base, z) =>
    let graphic := { SdrGraphicUno.new with toSdrGraphicRect := base }
    if !okRect then some (none, z) else
    let pos := z.tell
    let (opened, z) := z.openRecord
    if !opened then some (none, z.seek pos) else
    let (okName, string, z) := readUnoName env z
    let graphic := if okName then { graphic with m_unoName := string } else graphic
    some (some (.uno graphic), (z.seekIf (!okName) z.getRecordLastPosition).closeRecord)

/-- The switch of `readSVDRObject`: the graphic created for the identifier and the
result `ok` of the decoder that fills it. -/
def readSVDRLeaf (env : Env) (grp : GroupReader) (z : StarZone) (identifier : Int) :
    Option (Bool × Graphic × StarZone) :=
  if identifier = 1 then
    (grp z (SdrGraphicGroup.new identifier)).map fun r => (r.1, .group r.2.1, r.2.2)
  else if identifier = 2 ∨ identifier = 8 ∨ identifier = 9 ∨ identifier = 10 ∨ identifier = 11
      ∨ identifier = 12 ∨ identifier = 13 ∨ identifier = 26 ∨ identifier = 27 then
    (readSVDRObjectPath env grp z (SdrGraphicPath.new identifier)).map
      fun r => (r.1, .path r.2.1, r.2.2)
  else if identifier = 4 ∨ identifier = 5 ∨ identifier = 6 ∨ identifier = 7 then
    (readSVDRObjectCircle env grp z (SdrGraphicCircle.new identifier)).map
      fun r => (r.1, .circle r.2.1, r.2.2)
  else if identifier = 3 ∨ identifier = 16 ∨ identifier = 17 ∨ identifier = 20
      ∨ identifier = 21 then
    (readSVDRObjectRect env grp z (SdrGraphicRect.new identifier)).map
      fun r => (r.1, .rect r.2.1, r.2.2)
  else if identifier = 24 then
    (readSVDRObjectEdge env grp z SdrGraphicEdge.new).map fun r => (r.1, .edge r.2.1, r.2.2)
  else if identifier = 22 then
    (readSVDRObjectGraph env grp z SdrGraphicGraph.new).map fun r => (r.1, .graph r.2.1, r.2.2)
  else if identifier = 23 ∨ identifier = 31 then
    (readSVDRObjectOLE env grp z (SdrGraphicOLE.new identifier)).map
      fun r => (r.1, .ole r.2.1, r.2.2)
  else if identifier = 25 then
    (readSVDRObjectCaption env grp z SdrGraphicCaption.new).map
      fun r => (r.1, .caption r.2.1, r.2.2)
  else if identifier = 28 then
    (readSVDRObjectPage env grp z SdrGraphicPage.new).map fun r => (r.1, .page r.2.1, r.2.2)
  else if identifier = 29 then
    (readSVDRObjectMeasure env grp z SdrGraphicMeasure.new).map
      fun r => (r.1, .measure r.2.1, r.2.2)
  else if identifier = 32 then
    (readSVDRObjectUno env grp z SdrGraphicUno.new).map fun r => (r.1, .uno r.2.1, r.2.2)
  else
    (readSVDRObjectHeader env grp z (SdrGraphic.new identifier)).map
      fun r => (r.1, .sdrGraphic r.2.1, r.2.2)

/-- The loop `while (input->tell()<endPos)` that ends `readSVDRObject`, skipping
the records it does not know; the first argument is the fuel. -/
def skipUnknownRecords (endPos : Nat) : Nat → StarZone → Option StarZone
  | 0, _ => none
  | k + 1, z =>
    if z.tell < endPos then
      let (opened, z) := z.openRecord
      if !opened then some z
      else skipUnknownRecords endPos k ((z.seek z.getRecordLastPosition).closeRecord)
    else some z

/-- The function `StarObjectSmallGraphic::readSVDRObject`. -/
def readSVDRObject (env : Env) (grp : GroupReader) (fuel : Nat) (z : StarZone)
    (identifier : Int) : Option (Option Graphic × StarZone) :=
  let endPos := z.getRecordLastPosition
  match readSVDRLeaf env grp z identifier with
  | none => none
  | some (ok, graphic, z) =>
    if !ok then some (some (.sdrGraphic (SdrGraphic.new identifier)), z.seek endPos) else
    if z.tell = endPos then some (some graphic, z) else
    let graphic := Graphic.sdrGraphic (SdrGraphic.new identifier)
    if identifier ≤ 0 ∨ identifier > 32 then some (some graphic, z.seek endPos) else
    match skipUnknownRecords endPos fuel z with
    | none => none
    | some z => some (some graphic, z)

/-- The function `StarObjectSmallGraphic::readSdrObject`, on the object `self`. -/
def readSdrObject (env : Env) (grp : GroupReader) (fuel : Nat) (self : StarObjectSmallGraphic)
    (z : StarZone) : Option (Bool × StarObjectSmallGraphic × StarZone) :=
  let pos := z.tell
  let (magic, z) := z.readMagic
  let z := z.seek pos
  if magic ≠ magicDrOb then some (false, self, z.seek pos) else
  let (opened, z) := z.openSDRHeader magic
  if !opened then some (false, self, z.seek pos) else
  let lastPos := z.getRecordLastPosition
  if lastPos = z.tell then some (true, self, z.closeSDRHeader) else
  let (magic, z) := z.readMagic
  let (identifier, z) := z.readULong 2
  let dispatched : Option (Option Graphic × StarZone) :=
    if magic = magicSVDr then readSVDRObject env grp fuel z (identifier : Int)
    else if magic = magicSCHU then readSCHUObject grp z (identifier : Int)
    else if magic = magicFM01 then readFmFormObject env grp z (identifier : Int)
    else some (none, z)
  match dispatched with
  | none => none
  | some (graphic, z) =>
    let self : StarObjectSmallGraphic :=
      if graphic.isSome then { self with m_graphic := graphic } else self
    let ok := graphic.isSome
    if ok ∧ z.tell = lastPos then some (true, self, z.closeSDRHeader)
    else some (true, self, (z.seek lastPos).closeSDRHeader)

/-- The loop `while (ok && input->tell()+4<lastPos)` of `readSVDRObjectGroup`;
`child` is `child->readSdrObject(zone)` on a fresh object and the first numeric
argument is the fuel.  The result is the flag `ok`, the children and the zone. -/
def readGroupChildren (child : StarZone → Option (Bool × StarObjectSmallGraphic × StarZone))
    (lastPos : Nat) :
    Nat → List (Option Graphic) → StarZone → Option (Bool × List (Option Graphic) × StarZone)
  | 0, _, _ => none
  | k + 1, m_child, z =>
    if z.tell + 4 < lastPos then
      let (magic, z) := z.readMagic
      let z := z.back 4
      let (sentinel, zs) := if magic = magicDrXX then z.openSDRHeader magic else (false, z)
      if sentinel then some (true, m_child, zs.closeSDRHeader)
      else if magic ≠ magicDrOb then some (true, m_child, zs)
      else
        match child zs with
        | none => none
        | some (okChild, obj, z) =>
          if !okChild then some (false, m_child, z)
          else readGroupChildren child lastPos k (m_child ++ [obj.m_graphic]) z
    else some (true, m_child, z)

/-- The start of the record of `readSVDRObjectGroup`, up to the end of the loop
over the children: the name, the reference point and the children.  The result is
the flag `ok` as it stands after the loop, the graphic and the zone. -/
def readGroupBody (env : Env) (grp : GroupReader) (fuel lastPos : Nat)
    (graphic : SdrGraphicGroup) (z : StarZone) : Option (Bool × SdrGraphicGroup × StarZone) :=
  let (ok, string, z) := readStringIn env lastPos z
  let (hasRef, z) := z.readBoolIf ok graphic.m_hasRefPoint
  let (ref, z) := if ok then readVec z else (graphic.m_refPoint, z)
  let graphic := { graphic with
    m_groupName := if ok ∧ string ≠ [] then string else graphic.m_groupName,
    m_hasRefPoint := hasRef, m_refPoint := ref }
  let children :=
    if ok then
      readGroupChildren (readSdrObject env grp fuel StarObjectSmallGraphic.new) lastPos fuel
        graphic.m_child z
    else some (ok, graphic.m_child, z)
  match children with
  | none => none
  | some (ok, m_child, z) => some (ok, { graphic with m_child := m_child }, z)

/-- The block `if (ok && vers>=2) {...}` of `readSVDRObjectGroup`: the rotation and
the shear that end the record. -/
def readGroupAngles (vers : Nat) (ok : Bool) (graphic : SdrGraphicGroup) (z : StarZone) :
    SdrGraphicGroup × StarZone :=
  let (dreh, z) := z.readLongIf (ok && decide (vers ≥ 2)) 4 graphic.m_groupDrehWink
  let (shear, z) := z.readLongIf (ok && decide (vers ≥ 2)) 4 graphic.m_groupShearWink
  ({ graphic with m_groupDrehWink := dreh, m_groupShearWink := shear }, z)

/-- The function `StarObjectSmallGraphic::readSVDRObjectGroup`, over the group
reader `grp` of the next level. -/
def readSVDRObjectGroupWith (env : Env) (grp : GroupReader) (fuel : Nat) (z : StarZone)
    (graphic : SdrGraphicGroup) : Option (Bool × SdrGraphicGroup × StarZone) :=
  match readSVDRObjectHeader env grp z graphic.toSdrGraphic with
  | none => none
  | some (okHeader, base, z) =>
    let graphic := { graphic with toSdrGraphic := base }
    if !okHeader then some (false, graphic, z) else
    let pos := z.tell
    let (opened, z) := z.openRecord
    if !opened then some (false, graphic, z.seek pos) else
    let lastPos := z.getRecordLastPosition
    let vers := z.getHeaderVersion
    match readGroupBody env grp fuel lastPos graphic z with
    | none => none
    | some (ok, graphic, z) =>
      let (graphic, z) := readGroupAngles vers ok graphic z
      some (true, graphic, (z.seek lastPos).closeRecord)

/-- The function `StarObjectSmallGraphic::readSVDRObjectGroup` with `fuel` levels
of re-entry allowed. -/
def readSVDRObjectGroup (env : Env) : Nat → GroupReader
  | 0 => fun _ _ => none
  | fuel + 1 => readSVDRObjectGroupWith env (readSVDRObjectGroup env fuel) (fuel + 1)


/-! ## Fixtures -/

/-- The bytes of a 16-bit little-endian value. -/
def le16 (v : Nat) : List Nat := [v % 256, v / 256 % 256]

/-- The bytes of a 32-bit little-endian value. -/
def le32 (v : Nat) : List Nat := [v % 256, v / 256 % 256, v / 65536 % 256, v / 16777216 % 256]

/-- A plain record: its 4-byte length, then the payload. -/
def mkRecord (payload : List Nat) : List Nat := le32 (payload.length + 4) ++ payload

/-- A magic-tagged scope: tag, version, length, then the payload. -/
def mkSDR (magic : List Nat) (version : Nat) (payload : List Nat) : List Nat :=
  magic ++ le16 version ++ le32 (payload.length + 10) ++ payload

/-- A pool and string reader for fixtures: a surrogate is a 16-bit handle (zero
resolves to no item), a string is a 16-bit length followed by that many bytes,
a colour is 4 bytes; text objects, graphics and bitmaps are absent (read fails). -/
def testEnv : Env where
  loadSurrogate := fun z _ =>
    let v := leValue z.input z.pos 2
    (if v = 0 then none else some v, 2)
  readString := fun z =>
    let n := leValue z.input z.pos 2
    if z.pos + 2 + n ≤ z.input.length then (true, (z.input.drop (z.pos + 2)).take n, 2 + n)
    else (false, [], 0)
  readStringEnc := fun z _ =>
    let n := leValue z.input z.pos 2
    if z.pos + 2 + n ≤ z.input.length then (true, (z.input.drop (z.pos + 2)).take n, 2 + n)
    else (false, [], 0)
  readColor := fun z => (true, leValue z.input z.pos 4, 4)
  smallTextRead := fun _ _ => (false, 0)
  starGraphicRead := fun _ _ => (false, none, 0)
  readBitmap := fun _ _ => (false, [], 0)

/-- The fixed fields of a header record for format versions 4 to 10: bounding
box, layer, anchor, six flags, an empty inline polygon, an empty user-data list. -/
def headerPayloadV4 : List Nat := List.replicate 32 0 ++ le16 0 ++ le16 0

/-- A drawing object of format version 4 with an identifier decoded by the header
layer only. -/
def plainObject (identifier : Nat) : List Nat :=
  mkSDR magicDrOb 4 (magicSVDr ++ le16 identifier ++ mkRecord headerPayloadV4)

/-- A zone at the start of the given bytes, with no open scope. -/
def zoneOf (bytes : List Nat) : StarZone := ⟨bytes, 0, []⟩

/-- A group record of format version 4: empty name, no reference point, the
given children, then rotation and shear. -/
def groupObject (children : List Nat) : List Nat :=
  mkSDR magicDrOb 4 (magicSVDr ++ le16 1 ++ mkRecord headerPayloadV4 ++
    mkRecord (le16 0 ++ [0] ++ le32 0 ++ le32 0 ++ children ++ le32 0 ++ le32 0))


/-- A group reader that never returns: the re-entry with no fuel left. -/
def noGroup : GroupReader := fun _ _ => none

/-- A drawing object whose family tag `XXXX` is none of the known ones, with the
identifier 5. -/
def unknownFamilyObject : List Nat := mkSDR magicDrOb 4 ([88, 88, 88, 88] ++ le16 5)

/-- The item-set record of format version 4: four surrogates, each after a
16-bit item id, then an empty style-sheet name. -/
def attribPayloadV4 : List Nat :=
  le16 0 ++ le16 1 ++ le16 0 ++ le16 2 ++ le16 0 ++ le16 3 ++ le16 0 ++ le16 4 ++ le16 0

/-- The text record of format version 4: the kind, the rectangle, two angles
and no paragraph object. -/
def textPayloadV4 : List Nat := List.replicate 26 0

/-- The four records of a rectangle (identifier 3) of format version 4, with
the corner radius 7. -/
def rectRecords : List Nat :=
  mkRecord headerPayloadV4 ++ mkRecord attribPayloadV4 ++ mkRecord textPayloadV4 ++
    mkRecord (le32 7)

/-- A rectangle object of format version 4 whose scope ends with its last record. -/
def rectObject : List Nat := mkSDR magicDrOb 4 (magicSVDr ++ le16 3 ++ rectRecords)

/-- The same rectangle object with one more, empty, record before the end of
its scope. -/
def rectObjectTrailing : List Nat :=
  mkSDR magicDrOb 4 (magicSVDr ++ le16 3 ++ rectRecords ++ mkRecord [])

/-- A rectangle object (identifier 3) cut after its header record: the decoder
of its item set finds no record. -/
def rectObjectCut : List Nat :=
  mkSDR magicDrOb 4 (magicSVDr ++ le16 3 ++ mkRecord headerPayloadV4)

/-- The sentinel that ends the children of a group. -/
def sentinel : List Nat := mkSDR magicDrXX 4 []

/-- The zone of `bytes` once the `DrOb` header, the family tag and the
identifier of its first object are read: where `readSVDRObject` starts. -/
def zoneInObject (bytes : List Nat) : StarZone :=
  (((zoneOf bytes).openSDRHeader magicDrOb).2.readMagic.2.readULong 2).2

/-- The rectangle that the decoders read from `rectRecords`. -/
def rectDecoded : SdrGraphicRect :=
  { SdrGraphicRect.new 3 with m_layerId := 0, m_itemList := [1, 2, 3, 4], m_eckRag := 7 }

/-- Three children of a group, with the identifiers 14, 15 and 18, then the
rotation and the shear of the group. -/
def childrenABC : List Nat := plainObject 14 ++ plainObject 15 ++ plainObject 18 ++ le32 0 ++ le32 0

/-- The same children with a sentinel after the second one. -/
def childrenABSentinelC : List Nat :=
  plainObject 14 ++ plainObject 15 ++ sentinel ++ plainObject 18 ++ le32 0 ++ le32 0

/-- Three children of which the second is the rectangle cut after its header
record, whose decode is substituted. -/
def childrenASubstitutedC : List Nat :=
  plainObject 14 ++ rectObjectCut ++ plainObject 18 ++ le32 0 ++ le32 0

/-- The identifiers of the children of a stored group (none for a child that
stored no graphic); empty when the stored graphic is not a group. -/
def childIdentifiers : Option Graphic → List (Option Int)
  | some (.group g) => g.m_child.map (Option.map Graphic.m_identifier)
  | _ => []

/-- The zone of the payload `bytes` inside a scope of format version `version`,
once the `DrOb` header is open: where a decoder of a single record starts. -/
def zoneInScope (version : Nat) (bytes : List Nat) : StarZone :=
  ((zoneOf (mkSDR magicDrOb version bytes)).openSDRHeader magicDrOb).2

/-- A header record of format version 4 whose inline polygon declares 9 points
and holds none. -/
def headerOverflow : List Nat := mkRecord (List.replicate 32 0 ++ le16 9)

/-- A header record of format version 4 with an empty polygon and one user-data
entry of the unknown type `XXXX`, outside any record of its own. -/
def headerUnknownUserData : List Nat :=
  mkRecord (List.replicate 32 0 ++ le16 0 ++ le16 1 ++ [88, 88, 88, 88] ++ le16 1)

/-- A caption object (identifier 25) of format version 4 whose caption record
declares 9 points and holds none. -/
def captionOverflow : List Nat :=
  mkSDR magicDrOb 4 (magicSVDr ++ le16 25 ++ rectRecords ++ mkRecord (le16 9))

/-- The caption that the decoders read from `captionOverflow`. -/
def captionDecoded : SdrGraphicCaption :=
  { SdrGraphicCaption.new with m_layerId := 0, m_itemList := [1, 2, 3, 4], m_eckRag := 7 }

/-- The header, item-set and text records of format version 11: no glue point,
no user data, six surrogates, an empty style-sheet name, no paragraph object and
no text bound. -/
def textRecordsV11 : List Nat :=
  mkRecord (List.replicate 32 0 ++ [0] ++ [0]) ++
    mkRecord (le16 1 ++ le16 2 ++ le16 3 ++ le16 4 ++ le16 5 ++ le16 6 ++ le16 0) ++
    mkRecord (List.replicate 26 0 ++ [0])

/-- An edge object (identifier 24) of format version 11: the record of its edge
track declares 5 points and holds none, and two more bytes follow it in the edge
record. -/
def edgeOverflowV11 : List Nat :=
  mkSDR magicDrOb 11 (magicSVDr ++ le16 24 ++ textRecordsV11 ++
    mkRecord (mkRecord (le16 5) ++ [0, 0]))

/-- The item-set record of format version 4 whose second surrogate does not
resolve. -/
def attribUnresolved : List Nat :=
  mkRecord (le16 0 ++ le16 1 ++ le16 0 ++ le16 0 ++ le16 0 ++ le16 3 ++ le16 0 ++ le16 4 ++
    le16 0)

/-- The item-set record of format version 9: six surrogates, an empty
style-sheet name, and two more bytes before the end of the record. -/
def attribV9EmptyName : List Nat :=
  mkRecord (le16 0 ++ le16 1 ++ le16 0 ++ le16 2 ++ le16 0 ++ le16 3 ++ le16 0 ++ le16 4 ++
    le16 0 ++ le16 5 ++ le16 0 ++ le16 6 ++ le16 0 ++ [5, 0])

/-- The base object that the header layer reads from `plainObject 14`. -/
def headerDecoded : SdrGraphic := { SdrGraphic.new 14 with m_layerId := 0 }

/-- The object that the item-set layer reads from `rectRecords`. -/
def attribDecoded : SdrGraphicAttribute :=
  { SdrGraphicAttribute.new 3 with m_layerId := 0, m_itemList := [1, 2, 3, 4] }

/-- The object that the text layer reads from `rectRecords`. -/
def textDecoded : SdrGraphicText :=
  { SdrGraphicText.new 3 with m_layerId := 0, m_itemList := [1, 2, 3, 4] }

/-- The zone in which the header record of `plainObject 14` is read. -/
def plainZone : StarZone := zoneInObject (plainObject 14)

/-- A new base object with the identifier 14. -/
def newPlain : SdrGraphic := SdrGraphic.new 14

/-- The zone in which the records of `rectObject` are read. -/
def rectZone : StarZone := zoneInObject rectObject

/-- The zone of `rectObject` after its item-set record. -/
def rectZoneText : StarZone := ⟨rectObject, 78, [⟨116, 4⟩]⟩

/-- The zone of `rectObject` after its text record. -/
def rectZoneRect : StarZone := ⟨rectObject, 108, [⟨116, 4⟩]⟩

/-- A new text object with the identifier 3. -/
def newText : SdrGraphicText := SdrGraphicText.new 3

/-- A new rectangle with the identifier 3. -/
def newRect : SdrGraphicRect := SdrGraphicRect.new 3

/-- A new item-set object with the identifier 3. -/
def newAttrib : SdrGraphicAttribute := SdrGraphicAttribute.new 3

/-- The base object that the header layer reads from `rectRecords`. -/
def headerDecoded3 : SdrGraphic := { SdrGraphic.new 3 with m_layerId := 0 }

/-- The zone of `rectObject` after its header record. -/
def rectZoneAttrib : StarZone := ⟨rectObject, 56, [⟨116, 4⟩]⟩

/-- The zone of a header record followed by the item-set record whose second
surrogate does not resolve, in a scope of format version 4. -/
def unresolvedZone : StarZone := zoneInScope 4 (mkRecord headerPayloadV4 ++ attribUnresolved)

/-- The zone `unresolvedZone` after its header record. -/
def unresolvedZoneAttrib : StarZone :=
  ⟨mkSDR magicDrOb 4 (mkRecord headerPayloadV4 ++ attribUnresolved), 50, [⟨72, 4⟩]⟩

/-- The zone in which the header record `headerOverflow` is read, in a scope of
format version 4. -/
def overflowZone : StarZone := zoneInScope 4 headerOverflow

/-- The zone in which the header record `headerUnknownUserData` is read, in a
scope of format version 4. -/
def unknownUserZone : StarZone := zoneInScope 4 headerUnknownUserData

/-- The zone of `headerUnknownUserData` at its user-data entry, inside the header
record. -/
def unknownUserEntry : StarZone :=
  ⟨mkSDR magicDrOb 4 headerUnknownUserData, 50, [⟨56, 4⟩, ⟨56, 4⟩]⟩

/-- The zone in which the records of `captionOverflow` are read. -/
def captionZone : StarZone := zoneInObject captionOverflow

/-- A new caption (identifier 25). -/
def newCaption : SdrGraphicCaption := SdrGraphicCaption.new

/-- The rectangle that the rect layer reads from `captionOverflow`. -/
def captionRectDecoded : SdrGraphicRect :=
  { SdrGraphicRect.new 25 with m_layerId := 0, m_itemList := [1, 2, 3, 4], m_eckRag := 7 }

/-- The zone of `captionOverflow` after the records of its rect layer. -/
def captionZoneCaption : StarZone := ⟨captionOverflow, 116, [⟨122, 4⟩]⟩

/-- The zone of `captionOverflow` at the end of its scope. -/
def captionZoneEnd : StarZone := ⟨captionOverflow, 122, [⟨122, 4⟩]⟩

/-- The zone in which the records of `edgeOverflowV11` are read. -/
def edgeZone : StarZone := zoneInObject edgeOverflowV11

/-- A new edge (identifier 24). -/
def newEdge : SdrGraphicEdge := SdrGraphicEdge.new

/-- The text object that the text layer reads from `edgeOverflowV11`. -/
def edgeTextDecoded : SdrGraphicText :=
  { SdrGraphicText.new 24 with m_layerId := 0, m_itemList := [1, 2, 3, 4, 5, 6] }

/-- The zone of `edgeOverflowV11` after the records of its text layer. -/
def edgeZoneEdge : StarZone := ⟨edgeOverflowV11, 103, [⟨115, 11⟩]⟩

/-- The edge that `readSVDRObjectEdge` reads from `edgeOverflowV11`. -/
def edgeDecoded : SdrGraphicEdge :=
  { SdrGraphicEdge.new with m_layerId := 0, m_itemList := [1, 2, 3, 4, 5, 6] }

/-- The zone of `edgeOverflowV11` at the end of its scope. -/
def edgeZoneEnd : StarZone := ⟨edgeOverflowV11, 115, [⟨115, 11⟩]⟩

/-- The bytes of a header record followed by the item-set record
`attribV9EmptyName`, in a scope of format version 9. -/
def styleBytes : List Nat := mkSDR magicDrOb 9 (mkRecord headerPayloadV4 ++ attribV9EmptyName)

/-- The zone in which the records of `styleBytes` are read. -/
def styleZone : StarZone := zoneInScope 9 (mkRecord headerPayloadV4 ++ attribV9EmptyName)

/-- The zone of `styleBytes` after its header record. -/
def styleZoneAttrib : StarZone := ⟨styleBytes, 50, [⟨82, 9⟩]⟩

/-- The zone of `styleBytes` at the given position inside its item-set record,
which ends at the position 82. -/
def styleZoneAt (pos : Nat) : StarZone := ⟨styleBytes, pos, [⟨82, 9⟩, ⟨82, 9⟩]⟩

/-- The object that the item-set layer reads from `styleBytes`. -/
def styleDecoded : SdrGraphicAttribute :=
  { SdrGraphicAttribute.new 3 with m_layerId := 0, m_itemList := [1, 2, 3, 4, 5, 6] }
/-- A glue-point record in a scope of format version 11: the position (1, 2), the
escape direction 3, the id 4, the alignment 5 and the flag byte 1. -/
def gluePointBytes : List Nat :=
  mkSDR magicDrOb 11 (mkRecord (le16 1 ++ le16 2 ++ le16 3 ++ le16 4 ++ le16 5 ++ [1]))

/-- The zone in which the glue-point record of `gluePointBytes` is read. -/
def gluePointZone : StarZone :=
  zoneInScope 11 (mkRecord (le16 1 ++ le16 2 ++ le16 3 ++ le16 4 ++ le16 5 ++ [1]))

/-- An object surrogate in a scope of format version 11: the descriptor `0x71`
(kind `0x11`, width 2, bit `0x20` set), the value 7, the page 1, the count 2 and
the children 8 and 9. -/
def surrogateZone : StarZone :=
  zoneInScope 11 ([0x71] ++ le16 7 ++ le16 1 ++ le16 2 ++ le16 8 ++ le16 9)

/-- An outliner paragraph object in a scope of format version 4: the paragraph
count `n`, the sync marker `marker`, and eight more bytes. -/
def outlinerZone (n marker : Nat) : StarZone :=
  zoneInScope 4 (le32 n ++ le32 marker ++ List.replicate 8 0)

/-- The readers of `testEnv` with a text-object reader that succeeds on every zone
without reading a byte. -/
def textEnv : Env := { testEnv with smallTextRead := fun _ _ => (true, 0) }

/-- The item-set record of the format versions 6 to 10: six surrogates, each
after a 16-bit item id, then an empty style-sheet name. -/
def attribPayloadV6 : List Nat :=
  le16 0 ++ le16 1 ++ le16 0 ++ le16 2 ++ le16 0 ++ le16 3 ++ le16 0 ++ le16 4 ++
    le16 0 ++ le16 5 ++ le16 0 ++ le16 6 ++ le16 0

/-- A rectangle object (identifier 3) of format version 6 whose last record holds
a 32-bit value 7, and whose scope ends with that record. -/
def rectObjectV6 : List Nat :=
  mkSDR magicDrOb 6 (magicSVDr ++ le16 3 ++ mkRecord headerPayloadV4 ++
    mkRecord attribPayloadV6 ++ mkRecord textPayloadV4 ++ mkRecord (le32 7))

/-- The zone in which the records of `rectObjectV6` are read. -/
def rectZoneV6 : StarZone := zoneInObject rectObjectV6

/-- The zone of `rectObjectV6` after its text record. -/
def rectZoneV6Rect : StarZone := ⟨rectObjectV6, 116, [⟨124, 6⟩]⟩

/-- The text object that the text layer reads from `rectObjectV6`. -/
def textDecodedV6 : SdrGraphicText :=
  { SdrGraphicText.new 3 with m_layerId := 0, m_itemList := [1, 2, 3, 4, 5, 6] }

/-- The rectangle that the decoders read from `rectObjectV6`: its corner radius
is left at 0. -/
def rectDecodedV6 : SdrGraphicRect :=
  { SdrGraphicRect.new 3 with m_layerId := 0, m_itemList := [1, 2, 3, 4, 5, 6] }

/-- A group object (identifier 1) of format version 4: empty name, no reference
point, no child, the rotation 5 and the shear 6. -/
def groupAngles : List Nat :=
  mkSDR magicDrOb 4 (magicSVDr ++ le16 1 ++ mkRecord headerPayloadV4 ++
    mkRecord (le16 0 ++ [0] ++ le32 0 ++ le32 0 ++ le32 5 ++ le32 6))

/-- The zone in which the records of `groupAngles` are read. -/
def groupZone : StarZone := zoneInObject groupAngles

/-- The zone of `groupAngles` after its header record. -/
def groupZoneGroup : StarZone := ⟨groupAngles, 56, [⟨79, 4⟩]⟩

/-- The zone of `groupAngles` at the given position inside its group record, which
ends at the position 79. -/
def groupZoneAt (pos : Nat) : StarZone := ⟨groupAngles, pos, [⟨79, 4⟩, ⟨79, 4⟩]⟩

/-- A new group with the identifier 1. -/
def newGroup : SdrGraphicGroup := SdrGraphicGroup.new 1

/-- The base object that the header layer reads from `groupAngles`. -/
def headerDecoded1 : SdrGraphic := { SdrGraphic.new 1 with m_layerId := 0 }

/-- The group that the start of the group record of `groupAngles` gives. -/
def groupBodyDecoded : SdrGraphicGroup := { SdrGraphicGroup.new 1 with m_layerId := 0 }

/-- An empty header record followed by 40 more bytes, in a scope of format
version 4. -/
def shortHeaderZone : StarZone := zoneInScope 4 (mkRecord [] ++ List.replicate 40 0)

/-- The zone of the rectangle object cut after its header record, at the place of
the missing item-set record. -/
def cutZone : StarZone := ⟨rectObjectCut, 56, [⟨56, 4⟩]⟩

/-- A glue-point list record in a scope of format version 11 that declares 3 glue
points and holds none. -/
def glueListZone : StarZone := zoneInScope 11 (mkRecord (le16 3))

/-- A header record of format version 11 whose glue-point list declares 3 glue
points and holds none, with no user data. -/
def headerGlueZone : StarZone :=
  zoneInScope 11 (mkRecord (List.replicate 32 0 ++ [1] ++ mkRecord (le16 3) ++ [0]))

/-- A form object (family `FM01`, identifier 33) of format version 4: the four
records of the rectangle chain, then a uno record that holds the name `AB`. -/
def formObject : List Nat :=
  mkSDR magicDrOb 4 (magicFM01 ++ le16 33 ++ rectRecords ++ mkRecord (le16 2 ++ [65, 66]))

/-- The zone of the form object where `readFmFormObject` starts. -/
def formZone : StarZone := zoneInObject formObject

/-- The zone of the form object at its uno record. -/
def formZoneUno : StarZone := ⟨formObject, 116, [⟨124, 4⟩]⟩

/-- The rectangle part that the decoders read from `rectRecords`, for an object of
the given identifier. -/
def rectDecodedFor (identifier : Int) : SdrGraphicRect :=
  { SdrGraphicRect.new identifier with
    m_layerId := 0, m_itemList := [1, 2, 3, 4], m_eckRag := 7 }

/-- The header, item-set and text records of format version 4 that start the
objects of the text family. -/
def textRecords : List Nat :=
  mkRecord headerPayloadV4 ++ mkRecord attribPayloadV4 ++ mkRecord textPayloadV4

/-- An object of the text family of format version 4: the three records of the
text chain, then one record with the given payload. -/
def textObject (identifier : Nat) (payload : List Nat) : List Nat :=
  mkSDR magicDrOb 4 (magicSVDr ++ le16 identifier ++ textRecords ++ mkRecord payload)

/-- Two points, (1, 2) and (3, 4), as 32-bit values. -/
def twoPoints : List Nat := le32 1 ++ le32 2 ++ le32 3 ++ le32 4

/-- An edge record with two points and their flags 5 and 6. -/
def edgePoints : List Nat := textObject 24 (le16 2 ++ twoPoints ++ [5, 6])

/-- A path of identifier 10 with one flagged list of two points and the flags 5
and 6. -/
def pathFlagged : List Nat := textObject 10 (le16 1 ++ le16 2 ++ twoPoints ++ [5, 6])

/-- A path of identifier 8, in the layout without flags, with one list of two
points. -/
def pathLegacy : List Nat := textObject 8 (le16 2 ++ twoPoints)

/-- A path of identifier 10 whose second list declares 9 points that do not fit. -/
def pathOverflow : List Nat :=
  textObject 10 (le16 2 ++ le16 2 ++ twoPoints ++ [5, 6] ++ le16 9)

/-- A connection of an edge: a `DrCn` scope with an empty surrogate and 24 bytes. -/
def edgeConnection : List Nat := mkSDR magicDrCn 4 ([0] ++ List.replicate 24 0)

/-- The info record of an edge: the points (1, 2) to (9, 10), the angles 11 and
12, the counters 13, 14 and 15, and the ortho form 16; 55 bytes. -/
def edgeInfoBytes : List Nat :=
  le32 1 ++ le32 2 ++ le32 3 ++ le32 4 ++ le32 5 ++ le32 6 ++ le32 7 ++ le32 8 ++ le32 9 ++
    le32 10 ++ le32 11 ++ le32 12 ++ le16 13 ++ le16 14 ++ le16 15 ++ [16]

/-- An edge of format version 4: no point, two connections, the item 9 and the
given bytes after it. -/
def edgeWithInfo (info : List Nat) : List Nat :=
  textObject 24 (le16 0 ++ edgeConnection ++ edgeConnection ++ le16 9 ++ info)

/-- The text part that the decoders read from `textRecords`, for an object of the
given identifier. -/
def textDecodedFor (identifier : Int) : SdrGraphicText :=
  { SdrGraphicText.new identifier with m_layerId := 0, m_itemList := [1, 2, 3, 4] }

/-- The zone of the edge with its info record. -/
def edgeInfoZone : StarZone := zoneInObject (edgeWithInfo edgeInfoBytes)

/-- The zone of the edge with its info record, after the text layer. -/
def edgeInfoZoneEdge : StarZone := ⟨edgeWithInfo edgeInfoBytes, 108, [⟨241, 4⟩]⟩

/-- The zone of the edge with its info record, inside the edge record. -/
def edgeInfoZoneAt (pos : Nat) : StarZone :=
  ⟨edgeWithInfo edgeInfoBytes, pos, [⟨241, 4⟩, ⟨241, 4⟩]⟩

/-- The edge as it stands before its item is read. -/
def edgeInfoTrack : SdrGraphicEdge := { newEdge with toSdrGraphicText := textDecodedFor 24 }

/-- The info record that `edgeInfoBytes` holds. -/
def edgeInfoDecoded : EdgeInformation :=
  ⟨[⟨1, 2⟩, ⟨3, 4⟩, ⟨5, 6⟩, ⟨7, 8⟩, ⟨9, 10⟩], [11, 12], [13, 14, 15], 16⟩

/-- The result of the edge track on the edge with its info record. -/
def edgeInfoT : Bool × SdrGraphicEdge × StarZone := (true, edgeInfoTrack, edgeInfoZoneAt 114)

/-- The result of the two connections on the edge with its info record. -/
def edgeInfoC : Bool × StarZone := (true, edgeInfoZoneAt 184)

/-- The result of the item on the edge with its info record: the zone is where
the info record starts. -/
def edgeInfoI : Option StarItem × StarZone := (some 9, edgeInfoZoneAt 186)

/-- A glue-point list record in a scope of format version 11 that declares 3 glue
points and holds one: the position (1, 2), the escape direction 3, the id 4, the
alignment 5 and the flag byte 0. -/
def glueMixedZone : StarZone :=
  zoneInScope 11 (mkRecord (le16 3 ++
    mkRecord (le16 1 ++ le16 2 ++ le16 3 ++ le16 4 ++ le16 5 ++ [0])))

/-- The reader of the children of a group over `testEnv`, with the fuel that
`readSVDRObjectGroup` with 178 levels of re-entry gives it. -/
def childReader : StarZone → Option (Bool × StarObjectSmallGraphic × StarZone) :=
  readSdrObject testEnv (readSVDRObjectGroup testEnv 177) 178 StarObjectSmallGraphic.new

/-- A circle object of format version 4: the four records of the rectangle chain,
then the circle record with the given payload. -/
def circleObject (identifier : Nat) (payload : List Nat) : List Nat :=
  mkSDR magicDrOb 4 (magicSVDr ++ le16 identifier ++ rectRecords ++ mkRecord payload)

/-- A section of circle (identifier 5) with the angle values 9000 and 3333 (hundredths
of a degree) and the item 9. -/
def circleSection : List Nat := circleObject 5 (le32 9000 ++ le32 3333 ++ le16 9)

/-- The zone of the section of circle. -/
def circleZone : StarZone := zoneInObject circleSection

/-- The zone of the section of circle at its circle record. -/
def circleZoneCircle : StarZone := ⟨circleSection, 116, [⟨130, 4⟩]⟩

/-- The zone of the section of circle inside its circle record. -/
def circleZoneAt (pos : Nat) : StarZone := ⟨circleSection, pos, [⟨130, 4⟩, ⟨130, 4⟩]⟩

/-- Two children of a group, of which the first is a `DrOb` scope with no payload
and the second has the identifier 14, then the rotation and the shear of the
group. -/
def childrenEmptyA : List Nat := mkSDR magicDrOb 4 [] ++ plainObject 14 ++ le32 0 ++ le32 0

/-- An edge object (identifier 24) of format version 11: the record of its edge
track declares 1 point and holds none, and 12 more bytes follow it in the edge
record, so that the 9 bytes of the point fit in the edge record and not in the
track record. -/
def edgeNestedV11 : List Nat :=
  mkSDR magicDrOb 11 (magicSVDr ++ le16 24 ++ textRecordsV11 ++
    mkRecord (mkRecord (le16 1) ++ List.replicate 12 0))

/-- The zone in which the records of `edgeNestedV11` are read. -/
def edgeNestedZone : StarZone := zoneInObject edgeNestedV11

/-- The zone of `edgeNestedV11` after the records of its text layer. -/
def edgeNestedZoneEdge : StarZone := ⟨edgeNestedV11, 103, [⟨125, 11⟩]⟩

/-- The zone of `edgeNestedV11` at the end of its scope. -/
def edgeNestedZoneEnd : StarZone := ⟨edgeNestedV11, 125, [⟨125, 11⟩]⟩

/-- The zone in which the records of `pathOverflow` are read. -/
def pathOverflowZone : StarZone := zoneInObject pathOverflow

/-- The zone of `pathOverflow` after the records of its text layer. -/
def pathOverflowZonePath : StarZone := ⟨pathOverflow, 108, [⟨136, 4⟩]⟩

/-- The zone of `pathOverflow` at the given position inside its path record, which
ends at the position 136. -/
def pathOverflowZoneAt (pos : Nat) : StarZone := ⟨pathOverflow, pos, [⟨136, 4⟩, ⟨136, 4⟩]⟩

/-- The path that `readSVDRObjectPath` reads from `pathOverflow`: the two points and
the two flags of its first list. -/
def pathOverflowDecoded : SdrGraphicPath :=
  { SdrGraphicPath.new 10 with
    toSdrGraphicText := textDecodedFor 10
    m_pathPolygon := [⟨1, 2⟩, ⟨3, 4⟩]
    m_pathPolygonFlags := [5, 6] }

/-- A text object (identifier 3) of format version 10: the text kind 2, the
rectangle (10, 20)-(30, 40), the rotation 50, the shear 60, the flag of the
paragraph object set, a paragraph object with no paragraph and the sync marker of
the version 2, the flag of the text bound set and the bound (1, 2)-(3, 4). -/
def textBoundV10 : List Nat :=
  mkSDR magicDrOb 10 (magicSVDr ++ le16 3 ++ mkRecord headerPayloadV4 ++
    mkRecord attribPayloadV6 ++
    mkRecord ([2] ++ le32 10 ++ le32 20 ++ le32 30 ++ le32 40 ++ le32 50 ++ le32 60 ++ [1] ++
      le32 0 ++ le32 0x22345678 ++ [1] ++ le32 1 ++ le32 2 ++ le32 3 ++ le32 4))

/-- The zone in which the records of `textBoundV10` are read. -/
def textBoundZone : StarZone := zoneInObject textBoundV10

/-- The object that the item-set layer reads from `textBoundV10`. -/
def textBoundAttrib : SdrGraphicAttribute :=
  { SdrGraphicAttribute.new 3 with m_layerId := 0, m_itemList := [1, 2, 3, 4, 5, 6] }

/-- The zone of `textBoundV10` after its item-set record. -/
def textBoundZoneText : StarZone := ⟨textBoundV10, 86, [⟨141, 10⟩]⟩

/-- The zone of `textBoundV10` at the given position inside its text record, which
ends at the position 141. -/
def textBoundZoneAt (pos : Nat) : StarZone := ⟨textBoundV10, pos, [⟨141, 10⟩, ⟨141, 10⟩]⟩

/-- The text object of `textBoundV10` after its fixed fields. -/
def textBoundFixed : SdrGraphicText :=
  { SdrGraphicText.new 3 with
    m_layerId := 0, m_itemList := [1, 2, 3, 4, 5, 6], m_textKind := 2,
    m_textRectangle := ⟨⟨10, 20⟩, ⟨30, 40⟩⟩, m_textDrehWink := 50, m_textShearWink := 60 }

/-- The paragraph object of `textBoundV10`. -/
def textBoundPara : OutlinerParaObject := { OutlinerParaObject.new with m_version := 2 }

/-- The result of the fixed fields of `textBoundV10`: the flag of the paragraph
object is set, and the cursor is 26 bytes after the start of the record. -/
def textBoundF : Bool × SdrGraphicText × StarZone := (true, textBoundFixed, textBoundZoneAt 116)

/-- The result of `readSDROutlinerParaObject` on `textBoundV10`. -/
def textBoundO : Bool × OutlinerParaObject × StarZone :=
  (true, textBoundPara, textBoundZoneAt 124)

/-- The result of the paragraph block of `textBoundV10`. -/
def textBoundP : Bool × SdrGraphicText × StarZone :=
  (true, { textBoundFixed with m_outlinerParaObject := some textBoundPara },
    textBoundZoneAt 124)

/-- The result of the bound block of `textBoundV10`. -/
def textBoundB : SdrGraphicText × StarZone :=
  ({ textBoundFixed with
      m_outlinerParaObject := some textBoundPara, m_textBound := ⟨⟨1, 2⟩, ⟨3, 4⟩⟩ },
    textBoundZoneAt 141)

/-- A form object whose uno record is empty. -/
def formObjectEmpty : List Nat :=
  mkSDR magicDrOb 4 (magicFM01 ++ le16 33 ++ rectRecords ++ mkRecord [])

/-- A form object whose uno record declares a name of 5 bytes and holds 2 of them;
3 more bytes follow the object. -/
def formObjectLong : List Nat :=
  mkSDR magicDrOb 4 (magicFM01 ++ le16 33 ++ rectRecords ++ mkRecord (le16 5 ++ [65, 66])) ++
    [67, 68, 69]


/-! ## The dispatch table and the child order of the specification -/

/-- The leaf kinds named by the dispatch table of the specification. -/
inductive LeafKind where
  | group | path | circle | rect | edge | graph | ole | caption | page | measure | uno
  | generic
deriving DecidableEq, Repr

/-- The dispatch table of the specification, identifier by identifier, in the
order in which it is written there; an identifier that is not listed has the
generic base object. -/
def dispatchTable : List (Int × LeafKind) :=
  [(1, .group),
   (2, .path), (8, .path), (9, .path), (10, .path), (11, .path), (12, .path), (13, .path),
   (26, .path), (27, .path),
   (4, .circle), (5, .circle), (6, .circle), (7, .circle),
   (3, .rect), (16, .rect), (17, .rect), (20, .rect), (21, .rect),
   (24, .edge), (22, .graph), (23, .ole), (31, .ole), (25, .caption), (28, .page),
   (29, .measure), (32, .uno)]

/-- The leaf kind that the dispatch table of the specification gives to an
identifier. -/
def specLeafKind (identifier : Int) : LeafKind :=
  (dispatchTable.lookup identifier).getD .generic

/-- The decoder of each leaf kind, on the graphic that `readSVDRObject` creates
for it. -/
def runLeaf (kind : LeafKind) (env : Env) (grp : GroupReader) (z : StarZone)
    (identifier : Int) : Option (Bool × Graphic × StarZone) :=
  match kind with
  | .group => (grp z (SdrGraphicGroup.new identifier)).map fun r => (r.1, .group r.2.1, r.2.2)
  | .path =>
    (readSVDRObjectPath env grp z (SdrGraphicPath.new identifier)).map
      fun r => (r.1, .path r.2.1, r.2.2)
  | .circle =>
    (readSVDRObjectCircle env grp z (SdrGraphicCircle.new identifier)).map
      fun r => (r.1, .circle r.2.1, r.2.2)
  | .rect =>
    (readSVDRObjectRect env grp z (SdrGraphicRect.new identifier)).map
      fun r => (r.1, .rect r.2.1, r.2.2)
  | .edge =>
    (readSVDRObjectEdge env grp z SdrGraphicEdge.new).map fun r => (r.1, .edge r.2.1, r.2.2)
  | .graph =>
    (readSVDRObjectGraph env grp z SdrGraphicGraph.new).map fun r => (r.1, .graph r.2.1, r.2.2)
  | .ole =>
    (readSVDRObjectOLE env grp z (SdrGraphicOLE.new identifier)).map
      fun r => (r.1, .ole r.2.1, r.2.2)
  | .caption =>
    (readSVDRObjectCaption env grp z SdrGraphicCaption.new).map
      fun r => (r.1, .caption r.2.1, r.2.2)
  | .page =>
    (readSVDRObjectPage env grp z SdrGraphicPage.new).map fun r => (r.1, .page r.2.1, r.2.2)
  | .measure =>
    (readSVDRObjectMeasure env grp z SdrGraphicMeasure.new).map
      fun r => (r.1, .measure r.2.1, r.2.2)
  | .uno =>
    (readSVDRObjectUno env grp z SdrGraphicUno.new).map fun r => (r.1, .uno r.2.1, r.2.2)
  | .generic =>
    (readSVDRObjectHeader env grp z (SdrGraphic.new identifier)).map
      fun r => (r.1, .sdrGraphic r.2.1, r.2.2)

/-- The lowercase names that the dispatch table of the specification gives to
the identifiers of its path, circle, rect and OLE families. -/
def dispatchTableNames : List (Int × String) :=
  [(2, "line"), (8, "poly"), (9, "polyline"), (10, "pathline"), (11, "pathfill"),
   (12, "freeline"), (13, "freefill"), (26, "pathpoly"), (27, "pathline"),
   (4, "circle"), (5, "sector"), (6, "arc"), (7, "cut"),
   (3, "rect"), (16, "text"), (17, "textextended"), (20, "titletext"), (21, "outlinetext"),
   (23, "ole2"), (31, "frame")]

/-- The stream encounter order of the specification: the offsets of the `DrOb`
records met from the offset `p` on, each one starting where the scope of the one
before ends, up to the first offset that is within four bytes of `lastPos` or
where no `DrOb` header opens (a `DrXX` sentinel, any other tag, a header that
does not fit); the first numeric argument bounds the number of records. -/
def encounterOrder (z : StarZone) (lastPos : Nat) : Nat → Nat → List Nat
  | 0, _ => []
  | k + 1, p =>
    if p + 4 < lastPos ∧ ((z.seek p).openSDRHeader magicDrOb).1 = true then
      p :: encounterOrder z lastPos k ((z.seek p).openSDRHeader magicDrOb).2.getRecordLastPosition
    else []

/-- The child of a group found at the offset `p`: the graphic that
`readSdrObject` stores in a fresh object there (nothing when it stores none). -/
def childAt (env : Env) (grp : GroupReader) (fuel : Nat) (z : StarZone) (p : Nat) :
    Option Graphic :=
  match readSdrObject env grp fuel StarObjectSmallGraphic.new (z.seek p) with
  | some (_, obj, _) => obj.m_graphic
  | none => none

/-- The item-set ids that the attribute layer of the specification resolves for a
format version, in its order: line, fill, text and shadow, then outliner from the
version 5 on and misc from the version 6 on. -/
def specItemSetIds (vers : Nat) : List Nat :=
  if vers < 5 then [1017, 1047, 1066, 1079]
  else if vers < 6 then [1017, 1047, 1066, 1079, 1096]
  else [1017, 1047, 1066, 1079, 1096, 1126]

/-- The items that the pool resolves for a list of ids, one after the other from
the cursor on (before the format version 11 each surrogate follows a 16-bit
value), and the zone after the last one. -/
def resolveAll (env : Env) (vers : Nat) : List Nat → StarZone → List StarItem × StarZone
  | [], z => ([], z)
  | w :: ws, z =>
    ((env.loadSurrogate (z.skipIf (decide (vers < 11)) 2) w).1.toList ++
      (resolveAll env vers ws
        ((z.skipIf (decide (vers < 11)) 2).skip
          (env.loadSurrogate (z.skipIf (decide (vers < 11)) 2) w).2)).1,
     (resolveAll env vers ws
        ((z.skipIf (decide (vers < 11)) 2).skip
          (env.loadSurrogate (z.skipIf (decide (vers < 11)) 2) w).2)).2)

/-- Every surrogate of a list of ids resolves inside the record: read one after
the other from the cursor on, each one gives an item and leaves the cursor at
`lastPos` or before. -/
def resolveAllOk (env : Env) (vers lastPos : Nat) : List Nat → StarZone → Bool
  | [], _ => true
  | w :: ws, z =>
    (env.loadSurrogate (z.skipIf (decide (vers < 11)) 2) w).1.isSome &&
    decide (((z.skipIf (decide (vers < 11)) 2).skip
      (env.loadSurrogate (z.skipIf (decide (vers < 11)) 2) w).2).tell ≤ lastPos) &&
    resolveAllOk env vers lastPos ws
      ((z.skipIf (decide (vers < 11)) 2).skip
        (env.loadSurrogate (z.skipIf (decide (vers < 11)) 2) w).2)


/-! ## Predicates on decode steps -/

/-- `Lands r z b P`: the decode step `r`, started on the zone `z`, ran to its end.
It produced a result whose zone holds the bytes and the open records of `z`, whose
cursor is not before `b`, and whose value satisfies `P`. -/
def Lands {α : Type} (r : Option (Bool × α × StarZone)) (z : StarZone) (b : Nat)
    (P : α → Prop) : Prop :=
  ∃ ok g z', r = some (ok, g, z') ∧ z'.input = z.input ∧ z'.stack = z.stack ∧ b ≤ z'.pos ∧ P g

/-- `GoodGroup grp L b`: on every zone over `L` bytes whose cursor is at `b` or
later, the group reader `grp` runs to its end, keeps the bytes and the open
records, does not move the cursor back and keeps the identifier of the group. -/
def GoodGroup (grp : GroupReader) (L b : Nat) : Prop :=
  ∀ (z : StarZone) (g : SdrGraphicGroup), z.input.length = L → b ≤ z.pos →
    Lands (grp z g) z z.pos (fun g' => g'.m_identifier = g.m_identifier)

/-- `FailsOnlyOnFraming inner outer`: the inner layer ran to its end, leaving the
zone `z1`, and the outer layer ran to its end with a result that is `false` exactly
when the inner layer returned `false` or no record opens on `z1`. -/
def FailsOnlyOnFraming {α β : Type} (inner : Option (Bool × β × StarZone))
    (outer : Option (Bool × α × StarZone)) : Prop :=
  ∃ okI base z1 ok g' z', inner = some (okI, base, z1) ∧ outer = some (ok, g', z') ∧
    (ok = false ↔ (okI = false ∨ z1.openRecord.1 = false))


/-! ## Framing lemmas: the data and the scope stack -/

namespace StarZone

@[simp] theorem tell_eq (z : StarZone) : z.tell = z.pos := rfl
@[simp] theorem seek_input (z : StarZone) (p : Nat) : (z.seek p).input = z.input := rfl
@[simp] theorem seek_stack (z : StarZone) (p : Nat) : (z.seek p).stack = z.stack := rfl
@[simp] theorem seek_pos (z : StarZone) (p : Nat) : (z.seek p).pos = p := rfl
@[simp] theorem skip_input (z : StarZone) (n : Nat) : (z.skip n).input = z.input := rfl
@[simp] theorem skip_stack (z : StarZone) (n : Nat) : (z.skip n).stack = z.stack := rfl
@[simp] theorem skip_pos (z : StarZone) (n : Nat) : (z.skip n).pos = z.pos + n := rfl
@[simp] theorem back_input (z : StarZone) (n : Nat) : (z.back n).input = z.input := rfl
@[simp] theorem back_stack (z : StarZone) (n : Nat) : (z.back n).stack = z.stack := rfl
@[simp] theorem back_pos (z : StarZone) (n : Nat) : (z.back n).pos = z.pos - n := rfl
@[simp] theorem readULong_input (z : StarZone) (n : Nat) : (z.readULong n).2.input = z.input := rfl
@[simp] theorem readULong_stack (z : StarZone) (n : Nat) : (z.readULong n).2.stack = z.stack := rfl
@[simp] theorem readULong_pos (z : StarZone) (n : Nat) : (z.readULong n).2.pos = z.pos + n := rfl
@[simp] theorem readLong_input (z : StarZone) (n : Nat) : (z.readLong n).2.input = z.input := rfl
@[simp] theorem readLong_stack (z : StarZone) (n : Nat) : (z.readLong n).2.stack = z.stack := rfl
@[simp] theorem readLong_pos (z : StarZone) (n : Nat) : (z.readLong n).2.pos = z.pos + n := rfl
@[simp] theorem readBool_input (z : StarZone) : z.readBool.2.input = z.input := rfl
@[simp] theorem readBool_stack (z : StarZone) : z.readBool.2.stack = z.stack := rfl
@[simp] theorem readBool_pos (z : StarZone) : z.readBool.2.pos = z.pos + 1 := rfl
@[simp] theorem readMagic_input (z : StarZone) : z.readMagic.2.input = z.input := rfl
@[simp] theorem readMagic_stack (z : StarZone) : z.readMagic.2.stack = z.stack := rfl
@[simp] theorem readMagic_pos (z : StarZone) : z.readMagic.2.pos = z.pos + 4 := rfl

@[simp] theorem readBoolIf_input (z : StarZone) (c old : Bool) :
    (z.readBoolIf c old).2.input = z.input := by unfold readBoolIf; split <;> rfl
@[simp] theorem readBoolIf_stack (z : StarZone) (c old : Bool) :
    (z.readBoolIf c old).2.stack = z.stack := by unfold readBoolIf; split <;> rfl
theorem readBoolIf_pos (z : StarZone) (c old : Bool) : z.pos ≤ (z.readBoolIf c old).2.pos := by
  unfold readBoolIf; split
  · exact Nat.le_add_right _ _
  · exact Nat.le_refl _
@[simp] theorem readULongIf_input (z : StarZone) (c : Bool) (n old : Nat) :
    (z.readULongIf c n old).2.input = z.input := by unfold readULongIf; split <;> rfl
@[simp] theorem readULongIf_stack (z : StarZone) (c : Bool) (n old : Nat) :
    (z.readULongIf c n old).2.stack = z.stack := by unfold readULongIf; split <;> rfl
theorem readULongIf_pos (z : StarZone) (c : Bool) (n old : Nat) :
    z.pos ≤ (z.readULongIf c n old).2.pos := by
  unfold readULongIf; split
  · exact Nat.le_add_right _ _
  · exact Nat.le_refl _
@[simp] theorem readLongIf_input (z : StarZone) (c : Bool) (n : Nat) (old : Int) :
    (z.readLongIf c n old).2.input = z.input := by unfold readLongIf; split <;> rfl
@[simp] theorem readLongIf_stack (z : StarZone) (c : Bool) (n : Nat) (old : Int) :
    (z.readLongIf c n old).2.stack = z.stack := by unfold readLongIf; split <;> rfl
theorem readLongIf_pos (z : StarZone) (c : Bool) (n : Nat) (old : Int) :
    z.pos ≤ (z.readLongIf c n old).2.pos := by
  unfold readLongIf; split
  · exact Nat.le_add_right _ _
  · exact Nat.le_refl _
@[simp] theorem readAngleIf_input (z : StarZone) (c : Bool) (old : Float32) :
    (z.readAngleIf c old).2.input = z.input := by unfold readAngleIf; split <;> rfl
@[simp] theorem readAngleIf_stack (z : StarZone) (c : Bool) (old : Float32) :
    (z.readAngleIf c old).2.stack = z.stack := by unfold readAngleIf; split <;> rfl
theorem readAngleIf_pos (z : StarZone) (c : Bool) (old : Float32) :
    z.pos ≤ (z.readAngleIf c old).2.pos := by
  unfold readAngleIf; split
  · exact Nat.le_add_right _ _
  · exact Nat.le_refl _
@[simp] theorem seekIf_input (z : StarZone) (c : Bool) (p : Nat) :
    (z.seekIf c p).input = z.input := by unfold seekIf; split <;> rfl
@[simp] theorem seekIf_stack (z : StarZone) (c : Bool) (p : Nat) :
    (z.seekIf c p).stack = z.stack := by unfold seekIf; split <;> rfl
@[simp] theorem skipIf_input (z : StarZone) (c : Bool) (n : Nat) :
    (z.skipIf c n).input = z.input := by unfold skipIf; split <;> rfl
@[simp] theorem skipIf_stack (z : StarZone) (c : Bool) (n : Nat) :
    (z.skipIf c n).stack = z.stack := by unfold skipIf; split <;> rfl
theorem skipIf_pos (z : StarZone) (c : Bool) (n : Nat) : z.pos ≤ (z.skipIf c n).pos := by
  unfold skipIf; split
  · exact Nat.le_add_right _ _
  · exact Nat.le_refl _

@[simp] theorem closeRecord_input (z : StarZone) : z.closeRecord.input = z.input := by
  unfold closeRecord; split <;> rfl

@[simp] theorem closeRecord_stack (z : StarZone) : z.closeRecord.stack = z.stack.tail := by
  unfold closeRecord; split <;> simp_all

@[simp] theorem closeSDRHeader_input (z : StarZone) : z.closeSDRHeader.input = z.input :=
  closeRecord_input z

@[simp] theorem closeSDRHeader_stack (z : StarZone) : z.closeSDRHeader.stack = z.stack.tail :=
  closeRecord_stack z

@[simp] theorem closeSCHHeader_input (z : StarZone) : z.closeSCHHeader.input = z.input :=
  closeRecord_input z

@[simp] theorem closeSCHHeader_stack (z : StarZone) : z.closeSCHHeader.stack = z.stack.tail :=
  closeRecord_stack z

@[simp] theorem closeRecord_pos (z : StarZone) :
    z.closeRecord.pos = (z.stack.head?.map Scope.endPos).getD z.pos := by
  unfold closeRecord; split <;> simp_all

@[simp] theorem closeSDRHeader_pos (z : StarZone) :
    z.closeSDRHeader.pos = (z.stack.head?.map Scope.endPos).getD z.pos := closeRecord_pos z

@[simp] theorem closeSCHHeader_pos (z : StarZone) :
    z.closeSCHHeader.pos = (z.stack.head?.map Scope.endPos).getD z.pos := closeRecord_pos z

@[simp] theorem openRecord_input (z : StarZone) : z.openRecord.2.input = z.input := by
  unfold openRecord; simp only []; split <;> rfl

@[simp] theorem closeRecordIf_input (z : StarZone) (c : Bool) :
    (z.closeRecordIf c).input = z.input := by
  unfold closeRecordIf; split
  · exact closeRecord_input z
  · rfl

@[simp] theorem openRecordIf_input (z : StarZone) (c d : Bool) :
    (z.openRecordIf c d).2.input = z.input := by
  unfold openRecordIf; split
  · exact openRecord_input z
  · rfl

@[simp] theorem openSDRHeader_input (z : StarZone) (m : List Nat) :
    (z.openSDRHeader m).2.input = z.input := by
  unfold openSDRHeader; simp only []; split <;> rfl

@[simp] theorem openSCHHeader_input (z : StarZone) : z.openSCHHeader.2.input = z.input := by
  unfold openSCHHeader; simp only []; split <;> rfl

/-- A failed `openRecord` leaves the zone as it was. -/
theorem openRecord_false {z : StarZone} (h : z.openRecord.1 = false) : z.openRecord.2 = z := by
  unfold openRecord at h ⊢; simp only [] at h ⊢; split <;> simp_all

/-- A successful `openRecord` pushes a scope that ends after its 4-byte header,
inside the data, and moves the cursor past the header. -/
theorem openRecord_true {z : StarZone} (h : z.openRecord.1 = true) :
    ∃ s : Scope, z.openRecord.2.stack = s :: z.stack ∧ z.openRecord.2.pos = z.pos + 4
      ∧ z.pos + 4 ≤ s.endPos ∧ s.endPos ≤ z.input.length ∧ s.version = z.getHeaderVersion := by
  unfold openRecord at h ⊢; simp only [] at h ⊢
  split
  · rename_i hc
    exact ⟨_, rfl, rfl, by simp only []; omega, by simp only []; omega, rfl⟩
  · rename_i hc; simp [hc] at h

/-- A record that opens ends within the scope it was opened in. -/
theorem openRecord_nested {z : StarZone} (h : z.openRecord.1 = true) :
    z.openRecord.2.getRecordLastPosition ≤ z.getRecordLastPosition := by
  unfold openRecord at h ⊢; simp only [] at h ⊢
  split
  · rename_i hc
    exact hc.2.2.2
  · rename_i hc; simp [hc] at h

/-- A failed `openSDRHeader` leaves the zone as it was. -/
theorem openSDRHeader_false {z : StarZone} {m : List Nat} (h : (z.openSDRHeader m).1 = false) :
    (z.openSDRHeader m).2 = z := by
  unfold openSDRHeader at h ⊢; simp only [] at h ⊢; split <;> simp_all

/-- A successful `openSDRHeader` pushes a scope that ends after its 10-byte
header, inside the data, and moves the cursor past the header. -/
theorem openSDRHeader_true {z : StarZone} {m : List Nat} (h : (z.openSDRHeader m).1 = true) :
    ∃ s : Scope, (z.openSDRHeader m).2.stack = s :: z.stack
      ∧ (z.openSDRHeader m).2.pos = z.pos + 10
      ∧ z.pos + 10 ≤ s.endPos ∧ s.endPos ≤ z.input.length := by
  unfold openSDRHeader at h ⊢; simp only [] at h ⊢
  split
  · rename_i hc
    exact ⟨_, rfl, rfl, by simp only []; omega, by simp only []; omega⟩
  · rename_i hc; simp [hc] at h

/-- A failed `openSCHHeader` leaves the zone as it was. -/
theorem openSCHHeader_false {z : StarZone} (h : z.openSCHHeader.1 = false) :
    z.openSCHHeader.2 = z := by
  unfold openSCHHeader at h ⊢; simp only [] at h ⊢; split <;> simp_all

/-- A successful `openSCHHeader` pushes a scope that ends after its 6-byte header. -/
theorem openSCHHeader_true {z : StarZone} (h : z.openSCHHeader.1 = true) :
    ∃ s : Scope, z.openSCHHeader.2.stack = s :: z.stack ∧ z.openSCHHeader.2.pos = z.pos + 6
      ∧ z.pos + 6 ≤ s.endPos ∧ s.endPos ≤ z.input.length := by
  unfold openSCHHeader at h ⊢; simp only [] at h ⊢
  split
  · rename_i hc
    exact ⟨_, rfl, rfl, by simp only []; omega, by simp only []; omega⟩
  · rename_i hc; simp [hc] at h

end StarZone

@[simp] theorem readValues_input (w : Nat) :
    ∀ (n : Nat) (z : StarZone), (readValues w n z).input = z.input
  | 0, _ => rfl
  | n + 1, z => by rw [readValues, readValues_input w n]; rfl

@[simp] theorem readValues_stack (w : Nat) :
    ∀ (n : Nat) (z : StarZone), (readValues w n z).stack = z.stack
  | 0, _ => rfl
  | n + 1, z => by rw [readValues, readValues_stack w n]; rfl

theorem readValues_pos (w : Nat) : ∀ (n : Nat) (z : StarZone), z.pos ≤ (readValues w n z).pos
  | 0, _ => Nat.le_refl _
  | n + 1, z => by
    rw [readValues]
    exact Nat.le_trans (Nat.le_add_right _ w) (readValues_pos w n (z.readULong w).2)

@[simp] theorem readPoints_input :
    ∀ (n : Nat) (acc : List STOFFVec2i) (z : StarZone), (readPoints n acc z).2.input = z.input
  | 0, _, _ => rfl
  | n + 1, acc, z => by rw [readPoints]; simp only []; rw [readPoints_input n]; rfl

@[simp] theorem readPoints_stack :
    ∀ (n : Nat) (acc : List STOFFVec2i) (z : StarZone), (readPoints n acc z).2.stack = z.stack
  | 0, _, _ => rfl
  | n + 1, acc, z => by rw [readPoints]; simp only []; rw [readPoints_stack n]; rfl

theorem readPoints_pos :
    ∀ (n : Nat) (acc : List STOFFVec2i) (z : StarZone), z.pos ≤ (readPoints n acc z).2.pos
  | 0, _, _ => Nat.le_refl _
  | n + 1, acc, z => by
    rw [readPoints]; simp only []
    refine Nat.le_trans ?_ (readPoints_pos n _ _)
    simp only [StarZone.readLong_pos]; omega

@[simp] theorem readULongs_input (w : Nat) :
    ∀ (n : Nat) (acc : List Nat) (z : StarZone), (readULongs w n acc z).2.input = z.input
  | 0, _, _ => rfl
  | n + 1, acc, z => by rw [readULongs]; simp only []; rw [readULongs_input w n]; rfl

@[simp] theorem readULongs_stack (w : Nat) :
    ∀ (n : Nat) (acc : List Nat) (z : StarZone), (readULongs w n acc z).2.stack = z.stack
  | 0, _, _ => rfl
  | n + 1, acc, z => by rw [readULongs]; simp only []; rw [readULongs_stack w n]; rfl

theorem readULongs_pos (w : Nat) :
    ∀ (n : Nat) (acc : List Nat) (z : StarZone), z.pos ≤ (readULongs w n acc z).2.pos
  | 0, _, _ => Nat.le_refl _
  | n + 1, acc, z => by
    rw [readULongs]; simp only []
    refine Nat.le_trans ?_ (readULongs_pos w n _ _)
    simp only [StarZone.readULong_pos]; omega

@[simp] theorem readBox_input (z : StarZone) : (readBox z).2.input = z.input := rfl
@[simp] theorem readBox_stack (z : StarZone) : (readBox z).2.stack = z.stack := rfl
@[simp] theorem readBox_pos (z : StarZone) : (readBox z).2.pos = z.pos + 16 := by
  simp only [readBox, StarZone.readLong_pos]
@[simp] theorem readVec_input (z : StarZone) : (readVec z).2.input = z.input := rfl
@[simp] theorem readVec_stack (z : StarZone) : (readVec z).2.stack = z.stack := rfl
@[simp] theorem readVec_pos (z : StarZone) : (readVec z).2.pos = z.pos + 8 := by
  simp only [readVec, StarZone.readLong_pos]

@[simp] theorem readSDRObjectSurrogate_input (z : StarZone) :
    (readSDRObjectSurrogate z).2.input = z.input := by
  unfold readSDRObjectSurrogate
  simp only [apply_ite Prod.snd, apply_ite StarZone.input, StarZone.readULong_input,
    readValues_input, ite_self]

@[simp] theorem readSDRObjectSurrogate_stack (z : StarZone) :
    (readSDRObjectSurrogate z).2.stack = z.stack := by
  unfold readSDRObjectSurrogate
  simp only [apply_ite Prod.snd, apply_ite StarZone.stack, StarZone.readULong_stack,
    readValues_stack, ite_self]

namespace StarZone

theorem openRecord_stack_false {z : StarZone} (h : z.openRecord.1 = false) :
    z.openRecord.2.stack = z.stack := by rw [openRecord_false h]

theorem openRecord_stack_true {z : StarZone} (h : z.openRecord.1 = true) :
    z.openRecord.2.stack.tail = z.stack := by
  obtain ⟨s, hs, -⟩ := openRecord_true h
  rw [hs]; rfl

theorem openSDRHeader_stack_false {z : StarZone} {m : List Nat}
    (h : (z.openSDRHeader m).1 = false) : (z.openSDRHeader m).2.stack = z.stack := by
  rw [openSDRHeader_false h]

theorem openSDRHeader_stack_true {z : StarZone} {m : List Nat}
    (h : (z.openSDRHeader m).1 = true) : (z.openSDRHeader m).2.stack.tail = z.stack := by
  obtain ⟨s, hs, -⟩ := openSDRHeader_true h
  rw [hs]; rfl

theorem openSCHHeader_stack_false {z : StarZone} (h : z.openSCHHeader.1 = false) :
    z.openSCHHeader.2.stack = z.stack := by rw [openSCHHeader_false h]

theorem openSCHHeader_stack_true {z : StarZone} (h : z.openSCHHeader.1 = true) :
    z.openSCHHeader.2.stack.tail = z.stack := by
  obtain ⟨s, hs, -⟩ := openSCHHeader_true h
  rw [hs]; rfl

end StarZone

@[simp] theorem readSDRObjectConnection_input (z : StarZone) :
    (readSDRObjectConnection z).2.input = z.input := by
  unfold readSDRObjectConnection
  simp only [apply_ite Prod.snd, apply_ite StarZone.input, StarZone.readULong_input,
    StarZone.readLong_input, readValues_input, ite_self, StarZone.seek_input,
    StarZone.skip_input, StarZone.closeSDRHeader_input, readSDRObjectSurrogate_input,
    StarZone.openSDRHeader_input, StarZone.readMagic_input]

@[simp] theorem readSDRObjectConnection_stack (z : StarZone) :
    (readSDRObjectConnection z).2.stack = z.stack := by
  unfold readSDRObjectConnection
  simp only [apply_ite Prod.snd, apply_ite StarZone.stack, apply_ite List.tail,
    StarZone.readULong_stack,
    StarZone.readLong_stack, readValues_stack, ite_self, StarZone.seek_stack,
    StarZone.skip_stack, StarZone.closeSDRHeader_stack, readSDRObjectSurrogate_stack,
    StarZone.readMagic_stack]
  split_ifs with h1 h2
  · rfl
  · simp only [Bool.not_eq_true', ] at h2
    rw [StarZone.openSDRHeader_stack_false h2]; rfl
  · simp only [Bool.not_eq_true', Bool.not_eq_false] at h2
    rw [StarZone.openSDRHeader_stack_true h2]; rfl

@[simp] theorem readSDRGluePoint_input (z : StarZone) :
    (readSDRGluePoint z).2.2.input = z.input := by
  unfold readSDRGluePoint
  simp only [apply_ite Prod.snd, apply_ite StarZone.input, StarZone.readULong_input,
    StarZone.readBool_input, ite_self, StarZone.seek_input, StarZone.closeRecord_input,
    StarZone.openRecord_input]

@[simp] theorem readSDRGluePoint_stack (z : StarZone) :
    (readSDRGluePoint z).2.2.stack = z.stack := by
  unfold readSDRGluePoint
  simp only [apply_ite Prod.snd, apply_ite StarZone.stack, StarZone.readULong_stack,
    StarZone.readBool_stack, StarZone.seek_stack, StarZone.closeRecord_stack]
  split_ifs with h
  · simp only [Bool.not_eq_true'] at h
    exact StarZone.openRecord_stack_false h
  · simp only [Bool.not_eq_true', Bool.not_eq_false] at h
    exact StarZone.openRecord_stack_true h

/-- The cursor after `readSDRGluePoint` is not before the cursor at its entry. -/
theorem readSDRGluePoint_pos (z : StarZone) : z.pos ≤ (readSDRGluePoint z).2.2.pos := by
  unfold readSDRGluePoint
  simp only [apply_ite Prod.snd, apply_ite StarZone.pos, StarZone.seek_pos, StarZone.tell_eq]
  split_ifs with h
  · exact Nat.le_refl _
  · simp only [Bool.not_eq_true', Bool.not_eq_false] at h
    obtain ⟨s, hs, hp, hle, -⟩ := StarZone.openRecord_true h
    simp only [StarZone.closeRecord_pos, StarZone.readULong_stack, StarZone.readBool_stack, hs,
      List.head?_cons, Option.map_some', Option.getD_some]
    omega

/-! ## Framing lemmas: the block readers -/

@[simp] theorem loadItem_input (env : Env) (lastPos which : Nat) (c : Bool) (old : Option StarItem)
    (z : StarZone) : (loadItem env lastPos which c old z).2.input = z.input := by
  unfold loadItem; split <;> rfl

@[simp] theorem loadItem_stack (env : Env) (lastPos which : Nat) (c : Bool) (old : Option StarItem)
    (z : StarZone) : (loadItem env lastPos which c old z).2.stack = z.stack := by
  unfold loadItem; split <;> rfl

theorem loadItem_pos (env : Env) (lastPos which : Nat) (c : Bool) (old : Option StarItem)
    (z : StarZone) : z.pos ≤ (loadItem env lastPos which c old z).2.pos := by
  unfold loadItem; split
  · exact Nat.le_add_right _ _
  · exact Nat.le_refl _

@[simp] theorem readStringIn_input (env : Env) (lastPos : Nat) (z : StarZone) :
    (readStringIn env lastPos z).2.2.input = z.input := rfl

@[simp] theorem readStringIn_stack (env : Env) (lastPos : Nat) (z : StarZone) :
    (readStringIn env lastPos z).2.2.stack = z.stack := rfl

theorem readStringIn_pos (env : Env) (lastPos : Nat) (z : StarZone) :
    z.pos ≤ (readStringIn env lastPos z).2.2.pos := Nat.le_add_right _ _

@[simp] theorem readOutlinerColor_input (env : Env) (lastPos : Nat) (p : OutlinerZone)
    (z : StarZone) : (readOutlinerColor env lastPos p z).2.2.input = z.input := by
  simp [readOutlinerColor, apply_ite StarZone.input]

@[simp] theorem readOutlinerColor_stack (env : Env) (lastPos : Nat) (p : OutlinerZone)
    (z : StarZone) : (readOutlinerColor env lastPos p z).2.2.stack = z.stack := by
  simp [readOutlinerColor, apply_ite StarZone.stack]

@[simp] theorem readOutlinerZoneV1_input (env : Env) (lastPos : Nat) (p : OutlinerZone)
    (z : StarZone) : (readOutlinerZoneV1 env lastPos p z).2.2.input = z.input := by
  simp [readOutlinerZoneV1, apply_ite Prod.snd, apply_ite StarZone.input]

@[simp] theorem readOutlinerZoneV1_stack (env : Env) (lastPos : Nat) (p : OutlinerZone)
    (z : StarZone) : (readOutlinerZoneV1 env lastPos p z).2.2.stack = z.stack := by
  simp [readOutlinerZoneV1, apply_ite Prod.snd, apply_ite StarZone.stack]

@[simp] theorem readOutlinerZones_input (env : Env) (vers lastPos : Nat) :
    ∀ (k : Nat) (o : OutlinerParaObject) (z : StarZone),
      (readOutlinerZones env vers lastPos k o z).2.2.input = z.input
  | 0, _, _ => rfl
  | k + 1, o, z => by
    rw [readOutlinerZones]
    simp [apply_ite Prod.snd, apply_ite StarZone.input, readOutlinerZones_input env vers lastPos k]

@[simp] theorem readOutlinerZones_stack (env : Env) (vers lastPos : Nat) :
    ∀ (k : Nat) (o : OutlinerParaObject) (z : StarZone),
      (readOutlinerZones env vers lastPos k o z).2.2.stack = z.stack
  | 0, _, _ => rfl
  | k + 1, o, z => by
    rw [readOutlinerZones]
    simp [apply_ite Prod.snd, apply_ite StarZone.stack, readOutlinerZones_stack env vers lastPos k]

@[simp] theorem readSDROutlinerParaObject_input (env : Env) (z : StarZone) :
    (readSDROutlinerParaObject env z).2.2.input = z.input := by
  simp [readSDROutlinerParaObject, apply_ite Prod.snd, apply_ite StarZone.input]

@[simp] theorem readSDROutlinerParaObject_stack (env : Env) (z : StarZone) :
    (readSDROutlinerParaObject env z).2.2.stack = z.stack := by
  simp [readSDROutlinerParaObject, apply_ite Prod.snd, apply_ite StarZone.stack]

@[simp] theorem readSDUDColors_input (env : Env) (endPos : Nat) :
    ∀ (k i : Nat) (g : SDUDGraphicAnimation) (z : StarZone),
      (readSDUDColors env endPos k i g z).2.2.input = z.input
  | 0, _, _, _ => rfl
  | k + 1, i, g, z => by
    rw [readSDUDColors]
    simp [apply_ite Prod.snd, apply_ite StarZone.input, readSDUDColors_input env endPos k]

@[simp] theorem readSDUDColors_stack (env : Env) (endPos : Nat) :
    ∀ (k i : Nat) (g : SDUDGraphicAnimation) (z : StarZone),
      (readSDUDColors env endPos k i g z).2.2.stack = z.stack
  | 0, _, _, _ => rfl
  | k + 1, i, g, z => by
    rw [readSDUDColors]
    simp [apply_ite Prod.snd, apply_ite StarZone.stack, readSDUDColors_stack env endPos k]

@[simp] theorem readSDUDNames_input (env : Env) (endPos encoding : Nat) :
    ∀ (k i : Nat) (g : SDUDGraphicAnimation) (z : StarZone),
      (readSDUDNames env endPos encoding k i g z).2.2.input = z.input
  | 0, _, _, _ => rfl
  | k + 1, i, g, z => by
    rw [readSDUDNames]
    simp [apply_ite Prod.snd, apply_ite StarZone.input, readSDUDNames_input env endPos encoding k]

@[simp] theorem readSDUDNames_stack (env : Env) (endPos encoding : Nat) :
    ∀ (k i : Nat) (g : SDUDGraphicAnimation) (z : StarZone),
      (readSDUDNames env endPos encoding k i g z).2.2.stack = z.stack
  | 0, _, _, _ => rfl
  | k + 1, i, g, z => by
    rw [readSDUDNames]
    simp [apply_ite Prod.snd, apply_ite StarZone.stack, readSDUDNames_stack env endPos encoding k]

@[simp] theorem readSDUDPolygon_input (endPos : Nat) (g : SDUDGraphicAnimation) (z : StarZone) :
    (readSDUDPolygon endPos g z).2.2.input = z.input := by
  simp [readSDUDPolygon, apply_ite Prod.snd, apply_ite StarZone.input]

@[simp] theorem readSDUDPolygon_stack (endPos : Nat) (g : SDUDGraphicAnimation) (z : StarZone) :
    (readSDUDPolygon endPos g z).2.2.stack = z.stack := by
  simp [readSDUDPolygon, apply_ite Prod.snd, apply_ite StarZone.stack]

@[simp] theorem readSDUDLimits_input (endPos : Nat) (g : SDUDGraphicAnimation) (z : StarZone) :
    (readSDUDLimits endPos g z).2.2.input = z.input := by
  simp [readSDUDLimits]

@[simp] theorem readSDUDLimits_stack (endPos : Nat) (g : SDUDGraphicAnimation) (z : StarZone) :
    (readSDUDLimits endPos g z).2.2.stack = z.stack := by
  simp [readSDUDLimits]

@[simp] theorem readSDUDSound_input (env : Env) (endPos : Nat) (g : SDUDGraphicAnimation)
    (z : StarZone) : (readSDUDSound env endPos g z).2.2.2.input = z.input := by
  simp [readSDUDSound, apply_ite Prod.snd, apply_ite StarZone.input]

@[simp] theorem readSDUDSound_stack (env : Env) (endPos : Nat) (g : SDUDGraphicAnimation)
    (z : StarZone) : (readSDUDSound env endPos g z).2.2.2.stack = z.stack := by
  simp [readSDUDSound, apply_ite Prod.snd, apply_ite StarZone.stack]

@[simp] theorem readSDUDSurrogate_input (endPos : Nat) (z : StarZone) :
    (readSDUDSurrogate endPos z).2.input = z.input := by
  simp [readSDUDSurrogate, apply_ite Prod.snd, apply_ite StarZone.input]

@[simp] theorem readSDUDSurrogate_stack (endPos : Nat) (z : StarZone) :
    (readSDUDSurrogate endPos z).2.stack = z.stack := by
  simp [readSDUDSurrogate, apply_ite Prod.snd, apply_ite StarZone.stack]

@[simp] theorem readSDUDSecond_input (env : Env) (endPos encoding : Nat)
    (g : SDUDGraphicAnimation) (z : StarZone) :
    (readSDUDSecond env endPos encoding g z).2.2.input = z.input := by
  simp [readSDUDSecond]

@[simp] theorem readSDUDSecond_stack (env : Env) (endPos encoding : Nat)
    (g : SDUDGraphicAnimation) (z : StarZone) :
    (readSDUDSecond env endPos encoding g z).2.2.stack = z.stack := by
  simp [readSDUDSecond]

@[simp] theorem readSDUDHead_input (env : Env) (vers endPos : Nat) (z : StarZone) :
    (readSDUDHead env vers endPos z).2.2.2.input = z.input := by
  simp [readSDUDHead, apply_ite Prod.snd, apply_ite StarZone.input]

@[simp] theorem readSDUDHead_stack (env : Env) (vers endPos : Nat) (z : StarZone) :
    (readSDUDHead env vers endPos z).2.2.2.stack = z.stack := by
  simp [readSDUDHead, apply_ite Prod.snd, apply_ite StarZone.stack]

@[simp] theorem readSDUDMiddle_input (env : Env) (vers endPos : Nat)
    (st : Bool × Nat × SDUDGraphicAnimation × StarZone) :
    (readSDUDMiddle env vers endPos st).2.2.input = st.2.2.2.input := by
  simp [readSDUDMiddle, apply_ite Prod.snd, apply_ite StarZone.input]

@[simp] theorem readSDUDMiddle_stack (env : Env) (vers endPos : Nat)
    (st : Bool × Nat × SDUDGraphicAnimation × StarZone) :
    (readSDUDMiddle env vers endPos st).2.2.stack = st.2.2.2.stack := by
  simp [readSDUDMiddle, apply_ite Prod.snd, apply_ite StarZone.stack]

@[simp] theorem readSDUDTail_input (vers endPos : Nat)
    (st : Bool × SDUDGraphicAnimation × StarZone) :
    (readSDUDTail vers endPos st).2.input = st.2.2.input := by
  simp [readSDUDTail]

@[simp] theorem readSDUDTail_stack (vers endPos : Nat)
    (st : Bool × SDUDGraphicAnimation × StarZone) :
    (readSDUDTail vers endPos st).2.stack = st.2.2.stack := by
  simp [readSDUDTail]

@[simp] theorem readSDUDAnimation_input (env : Env) (vers endPos : Nat) (z : StarZone) :
    (readSDUDAnimation env vers endPos z).2.input = z.input := by
  simp [readSDUDAnimation]

@[simp] theorem readSDUDAnimation_stack (env : Env) (vers endPos : Nat) (z : StarZone) :
    (readSDUDAnimation env vers endPos z).2.stack = z.stack := by
  simp [readSDUDAnimation]

@[simp] theorem readSDUDObject_input (env : Env) (z : StarZone) (identifier : Int) :
    (readSDUDObject env z identifier).2.input = z.input := by
  simp [readSDUDObject, apply_ite Prod.snd, apply_ite StarZone.input]

@[simp] theorem readSDUDObject_stack (env : Env) (z : StarZone) (identifier : Int) :
    (readSDUDObject env z identifier).2.stack = z.stack := by
  simp only [readSDUDObject, apply_ite Prod.snd, apply_ite StarZone.stack, apply_ite List.tail,
    StarZone.closeSCHHeader_stack, readSDUDAnimation_stack, StarZone.seek_stack,
    StarZone.readULong_stack, ite_self]
  split_ifs with h1 h2
  · rfl
  · simp only [Bool.not_eq_true'] at h2
    rw [StarZone.openSCHHeader_stack_false h2]; rfl
  · simp only [Bool.not_eq_true', Bool.not_eq_false] at h2
    rw [StarZone.openSCHHeader_stack_true h2]; rfl

/-- The cursor after `readSDUDObject` is not before the cursor at its entry. -/
theorem readSDUDObject_pos (env : Env) (z : StarZone) (identifier : Int) :
    z.pos ≤ (readSDUDObject env z identifier).2.pos := by
  simp only [readSDUDObject, apply_ite Prod.snd, apply_ite StarZone.pos, StarZone.tell_eq]
  split_ifs with h1 h2 h3
  · exact Nat.le_refl _
  · simp only [Bool.not_eq_true'] at h2
    rw [StarZone.openSCHHeader_false h2]; exact Nat.le_add_right _ _
  · simp only [Bool.not_eq_true', Bool.not_eq_false] at h2
    obtain ⟨s, hs, hp, hle, -⟩ := StarZone.openSCHHeader_true h2
    simp only [StarZone.closeSCHHeader_pos, readSDUDAnimation_stack, hs,
      List.head?_cons, Option.map_some', Option.getD_some]
    simp only [StarZone.readULong_pos] at hle
    omega
  · simp only [Bool.not_eq_true', Bool.not_eq_false] at h2
    obtain ⟨s, hs, hp, hle, -⟩ := StarZone.openSCHHeader_true h2
    simp only [StarZone.closeSCHHeader_pos, StarZone.seek_stack, hs,
      List.head?_cons, Option.map_some', Option.getD_some]
    simp only [StarZone.readULong_pos] at hle
    omega

@[simp] theorem readSDRGluePoints_input :
    ∀ (n : Nat) (acc : List GluePoint) (z : StarZone),
      (readSDRGluePoints n acc z).2.input = z.input
  | 0, _, _ => rfl
  | n + 1, acc, z => by
    rw [readSDRGluePoints]; simp only []; rw [readSDRGluePoints_input n]
    simp [apply_ite StarZone.input]

@[simp] theorem readSDRGluePoints_stack :
    ∀ (n : Nat) (acc : List GluePoint) (z : StarZone),
      (readSDRGluePoints n acc z).2.stack = z.stack
  | 0, _, _ => rfl
  | n + 1, acc, z => by
    rw [readSDRGluePoints]; simp only []; rw [readSDRGluePoints_stack n]
    simp [apply_ite StarZone.stack]

theorem readSDRGluePoints_pos :
    ∀ (n : Nat) (acc : List GluePoint) (z : StarZone), z.pos ≤ (readSDRGluePoints n acc z).2.pos
  | 0, _, _ => Nat.le_refl _
  | n + 1, acc, z => by
    rw [readSDRGluePoints]; simp only []
    refine Nat.le_trans ?_ (readSDRGluePoints_pos n _ _)
    split_ifs
    · simp
    · exact readSDRGluePoint_pos z

@[simp] theorem readSDRGluePointList_input (z : StarZone) :
    (readSDRGluePointList z).2.2.input = z.input := by
  simp [readSDRGluePointList, apply_ite Prod.snd, apply_ite StarZone.input]

@[simp] theorem readSDRGluePointList_stack (z : StarZone) :
    (readSDRGluePointList z).2.2.stack = z.stack := by
  simp only [readSDRGluePointList, apply_ite Prod.snd, apply_ite StarZone.stack]
  split_ifs with h
  · simpa using StarZone.openRecord_stack_false (z := z) (by simpa using h)
  · simpa using StarZone.openRecord_stack_true (z := z) (by simpa using h)

theorem readSDRGluePointList_pos (z : StarZone) :
    z.pos ≤ (readSDRGluePointList z).2.2.pos := by
  simp only [readSDRGluePointList, apply_ite Prod.snd, apply_ite StarZone.pos]
  split_ifs with h
  · simp
  · obtain ⟨s, hs, hp, hle, -⟩ := StarZone.openRecord_true (z := z) (by simpa using h)
    simp [StarZone.closeRecord_pos, hs]; omega

@[simp] theorem readSCHUData_input (z : StarZone) (identifier : Int) :
    (readSCHUData z identifier).2.input = z.input := by
  simp [readSCHUData, apply_ite Prod.snd, apply_ite StarZone.input]

@[simp] theorem readSCHUData_stack (z : StarZone) (identifier : Int) :
    (readSCHUData z identifier).2.stack = z.stack := by
  simp [readSCHUData, apply_ite Prod.snd, apply_ite StarZone.stack]

/-- The cursor after `readSCHUData` is not before the cursor at its entry. -/
theorem readSCHUData_pos (z : StarZone) (identifier : Int) :
    z.pos ≤ (readSCHUData z identifier).2.pos := by
  simp only [readSCHUData, apply_ite Prod.snd, apply_ite StarZone.pos, StarZone.readULong_pos,
    StarZone.readLong_pos]
  split_ifs <;> omega

@[simp] theorem readHeaderPoints_input :
    ∀ (n : Nat) (acc : List GluePoint) (z : StarZone),
      (readHeaderPoints n acc z).2.input = z.input
  | 0, _, _ => rfl
  | n + 1, acc, z => by rw [readHeaderPoints]; simp only []; rw [readHeaderPoints_input n]; rfl

@[simp] theorem readHeaderPoints_stack :
    ∀ (n : Nat) (acc : List GluePoint) (z : StarZone),
      (readHeaderPoints n acc z).2.stack = z.stack
  | 0, _, _ => rfl
  | n + 1, acc, z => by rw [readHeaderPoints]; simp only []; rw [readHeaderPoints_stack n]; rfl

theorem readHeaderPoints_pos :
    ∀ (n : Nat) (acc : List GluePoint) (z : StarZone), z.pos ≤ (readHeaderPoints n acc z).2.pos
  | 0, _, _ => Nat.le_refl _
  | n + 1, acc, z => by
    rw [readHeaderPoints]; simp only []
    refine Nat.le_trans ?_ (readHeaderPoints_pos n _ _)
    simp only [StarZone.readLong_pos]; omega

@[simp] theorem readHeaderPolygon_input (lastPos : Nat) (g : SdrGraphic) (z : StarZone) :
    (readHeaderPolygon lastPos g z).2.2.input = z.input := by
  simp [readHeaderPolygon, apply_ite Prod.snd, apply_ite StarZone.input]

@[simp] theorem readHeaderPolygon_stack (lastPos : Nat) (g : SdrGraphic) (z : StarZone) :
    (readHeaderPolygon lastPos g z).2.2.stack = z.stack := by
  simp [readHeaderPolygon, apply_ite Prod.snd, apply_ite StarZone.stack]

@[simp] theorem readHeaderPolygon_id (lastPos : Nat) (g : SdrGraphic) (z : StarZone) :
    (readHeaderPolygon lastPos g z).2.1.m_identifier = g.m_identifier := by
  simp only [readHeaderPolygon]; split_ifs <;> rfl

theorem readHeaderPolygon_pos (lastPos : Nat) (g : SdrGraphic) (z : StarZone) :
    z.pos ≤ (readHeaderPolygon lastPos g z).2.2.pos := by
  simp only [readHeaderPolygon]
  split_ifs
  · exact Nat.le_add_right _ _
  · refine Nat.le_trans ?_ (readHeaderPoints_pos _ _ _)
    simp

@[simp] theorem readHeaderGlue_input (g : SdrGraphic) (z : StarZone) :
    (readHeaderGlue g z).2.2.input = z.input := by
  simp only [readHeaderGlue]; split_ifs <;> simp

@[simp] theorem readHeaderGlue_stack (g : SdrGraphic) (z : StarZone) :
    (readHeaderGlue g z).2.2.stack = z.stack := by
  simp only [readHeaderGlue]; split_ifs <;> simp

@[simp] theorem readHeaderGlue_id (g : SdrGraphic) (z : StarZone) :
    (readHeaderGlue g z).2.1.m_identifier = g.m_identifier := by
  simp only [readHeaderGlue]; split_ifs <;> rfl

theorem readHeaderGlue_pos (g : SdrGraphic) (z : StarZone) :
    z.pos ≤ (readHeaderGlue g z).2.2.pos := by
  simp only [readHeaderGlue]
  split_ifs
  · refine Nat.le_trans ?_ (readSDRGluePointList_pos _)
    simp
  · exact Nat.le_add_right _ _

@[simp] theorem readHeaderFixed_input (z : StarZone) (g : SdrGraphic) :
    (readHeaderFixed z g).2.input = z.input := by
  simp [readHeaderFixed]

@[simp] theorem readHeaderFixed_stack (z : StarZone) (g : SdrGraphic) :
    (readHeaderFixed z g).2.stack = z.stack := by
  simp [readHeaderFixed]

@[simp] theorem readHeaderFixed_id (z : StarZone) (g : SdrGraphic) :
    (readHeaderFixed z g).1.m_identifier = g.m_identifier := rfl

theorem readHeaderFixed_pos (z : StarZone) (g : SdrGraphic) :
    z.pos ≤ (readHeaderFixed z g).2.pos := by
  unfold readHeaderFixed
  refine Nat.le_trans ?_ (StarZone.readBoolIf_pos _ _ _)
  simp only [StarZone.readBool_pos, readVec_pos, StarZone.readULong_pos, readBox_pos]
  omega

@[simp] theorem readHeaderFields_input (z : StarZone) (g : SdrGraphic) :
    (readHeaderFields z g).2.2.input = z.input := by
  simp [readHeaderFields, apply_ite Prod.snd, apply_ite StarZone.input]

@[simp] theorem readHeaderFields_stack (z : StarZone) (g : SdrGraphic) :
    (readHeaderFields z g).2.2.stack = z.stack := by
  simp [readHeaderFields, apply_ite Prod.snd, apply_ite StarZone.stack]

@[simp] theorem readHeaderFields_id (z : StarZone) (g : SdrGraphic) :
    (readHeaderFields z g).2.1.m_identifier = g.m_identifier := by
  simp only [readHeaderFields]
  split_ifs
  · rfl
  · exact readHeaderPolygon_id _ _ _
  · exact readHeaderGlue_id _ _

theorem readHeaderFields_pos (z : StarZone) (g : SdrGraphic) :
    z.pos ≤ (readHeaderFields z g).2.2.pos := by
  have h0 := readHeaderFixed_pos z g
  simp only [readHeaderFields]
  split_ifs
  · exact h0
  · exact Nat.le_trans h0 (readHeaderPolygon_pos _ _ _)
  · exact Nat.le_trans h0 (readHeaderGlue_pos _ _)

@[simp] theorem readAttribCharSetGuess_input (vers lastPos : Nat) (ok : Bool) (z : StarZone) :
    (readAttribCharSetGuess vers lastPos ok z).input = z.input := by
  simp [readAttribCharSetGuess]

@[simp] theorem readAttribCharSetGuess_stack (vers lastPos : Nat) (ok : Bool) (z : StarZone) :
    (readAttribCharSetGuess vers lastPos ok z).stack = z.stack := by
  simp [readAttribCharSetGuess]

@[simp] theorem readMeasureFixed_input (z : StarZone) (g : SdrGraphicMeasure) :
    (readMeasureFixed z g).2.input = z.input := by
  simp [readMeasureFixed]

@[simp] theorem readMeasureFixed_stack (z : StarZone) (g : SdrGraphicMeasure) :
    (readMeasureFixed z g).2.stack = z.stack := by
  simp [readMeasureFixed]

@[simp] theorem readMeasureFixed_id (z : StarZone) (g : SdrGraphicMeasure) :
    (readMeasureFixed z g).1.m_identifier = g.m_identifier := rfl

@[simp] theorem readMeasureFixed_item (z : StarZone) (g : SdrGraphicMeasure) :
    (readMeasureFixed z g).1.m_measureItem = g.m_measureItem := rfl

@[simp] theorem readTextFixed_input (z : StarZone) (g : SdrGraphicText) :
    (readTextFixed z g).2.2.input = z.input := by
  simp [readTextFixed]

@[simp] theorem readTextFixed_stack (z : StarZone) (g : SdrGraphicText) :
    (readTextFixed z g).2.2.stack = z.stack := by
  simp [readTextFixed]

@[simp] theorem readTextFixed_id (z : StarZone) (g : SdrGraphicText) :
    (readTextFixed z g).2.1.m_identifier = g.m_identifier := rfl

@[simp] theorem readAttribItems_input (env : Env) (vers lastPos : Nat) :
    ∀ (k i : Nat) (items : List StarItem) (z : StarZone),
      (readAttribItems env vers lastPos k i items z).2.2.input = z.input
  | 0, _, _, _ => rfl
  | k + 1, i, items, z => by
    rw [readAttribItems]; simp only []
    split_ifs <;> simp [readAttribItems_input env vers lastPos k]

@[simp] theorem readAttribItems_stack (env : Env) (vers lastPos : Nat) :
    ∀ (k i : Nat) (items : List StarItem) (z : StarZone),
      (readAttribItems env vers lastPos k i items z).2.2.stack = z.stack
  | 0, _, _, _ => rfl
  | k + 1, i, items, z => by
    rw [readAttribItems]; simp only []
    split_ifs <;> simp [readAttribItems_stack env vers lastPos k]

@[simp] theorem readAttribStyle_input (env : Env) (vers lastPos : Nat) (g : SdrGraphicAttribute)
    (z : StarZone) : (readAttribStyle env vers lastPos g z).2.2.input = z.input := by
  simp [readAttribStyle, apply_ite Prod.snd, apply_ite StarZone.input]

@[simp] theorem readAttribStyle_stack (env : Env) (vers lastPos : Nat) (g : SdrGraphicAttribute)
    (z : StarZone) : (readAttribStyle env vers lastPos g z).2.2.stack = z.stack := by
  simp [readAttribStyle, apply_ite Prod.snd, apply_ite StarZone.stack]

@[simp] theorem readAttribStyle_id (env : Env) (vers lastPos : Nat) (g : SdrGraphicAttribute)
    (z : StarZone) : (readAttribStyle env vers lastPos g z).2.1.m_identifier = g.m_identifier := by
  simp only [readAttribStyle]; split_ifs <;> rfl

@[simp] theorem readTextParaObject_input (env : Env) (vers : Nat) (ok : Bool) (g : SdrGraphicText)
    (z : StarZone) : (readTextParaObject env vers ok g z).2.2.input = z.input := by
  simp [readTextParaObject, apply_ite Prod.snd, apply_ite StarZone.input]

@[simp] theorem readTextParaObject_stack (env : Env) (vers : Nat) (ok : Bool) (g : SdrGraphicText)
    (z : StarZone) : (readTextParaObject env vers ok g z).2.2.stack = z.stack := by
  simp only [readTextParaObject, StarZone.openRecordIf, StarZone.closeRecordIf]
  by_cases hv : vers ≥ 11
  · simp only [hv, decide_True, if_true, apply_ite Prod.snd, apply_ite StarZone.stack]
    split_ifs with h
    · exact StarZone.openRecord_stack_false (by simpa using h)
    · simpa using StarZone.openRecord_stack_true (z := z) (by simpa using h)
  · simp [hv]

@[simp] theorem readTextParaObject_id (env : Env) (vers : Nat) (ok : Bool) (g : SdrGraphicText)
    (z : StarZone) : (readTextParaObject env vers ok g z).2.1.m_identifier = g.m_identifier := by
  simp only [readTextParaObject]; split_ifs <;> rfl

@[simp] theorem readTextBound_input (g : SdrGraphicText) (z : StarZone) :
    (readTextBound g z).2.input = z.input := by
  simp [readTextBound, apply_ite Prod.snd, apply_ite StarZone.input]

@[simp] theorem readTextBound_stack (g : SdrGraphicText) (z : StarZone) :
    (readTextBound g z).2.stack = z.stack := by
  simp [readTextBound, apply_ite Prod.snd, apply_ite StarZone.stack]

@[simp] theorem readTextBound_id (g : SdrGraphicText) (z : StarZone) :
    (readTextBound g z).1.m_identifier = g.m_identifier := by
  simp only [readTextBound]; split_ifs <;> rfl

@[simp] theorem readEdgePolygon_input (g : SdrGraphicEdge) (z : StarZone) :
    (readEdgePolygon g z).2.2.input = z.input := by
  simp [readEdgePolygon, apply_ite Prod.snd, apply_ite StarZone.input]

@[simp] theorem readEdgePolygon_stack (g : SdrGraphicEdge) (z : StarZone) :
    (readEdgePolygon g z).2.2.stack = z.stack := by
  simp [readEdgePolygon, apply_ite Prod.snd, apply_ite StarZone.stack]

@[simp] theorem readEdgePolygon_id (g : SdrGraphicEdge) (z : StarZone) :
    (readEdgePolygon g z).2.1.m_identifier = g.m_identifier := by
  simp only [readEdgePolygon]; split_ifs <;> rfl

@[simp] theorem readEdgeConnections_input :
    ∀ (k : Nat) (z : StarZone), (readEdgeConnections k z).2.input = z.input
  | 0, _ => rfl
  | k + 1, z => by
    rw [readEdgeConnections]; simp only []
    split_ifs <;> simp [readEdgeConnections_input k]

@[simp] theorem readEdgeConnections_stack :
    ∀ (k : Nat) (z : StarZone), (readEdgeConnections k z).2.stack = z.stack
  | 0, _ => rfl
  | k + 1, z => by
    rw [readEdgeConnections]; simp only []
    split_ifs <;> simp [readEdgeConnections_stack k]

@[simp] theorem readEdgeInfo_input (lastPos : Nat) (g : SdrGraphicEdge) (z : StarZone) :
    (readEdgeInfo lastPos g z).2.input = z.input := by
  simp [readEdgeInfo, apply_ite Prod.snd, apply_ite StarZone.input]

@[simp] theorem readEdgeInfo_stack (lastPos : Nat) (g : SdrGraphicEdge) (z : StarZone) :
    (readEdgeInfo lastPos g z).2.stack = z.stack := by
  simp [readEdgeInfo, apply_ite Prod.snd, apply_ite StarZone.stack]

@[simp] theorem readEdgeInfo_id (lastPos : Nat) (g : SdrGraphicEdge) (z : StarZone) :
    (readEdgeInfo lastPos g z).1.m_identifier = g.m_identifier := by
  simp only [readEdgeInfo]; split_ifs <;> rfl

@[simp] theorem readGraphNames_input (env : Env) (lastPos : Nat) :
    ∀ (k i : Nat) (g : SdrGraphicGraph) (z : StarZone),
      (readGraphNames env lastPos k i g z).2.2.input = z.input
  | 0, _, _, _ => rfl
  | k + 1, i, g, z => by
    rw [readGraphNames]; simp only []
    split_ifs <;> simp [readGraphNames_input env lastPos k]

@[simp] theorem readGraphNames_stack (env : Env) (lastPos : Nat) :
    ∀ (k i : Nat) (g : SdrGraphicGraph) (z : StarZone),
      (readGraphNames env lastPos k i g z).2.2.stack = z.stack
  | 0, _, _, _ => rfl
  | k + 1, i, g, z => by
    rw [readGraphNames]; simp only []
    split_ifs <;> simp [readGraphNames_stack env lastPos k]

@[simp] theorem readGraphNames_id (env : Env) (lastPos : Nat) :
    ∀ (k i : Nat) (g : SdrGraphicGraph) (z : StarZone),
      (readGraphNames env lastPos k i g z).2.1.m_identifier = g.m_identifier
  | 0, _, _, _ => rfl
  | k + 1, i, g, z => by
    rw [readGraphNames]; simp only []
    split_ifs <;> simp [readGraphNames_id env lastPos k]

@[simp] theorem readGraphName_input (env : Env) (lastPos i : Nat) (g : SdrGraphicGraph)
    (z : StarZone) : (readGraphName env lastPos i g z).2.2.input = z.input := by
  simp [readGraphName]

@[simp] theorem readGraphName_stack (env : Env) (lastPos i : Nat) (g : SdrGraphicGraph)
    (z : StarZone) : (readGraphName env lastPos i g z).2.2.stack = z.stack := by
  simp [readGraphName]

@[simp] theorem readGraphName_id (env : Env) (lastPos i : Nat) (g : SdrGraphicGraph)
    (z : StarZone) : (readGraphName env lastPos i g z).2.1.m_identifier = g.m_identifier := by
  simp only [readGraphName]; split_ifs <;> rfl

@[simp] theorem readGraphV10_input (env : Env) (vers lastPos : Nat) (g : SdrGraphicGraph)
    (z : StarZone) : (readGraphV10 env vers lastPos g z).2.input = z.input := by
  simp [readGraphV10, apply_ite Prod.snd, apply_ite StarZone.input]

@[simp] theorem readGraphV10_stack (env : Env) (vers lastPos : Nat) (g : SdrGraphicGraph)
    (z : StarZone) : (readGraphV10 env vers lastPos g z).2.stack = z.stack := by
  simp [readGraphV10, apply_ite Prod.snd, apply_ite StarZone.stack]

@[simp] theorem readGraphV10_id (env : Env) (vers lastPos : Nat) (g : SdrGraphicGraph)
    (z : StarZone) : (readGraphV10 env vers lastPos g z).1.m_identifier = g.m_identifier := by
  simp only [readGraphV10, apply_ite Prod.snd, apply_ite Prod.fst,
    apply_ite SdrGraphicGraph.toSdrGraphicRect, apply_ite SdrGraphicRect.toSdrGraphicText,
    apply_ite SdrGraphicText.toSdrGraphicAttribute, apply_ite SdrGraphicAttribute.toSdrGraphic,
    apply_ite SdrGraphic.m_identifier, readGraphName_id, ite_self]

@[simp] theorem readGraphBitmap_input (env : Env) (g : SdrGraphicGraph) (z : StarZone) :
    (readGraphBitmap env g z).2.2.input = z.input := by
  simp [readGraphBitmap, apply_ite Prod.snd, apply_ite StarZone.input]

@[simp] theorem readGraphBitmap_stack (env : Env) (g : SdrGraphicGraph) (z : StarZone) :
    (readGraphBitmap env g z).2.2.stack = z.stack := by
  simp only [readGraphBitmap, apply_ite Prod.snd, apply_ite StarZone.stack]
  split_ifs with h
  · exact StarZone.openRecord_stack_false (by simpa using h)
  · simpa using StarZone.openRecord_stack_true (z := z) (by simpa using h)

@[simp] theorem readGraphBitmap_id (env : Env) (g : SdrGraphicGraph) (z : StarZone) :
    (readGraphBitmap env g z).2.1.m_identifier = g.m_identifier := by
  simp only [readGraphBitmap]; split_ifs <;> rfl

@[simp] theorem readGraphV11_input (env : Env) (lastPos : Nat) (g : SdrGraphicGraph)
    (z : StarZone) : (readGraphV11 env lastPos g z).2.input = z.input := by
  simp [readGraphV11, apply_ite Prod.snd, apply_ite StarZone.input]

@[simp] theorem readGraphV11_stack (env : Env) (lastPos : Nat) (g : SdrGraphicGraph)
    (z : StarZone) : (readGraphV11 env lastPos g z).2.stack = z.stack := by
  simp [readGraphV11, apply_ite Prod.snd, apply_ite StarZone.stack]

@[simp] theorem readGraphV11_id (env : Env) (lastPos : Nat) (g : SdrGraphicGraph)
    (z : StarZone) : (readGraphV11 env lastPos g z).1.m_identifier = g.m_identifier := by
  simp only [readGraphV11, apply_ite Prod.snd, apply_ite Prod.fst,
    apply_ite SdrGraphicGraph.toSdrGraphicRect, apply_ite SdrGraphicRect.toSdrGraphicText,
    apply_ite SdrGraphicText.toSdrGraphicAttribute, apply_ite SdrGraphicAttribute.toSdrGraphic,
    apply_ite SdrGraphic.m_identifier, readGraphNames_id, readGraphBitmap_id, ite_self]

@[simp] theorem readOLENames_input (env : Env) (lastPos : Nat) :
    ∀ (k i : Nat) (g : SdrGraphicOLE) (z : StarZone),
      (readOLENames env lastPos k i g z).2.2.input = z.input
  | 0, _, _, _ => rfl
  | k + 1, i, g, z => by
    rw [readOLENames]; simp only []
    split_ifs <;> simp [readOLENames_input env lastPos k]

@[simp] theorem readOLENames_stack (env : Env) (lastPos : Nat) :
    ∀ (k i : Nat) (g : SdrGraphicOLE) (z : StarZone),
      (readOLENames env lastPos k i g z).2.2.stack = z.stack
  | 0, _, _, _ => rfl
  | k + 1, i, g, z => by
    rw [readOLENames]; simp only []
    split_ifs <;> simp [readOLENames_stack env lastPos k]

@[simp] theorem readOLENames_id (env : Env) (lastPos : Nat) :
    ∀ (k i : Nat) (g : SdrGraphicOLE) (z : StarZone),
      (readOLENames env lastPos k i g z).2.1.m_identifier = g.m_identifier
  | 0, _, _, _ => rfl
  | k + 1, i, g, z => by
    rw [readOLENames]; simp only []
    split_ifs <;> simp [readOLENames_id env lastPos k]

@[simp] theorem readOLEGraphic_input (env : Env) (lastPos : Nat) (g : SdrGraphicOLE)
    (z : StarZone) : (readOLEGraphic env lastPos g z).2.input = z.input := by
  simp [readOLEGraphic, apply_ite Prod.snd, apply_ite StarZone.input]

@[simp] theorem readOLEGraphic_stack (env : Env) (lastPos : Nat) (g : SdrGraphicOLE)
    (z : StarZone) : (readOLEGraphic env lastPos g z).2.stack = z.stack := by
  simp [readOLEGraphic, apply_ite Prod.snd, apply_ite StarZone.stack]

@[simp] theorem readOLEGraphic_id (env : Env) (lastPos : Nat) (g : SdrGraphicOLE)
    (z : StarZone) : (readOLEGraphic env lastPos g z).1.m_identifier = g.m_identifier := by
  simp only [readOLEGraphic]; split_ifs <;> rfl

@[simp] theorem readPathPolys_input (w lastPos : Nat) :
    ∀ (k : Nat) (g : SdrGraphicPath) (z : StarZone),
      (readPathPolys w lastPos k g z).2.2.input = z.input
  | 0, _, _ => rfl
  | k + 1, g, z => by
    rw [readPathPolys]; simp only []
    split_ifs <;> simp [readPathPolys_input w lastPos k]

@[simp] theorem readPathPolys_stack (w lastPos : Nat) :
    ∀ (k : Nat) (g : SdrGraphicPath) (z : StarZone),
      (readPathPolys w lastPos k g z).2.2.stack = z.stack
  | 0, _, _ => rfl
  | k + 1, g, z => by
    rw [readPathPolys]; simp only []
    split_ifs <;> simp [readPathPolys_stack w lastPos k]

@[simp] theorem readPathPolys_id (w lastPos : Nat) :
    ∀ (k : Nat) (g : SdrGraphicPath) (z : StarZone),
      (readPathPolys w lastPos k g z).2.1.m_identifier = g.m_identifier
  | 0, _, _ => rfl
  | k + 1, g, z => by
    rw [readPathPolys]; simp only []
    split_ifs <;> simp [readPathPolys_id w lastPos k]

@[simp] theorem readPathLegacy_input (lastPos : Nat) (id : Int) (g : SdrGraphicPath)
    (z : StarZone) : (readPathLegacy lastPos id g z).2.2.input = z.input := by
  simp [readPathLegacy]

@[simp] theorem readPathLegacy_stack (lastPos : Nat) (id : Int) (g : SdrGraphicPath)
    (z : StarZone) : (readPathLegacy lastPos id g z).2.2.stack = z.stack := by
  simp [readPathLegacy]

@[simp] theorem readPathLegacy_id (lastPos : Nat) (id : Int) (g : SdrGraphicPath)
    (z : StarZone) : (readPathLegacy lastPos id g z).2.1.m_identifier = g.m_identifier := by
  simp [readPathLegacy]

@[simp] theorem readPathFlagged_input (vers lastPos : Nat) (g : SdrGraphicPath)
    (z : StarZone) : (readPathFlagged vers lastPos g z).2.2.input = z.input := by
  simp [readPathFlagged]

@[simp] theorem readPathFlagged_stack (vers lastPos : Nat) (g : SdrGraphicPath)
    (z : StarZone) : (readPathFlagged vers lastPos g z).2.2.stack = z.stack := by
  simp only [readPathFlagged, StarZone.openRecordIf, StarZone.closeRecordIf]
  by_cases hv : vers ≥ 11
  · simp only [hv, decide_True, if_true]
    by_cases h : z.openRecord.1 = true
    · simpa [h] using StarZone.openRecord_stack_true h
    · have h' : z.openRecord.1 = false := by simpa using h
      simpa [h'] using StarZone.openRecord_stack_false h'
  · simp [hv]

@[simp] theorem readPathFlagged_id (vers lastPos : Nat) (g : SdrGraphicPath)
    (z : StarZone) : (readPathFlagged vers lastPos g z).2.1.m_identifier = g.m_identifier := by
  simp [readPathFlagged]

@[simp] theorem readUnoName_input (env : Env) (z : StarZone) :
    (readUnoName env z).2.2.input = z.input := by
  simp [readUnoName, apply_ite Prod.snd, apply_ite StarZone.input]

@[simp] theorem readUnoName_stack (env : Env) (z : StarZone) :
    (readUnoName env z).2.2.stack = z.stack := by
  simp [readUnoName, apply_ite Prod.snd, apply_ite StarZone.stack]


@[simp] theorem readEdgeTrack_input (vers : Nat) (g : SdrGraphicEdge) (z : StarZone) :
    (readEdgeTrack vers g z).2.2.input = z.input := by
  simp [readEdgeTrack, apply_ite Prod.snd, apply_ite StarZone.input]

@[simp] theorem readEdgeTrack_stack (vers : Nat) (g : SdrGraphicEdge) (z : StarZone) :
    (readEdgeTrack vers g z).2.2.stack = z.stack := by
  simp only [readEdgeTrack, StarZone.openRecordIf, StarZone.closeRecordIf]
  by_cases hc : 2 ≤ vers ∧ 11 ≤ vers
  · by_cases h : z.openRecord.1 = true
    · simpa [hc, h, apply_ite Prod.snd, apply_ite StarZone.stack] using
        StarZone.openRecord_stack_true h
    · have h' : z.openRecord.1 = false := by simpa using h
      simpa [hc, h', apply_ite Prod.snd, apply_ite StarZone.stack] using
        StarZone.openRecord_stack_false h'
  · simp [hc, apply_ite Prod.snd, apply_ite StarZone.stack]

@[simp] theorem readEdgeTrack_id (vers : Nat) (g : SdrGraphicEdge) (z : StarZone) :
    (readEdgeTrack vers g z).2.1.m_identifier = g.m_identifier := by
  simp only [readEdgeTrack, apply_ite Prod.snd, apply_ite Prod.fst,
    apply_ite SdrGraphicEdge.toSdrGraphicText, apply_ite SdrGraphicText.toSdrGraphicAttribute,
    apply_ite SdrGraphicAttribute.toSdrGraphic, apply_ite SdrGraphic.m_identifier,
    readEdgePolygon_id, ite_self]


/-! ## The decode steps run to their end -/

theorem GoodGroup.mono {grp : GroupReader} {L b c : Nat} (h : GoodGroup grp L b) (hbc : b ≤ c) :
    GoodGroup grp L c :=
  fun z g hL hc => h z g hL (Nat.le_trans hbc hc)

theorem lands_some {α : Type} {ok : Bool} {g : α} {z z' : StarZone} {b : Nat} {P : α → Prop}
    (hi : z'.input = z.input) (hs : z'.stack = z.stack) (hp : b ≤ z'.pos) (hP : P g) :
    Lands (some (ok, g, z')) z b P :=
  ⟨ok, g, z', rfl, hi, hs, hp, hP⟩

theorem lands_ite {α : Type} {c : Prop} [Decidable c] {r s : Option (Bool × α × StarZone)}
    {z : StarZone} {b : Nat} {P : α → Prop} (hr : c → Lands r z b P) (hs : ¬ c → Lands s z b P) :
    Lands (if c then r else s) z b P := by
  split_ifs with h
  · exact hr h
  · exact hs h

/-- The function `readSCHUObject` runs to its end over a good group reader. -/
theorem readSCHUObject_lands {grp : GroupReader} {L b : Nat} (hg : GoodGroup grp L b)
    (z : StarZone) (identifier : Int) (hL : z.input.length = L) (hb : b ≤ z.pos) :
    ∃ o z', readSCHUObject grp z identifier = some (o, z') ∧ z'.input = z.input ∧
      z'.stack = z.stack ∧ z.pos ≤ z'.pos := by
  unfold readSCHUObject
  split_ifs with h1
  · obtain ⟨ok, g, z1, heq, hi, hs, hp, -⟩ := hg z (SdrGraphicGroup.new 1) hL hb
    rw [heq]
    cases ok
    · exact ⟨_, _, rfl, (readSCHUData_input _ _).trans hi, (readSCHUData_stack _ _).trans hs,
        Nat.le_trans hp (readSCHUData_pos _ _)⟩
    · exact ⟨_, _, rfl, hi, hs, hp⟩
  · exact ⟨_, _, rfl, readSCHUData_input _ _, readSCHUData_stack _ _, readSCHUData_pos _ _⟩

/-- The cursor after `finishUserData` is at `b` or later when the cursor before
it and the end of the record are. -/
theorem finishUserData_pos {b : Nat} (inRecord : Bool) (lastPos : Nat) (z : StarZone)
    (hz : b ≤ z.pos) (hl : b ≤ lastPos)
    (hr : inRecord = true → ∃ s rest, z.stack = s :: rest ∧ b ≤ s.endPos) :
    b ≤ (finishUserData inRecord lastPos z).pos := by
  unfold finishUserData
  cases inRecord
  · simp only [Bool.false_eq_true, if_false]
    split_ifs <;> simp [*]
  · obtain ⟨s, rest, hs, he⟩ := hr rfl
    simp only [if_true]
    split_ifs <;> simp [hs, he]

@[simp] theorem finishUserData_input (inRecord : Bool) (lastPos : Nat) (z : StarZone) :
    (finishUserData inRecord lastPos z).input = z.input := by
  unfold finishUserData
  cases inRecord <;> simp [apply_ite StarZone.input]

theorem finishUserData_stack (inRecord : Bool) (lastPos : Nat) (z : StarZone) :
    (finishUserData inRecord lastPos z).stack = if inRecord then z.stack.tail else z.stack := by
  unfold finishUserData
  cases inRecord <;> simp [apply_ite StarZone.stack]
theorem StarZone.getRecordLastPosition_congr {z z' : StarZone} (hi : z'.input = z.input)
    (hs : z'.stack = z.stack) : z'.getRecordLastPosition = z.getRecordLastPosition := by
  unfold StarZone.getRecordLastPosition; rw [hi, hs]

theorem StarZone.getRecordLastPosition_cons {z : StarZone} {s : Scope} {rest : List Scope}
    (h : z.stack = s :: rest) : z.getRecordLastPosition = s.endPos := by
  unfold StarZone.getRecordLastPosition; rw [h]

/-- A pair whose zone is framed is a result that ran to its end. -/
theorem landsPair {β : Type} {r : β × StarZone} {z : StarZone} {b : Nat}
    (hi : r.2.input = z.input) (hs : r.2.stack = z.stack) (hp : b ≤ r.2.pos) :
    ∃ o z', some r = some (o, z') ∧ z'.input = z.input ∧ z'.stack = z.stack ∧ b ≤ z'.pos :=
  ⟨r.1, r.2, rfl, hi, hs, hp⟩

/-- The zone after `afterUserObject` holds the same bytes. -/
@[simp] theorem afterUserObject_input (inRecord failed : Bool) (lastPos : Nat) (z : StarZone) :
    (afterUserObject inRecord failed lastPos z).2.input = z.input := by
  unfold afterUserObject
  cases inRecord <;> cases failed <;> simp

theorem afterUserObject_stack (inRecord failed : Bool) (lastPos : Nat) (z : StarZone) :
    (afterUserObject inRecord failed lastPos z).2.stack
      = if inRecord then z.stack.tail else z.stack := by
  unfold afterUserObject
  cases inRecord <;> cases failed <;> simp [finishUserData_stack]

theorem afterUserObject_pos {b : Nat} (inRecord failed : Bool) (lastPos : Nat) (z : StarZone)
    (hz : b ≤ z.pos) (hl : b ≤ lastPos)
    (hr : inRecord = true → ∃ s rest, z.stack = s :: rest ∧ b ≤ s.endPos) :
    b ≤ (afterUserObject inRecord failed lastPos z).2.pos := by
  unfold afterUserObject
  cases inRecord <;> cases failed <;> simp only [Bool.false_eq_true, if_false, if_true,
    Bool.not_false, Bool.not_true]
  · exact finishUserData_pos _ _ _ hz hz hr
  · exact hz
  · exact finishUserData_pos _ _ _ hz hl hr
  · exact finishUserData_pos _ _ _ hz hl hr

/-- The function `readSDRUserData` runs to its end over a good group reader. -/
theorem readSDRUserData_lands (env : Env) {grp : GroupReader} {L b : Nat}
    (hg : GoodGroup grp L b) (z : StarZone) (inRecord : Bool) (hL : z.input.length = L)
    (hb : b ≤ z.pos) (hl : b ≤ z.getRecordLastPosition) :
    ∃ ok z', readSDRUserData env grp z inRecord = some (ok, z') ∧ z'.input = z.input ∧
      z'.stack = z.stack ∧ b ≤ z'.pos := by
  -- the zone once the record is open, with the scope that `finishUserData` closes
  have key : ∀ z1 : StarZone, z1.input = z.input → b ≤ z1.pos →
      b ≤ z1.getRecordLastPosition →
      (if inRecord then z1.stack.tail else z1.stack) = z.stack →
      (inRecord = true → ∃ s rest, z1.stack = s :: rest ∧ b ≤ s.endPos) →
      ∃ ok z', (if z1.tell + 6 > z1.getRecordLastPosition then
          some (true, finishUserData inRecord z1.getRecordLastPosition z1)
        else if z1.readMagic.1 = magicSCHU then
          match readSCHUObject grp (z1.readMagic.2.readULong 2).2 (z1.readMagic.2.readULong 2).1 with
          | none => none
          | some (obj, z) => some (afterUserObject inRecord obj.isNone z1.getRecordLastPosition z)
        else if z1.readMagic.1 = magicSDUD then
          some (afterUserObject inRecord
            (readSDUDObject env (z1.readMagic.2.readULong 2).2 (z1.readMagic.2.readULong 2).1).1.isNone
            z1.getRecordLastPosition
            (readSDUDObject env (z1.readMagic.2.readULong 2).2 (z1.readMagic.2.readULong 2).1).2)
        else if !inRecord then some (false, (z1.readMagic.2.readULong 2).2)
        else some (true, finishUserData inRecord z1.getRecordLastPosition
          (z1.readMagic.2.readULong 2).2)) = some (ok, z') ∧ z'.input = z.input ∧
        z'.stack = z.stack ∧ b ≤ z'.pos := by
    intro z1 hi1 hb1 hl1 hs1 hr1
    have hread : b ≤ (z1.readMagic.2.readULong 2).2.pos := by simp; omega
    split_ifs with h1 h2 h3 h4
    · refine landsPair (by simp [hi1]) ?_ (finishUserData_pos _ _ _ hb1 hl1 hr1)
      simp only [finishUserData_stack]; exact hs1
    · obtain ⟨o, z2, heq, hi2, hs2, hp2⟩ := readSCHUObject_lands hg (z1.readMagic.2.readULong 2).2
        (z1.readMagic.2.readULong 2).1 (by simpa [hi1] using hL) hread
      rw [heq]
      refine landsPair ?_ ?_ ?_
      · simp only [afterUserObject_input, hi2]; simp [hi1]
      · rw [afterUserObject_stack, hs2]; simpa using hs1
      · refine afterUserObject_pos _ _ _ _ (Nat.le_trans hread hp2) hl1 ?_
        intro h; rw [hs2]; simpa using hr1 h
    · refine landsPair ?_ ?_ ?_
      · simp [hi1]
      · rw [afterUserObject_stack]; simpa using hs1
      · refine afterUserObject_pos _ _ _ _ (Nat.le_trans hread (readSDUDObject_pos _ _ _)) hl1 ?_
        intro h; simpa using hr1 h
    · refine landsPair (by simp [hi1]) ?_ hread
      have : inRecord = false := by simpa using h4
      subst this; simpa using hs1
    · refine landsPair (by simp [hi1]) ?_ ?_
      · simp only [finishUserData_stack]; simpa using hs1
      · refine finishUserData_pos _ _ _ hread hl1 ?_
        intro h; simpa using hr1 h
  unfold readSDRUserData
  cases inRecord
  · simpa using key z rfl hb hl rfl (by simp)
  · simp only [if_true, StarZone.tell_eq]
    by_cases ho : z.openRecord.1 = true
    · obtain ⟨s, hs, hp, hle, -⟩ := StarZone.openRecord_true ho
      have hend : z.openRecord.2.getRecordLastPosition = s.endPos :=
        StarZone.getRecordLastPosition_cons hs
      simpa [ho] using key z.openRecord.2 (by simp) (by omega) (by omega) (by simp [hs])
        (fun _ => ⟨s, _, hs, by omega⟩)
    · have ho' : z.openRecord.1 = false := by simpa using ho
      simp only [ho', Bool.not_false, if_true]
      exact landsPair (by simp) (by simpa using StarZone.openRecord_stack_false ho')
        (by simpa using hb)
/-- The loop of `readSDRUserDataList` runs to its end over a good group reader. -/
theorem readSDRUserDatas_lands (env : Env) {grp : GroupReader} {L b : Nat}
    (hg : GoodGroup grp L b) (inRecord : Bool) :
    ∀ (n : Nat) (z : StarZone), z.input.length = L → b ≤ z.pos → b ≤ z.getRecordLastPosition →
      ∃ z', readSDRUserDatas env grp inRecord n z = some z' ∧ z'.input = z.input ∧
        z'.stack = z.stack ∧ b ≤ z'.pos
  | 0, z, _, hb, _ => ⟨z, rfl, rfl, rfl, hb⟩
  | n + 1, z, hL, hb, hl => by
    obtain ⟨ok, z1, heq, hi, hs, hp⟩ := readSDRUserData_lands env hg z inRecord hL hb hl
    rw [readSDRUserDatas, heq]
    simp only []
    have hi2 : (if (!ok) = true then z1.seek z.tell else z1).input = z.input := by
      split_ifs <;> simp [hi]
    have hs2 : (if (!ok) = true then z1.seek z.tell else z1).stack = z.stack := by
      split_ifs <;> simp [hs]
    have hp2 : b ≤ (if (!ok) = true then z1.seek z.tell else z1).pos := by
      split_ifs <;> simp [hp, hb]
    obtain ⟨z', heq', hi', hs', hp'⟩ := readSDRUserDatas_lands env hg inRecord n _
      (by rw [hi2]; exact hL) hp2
      (by rw [StarZone.getRecordLastPosition_congr hi2 hs2]; exact hl)
    exact ⟨z', heq', hi'.trans hi2, hs'.trans hs2, hp'⟩

/-- The function `readSDRUserDataList` runs to its end over a good group reader. -/
theorem readSDRUserDataList_lands (env : Env) {grp : GroupReader} {L b : Nat}
    (hg : GoodGroup grp L b) (z : StarZone) (inRecord : Bool) (hL : z.input.length = L)
    (hb : b ≤ z.pos) (hl : b ≤ z.getRecordLastPosition) :
    ∃ ok z', readSDRUserDataList env grp z inRecord = some (ok, z') ∧ z'.input = z.input ∧
      z'.stack = z.stack ∧ b ≤ z'.pos := by
  unfold readSDRUserDataList
  cases inRecord
  · simp only [Bool.false_eq_true, if_false, Bool.not_true]
    obtain ⟨z', heq, hi, hs, hp⟩ := readSDRUserDatas_lands env hg false (z.readULong 2).1
      (z.readULong 2).2 (by simpa using hL) (by simp; omega)
      (by rw [StarZone.getRecordLastPosition_congr (z := z) (by simp) (by simp)]; exact hl)
    rw [heq]
    exact ⟨_, _, rfl, by simpa using hi, by simpa using hs, hp⟩
  · simp only [if_true]
    by_cases ho : z.openRecord.1 = true
    · obtain ⟨s, hs, hp, hle, -⟩ := StarZone.openRecord_true ho
      simp only [ho, Bool.not_true, Bool.false_eq_true, if_false]
      obtain ⟨z', heq, hi', hs', hp'⟩ := readSDRUserDatas_lands env hg true
        (z.openRecord.2.readULong 2).1 (z.openRecord.2.readULong 2).2 (by simpa using hL)
        (by simp; omega)
        (by rw [StarZone.getRecordLastPosition_cons (s := s) (by simpa using hs)]; omega)
      rw [heq]
      refine ⟨_, _, rfl, ?_, ?_, ?_⟩
      · simpa using hi'
      · simp only [StarZone.closeRecord_stack, hs']; simp [hs]
      · simp only [StarZone.closeRecord_pos, hs']; simp [hs]; omega
    · have ho' : z.openRecord.1 = false := by simpa using ho
      simp only [ho', Bool.not_false, if_true]
      exact landsPair (by simp) (by simpa using StarZone.openRecord_stack_false ho')
        (by simpa using hb)

/-- The function `readSVDRObjectHeader` runs to its end when the group reader is
good after the cursor: it keeps the bytes, the open records and the identifier. -/
theorem readSVDRObjectHeader_lands (env : Env) {grp : GroupReader} {L : Nat} (z : StarZone)
    (g : SdrGraphic) (hL : z.input.length = L) (hg : z.pos < L → GoodGroup grp L (z.pos + 1)) :
    Lands (readSVDRObjectHeader env grp z g) z z.pos (fun g' => g'.m_identifier = g.m_identifier) := by
  unfold readSVDRObjectHeader
  by_cases ho : z.openRecord.1 = true
  · obtain ⟨s, hs, hp, hle, hlen, -⟩ := StarZone.openRecord_true ho
    have hclose : ∀ z1 : StarZone, z1.input = z.input → z1.stack = s :: z.stack →
        z1.closeRecord.input = z.input ∧ z1.closeRecord.stack = z.stack ∧
          z.pos ≤ z1.closeRecord.pos := by
      intro z1 h1 h2
      refine ⟨by simpa using h1, by simp [h2], ?_⟩
      simp [h2]; omega
    simp only [ho, Bool.not_true, Bool.false_eq_true, if_false]
    refine lands_ite (fun _ => ?_) (fun _ => lands_ite (fun _ => ?_) (fun _ => ?_))
    · obtain ⟨h1, h2, h3⟩ := hclose (readHeaderFields z.openRecord.2 g).2.2 (by simp) (by simp [hs])
      exact lands_some h1 h2 h3 (by simp)
    · obtain ⟨h1, h2, h3⟩ := hclose ((readHeaderFields z.openRecord.2 g).2.2.readBoolIf
        (decide (z.openRecord.2.getHeaderVersion ≥ 11)) true).2 (by simp) (by simp [hs])
      exact lands_some h1 h2 h3 (by simp)
    · have hpos : z.pos + 1 ≤ ((readHeaderFields z.openRecord.2 g).2.2.readBoolIf
          (decide (z.openRecord.2.getHeaderVersion ≥ 11)) true).2.pos := by
        refine Nat.le_trans ?_ (StarZone.readBoolIf_pos _ _ _)
        refine Nat.le_trans ?_ (readHeaderFields_pos _ _)
        omega
      obtain ⟨ok, z', heq, hi', hs', -⟩ := readSDRUserDataList_lands env
        (hg (by rw [← hL]; omega)) _ (decide (z.openRecord.2.getHeaderVersion ≥ 11))
        (by simpa using hL) hpos
        (by rw [StarZone.getRecordLastPosition_cons (s := s) (by simpa using hs)]; omega)
      rw [heq]
      obtain ⟨h1, h2, h3⟩ := hclose z' (by simpa using hi') (by simpa [hs] using hs')
      exact lands_some h1 h2 h3 (by simp)
  · have ho' : z.openRecord.1 = false := by simpa using ho
    simp only [ho', Bool.not_false, if_true]
    exact lands_some (by simp) (by simpa using StarZone.openRecord_stack_false ho')
      (by simp) rfl
/-- A step that ends by closing the record it opened on a zone framed like `z`. -/
theorem lands_close {α : Type} {ok : Bool} {g : α} {z zc : StarZone} {b : Nat} {P : α → Prop}
    (hi : zc.input = z.input) (hs : zc.stack.tail = z.stack)
    (hp : b ≤ (zc.stack.head?.map Scope.endPos).getD zc.pos) (hP : P g) :
    Lands (some (ok, g, zc.closeRecord)) z b P :=
  ⟨ok, g, zc.closeRecord, rfl, by simpa using hi, by simpa using hs, by simpa using hp, hP⟩

/-- The function `readSVDRObjectAttrib` runs to its end when the group reader is
good after the cursor: it keeps the bytes, the open records and the identifier. -/
theorem readSVDRObjectAttrib_lands (env : Env) {grp : GroupReader} {L : Nat} (z : StarZone)
    (g : SdrGraphicAttribute) (hL : z.input.length = L)
    (hg : z.pos < L → GoodGroup grp L (z.pos + 1)) :
    Lands (readSVDRObjectAttrib env grp z g) z z.pos
      (fun g' => g'.m_identifier = g.m_identifier) := by
  obtain ⟨okP, base, z1, heq, hi, hs, hp, hid⟩ :=
    readSVDRObjectHeader_lands env z g.toSdrGraphic hL hg
  simp only [readSVDRObjectAttrib, heq]
  refine lands_ite (fun _ => lands_some (by simp [hi]) (by simp [hs]) (by simp) hid) (fun _ => ?_)
  by_cases ho : z1.openRecord.1 = true
  · obtain ⟨s, hst, hpo, hle, -⟩ := StarZone.openRecord_true ho
    simp only [ho, Bool.not_true, Bool.false_eq_true, if_false]
    refine lands_close ?_ ?_ ?_ ?_
    · simp [apply_ite Prod.snd, apply_ite StarZone.input, hi]
    · simp [apply_ite Prod.snd, apply_ite StarZone.stack, hst, hs]
    · simp [apply_ite Prod.snd, apply_ite StarZone.stack, hst]; omega
    · simp only [apply_ite Prod.snd, apply_ite Prod.fst,
        apply_ite SdrGraphicAttribute.toSdrGraphic, apply_ite SdrGraphic.m_identifier,
        readAttribStyle_id, ite_self]
      exact hid
  · have ho' : z1.openRecord.1 = false := by simpa using ho
    simp only [ho', Bool.not_false, if_true]
    exact lands_some (by simp [hi]) (by simpa [hs] using StarZone.openRecord_stack_false ho')
      (by simpa using hp) hid
/-- The function `readSVDRObjectText` runs to its end when the group reader is
good after the cursor: it keeps the bytes, the open records and the identifier. -/
theorem readSVDRObjectText_lands (env : Env) {grp : GroupReader} {L : Nat} (z : StarZone)
    (g : SdrGraphicText) (hL : z.input.length = L)
    (hg : z.pos < L → GoodGroup grp L (z.pos + 1)) :
    Lands (readSVDRObjectText env grp z g) z z.pos
      (fun g' => g'.m_identifier = g.m_identifier) := by
  obtain ⟨okP, base, z1, heq, hi, hs, hp, hid⟩ :=
    readSVDRObjectAttrib_lands env z g.toSdrGraphicAttribute hL hg
  simp only [readSVDRObjectText, heq]
  refine lands_ite (fun _ => lands_some (by simp [hi]) (by simp [hs]) (by simpa using hp) hid)
    (fun _ => ?_)
  by_cases ho : z1.openRecord.1 = true
  · obtain ⟨s, hst, hpo, hle, -⟩ := StarZone.openRecord_true ho
    simp only [ho, Bool.not_true, Bool.false_eq_true, if_false]
    refine lands_close ?_ ?_ ?_ ?_
    · simp [apply_ite Prod.snd, apply_ite StarZone.input, hi]
    · simp [apply_ite Prod.snd, apply_ite StarZone.stack, hst, hs]
    · simp [apply_ite Prod.snd, apply_ite StarZone.stack, hst]; omega
    · simp only [apply_ite Prod.snd, apply_ite Prod.fst,
        apply_ite SdrGraphicText.toSdrGraphicAttribute,
        apply_ite SdrGraphicAttribute.toSdrGraphic, apply_ite SdrGraphic.m_identifier,
        readTextBound_id, readTextParaObject_id, readTextFixed_id, ite_self]
      exact hid
  · have ho' : z1.openRecord.1 = false := by simpa using ho
    simp only [ho', Bool.not_false, if_true]
    exact lands_some (by simp [hi]) (by simpa [hs] using StarZone.openRecord_stack_false ho')
      (by simpa using hp) hid

/-- The function `readSVDRObjectRect` runs to its end when the group reader is
good after the cursor: it keeps the bytes, the open records and the identifier. -/
theorem readSVDRObjectRect_lands (env : Env) {grp : GroupReader} {L : Nat} (z : StarZone)
    (g : SdrGraphicRect) (hL : z.input.length = L)
    (hg : z.pos < L → GoodGroup grp L (z.pos + 1)) :
    Lands (readSVDRObjectRect env grp z g) z z.pos
      (fun g' => g'.m_identifier = g.m_identifier) := by
  obtain ⟨okP, base, z1, heq, hi, hs, hp, hid⟩ :=
    readSVDRObjectText_lands env z g.toSdrGraphicText hL hg
  simp only [readSVDRObjectRect, heq]
  refine lands_ite (fun _ => lands_some (by simp [hi]) (by simp [hs]) (by simpa using hp) hid)
    (fun _ => lands_ite (fun _ => lands_some hi hs hp hid) (fun _ => ?_))
  by_cases ho : z1.openRecord.1 = true
  · obtain ⟨s, hst, hpo, hle, -⟩ := StarZone.openRecord_true ho
    simp only [ho, Bool.not_true, Bool.false_eq_true, if_false]
    refine lands_close ?_ ?_ ?_ hid
    · simp [hi]
    · simp [hst, hs]
    · simp [hst]; omega
  · have ho' : z1.openRecord.1 = false := by simpa using ho
    simp only [ho', Bool.not_false, if_true]
    exact lands_some (by simp [hi]) (by simpa [hs] using StarZone.openRecord_stack_false ho')
      (by simpa using hp) hid

/-- The function `readSVDRObjectCaption` runs to its end when the group reader is
good after the cursor: it keeps the bytes, the open records and the identifier. -/
theorem readSVDRObjectCaption_lands (env : Env) {grp : GroupReader} {L : Nat} (z : StarZone)
    (g : SdrGraphicCaption) (hL : z.input.length = L)
    (hg : z.pos < L → GoodGroup grp L (z.pos + 1)) :
    Lands (readSVDRObjectCaption env grp z g) z z.pos
      (fun g' => g'.m_identifier = g.m_identifier) := by
  obtain ⟨okP, base, z1, heq, hi, hs, hp, hid⟩ :=
    readSVDRObjectRect_lands env z g.toSdrGraphicRect hL hg
  simp only [readSVDRObjectCaption, heq]
  refine lands_ite (fun _ => lands_some (by simp [hi]) (by simp [hs]) (by simpa using hp) hid)
    (fun _ => ?_)
  by_cases ho : z1.openRecord.1 = true
  · obtain ⟨s, hst, hpo, hle, -⟩ := StarZone.openRecord_true ho
    simp only [ho, Bool.not_true, Bool.false_eq_true, if_false]
    refine lands_close ?_ ?_ ?_ hid
    · simp [hi]
    · simp [hst, hs]
    · simp [hst]; omega
  · have ho' : z1.openRecord.1 = false := by simpa using ho
    simp only [ho', Bool.not_false, if_true]
    exact lands_some (by simp [hi]) (by simpa [hs] using StarZone.openRecord_stack_false ho')
      (by simpa using hp) hid

/-- The function `readSVDRObjectCircle` runs to its end when the group reader is
good after the cursor: it keeps the bytes, the open records and the identifier. -/
theorem readSVDRObjectCircle_lands (env : Env) {grp : GroupReader} {L : Nat} (z : StarZone)
    (g : SdrGraphicCircle) (hL : z.input.length = L)
    (hg : z.pos < L → GoodGroup grp L (z.pos + 1)) :
    Lands (readSVDRObjectCircle env grp z g) z z.pos
      (fun g' => g'.m_identifier = g.m_identifier) := by
  obtain ⟨okP, base, z1, heq, hi, hs, hp, hid⟩ :=
    readSVDRObjectRect_lands env z g.toSdrGraphicRect hL hg
  simp only [readSVDRObjectCircle, heq]
  refine lands_ite (fun _ => lands_some (by simp [hi]) (by simp [hs]) (by simpa using hp) hid)
    (fun _ => ?_)
  by_cases ho : z1.openRecord.1 = true
  · obtain ⟨s, hst, hpo, hle, -⟩ := StarZone.openRecord_true ho
    simp only [ho, Bool.not_true, Bool.false_eq_true, if_false]
    refine lands_close ?_ ?_ ?_ hid
    · simp [hi]
    · simp [hst, hs]
    · simp [hst]; omega
  · have ho' : z1.openRecord.1 = false := by simpa using ho
    simp only [ho', Bool.not_false, if_true]
    exact lands_some (by simp [hi]) (by simpa [hs] using StarZone.openRecord_stack_false ho')
      (by simpa using hp) hid

/-- The function `readSVDRObjectMeasure` runs to its end when the group reader is
good after the cursor: it keeps the bytes, the open records and the identifier. -/
theorem readSVDRObjectMeasure_lands (env : Env) {grp : GroupReader} {L : Nat} (z : StarZone)
    (g : SdrGraphicMeasure) (hL : z.input.length = L)
    (hg : z.pos < L → GoodGroup grp L (z.pos + 1)) :
    Lands (readSVDRObjectMeasure env grp z g) z z.pos
      (fun g' => g'.m_identifier = g.m_identifier) := by
  obtain ⟨okP, base, z1, heq, hi, hs, hp, hid⟩ :=
    readSVDRObjectText_lands env z g.toSdrGraphicText hL hg
  simp only [readSVDRObjectMeasure, heq]
  refine lands_ite (fun _ => lands_some (by simp [hi]) (by simp [hs]) (by simpa using hp) hid)
    (fun _ => ?_)
  by_cases ho : z1.openRecord.1 = true
  · obtain ⟨s, hst, hpo, hle, -⟩ := StarZone.openRecord_true ho
    simp only [ho, Bool.not_true, Bool.false_eq_true, if_false]
    refine lands_close ?_ ?_ ?_ hid
    · simp [hi]
    · simp [hst, hs]
    · simp [hst]; omega
  · have ho' : z1.openRecord.1 = false := by simpa using ho
    simp only [ho', Bool.not_false, if_true]
    exact lands_some (by simp [hi]) (by simpa [hs] using StarZone.openRecord_stack_false ho')
      (by simpa using hp) hid

/-- The case 28 of `readSVDRObject` runs to its end when the group reader is
good after the cursor: it keeps the bytes, the open records and the identifier. -/
theorem readSVDRObjectPage_lands (env : Env) {grp : GroupReader} {L : Nat} (z : StarZone)
    (g : SdrGraphicPage) (hL : z.input.length = L)
    (hg : z.pos < L → GoodGroup grp L (z.pos + 1)) :
    Lands (readSVDRObjectPage env grp z g) z z.pos
      (fun g' => g'.m_identifier = g.m_identifier) := by
  obtain ⟨okP, base, z1, heq, hi, hs, hp, hid⟩ :=
    readSVDRObjectHeader_lands env z g.toSdrGraphic hL hg
  simp only [readSVDRObjectPage, heq]
  refine lands_ite (fun _ => lands_some (by simp [hi]) (by simp [hs]) (by simpa using hp) hid)
    (fun _ => ?_)
  by_cases ho : z1.openRecord.1 = true
  · obtain ⟨s, hst, hpo, hle, -⟩ := StarZone.openRecord_true ho
    simp only [ho, Bool.not_true, Bool.false_eq_true, if_false]
    refine lands_close ?_ ?_ ?_ hid
    · simp [hi]
    · simp [hst, hs]
    · simp [hst]; omega
  · have ho' : z1.openRecord.1 = false := by simpa using ho
    simp only [ho', Bool.not_false, if_true]
    exact lands_some (by simp [hi]) (by simpa [hs] using StarZone.openRecord_stack_false ho')
      (by simpa using hp) hid
/-- The function `readSVDRObjectEdge` runs to its end when the group reader is
good after the cursor: it keeps the bytes, the open records and the identifier. -/
theorem readSVDRObjectEdge_lands (env : Env) {grp : GroupReader} {L : Nat} (z : StarZone)
    (g : SdrGraphicEdge) (hL : z.input.length = L)
    (hg : z.pos < L → GoodGroup grp L (z.pos + 1)) :
    Lands (readSVDRObjectEdge env grp z g) z z.pos
      (fun g' => g'.m_identifier = g.m_identifier) := by
  obtain ⟨okP, base, z1, heq, hi, hs, hp, hid⟩ :=
    readSVDRObjectText_lands env z g.toSdrGraphicText hL hg
  simp only [readSVDRObjectEdge, heq]
  refine lands_ite (fun _ => lands_some (by simp [hi]) (by simp [hs]) (by simpa using hp) hid)
    (fun _ => ?_)
  by_cases ho : z1.openRecord.1 = true
  · obtain ⟨s, hst, hpo, hle, -⟩ := StarZone.openRecord_true ho
    simp only [ho, Bool.not_true, Bool.false_eq_true, if_false]
    refine lands_close ?_ ?_ ?_ ?_
    · simp [apply_ite Prod.snd, apply_ite StarZone.input, hi]
    · simp [apply_ite Prod.snd, apply_ite StarZone.stack, hst, hs]
    · simp [apply_ite Prod.snd, apply_ite StarZone.stack, hst]; omega
    · simp only [apply_ite Prod.snd, apply_ite Prod.fst,
        apply_ite SdrGraphicEdge.toSdrGraphicText,
        apply_ite SdrGraphicText.toSdrGraphicAttribute,
        apply_ite SdrGraphicAttribute.toSdrGraphic, apply_ite SdrGraphic.m_identifier,
        readEdgeInfo_id, readEdgeTrack_id, ite_self]
      exact hid
  · have ho' : z1.openRecord.1 = false := by simpa using ho
    simp only [ho', Bool.not_false, if_true]
    exact lands_some (by simp [hi]) (by simpa [hs] using StarZone.openRecord_stack_false ho')
      (by simpa using hp) hid

/-- The function `readSVDRObjectGraph` runs to its end when the group reader is
good after the cursor: it keeps the bytes, the open records and the identifier. -/
theorem readSVDRObjectGraph_lands (env : Env) {grp : GroupReader} {L : Nat} (z : StarZone)
    (g : SdrGraphicGraph) (hL : z.input.length = L)
    (hg : z.pos < L → GoodGroup grp L (z.pos + 1)) :
    Lands (readSVDRObjectGraph env grp z g) z z.pos
      (fun g' => g'.m_identifier = g.m_identifier) := by
  obtain ⟨okP, base, z1, heq, hi, hs, hp, hid⟩ :=
    readSVDRObjectRect_lands env z g.toSdrGraphicRect hL hg
  simp only [readSVDRObjectGraph, heq]
  refine lands_ite (fun _ => lands_some (by simp [hi]) (by simp [hs]) (by simpa using hp) hid)
    (fun _ => ?_)
  by_cases ho : z1.openRecord.1 = true
  · obtain ⟨s, hst, hpo, hle, -⟩ := StarZone.openRecord_true ho
    simp only [ho, Bool.not_true, Bool.false_eq_true, if_false]
    refine lands_close ?_ ?_ ?_ ?_
    · simp [apply_ite Prod.snd, apply_ite StarZone.input, hi]
    · simp [apply_ite Prod.snd, apply_ite StarZone.stack, hst, hs]
    · simp [apply_ite Prod.snd, apply_ite StarZone.stack, hst]; omega
    · simp only [apply_ite Prod.snd, apply_ite Prod.fst,
        apply_ite SdrGraphicGraph.toSdrGraphicRect, apply_ite SdrGraphicRect.toSdrGraphicText,
        apply_ite SdrGraphicText.toSdrGraphicAttribute,
        apply_ite SdrGraphicAttribute.toSdrGraphic, apply_ite SdrGraphic.m_identifier,
        readGraphV10_id, readGraphV11_id, ite_self]
      exact hid
  · have ho' : z1.openRecord.1 = false := by simpa using ho
    simp only [ho', Bool.not_false, if_true]
    exact lands_some (by simp [hi]) (by simpa [hs] using StarZone.openRecord_stack_false ho')
      (by simpa using hp) hid

/-- The function `readSVDRObjectOLE` runs to its end when the group reader is
good after the cursor: it keeps the bytes, the open records and the identifier. -/
theorem readSVDRObjectOLE_lands (env : Env) {grp : GroupReader} {L : Nat} (z : StarZone)
    (g : SdrGraphicOLE) (hL : z.input.length = L)
    (hg : z.pos < L → GoodGroup grp L (z.pos + 1)) :
    Lands (readSVDRObjectOLE env grp z g) z z.pos
      (fun g' => g'.m_identifier = g.m_identifier) := by
  obtain ⟨okP, base, z1, heq, hi, hs, hp, hid⟩ :=
    readSVDRObjectRect_lands env z g.toSdrGraphicRect hL hg
  simp only [readSVDRObjectOLE, heq]
  refine lands_ite (fun _ => lands_some (by simp [hi]) (by simp [hs]) (by simpa using hp) hid)
    (fun _ => ?_)
  by_cases ho : z1.openRecord.1 = true
  · obtain ⟨s, hst, hpo, hle, -⟩ := StarZone.openRecord_true ho
    simp only [ho, Bool.not_true, Bool.false_eq_true, if_false]
    refine lands_close ?_ ?_ ?_ ?_
    · simp [apply_ite Prod.snd, apply_ite StarZone.input, hi]
    · simp [apply_ite Prod.snd, apply_ite StarZone.stack, hst, hs]
    · simp [apply_ite Prod.snd, apply_ite StarZone.stack, hst]; omega
    · simp only [apply_ite Prod.snd, apply_ite Prod.fst,
        apply_ite SdrGraphicOLE.toSdrGraphicRect, apply_ite SdrGraphicRect.toSdrGraphicText,
        apply_ite SdrGraphicText.toSdrGraphicAttribute,
        apply_ite SdrGraphicAttribute.toSdrGraphic, apply_ite SdrGraphic.m_identifier,
        readOLEGraphic_id, readOLENames_id, ite_self]
      exact hid
  · have ho' : z1.openRecord.1 = false := by simpa using ho
    simp only [ho', Bool.not_false, if_true]
    exact lands_some (by simp [hi]) (by simpa [hs] using StarZone.openRecord_stack_false ho')
      (by simpa using hp) hid

/-- The function `readSVDRObjectPath` runs to its end when the group reader is
good after the cursor: it keeps the bytes, the open records and the identifier. -/
theorem readSVDRObjectPath_lands (env : Env) {grp : GroupReader} {L : Nat} (z : StarZone)
    (g : SdrGraphicPath) (hL : z.input.length = L)
    (hg : z.pos < L → GoodGroup grp L (z.pos + 1)) :
    Lands (readSVDRObjectPath env grp z g) z z.pos
      (fun g' => g'.m_identifier = g.m_identifier) := by
  obtain ⟨okP, base, z1, heq, hi, hs, hp, hid⟩ :=
    readSVDRObjectText_lands env z g.toSdrGraphicText hL hg
  simp only [readSVDRObjectPath, heq]
  refine lands_ite (fun _ => lands_some (by simp [hi]) (by simp [hs]) (by simpa using hp) hid)
    (fun _ => ?_)
  by_cases ho : z1.openRecord.1 = true
  · obtain ⟨s, hst, hpo, hle, -⟩ := StarZone.openRecord_true ho
    simp only [ho, Bool.not_true, Bool.false_eq_true, if_false]
    refine lands_close ?_ ?_ ?_ ?_
    · simp [apply_ite Prod.snd, apply_ite StarZone.input, hi]
    · simp [apply_ite Prod.snd, apply_ite StarZone.stack, hst, hs]
    · simp [apply_ite Prod.snd, apply_ite StarZone.stack, hst]; omega
    · simp only [apply_ite Prod.snd, apply_ite Prod.fst,
        apply_ite SdrGraphicPath.toSdrGraphicText,
        apply_ite SdrGraphicText.toSdrGraphicAttribute,
        apply_ite SdrGraphicAttribute.toSdrGraphic, apply_ite SdrGraphic.m_identifier,
        readPathLegacy_id, readPathFlagged_id, ite_self]
      exact hid
  · have ho' : z1.openRecord.1 = false := by simpa using ho
    simp only [ho', Bool.not_false, if_true]
    exact lands_some (by simp [hi]) (by simpa [hs] using StarZone.openRecord_stack_false ho')
      (by simpa using hp) hid

/-- The case 32 of `readSVDRObject` runs to its end when the group reader is
good after the cursor: it keeps the bytes, the open records and the identifier. -/
theorem readSVDRObjectUno_lands (env : Env) {grp : GroupReader} {L : Nat} (z : StarZone)
    (g : SdrGraphicUno) (hL : z.input.length = L)
    (hg : z.pos < L → GoodGroup grp L (z.pos + 1)) :
    Lands (readSVDRObjectUno env grp z g) z z.pos
      (fun g' => g'.m_identifier = g.m_identifier) := by
  obtain ⟨okP, base, z1, heq, hi, hs, hp, hid⟩ :=
    readSVDRObjectRect_lands env z g.toSdrGraphicRect hL hg
  simp only [readSVDRObjectUno, heq]
  by_cases ho : z1.openRecord.1 = true
  · obtain ⟨s, hst, hpo, hle, -⟩ := StarZone.openRecord_true ho
    simp only [ho, Bool.not_true, Bool.false_eq_true, if_false]
    refine lands_close ?_ ?_ ?_ ?_
    · simp [hi]
    · simp [hst, hs]
    · simp [hst]; omega
    · simp only [apply_ite SdrGraphicUno.toSdrGraphicRect,
        apply_ite SdrGraphicRect.toSdrGraphicText,
        apply_ite SdrGraphicText.toSdrGraphicAttribute,
        apply_ite SdrGraphicAttribute.toSdrGraphic, apply_ite SdrGraphic.m_identifier, ite_self]
      exact hid
  · have ho' : z1.openRecord.1 = false := by simpa using ho
    simp only [ho', Bool.not_false, if_true]
    exact lands_some (by simp [hi]) (by simpa [hs] using StarZone.openRecord_stack_false ho')
      (by simpa using hp) hid

/-- The function `readFmFormObject` runs to its end when the group reader is good
after the cursor: it keeps the bytes and the open records. -/
theorem readFmFormObject_lands (env : Env) {grp : GroupReader} {L : Nat} (z : StarZone)
    (identifier : Int) (hL : z.input.length = L)
    (hg : z.pos < L → GoodGroup grp L (z.pos + 1)) :
    ∃ o z', readFmFormObject env grp z identifier = some (o, z') ∧ z'.input = z.input ∧
      z'.stack = z.stack := by
  unfold readFmFormObject
  split_ifs with h33
  · exact ⟨_, _, rfl, rfl, rfl⟩
  · obtain ⟨okP, base, z1, heq, hi, hs, hp, hid⟩ :=
      readSVDRObjectRect_lands env z SdrGraphicUno.new.toSdrGraphicRect hL hg
    rw [heq]
    simp only []
    by_cases hok : okP = true
    · by_cases ho : z1.openRecord.1 = true
      · obtain ⟨s, hst, hpo, hle, -⟩ := StarZone.openRecord_true ho
        simp only [hok, ho, Bool.not_true, Bool.false_eq_true, if_false]
        exact ⟨_, _, rfl, by simp [hi], by simp [hst, hs]⟩
      · have ho' : z1.openRecord.1 = false := by simpa using ho
        simp only [hok, ho', Bool.not_false, Bool.not_true, Bool.false_eq_true, if_false, if_true]
        exact ⟨_, _, rfl, by simp [hi], by simpa [hs] using StarZone.openRecord_stack_false ho'⟩
    · have hok' : okP = false := by simpa using hok
      simp only [hok', Bool.not_false, if_true]
      exact ⟨_, _, rfl, hi, hs⟩
/-- A step that ran to its end still did after its graphic is wrapped. -/
theorem lands_map {α β : Type} {r : Option (Bool × α × StarZone)} {z : StarZone} {b : Nat}
    {P : α → Prop} {Q : β → Prop} (f : α → β) (h : Lands r z b P) (hPQ : ∀ g, P g → Q (f g)) :
    Lands (r.map fun r => (r.1, f r.2.1, r.2.2)) z b Q := by
  obtain ⟨ok, g, z', heq, hi, hs, hp, hP⟩ := h
  exact ⟨ok, f g, z', by rw [heq]; rfl, hi, hs, hp, hPQ g hP⟩

/-- The switch of `readSVDRObject` runs to its end over a good group reader, and
the graphic it yields carries the identifier. -/
theorem readSVDRLeaf_lands (env : Env) {grp : GroupReader} {L b : Nat}
    (hg : GoodGroup grp L b) (z : StarZone) (identifier : Int) (hL : z.input.length = L)
    (hb : b ≤ z.pos) :
    Lands (readSVDRLeaf env grp z identifier) z z.pos
      (fun g => g.m_identifier = identifier) := by
  have hg' : z.pos < L → GoodGroup grp L (z.pos + 1) := fun _ => hg.mono (by omega)
  unfold readSVDRLeaf
  refine lands_ite (fun h => ?_) (fun _ => lands_ite (fun _ => ?_) (fun _ => lands_ite
    (fun _ => ?_) (fun _ => lands_ite (fun _ => ?_) (fun _ => lands_ite (fun h => ?_)
    (fun _ => lands_ite (fun h => ?_) (fun _ => lands_ite (fun _ => ?_) (fun _ => lands_ite
    (fun h => ?_) (fun _ => lands_ite (fun h => ?_) (fun _ => lands_ite (fun h => ?_)
    (fun _ => lands_ite (fun h => ?_) (fun _ => ?_)))))))))))
  · exact lands_map Graphic.group (hg z _ hL hb) (fun g hP => hP)
  · exact lands_map Graphic.path (readSVDRObjectPath_lands env z _ hL hg') (fun g hP => hP)
  · exact lands_map Graphic.circle (readSVDRObjectCircle_lands env z _ hL hg') (fun g hP => hP)
  · exact lands_map Graphic.rect (readSVDRObjectRect_lands env z _ hL hg') (fun g hP => hP)
  · exact lands_map Graphic.edge (readSVDRObjectEdge_lands env z _ hL hg')
      (fun g hP => hP.trans h.symm)
  · exact lands_map Graphic.graph (readSVDRObjectGraph_lands env z _ hL hg')
      (fun g hP => hP.trans h.symm)
  · exact lands_map Graphic.ole (readSVDRObjectOLE_lands env z _ hL hg') (fun g hP => hP)
  · exact lands_map Graphic.caption (readSVDRObjectCaption_lands env z _ hL hg')
      (fun g hP => hP.trans h.symm)
  · exact lands_map Graphic.page (readSVDRObjectPage_lands env z _ hL hg')
      (fun g hP => hP.trans h.symm)
  · exact lands_map Graphic.measure (readSVDRObjectMeasure_lands env z _ hL hg')
      (fun g hP => hP.trans h.symm)
  · exact lands_map Graphic.uno (readSVDRObjectUno_lands env z _ hL hg')
      (fun g hP => hP.trans h.symm)
  · exact lands_map Graphic.sdrGraphic (readSVDRObjectHeader_lands env z _ hL hg')
      (fun g hP => hP)

/-- The loop that skips the unknown records stops: with `k+1` units of fuel it
yields a zone as soon as the bytes after the cursor are not more than `k`. -/
theorem skipUnknownRecords_lands (endPos : Nat) :
    ∀ (k : Nat) (z : StarZone), z.input.length ≤ z.pos + k →
      ∃ z', skipUnknownRecords endPos (k + 1) z = some z' ∧ z'.input = z.input ∧
        z'.stack = z.stack ∧ z.pos ≤ z'.pos := by
  intro k
  induction k with
  | zero =>
    intro z hk
    rw [skipUnknownRecords]
    split_ifs with h1
    · by_cases ho : z.openRecord.1 = true
      · obtain ⟨s, -, -, hle, hlen, -⟩ := StarZone.openRecord_true ho
        omega
      · have ho' : z.openRecord.1 = false := by simpa using ho
        simp only [ho', Bool.not_false, if_true]
        exact ⟨_, rfl, by simp, StarZone.openRecord_stack_false ho',
          by rw [StarZone.openRecord_false ho']⟩
    · exact ⟨z, rfl, rfl, rfl, Nat.le_refl _⟩
  | succ k ih =>
    intro z hk
    rw [skipUnknownRecords]
    split_ifs with h1
    · by_cases ho : z.openRecord.1 = true
      · obtain ⟨s, hst, hpo, hle, hlen, -⟩ := StarZone.openRecord_true ho
        simp only [ho, Bool.not_true, Bool.false_eq_true, if_false]
        have hpos : ((z.openRecord.2.seek z.openRecord.2.getRecordLastPosition).closeRecord).pos
            = s.endPos := by simp [hst]
        obtain ⟨z', heq, hi, hs, hp⟩ := ih
          ((z.openRecord.2.seek z.openRecord.2.getRecordLastPosition).closeRecord)
          (by rw [hpos]; simp; omega)
        refine ⟨z', heq, by simpa using hi, by simpa [hst] using hs, ?_⟩
        rw [hpos] at hp; omega
      · have ho' : z.openRecord.1 = false := by simpa using ho
        simp only [ho', Bool.not_false, if_true]
        exact ⟨_, rfl, by simp, StarZone.openRecord_stack_false ho',
          by rw [StarZone.openRecord_false ho']⟩
    · exact ⟨z, rfl, rfl, rfl, Nat.le_refl _⟩

/-- The function `readSVDRObject` runs to its end over a good group reader, with
fuel for the bytes after the cursor; it always yields a graphic, which carries the
identifier it was called with. -/
theorem readSVDRObject_lands (env : Env) {grp : GroupReader} {L b : Nat}
    (hg : GoodGroup grp L b) (fuel : Nat) (z : StarZone) (identifier : Int)
    (hL : z.input.length = L) (hb : b ≤ z.pos) (hfuel : L < z.pos + fuel) (hf0 : 0 < fuel) :
    ∃ g z', readSVDRObject env grp fuel z identifier = some (some g, z') ∧
      z'.input = z.input ∧ z'.stack = z.stack ∧ g.m_identifier = identifier := by
  obtain ⟨ok, g, z1, heq, hi, hs, hp, hid⟩ := readSVDRLeaf_lands env hg z identifier hL hb
  unfold readSVDRObject
  rw [heq]
  simp only []
  split_ifs with h1 h2 h3
  · exact ⟨_, _, rfl, by simp [hi], by simp [hs], rfl⟩
  · exact ⟨_, _, rfl, hi, hs, hid⟩
  · exact ⟨_, _, rfl, by simp [hi], by simp [hs], rfl⟩
  · obtain ⟨k, rfl⟩ : ∃ k, fuel = k + 1 := ⟨fuel - 1, by omega⟩
    obtain ⟨z', heq', hi', hs', -⟩ := skipUnknownRecords_lands z.getRecordLastPosition k z1
      (by rw [hi, hL]; omega)
    rw [heq']
    exact ⟨_, _, rfl, hi'.trans hi, hs'.trans hs, rfl⟩
@[simp] theorem StarZone.readMagic_seek_tell (z : StarZone) : z.readMagic.2.seek z.tell = z := rfl

@[simp] theorem StarZone.seek_tell (z : StarZone) : z.seek z.tell = z := rfl

/-- The function `readSdrObject` refuses, without moving, what does not start with
a `DrOb` header. -/
theorem readSdrObject_refuses (env : Env) (grp : GroupReader) (fuel : Nat)
    (self : StarObjectSmallGraphic) (z : StarZone)
    (h : z.readMagic.1 ≠ magicDrOb ∨ (z.openSDRHeader magicDrOb).1 = false) :
    readSdrObject env grp fuel self z = some (false, self, z) := by
  unfold readSdrObject
  simp only [StarZone.readMagic_seek_tell, StarZone.seek_tell]
  by_cases hm : z.readMagic.1 = magicDrOb
  · have ho : (z.openSDRHeader magicDrOb).1 = false := by
      rcases h with h | h
      · exact absurd hm h
      · exact h
    simp only [hm, ne_eq, not_true_eq_false, if_false, ho, Bool.not_false, if_true]
    rw [StarZone.openSDRHeader_false ho]; rfl
  · simp only [ne_eq, hm, not_false_eq_true, if_true]

/-- The function `readSdrObject` on a `DrOb` header that opens: it runs to its end,
returns `true`, and closes the header on a zone whose cursor is at the end of the
scope, with the scope still on top. -/
theorem readSdrObject_opens (env : Env) {grp : GroupReader} {L : Nat} (fuel : Nat)
    (self : StarObjectSmallGraphic) (z : StarZone) (hL : z.input.length = L)
    (hg : z.pos < L → GoodGroup grp L (z.pos + 1)) (hfuel : L < z.pos + fuel)
    (hm : z.readMagic.1 = magicDrOb) (ho : (z.openSDRHeader magicDrOb).1 = true) :
    ∃ (self' : StarObjectSmallGraphic) (zc : StarZone),
      readSdrObject env grp fuel self z = some (true, self', zc.closeSDRHeader) ∧
      zc.input = z.input ∧ zc.stack = (z.openSDRHeader magicDrOb).2.stack ∧
      zc.pos = (z.openSDRHeader magicDrOb).2.getRecordLastPosition := by
  obtain ⟨s, hst, hpo, hle, hlen⟩ := StarZone.openSDRHeader_true ho
  have hlt : z.pos < L := by omega
  have hgd := hg hlt
  have hd : ∃ o zd,
      (if (z.openSDRHeader magicDrOb).2.readMagic.1 = magicSVDr then
        readSVDRObject env grp fuel ((z.openSDRHeader magicDrOb).2.readMagic.2.readULong 2).2
          (((z.openSDRHeader magicDrOb).2.readMagic.2.readULong 2).1 : Int)
      else if (z.openSDRHeader magicDrOb).2.readMagic.1 = magicSCHU then
        readSCHUObject grp ((z.openSDRHeader magicDrOb).2.readMagic.2.readULong 2).2
          (((z.openSDRHeader magicDrOb).2.readMagic.2.readULong 2).1 : Int)
      else if (z.openSDRHeader magicDrOb).2.readMagic.1 = magicFM01 then
        readFmFormObject env grp ((z.openSDRHeader magicDrOb).2.readMagic.2.readULong 2).2
          (((z.openSDRHeader magicDrOb).2.readMagic.2.readULong 2).1 : Int)
      else some (none, ((z.openSDRHeader magicDrOb).2.readMagic.2.readULong 2).2))
        = some (o, zd) ∧ zd.input = z.input ∧
          zd.stack = (z.openSDRHeader magicDrOb).2.stack := by
    have hL' : ((z.openSDRHeader magicDrOb).2.readMagic.2.readULong 2).2.input.length = L := by
      simpa using hL
    have hb' : z.pos + 1 ≤ ((z.openSDRHeader magicDrOb).2.readMagic.2.readULong 2).2.pos := by
      simp [hpo]
    split_ifs with h1 h2 h3
    · obtain ⟨g, z', heq, hi, hs, -⟩ := readSVDRObject_lands env hgd fuel _ _ hL' hb'
        (by simp [hpo]; omega) (by omega)
      exact ⟨_, _, heq, by simpa using hi, by simpa using hs⟩
    · obtain ⟨o, z', heq, hi, hs, -⟩ := readSCHUObject_lands hgd _ _ hL' hb'
      exact ⟨_, _, heq, by simpa using hi, by simpa using hs⟩
    · obtain ⟨o, z', heq, hi, hs⟩ := readFmFormObject_lands env
        ((z.openSDRHeader magicDrOb).2.readMagic.2.readULong 2).2
        (((z.openSDRHeader magicDrOb).2.readMagic.2.readULong 2).1 : Int) hL'
        (fun _ => hgd.mono (by omega))
      exact ⟨_, _, heq, by simpa using hi, by simpa using hs⟩
    · exact ⟨_, _, rfl, by simp, by simp⟩
  obtain ⟨o, zd, heq, hi, hs⟩ := hd
  unfold readSdrObject
  simp only [StarZone.readMagic_seek_tell, StarZone.seek_tell, hm, ne_eq, not_true_eq_false,
    if_false, ho, Bool.not_true, Bool.false_eq_true]
  by_cases hlast : (z.openSDRHeader magicDrOb).2.getRecordLastPosition
      = (z.openSDRHeader magicDrOb).2.tell
  · rw [if_pos hlast]
    exact ⟨_, _, rfl, StarZone.openSDRHeader_input _ _, rfl, hlast.symm⟩
  · rw [if_neg hlast, heq]
    simp only []
    by_cases hend : o.isSome = true ∧
        zd.tell = (z.openSDRHeader magicDrOb).2.getRecordLastPosition
    · rw [if_pos hend]
      exact ⟨_, zd, rfl, hi, hs, hend.2⟩
    · rw [if_neg hend]
      exact ⟨_, zd.seek (z.openSDRHeader magicDrOb).2.getRecordLastPosition, rfl,
        by simp [hi], by simp [hs], by simp⟩
@[simp] theorem StarZone.readMagic_back (z : StarZone) : z.readMagic.2.back 4 = z := by
  cases z; simp [StarZone.readMagic, StarZone.back]

/-- The loop over the children of a group stops: with `k+1` units of fuel it yields
its result as soon as the bytes after the cursor are not more than `k`, when each
child runs to its end and a child that is read ends further, inside the data. -/
theorem readGroupChildren_lands
    {c : StarZone → Option (Bool × StarObjectSmallGraphic × StarZone)} {L b : Nat}
    (hchild : ∀ z : StarZone, z.input.length = L → b ≤ z.pos →
      ∃ ok obj z', c z = some (ok, obj, z') ∧ z'.input = z.input ∧ z'.stack = z.stack ∧
        (ok = true → z.pos + 10 ≤ z'.pos ∧ z'.pos ≤ L))
    (lastPos : Nat) :
    ∀ (k : Nat) (m_child : List (Option Graphic)) (z : StarZone), z.input.length = L →
      b ≤ z.pos → L ≤ z.pos + k →
      ∃ ok cs z', readGroupChildren c lastPos (k + 1) m_child z = some (ok, cs, z') ∧
        z'.input = z.input ∧ z'.stack = z.stack := by
  intro k
  induction k with
  | zero =>
    intro m_child z hL hb hk
    rw [readGroupChildren]
    simp only [StarZone.readMagic_back]
    by_cases h1 : z.tell + 4 < lastPos
    · rw [if_pos h1]
      by_cases hx : z.readMagic.1 = magicDrXX
      · by_cases ho : (z.openSDRHeader magicDrXX).1 = true
        · obtain ⟨s, hst, -, -, -⟩ := StarZone.openSDRHeader_true ho
          simp only [hx, if_true, ho]
          exact ⟨_, _, _, rfl, by simp, by simp [hst]⟩
        · have ho' : (z.openSDRHeader magicDrXX).1 = false := by simpa using ho
          have hne : magicDrXX ≠ magicDrOb := by decide
          simp only [hx, if_true, ho', Bool.false_eq_true, if_false, ne_eq, hne,
            not_false_eq_true]
          exact ⟨_, _, _, rfl, by simp, StarZone.openSDRHeader_stack_false ho'⟩
      · simp only [hx, if_false, Bool.false_eq_true]
        by_cases hd : z.readMagic.1 = magicDrOb
        · simp only [hd, ne_eq, not_true_eq_false, if_false]
          obtain ⟨ok, obj, z', heq, hi, hs, hpos⟩ := hchild z hL hb
          rw [heq]
          simp only []
          cases ok
          · exact ⟨_, _, _, rfl, hi, hs⟩
          · have := hpos rfl; omega
        · simp only [ne_eq, hd, not_false_eq_true, if_true]
          exact ⟨_, _, _, rfl, rfl, rfl⟩
    · rw [if_neg h1]
      exact ⟨_, _, _, rfl, rfl, rfl⟩
  | succ k ih =>
    intro m_child z hL hb hk
    rw [readGroupChildren]
    simp only [StarZone.readMagic_back]
    by_cases h1 : z.tell + 4 < lastPos
    · rw [if_pos h1]
      by_cases hx : z.readMagic.1 = magicDrXX
      · by_cases ho : (z.openSDRHeader magicDrXX).1 = true
        · obtain ⟨s, hst, -, -, -⟩ := StarZone.openSDRHeader_true ho
          simp only [hx, if_true, ho]
          exact ⟨_, _, _, rfl, by simp, by simp [hst]⟩
        · have ho' : (z.openSDRHeader magicDrXX).1 = false := by simpa using ho
          have hne : magicDrXX ≠ magicDrOb := by decide
          simp only [hx, if_true, ho', Bool.false_eq_true, if_false, ne_eq, hne,
            not_false_eq_true]
          exact ⟨_, _, _, rfl, by simp, StarZone.openSDRHeader_stack_false ho'⟩
      · simp only [hx, if_false, Bool.false_eq_true]
        by_cases hd : z.readMagic.1 = magicDrOb
        · simp only [hd, ne_eq, not_true_eq_false, if_false]
          obtain ⟨ok, obj, z', heq, hi, hs, hpos⟩ := hchild z hL hb
          rw [heq]
          simp only []
          cases ok
          · exact ⟨_, _, _, rfl, hi, hs⟩
          · have hp := hpos rfl
            simp only [Bool.not_true, Bool.false_eq_true, if_false]
            obtain ⟨ok2, cs, z2, heq2, hi2, hs2⟩ := ih (m_child ++ [obj.m_graphic]) z'
              (by rw [hi]; exact hL) (by omega) (by omega)
            exact ⟨_, _, _, heq2, hi2.trans hi, hs2.trans hs⟩
        · simp only [ne_eq, hd, not_false_eq_true, if_true]
          exact ⟨_, _, _, rfl, rfl, rfl⟩
    · rw [if_neg h1]
      exact ⟨_, _, _, rfl, rfl, rfl⟩
/-- The function `readSdrObject` on a fresh object, as the child reader of a group:
it runs to its end, and a child that is read ends further, inside the data. -/
theorem readSdrObject_child (env : Env) {grp : GroupReader} {L b : Nat} (fuel : Nat)
    (hg : GoodGroup grp L b) (self : StarObjectSmallGraphic) (z : StarZone)
    (hL : z.input.length = L) (hb : b ≤ z.pos + 1) (hfuel : L < z.pos + fuel) :
    ∃ ok obj z', readSdrObject env grp fuel self z = some (ok, obj, z') ∧
      z'.input = z.input ∧ z'.stack = z.stack ∧ (ok = true → z.pos + 10 ≤ z'.pos ∧ z'.pos ≤ L) := by
  by_cases h : z.readMagic.1 ≠ magicDrOb ∨ (z.openSDRHeader magicDrOb).1 = false
  · exact ⟨_, _, _, readSdrObject_refuses env grp fuel self z h, rfl, rfl, by simp⟩
  · have hm : z.readMagic.1 = magicDrOb := by
      by_contra hm; exact h (Or.inl hm)
    have ho : (z.openSDRHeader magicDrOb).1 = true := by
      by_contra ho; exact h (Or.inr (by simpa using ho))
    obtain ⟨s, hst, hpo, hle, hlen⟩ := StarZone.openSDRHeader_true ho
    obtain ⟨self', zc, heq, hi, hs, hp⟩ := readSdrObject_opens env fuel self z hL
      (fun _ => hg.mono hb) hfuel hm ho
    refine ⟨_, _, _, heq, by simpa using hi, by simp [hs, hst], fun _ => ?_⟩
    simp [hs, hst]
    omega

/-- The start of the group record, up to the end of the loop over the children,
runs to its end when the group reader is good after the cursor and the fuel
covers the bytes after the cursor: it keeps the bytes, the open records and the
identifier. -/
theorem readGroupBody_lands (env : Env) {grp : GroupReader} {L b : Nat}
    (hg : GoodGroup grp L b) (k lastPos : Nat) (g : SdrGraphicGroup) (z : StarZone)
    (hL : z.input.length = L) (hb : b ≤ z.pos + 1) (hk : L ≤ z.pos + k) :
    ∃ ok g' z', readGroupBody env grp (k + 1) lastPos g z = some (ok, g', z') ∧
      z'.input = z.input ∧ z'.stack = z.stack ∧ g'.m_identifier = g.m_identifier := by
  unfold readGroupBody
  simp only []
  -- the zone on which the children are read
  generalize hz2 : ((if (readStringIn env lastPos z).1 = true then
        readVec ((readStringIn env lastPos z).2.2.readBoolIf (readStringIn env lastPos z).1
          g.m_hasRefPoint).2
      else (g.m_refPoint, ((readStringIn env lastPos z).2.2.readBoolIf
          (readStringIn env lastPos z).1 g.m_hasRefPoint).2)).2) = z2
  have hi2 : z2.input = z.input := by
    rw [← hz2]; simp [apply_ite Prod.snd, apply_ite StarZone.input]
  have hs2 : z2.stack = z.stack := by
    rw [← hz2]; simp [apply_ite Prod.snd, apply_ite StarZone.stack]
  have hp2 : z.pos ≤ z2.pos := by
    rw [← hz2]
    simp only [apply_ite Prod.snd, apply_ite StarZone.pos]
    have h1 := readStringIn_pos env lastPos z
    have h2 := StarZone.readBoolIf_pos (readStringIn env lastPos z).2.2
      (readStringIn env lastPos z).1 g.m_hasRefPoint
    split_ifs
    · simp only [readVec_pos]; omega
    · omega
  have hch : ∃ ok cs z3,
      (if (readStringIn env lastPos z).1 = true then
        readGroupChildren (readSdrObject env grp (k + 1) StarObjectSmallGraphic.new)
          lastPos (k + 1) g.m_child z2
      else some ((readStringIn env lastPos z).1, g.m_child, z2)) = some (ok, cs, z3) ∧
        z3.input = z.input ∧ z3.stack = z.stack := by
    split_ifs
    · obtain ⟨ok, cs, z3, h3, hi3, hs3⟩ := readGroupChildren_lands (L := L) (b := z.pos)
        (c := readSdrObject env grp (k + 1) StarObjectSmallGraphic.new)
        (fun zs hLs hbs => readSdrObject_child env (k + 1) hg _ zs hLs (by omega)
          (by omega))
        lastPos k g.m_child z2 (by rw [hi2]; exact hL) (by omega) (by omega)
      exact ⟨_, _, _, h3, hi3.trans hi2, hs3.trans hs2⟩
    · exact ⟨_, _, _, rfl, hi2, hs2⟩
  obtain ⟨ok, cs, z3, h3, hi3, hs3⟩ := hch
  rw [h3]
  exact ⟨_, _, _, rfl, hi3, hs3, rfl⟩

@[simp] theorem readGroupAngles_input (vers : Nat) (ok : Bool) (g : SdrGraphicGroup)
    (z : StarZone) : (readGroupAngles vers ok g z).2.input = z.input := by
  simp [readGroupAngles]

@[simp] theorem readGroupAngles_stack (vers : Nat) (ok : Bool) (g : SdrGraphicGroup)
    (z : StarZone) : (readGroupAngles vers ok g z).2.stack = z.stack := by
  simp [readGroupAngles]

@[simp] theorem readGroupAngles_id (vers : Nat) (ok : Bool) (g : SdrGraphicGroup)
    (z : StarZone) : (readGroupAngles vers ok g z).1.m_identifier = g.m_identifier := rfl

/-- The function `readSVDRObjectGroup` over the reader of the next level runs to
its end when that reader is good after the cursor and the fuel covers the bytes
after the cursor: it keeps the bytes, the open records and the identifier. -/
theorem readSVDRObjectGroupWith_lands (env : Env) {grp : GroupReader} {L : Nat} (fuel : Nat)
    (z : StarZone) (g : SdrGraphicGroup) (hL : z.input.length = L)
    (hg : z.pos < L → GoodGroup grp L (z.pos + 1)) (hfuel : L < z.pos + fuel) :
    Lands (readSVDRObjectGroupWith env grp fuel z g) z z.pos
      (fun g' => g'.m_identifier = g.m_identifier) := by
  obtain ⟨okP, base, z1, heq, hi, hs, hp, hid⟩ :=
    readSVDRObjectHeader_lands env z g.toSdrGraphic hL hg
  simp only [readSVDRObjectGroupWith, heq]
  refine lands_ite (fun _ => lands_some hi hs hp hid) (fun _ => ?_)
  by_cases ho : z1.openRecord.1 = true
  · obtain ⟨s, hst, hpo, hle, hlen, -⟩ := StarZone.openRecord_true ho
    simp only [ho, Bool.not_true, Bool.false_eq_true, if_false]
    have hlt : z.pos < L := by rw [← hL, ← hi]; omega
    obtain ⟨k, rfl⟩ : ∃ k, fuel = k + 1 := ⟨fuel - 1, by omega⟩
    obtain ⟨ok, gb, z3, h3, hi3, hs3, hid3⟩ := readGroupBody_lands env (hg hlt) k
      z1.openRecord.2.getRecordLastPosition { g with toSdrGraphic := base } z1.openRecord.2
      (by simp [hi, hL]) (by omega) (by omega)
    rw [h3]
    simp only []
    refine lands_close ?_ ?_ ?_ (by simpa [hid3] using hid)
    · simp [hi3, hi]
    · simp [hs3, hst, hs]
    · simp [hs3, hst]; omega
  · have ho' : z1.openRecord.1 = false := by simpa using ho
    simp only [ho', Bool.not_false, if_true]
    exact lands_some (by simp [hi]) (by simpa [hs] using StarZone.openRecord_stack_false ho')
      (by simpa using hp) hid

/-- The group reader with `n+1` levels of re-entry is good on `L` bytes from every
cursor that leaves at most `n` bytes. -/
theorem readSVDRObjectGroup_good (env : Env) (L : Nat) :
    ∀ (n b : Nat), L ≤ b + n → GoodGroup (readSVDRObjectGroup env (n + 1)) L b := by
  intro n
  induction n with
  | zero =>
    intro b hb z g hL hz
    rw [readSVDRObjectGroup]
    exact readSVDRObjectGroupWith_lands env 1 z g hL (fun h => by omega) (by omega)
  | succ n ih =>
    intro b hb z g hL hz
    rw [readSVDRObjectGroup]
    exact readSVDRObjectGroupWith_lands env (n + 1 + 1) z g hL
      (fun _ => ih (z.pos + 1) (by omega)) (by omega)

/-- With more fuel than bytes, the group reader is good from every cursor. -/
theorem readSVDRObjectGroup_good_of_le (env : Env) {L fuel : Nat} (h : L + 1 ≤ fuel) (b : Nat) :
    GoodGroup (readSVDRObjectGroup env fuel) L b := by
  obtain ⟨n, rfl⟩ : ∃ n, fuel = n + 1 := ⟨fuel - 1, by omega⟩
  exact readSVDRObjectGroup_good env L n b (by omega)

/-- The graphic that `readSVDRObjectHeader` returns once its record is open is the
one that the fields of the record give. -/
theorem readSVDRObjectHeader_graphic {env : Env} {grp : GroupReader} {z : StarZone}
    {g g' : SdrGraphic} {ok : Bool} {z' : StarZone} (ho : z.openRecord.1 = true)
    (h : readSVDRObjectHeader env grp z g = some (ok, g', z')) :
    ok = true ∧ g' = (readHeaderFields z.openRecord.2 g).2.1 := by
  unfold readSVDRObjectHeader at h
  simp only [ho, Bool.not_true, Bool.false_eq_true, if_false] at h
  by_cases h1 : (!(readHeaderFields z.openRecord.2 g).1) = true
  · rw [if_pos h1] at h
    simp only [Option.some.injEq, Prod.mk.injEq] at h
    exact ⟨h.1.symm, h.2.1.symm⟩
  · rw [if_neg h1] at h
    by_cases h2 : (!((readHeaderFields z.openRecord.2 g).2.2.readBoolIf
        (decide (z.openRecord.2.getHeaderVersion ≥ 11)) true).1) = true
    · rw [if_pos h2] at h
      simp only [Option.some.injEq, Prod.mk.injEq] at h
      exact ⟨h.1.symm, h.2.1.symm⟩
    · rw [if_neg h2] at h
      cases hu : readSDRUserDataList env grp
        ((readHeaderFields z.openRecord.2 g).2.2.readBoolIf
          (decide (z.openRecord.2.getHeaderVersion ≥ 11)) true).2
        (decide (z.openRecord.2.getHeaderVersion ≥ 11)) with
      | none => rw [hu] at h; exact absurd h (by simp)
      | some r =>
        rw [hu] at h
        simp only [Option.some.injEq, Prod.mk.injEq] at h
        exact ⟨h.1.symm, h.2.1.symm⟩

/-- The polygon is the only field that the fields of the header record change
after the fixed part. -/
theorem readHeaderFields_fixed (z : StarZone) (g : SdrGraphic) :
    (readHeaderFields z g).2.1.m_bdbox = (readHeaderFixed z g).1.m_bdbox ∧
    (readHeaderFields z g).2.1.m_layerId = (readHeaderFixed z g).1.m_layerId ∧
    (readHeaderFields z g).2.1.m_anchorPosition = (readHeaderFixed z g).1.m_anchorPosition ∧
    (readHeaderFields z g).2.1.m_flags = (readHeaderFixed z g).1.m_flags := by
  simp only [readHeaderFields, readHeaderPolygon, readHeaderGlue]
  split_ifs <;> exact ⟨rfl, rfl, rfl, rfl⟩


/-- A header record of a format version below 11 whose fixed part fits and whose
inline point count overflows the record: `readSVDRObjectHeader` reads nothing
after the count, closes its record and returns `true`. -/
theorem readSVDRObjectHeader_overflow_eq (env : Env) (grp : GroupReader) (z : StarZone)
    (g : SdrGraphic) (ho : z.openRecord.1 = true) (hv : z.getHeaderVersion < 11)
    (hfit : (readHeaderFixed z.openRecord.2 g).2.tell ≤ z.openRecord.2.getRecordLastPosition)
    (hover : ((readHeaderFixed z.openRecord.2 g).2.readULong 2).2.tell
        + 8 * ((readHeaderFixed z.openRecord.2 g).2.readULong 2).1
      > z.openRecord.2.getRecordLastPosition) :
    readSVDRObjectHeader env grp z g
      = some (true, (readHeaderFixed z.openRecord.2 g).1,
          ((readHeaderFixed z.openRecord.2 g).2.readULong 2).2.closeRecord) ∧
    (readHeaderFixed z.openRecord.2 g).1.m_polygon = g.m_polygon ∧
    ((readHeaderFixed z.openRecord.2 g).2.readULong 2).2.closeRecord.tell
      = z.openRecord.2.getRecordLastPosition ∧
    ((readHeaderFixed z.openRecord.2 g).2.readULong 2).2.closeRecord.stack = z.stack := by
  obtain ⟨s, hst, -, -, -, hver⟩ := StarZone.openRecord_true ho
  have hv' : z.openRecord.2.getHeaderVersion = z.getHeaderVersion := by
    rw [← hver]; unfold StarZone.getHeaderVersion; rw [hst]
  have hf : readHeaderFields z.openRecord.2 g
      = (false, (readHeaderFixed z.openRecord.2 g).1,
          ((readHeaderFixed z.openRecord.2 g).2.readULong 2).2) := by
    unfold readHeaderFields
    simp only [hv', hv, if_true]
    rw [if_neg (Nat.not_lt.mpr hfit)]
    unfold readHeaderPolygon
    simp only []
    rw [if_pos hover]
  refine ⟨?_, rfl, ?_, ?_⟩
  · unfold readSVDRObjectHeader
    simp only [ho, Bool.not_true, Bool.false_eq_true, if_false, hf, Bool.not_false, if_true]
  · simp [StarZone.getRecordLastPosition_cons hst, hst]
  · simp [hst]

/-- The text bound is the only field that `readTextBound` changes. -/
theorem readTextBound_fields (g : SdrGraphicText) (z : StarZone) :
    (readTextBound g z).1.m_textKind = g.m_textKind ∧
    (readTextBound g z).1.m_textRectangle = g.m_textRectangle ∧
    (readTextBound g z).1.m_textDrehWink = g.m_textDrehWink ∧
    (readTextBound g z).1.m_textShearWink = g.m_textShearWink := by
  simp only [readTextBound]
  split_ifs <;> exact ⟨rfl, rfl, rfl, rfl⟩

/-- The paragraph object is the only field that `readTextParaObject` changes. -/
theorem readTextParaObject_fields (env : Env) (vers : Nat) (ok : Bool) (g : SdrGraphicText)
    (z : StarZone) :
    (readTextParaObject env vers ok g z).2.1.m_textKind = g.m_textKind ∧
    (readTextParaObject env vers ok g z).2.1.m_textRectangle = g.m_textRectangle ∧
    (readTextParaObject env vers ok g z).2.1.m_textDrehWink = g.m_textDrehWink ∧
    (readTextParaObject env vers ok g z).2.1.m_textShearWink = g.m_textShearWink ∧
    (readTextParaObject env vers ok g z).2.1.m_textBound = g.m_textBound := by
  simp only [readTextParaObject]
  split_ifs <;> exact ⟨rfl, rfl, rfl, rfl, rfl⟩


/-- One turn of the loop of `readSVDRObjectAttrib` on a surrogate that resolves
inside the record, when what follows the turn reads the ids `ws`. -/
theorem readAttribItems_cons (env : Env) (vers lastPos k i w : Nat) (ws : List Nat)
    (hw : attribWhich.getD i 0 = w)
    (hrest : ∀ (items : List StarItem) (z : StarZone),
      resolveAllOk env vers lastPos ws z = true →
      (if vers < 5 ∧ i = 3 then (true, items, z)
        else if vers < 6 ∧ i = 4 then (true, items, z)
        else readAttribItems env vers lastPos k (i + 1) items z)
        = (true, items ++ (resolveAll env vers ws z).1, (resolveAll env vers ws z).2))
    (items : List StarItem) (z : StarZone)
    (h : resolveAllOk env vers lastPos (w :: ws) z = true) :
    readAttribItems env vers lastPos (k + 1) i items z
      = (true, items ++ (resolveAll env vers (w :: ws) z).1,
          (resolveAll env vers (w :: ws) z).2) := by
  simp only [resolveAllOk, Bool.and_eq_true, decide_eq_true_eq] at h
  obtain ⟨⟨a, b⟩, c⟩ := h
  obtain ⟨item, e⟩ := Option.isSome_iff_exists.mp a
  have hb : ¬ ((z.skipIf (decide (vers < 11)) 2).skip
      (env.loadSurrogate (z.skipIf (decide (vers < 11)) 2) w).2).tell > lastPos :=
    Nat.not_lt.mpr b
  have hr := hrest (items ++ [item]) _ c
  rw [readAttribItems, resolveAll]
  simp only [hw, e, Option.isNone_some, Bool.false_eq_true, false_or, hb, if_false,
    Option.toList_some]
  by_cases c1 : vers < 5 ∧ i = 3
  · rw [if_pos c1] at hr ⊢
    rw [hr, List.append_assoc]
  · rw [if_neg c1] at hr ⊢
    by_cases c2 : vers < 6 ∧ i = 4
    · rw [if_pos c2] at hr ⊢
      rw [hr, List.append_assoc]
    · rw [if_neg c2] at hr ⊢
      rw [hr, List.append_assoc]

/-- The loop of `readSVDRObjectAttrib` on surrogates that all resolve inside the
record: it resolves the item-set ids of the specification for the format version,
in their order, and appends the items to the list. -/
theorem readAttribItems_resolveAll (env : Env) (vers lastPos : Nat) (items : List StarItem)
    (z : StarZone) (h : resolveAllOk env vers lastPos (specItemSetIds vers) z = true) :
    readAttribItems env vers lastPos 6 0 items z
      = (true, items ++ (resolveAll env vers (specItemSetIds vers) z).1,
          (resolveAll env vers (specItemSetIds vers) z).2) := by
  by_cases h5 : vers < 5
  · have e : specItemSetIds vers = [1017, 1047, 1066, 1079] := by simp [specItemSetIds, h5]
    rw [e] at h ⊢
    refine readAttribItems_cons env vers lastPos 5 0 1017 _ rfl (fun items z h => ?_) items z h
    rw [if_neg (by omega), if_neg (by omega)]
    refine readAttribItems_cons env vers lastPos 4 1 1047 _ rfl (fun items z h => ?_) items z h
    rw [if_neg (by omega), if_neg (by omega)]
    refine readAttribItems_cons env vers lastPos 3 2 1066 _ rfl (fun items z h => ?_) items z h
    rw [if_neg (by omega), if_neg (by omega)]
    refine readAttribItems_cons env vers lastPos 2 3 1079 _ rfl (fun items z h => ?_) items z h
    rw [if_pos ⟨h5, rfl⟩]
    simp [resolveAll]
  · by_cases h6 : vers < 6
    · have e : specItemSetIds vers = [1017, 1047, 1066, 1079, 1096] := by
        simp [specItemSetIds, h5, h6]
      rw [e] at h ⊢
      refine readAttribItems_cons env vers lastPos 5 0 1017 _ rfl (fun items z h => ?_) items z h
      rw [if_neg (by omega), if_neg (by omega)]
      refine readAttribItems_cons env vers lastPos 4 1 1047 _ rfl (fun items z h => ?_) items z h
      rw [if_neg (by omega), if_neg (by omega)]
      refine readAttribItems_cons env vers lastPos 3 2 1066 _ rfl (fun items z h => ?_) items z h
      rw [if_neg (by omega), if_neg (by omega)]
      refine readAttribItems_cons env vers lastPos 2 3 1079 _ rfl (fun items z h => ?_) items z h
      rw [if_neg (by omega), if_neg (by omega)]
      refine readAttribItems_cons env vers lastPos 1 4 1096 _ rfl (fun items z h => ?_) items z h
      rw [if_neg (by omega), if_pos ⟨h6, rfl⟩]
      simp [resolveAll]
    · have e : specItemSetIds vers = [1017, 1047, 1066, 1079, 1096, 1126] := by
        simp [specItemSetIds, h5, h6]
      rw [e] at h ⊢
      refine readAttribItems_cons env vers lastPos 5 0 1017 _ rfl (fun items z h => ?_) items z h
      rw [if_neg (by omega), if_neg (by omega)]
      refine readAttribItems_cons env vers lastPos 4 1 1047 _ rfl (fun items z h => ?_) items z h
      rw [if_neg (by omega), if_neg (by omega)]
      refine readAttribItems_cons env vers lastPos 3 2 1066 _ rfl (fun items z h => ?_) items z h
      rw [if_neg (by omega), if_neg (by omega)]
      refine readAttribItems_cons env vers lastPos 2 3 1079 _ rfl (fun items z h => ?_) items z h
      rw [if_neg (by omega), if_neg (by omega)]
      refine readAttribItems_cons env vers lastPos 1 4 1096 _ rfl (fun items z h => ?_) items z h
      rw [if_neg (by omega), if_neg (by omega)]
      refine readAttribItems_cons env vers lastPos 0 5 1126 _ rfl (fun items z h => ?_) items z h
      rw [if_neg (by omega), if_neg (by omega), readAttribItems]
      simp [resolveAll]

/-- Surrogates that all resolve give one item each. -/
theorem resolveAll_length (env : Env) (vers lastPos : Nat) :
    ∀ (ws : List Nat) (z : StarZone), resolveAllOk env vers lastPos ws z = true →
      (resolveAll env vers ws z).1.length = ws.length
  | [], _, _ => rfl
  | w :: ws, z, h => by
    simp only [resolveAllOk, Bool.and_eq_true, decide_eq_true_eq] at h
    obtain ⟨⟨a, -⟩, c⟩ := h
    obtain ⟨item, e⟩ := Option.isSome_iff_exists.mp a
    rw [resolveAll]
    simp only [e, Option.toList_some, List.singleton_append, List.length_cons]
    rw [resolveAll_length env vers lastPos ws _ c]

/-- The style-sheet name of `readSVDRObjectAttrib` leaves the item list as it is. -/
theorem readAttribStyle_itemList (env : Env) (vers lastPos : Nat) (g : SdrGraphicAttribute)
    (z : StarZone) : (readAttribStyle env vers lastPos g z).2.1.m_itemList = g.m_itemList := by
  simp only [readAttribStyle]; split_ifs <;> rfl

/-- Once the header layer has succeeded and the item-set record is open,
`readSVDRObjectAttrib` returns `true`, with the item list of its loop. -/
theorem readSVDRObjectAttrib_itemList {env : Env} {grp : GroupReader} {z : StarZone}
    {g : SdrGraphicAttribute} {base : SdrGraphic} {z1 : StarZone}
    (hH : readSVDRObjectHeader env grp z g.toSdrGraphic = some (true, base, z1))
    (ho : z1.openRecord.1 = true) :
    ∃ g' z', readSVDRObjectAttrib env grp z g = some (true, g', z') ∧
      g'.m_itemList = (readAttribItems env z1.getHeaderVersion
        z1.openRecord.2.getRecordLastPosition 6 0 g.m_itemList z1.openRecord.2).2.1 := by
  obtain ⟨s, hst, -, -, -, hv⟩ := StarZone.openRecord_true ho
  have hver : z1.openRecord.2.getHeaderVersion = z1.getHeaderVersion := by
    rw [← hv]; unfold StarZone.getHeaderVersion; rw [hst]
  unfold readSVDRObjectAttrib
  rw [hH]
  simp only [ho, Bool.not_true, Bool.false_eq_true, if_false, hver]
  refine ⟨_, _, rfl, ?_⟩
  split_ifs
  · exact readAttribStyle_itemList _ _ _ _ _
  · rfl


/-- An overflowing count in `readHeaderPolygon`: nothing is read after the count
and the graphic is returned as it was. -/
theorem readHeaderPolygon_overflow (lastPos : Nat) (g : SdrGraphic) (z : StarZone)
    (h : (z.readULong 2).2.tell + 8 * (z.readULong 2).1 > lastPos) :
    readHeaderPolygon lastPos g z = (false, g, (z.readULong 2).2) := by
  unfold readHeaderPolygon
  simp only []
  rw [if_pos h]

/-- An overflowing count in `readEdgePolygon`: nothing is read after the count and
the graphic is returned as it was. -/
theorem readEdgePolygon_overflow (g : SdrGraphicEdge) (z : StarZone)
    (h : (z.readULong 2).2.tell + 9 * (z.readULong 2).1
      > (z.readULong 2).2.getRecordLastPosition) :
    readEdgePolygon g z = (false, g, (z.readULong 2).2) := by
  unfold readEdgePolygon
  simp only []
  rw [if_pos h]

/-- An overflowing count in a turn of `readPathPolys`: nothing is read after the
count, the loop stops and the graphic is returned as it stands. -/
theorem readPathPolys_overflow (w lastPos k : Nat) (g : SdrGraphicPath) (z : StarZone)
    (h : (z.readULong 2).2.tell + w * (z.readULong 2).1 > lastPos) :
    readPathPolys w lastPos (k + 1) g z = (false, g, (z.readULong 2).2) := by
  rw [readPathPolys]
  simp only []
  rw [if_pos h]

/-- Once the rect layer has succeeded and the caption record is open,
`readSVDRObjectCaption` returns `true` with the cursor at the last position of
that record; on an overflowing count it leaves the caption as it was. -/
theorem readSVDRObjectCaption_opened {env : Env} {grp : GroupReader} {z : StarZone}
    {g : SdrGraphicCaption} {base : SdrGraphicRect} {z1 : StarZone}
    (hR : readSVDRObjectRect env grp z g.toSdrGraphicRect = some (true, base, z1))
    (ho : z1.openRecord.1 = true) :
    ∃ g' z', readSVDRObjectCaption env grp z g = some (true, g', z') ∧
      z'.tell = z1.openRecord.2.getRecordLastPosition ∧ z'.stack = z1.stack ∧
      z'.input = z1.input ∧
      ((z1.openRecord.2.readULong 2).2.tell + 8 * (z1.openRecord.2.readULong 2).1
          > z1.openRecord.2.getRecordLastPosition →
        g' = { g with toSdrGraphicRect := base }) := by
  obtain ⟨s, hst, -, -, -, -⟩ := StarZone.openRecord_true ho
  unfold readSVDRObjectCaption
  rw [hR]
  simp only [ho, Bool.not_true, Bool.false_eq_true, if_false]
  refine ⟨_, _, rfl, ?_, ?_, ?_, ?_⟩
  · simp [hst, StarZone.getRecordLastPosition_cons hst]
  · simp [hst]
  · simp
  · intro hover
    have hnot : ¬ (z1.openRecord.2.pos + 2 + 8 * (z1.openRecord.2.readULong 2).1
        ≤ z1.openRecord.2.getRecordLastPosition) := by
      simp only [StarZone.tell_eq, StarZone.readULong_pos] at hover
      omega
    simp [hnot, readPoints, loadItem]

/-- Once the text layer has succeeded and the edge record is open,
`readSVDRObjectEdge` returns `true` with the cursor at the last position of that
record, and with the edge track of `readEdgeTrack`. -/
theorem readSVDRObjectEdge_opened {env : Env} {grp : GroupReader} {z : StarZone}
    {g : SdrGraphicEdge} {base : SdrGraphicText} {z1 : StarZone}
    (hT : readSVDRObjectText env grp z g.toSdrGraphicText = some (true, base, z1))
    (ho : z1.openRecord.1 = true) :
    ∃ g' z', readSVDRObjectEdge env grp z g = some (true, g', z') ∧
      z'.tell = z1.openRecord.2.getRecordLastPosition ∧ z'.stack = z1.stack ∧
      z'.input = z1.input ∧
      g'.m_edgePolygon = (readEdgeTrack z1.openRecord.2.getHeaderVersion
        { g with toSdrGraphicText := base } z1.openRecord.2).2.1.m_edgePolygon ∧
      g'.m_edgePolygonFlags = (readEdgeTrack z1.openRecord.2.getHeaderVersion
        { g with toSdrGraphicText := base } z1.openRecord.2).2.1.m_edgePolygonFlags := by
  obtain ⟨s, hst, -, -, -, -⟩ := StarZone.openRecord_true ho
  unfold readSVDRObjectEdge
  rw [hT]
  simp only [ho, Bool.not_true, Bool.false_eq_true, if_false]
  refine ⟨_, _, rfl, ?_, ?_, ?_, ?_, ?_⟩
  · simp [apply_ite Prod.snd, apply_ite StarZone.stack, hst,
      StarZone.getRecordLastPosition_cons hst]
  · simp [apply_ite Prod.snd, apply_ite StarZone.stack, hst]
  · simp [apply_ite Prod.snd, apply_ite StarZone.input]
  · split_ifs <;> simp [readEdgeInfo] <;> split_ifs <;> rfl
  · split_ifs <;> simp [readEdgeInfo] <;> split_ifs <;> rfl

/-- Once the text layer has succeeded and the path record is open,
`readSVDRObjectPath` returns `true` with the cursor at the last position of that
record. -/
theorem readSVDRObjectPath_opened {env : Env} {grp : GroupReader} {z : StarZone}
    {g : SdrGraphicPath} {base : SdrGraphicText} {z1 : StarZone}
    (hT : readSVDRObjectText env grp z g.toSdrGraphicText = some (true, base, z1))
    (ho : z1.openRecord.1 = true) :
    ∃ g' z', readSVDRObjectPath env grp z g = some (true, g', z') ∧
      z'.tell = z1.openRecord.2.getRecordLastPosition ∧ z'.stack = z1.stack ∧
      z'.input = z1.input := by
  obtain ⟨s, hst, -, -, -, -⟩ := StarZone.openRecord_true ho
  unfold readSVDRObjectPath
  rw [hT]
  simp only [ho, Bool.not_true, Bool.false_eq_true, if_false]
  refine ⟨_, _, rfl, ?_, ?_, ?_⟩
  · simp [apply_ite Prod.snd, apply_ite StarZone.stack, hst,
      StarZone.getRecordLastPosition_cons hst]
  · simp [apply_ite Prod.snd, apply_ite StarZone.stack, hst]
  · simp [apply_ite Prod.snd, apply_ite StarZone.input]

/-- An overflowing count in the edge track of a format version 2 to 10, which has
no record of its own: nothing is read after the count. -/
theorem readEdgeTrack_overflow_inline (vers : Nat) (g : SdrGraphicEdge) (z : StarZone)
    (hv2 : 2 ≤ vers) (hv : vers < 11)
    (hover : (z.readULong 2).2.tell + 9 * (z.readULong 2).1 > z.getRecordLastPosition) :
    readEdgeTrack vers g z = (false, g, (z.readULong 2).2) := by
  have h11 : ¬ 11 ≤ vers := by omega
  have h2 : ¬ vers < 2 := by omega
  have hover' : (z.readULong 2).2.tell + 9 * (z.readULong 2).1
      > (z.readULong 2).2.getRecordLastPosition := hover
  unfold readEdgeTrack
  simp [h11, h2, hv, StarZone.openRecordIf, readEdgePolygon_overflow g z hover',
    StarZone.seekIf, StarZone.closeRecordIf]

/-- An overflowing count in the edge track of a format version from 11 on, which
lies in a record of its own inside the edge record: nothing is read after the
count, and the track record is closed at its last position. -/
theorem readEdgeTrack_overflow_record (vers : Nat) (g : SdrGraphicEdge) (z : StarZone)
    (hv : 11 ≤ vers) (ho : z.openRecord.1 = true)
    (hover : (z.openRecord.2.readULong 2).2.tell + 9 * (z.openRecord.2.readULong 2).1
      > z.getRecordLastPosition) :
    (readEdgeTrack vers g z).1 = false ∧ (readEdgeTrack vers g z).2.1 = g ∧
    (readEdgeTrack vers g z).2.2.tell = z.openRecord.2.getRecordLastPosition := by
  obtain ⟨s, hst, -, -, -, -⟩ := StarZone.openRecord_true ho
  have hnest := StarZone.openRecord_nested ho
  have h2 : ¬ vers < 2 := by omega
  have h11 : ¬ vers < 11 := by omega
  have hover' : (z.openRecord.2.readULong 2).2.tell + 9 * (z.openRecord.2.readULong 2).1
      > (z.openRecord.2.readULong 2).2.getRecordLastPosition := by
    have : (z.openRecord.2.readULong 2).2.getRecordLastPosition
        = z.openRecord.2.getRecordLastPosition := rfl
    rw [this]; omega
  have hlast : (z.openRecord.2.readULong 2).2.getRecordLastPosition = s.endPos :=
    StarZone.getRecordLastPosition_cons (by simpa using hst)
  unfold readEdgeTrack
  simp [h2, h11, hv, StarZone.openRecordIf, ho, readEdgePolygon_overflow g _ hover',
    StarZone.seekIf, StarZone.closeRecordIf, StarZone.closeRecord, StarZone.seek, hst,
    StarZone.getRecordLastPosition_cons hst]

/-- The graphic that `readSVDRObjectPath` returns is the one of its loop over the
point lists, run with the last position of the path record. -/
theorem readSVDRObjectPath_loop {env : Env} {grp : GroupReader} {z : StarZone}
    {g : SdrGraphicPath} {base : SdrGraphicText} {z1 : StarZone}
    (hT : readSVDRObjectText env grp z g.toSdrGraphicText = some (true, base, z1))
    (ho : z1.openRecord.1 = true) :
    ∃ g' z', readSVDRObjectPath env grp z g = some (true, g', z') ∧
      ∃ (w n : Nat) (zc : StarZone), (w = 8 ∨ w = 9) ∧
        g' = (readPathPolys w z1.openRecord.2.getRecordLastPosition n
          { g with toSdrGraphicText := base } zc).2.1 := by
  unfold readSVDRObjectPath
  rw [hT]
  simp only [ho, Bool.not_true, Bool.false_eq_true, if_false]
  refine ⟨_, _, rfl, ?_⟩
  split_ifs
  · exact ⟨8, _, _, Or.inl rfl, rfl⟩
  · exact ⟨9, _, _, Or.inr rfl, rfl⟩

/-! ## Lemmas on the rectangle, the group, the outliner, the surrogate and the fixed fields -/

/-- Once the text layer has succeeded, outside the case of the format versions
below 3 on the text identifiers, and its record is open, `readSVDRObjectRect`
returns `true`; it reads the corner radius exactly for a format version up to 5. -/
theorem readSVDRObjectRect_opened {env : Env} {grp : GroupReader} {z : StarZone}
    {g : SdrGraphicRect} {base : SdrGraphicText} {z1 : StarZone}
    (hT : readSVDRObjectText env grp z g.toSdrGraphicText = some (true, base, z1))
    (hc : ¬ (z1.getHeaderVersion < 3 ∧ (base.m_identifier = 16 ∨ base.m_identifier = 17 ∨
      base.m_identifier = 20 ∨ base.m_identifier = 21)))
    (ho : z1.openRecord.1 = true) :
    readSVDRObjectRect env grp z g =
      some (true,
        { g with
            toSdrGraphicText := base,
            m_eckRag :=
              if z1.getHeaderVersion ≤ 5 then toSigned 4 (leValue z1.input (z1.pos + 4) 4)
              else g.m_eckRag },
        (z1.openRecord.2.skip (if z1.getHeaderVersion ≤ 5 then 4 else 0)).closeRecord) := by
  obtain ⟨s, hst, hpo, -, -, -⟩ := StarZone.openRecord_true ho
  have hin : z1.openRecord.2.input = z1.input := StarZone.openRecord_input z1
  unfold readSVDRObjectRect
  rw [hT]
  simp only [Bool.not_true, Bool.false_eq_true, if_false]
  rw [if_neg hc]
  simp only [ho, Bool.not_true, Bool.false_eq_true, if_false]
  by_cases h5 : z1.getHeaderVersion ≤ 5
  · simp [StarZone.readLongIf, StarZone.readLong, StarZone.skip, h5, hin, hpo]
  · simp only [StarZone.readLongIf, h5, decide_False, Bool.false_eq_true, if_false]
    rfl

/-- The start of the group record leaves the rotation and the shear as they were. -/
theorem readGroupBody_angles {env : Env} {grp : GroupReader} {fuel lastPos : Nat}
    {g gb : SdrGraphicGroup} {z zb : StarZone} {okb : Bool}
    (hb : readGroupBody env grp fuel lastPos g z = some (okb, gb, zb)) :
    gb.m_groupDrehWink = g.m_groupDrehWink ∧ gb.m_groupShearWink = g.m_groupShearWink := by
  unfold readGroupBody at hb
  simp only [] at hb
  split at hb
  · exact absurd hb (by simp)
  · simp only [Option.some.injEq, Prod.mk.injEq] at hb
    obtain ⟨-, rfl, -⟩ := hb
    exact ⟨rfl, rfl⟩

/-- The block of the rotation and the shear of a group reads two signed 32-bit
values when `ok` holds and the format version is 2 or more. -/
theorem readGroupAngles_read (vers : Nat) (ok : Bool) (g : SdrGraphicGroup) (z : StarZone)
    (h : ok = true ∧ 2 ≤ vers) :
    readGroupAngles vers ok g z
      = ({ g with
            m_groupDrehWink := toSigned 4 (leValue z.input z.pos 4),
            m_groupShearWink := toSigned 4 (leValue z.input (z.pos + 4) 4) },
          z.skip 8) := by
  obtain ⟨h1, h2⟩ := h
  subst h1
  simp [readGroupAngles, StarZone.readLongIf, StarZone.readLong, StarZone.skip, h2,
    Nat.add_assoc]

/-- The block of the rotation and the shear of a group reads nothing when `ok`
does not hold or the format version is below 2. -/
theorem readGroupAngles_skip (vers : Nat) (ok : Bool) (g : SdrGraphicGroup) (z : StarZone)
    (h : ¬ (ok = true ∧ 2 ≤ vers)) : readGroupAngles vers ok g z = (g, z) := by
  have hc : (ok && decide (vers ≥ 2)) = false := by
    cases ok
    · rfl
    · simp only [Bool.true_and, decide_eq_false_iff_not]
      exact fun h2 => h ⟨rfl, h2⟩
  simp only [readGroupAngles, StarZone.readLongIf, hc, Bool.false_eq_true, if_false]

/-- The colour branch of a zone of the outliner object keeps the text of the zone. -/
theorem readOutlinerColor_text (env : Env) (lastPos : Nat) (p : OutlinerZone) (z : StarZone) :
    (readOutlinerColor env lastPos p z).2.1.m_text = p.m_text := by
  simp only [readOutlinerColor]
  split_ifs <;> rfl

/-- The block of the version 1 of a zone of the outliner object keeps the text of
the zone. -/
theorem readOutlinerZoneV1_text (env : Env) (lastPos : Nat) (p : OutlinerZone) (z : StarZone) :
    (readOutlinerZoneV1 env lastPos p z).2.1.m_text = p.m_text := by
  simp only [readOutlinerZoneV1]
  split_ifs
  · rfl
  · rfl
  · exact readOutlinerColor_text env lastPos p _

/-- The loop over the zones of the outliner object changes the zones only. -/
theorem readOutlinerZones_fields (env : Env) (vers lastPos : Nat) :
    ∀ (k : Nat) (o : OutlinerParaObject) (z : StarZone),
      (readOutlinerZones env vers lastPos k o z).2.1.m_version = o.m_version ∧
      (readOutlinerZones env vers lastPos k o z).2.1.m_textZone = o.m_textZone ∧
      (readOutlinerZones env vers lastPos k o z).2.1.m_depthList = o.m_depthList ∧
      (readOutlinerZones env vers lastPos k o z).2.1.m_isEditDoc = o.m_isEditDoc
  | 0, _, _ => ⟨rfl, rfl, rfl, rfl⟩
  | k + 1, o, z => by
    rw [readOutlinerZones]
    simp only []
    split_ifs
    all_goals first
      | exact ⟨rfl, rfl, rfl, rfl⟩
      | exact readOutlinerZones_fields env vers lastPos k _ _

/-- When the loop over the zones of the outliner object succeeds, it has appended
one zone for each of its `k` turns, each with its text object. -/
theorem readOutlinerZones_zones (env : Env) (vers lastPos : Nat) :
    ∀ (k : Nat) (o : OutlinerParaObject) (z : StarZone),
      (readOutlinerZones env vers lastPos k o z).1 = true →
      ∃ zs : List OutlinerZone,
        (readOutlinerZones env vers lastPos k o z).2.1.m_zones = o.m_zones ++ zs ∧
        zs.length = k ∧ ∀ p ∈ zs, p.m_text.isSome = true
  | 0, o, _ => fun _ => ⟨[], by simp [readOutlinerZones], rfl, by simp⟩
  | k + 1, o, z => by
    rw [readOutlinerZones]
    simp only []
    split_ifs
    all_goals first
      | (intro h; exact False.elim h)
      | (intro h
         obtain ⟨zs, hz, hl, hall⟩ := readOutlinerZones_zones env vers lastPos k _ _ h
         refine ⟨_, hz.trans (List.append_assoc _ _ _), ?_, ?_⟩
         · simp only [List.length_append, List.length_singleton, hl]; omega
         · intro p hp
           rcases List.mem_append.mp hp with hp | hp
           · rw [List.mem_singleton.mp hp]
             first
               | rfl
               | (rw [readOutlinerZoneV1_text]; rfl)
           · exact hall p hp)

/-- The loop `readULongs` appends one value for each of its `n` turns. -/
theorem readULongs_length (w : Nat) : ∀ (n : Nat) (acc : List Nat) (z : StarZone),
    (readULongs w n acc z).1.length = acc.length + n
  | 0, _, _ => rfl
  | n + 1, acc, z => by
    rw [readULongs]
    simp only []
    rw [readULongs_length w n]
    simp only [List.length_append, List.length_singleton]
    omega

/-- The version read from a sync marker is at most 4, and it is zero exactly for a
marker that is none of the four known ones. -/
theorem outlinerVersion_cases (s : Nat) :
    outlinerVersion s ≤ 4 ∧
    (outlinerVersion s = 0 ↔
      s ≠ 0x12345678 ∧ s ≠ 0x22345678 ∧ s ≠ 0x32345678 ∧ s ≠ 0x42345678) := by
  unfold outlinerVersion
  split_ifs <;> simp_all

/-- The outliner object that `readSDROutlinerParaObject` returns for a marker that
is recognised: its version, and what a success leaves in its two representations. -/
theorem readSDROutlinerParaObject_recognised (env : Env) (z : StarZone)
    (hv : outlinerVersion ((z.readULong 4).2.readULong 4).1 ≠ 0) :
    (readSDROutlinerParaObject env z).2.1.m_version
      = outlinerVersion ((z.readULong 4).2.readULong 4).1 ∧
    ((readSDROutlinerParaObject env z).1 = true →
      (outlinerVersion ((z.readULong 4).2.readULong 4).1 ≤ 3 →
        (readSDROutlinerParaObject env z).2.1.m_zones.length = (z.readULong 4).1 ∧
        (∀ p ∈ (readSDROutlinerParaObject env z).2.1.m_zones, p.m_text.isSome = true) ∧
        (readSDROutlinerParaObject env z).2.1.m_textZone = none ∧
        (readSDROutlinerParaObject env z).2.1.m_depthList = []) ∧
      (¬ outlinerVersion ((z.readULong 4).2.readULong 4).1 ≤ 3 →
        (readSDROutlinerParaObject env z).2.1.m_textZone.isSome = true ∧
        (readSDROutlinerParaObject env z).2.1.m_zones = [] ∧
        (readSDROutlinerParaObject env z).2.1.m_depthList.length = (z.readULong 4).1)) := by
  unfold readSDROutlinerParaObject
  simp only []
  rw [if_neg hv]
  by_cases h3 : outlinerVersion ((z.readULong 4).2.readULong 4).1 ≤ 3
  · rw [if_pos h3]
    obtain ⟨f1, f2, f3, f4⟩ := readOutlinerZones_fields env
      (outlinerVersion ((z.readULong 4).2.readULong 4).1) z.getRecordLastPosition (z.readULong 4).1
      { OutlinerParaObject.new with
        m_version := outlinerVersion ((z.readULong 4).2.readULong 4).1 }
      ((z.readULong 4).2.readULong 4).2
    by_cases hz : (readOutlinerZones env (outlinerVersion ((z.readULong 4).2.readULong 4).1)
        z.getRecordLastPosition (z.readULong 4).1
        { OutlinerParaObject.new with
          m_version := outlinerVersion ((z.readULong 4).2.readULong 4).1 }
        ((z.readULong 4).2.readULong 4).2).1 = true
    · obtain ⟨zs, hzs, hl, hall⟩ := readOutlinerZones_zones env _ _ _ _ _ hz
      have hzs' : _ = zs := hzs.trans (List.nil_append zs)
      simp only [hz, Bool.not_true, Bool.false_eq_true, if_false]
      refine ⟨by split_ifs <;> exact f1, fun _ => ⟨fun _ => ?_, fun h => absurd h3 h⟩⟩
      split_ifs
      · exact ⟨by rw [hzs', hl], by rw [hzs']; exact hall, f2, f3⟩
      · exact ⟨by rw [hzs', hl], by rw [hzs']; exact hall, f2, f3⟩
    · have hz' : (readOutlinerZones env (outlinerVersion ((z.readULong 4).2.readULong 4).1)
          z.getRecordLastPosition (z.readULong 4).1
          { OutlinerParaObject.new with
            m_version := outlinerVersion ((z.readULong 4).2.readULong 4).1 }
          ((z.readULong 4).2.readULong 4).2).1 = false := by simpa using hz
      simp only [hz', Bool.not_false, if_true]
      exact ⟨f1, fun h => absurd h Bool.false_ne_true⟩
  · rw [if_neg h3]
    split_ifs
    · exact ⟨rfl, fun h => False.elim h⟩
    · refine ⟨rfl, fun _ => ⟨fun h => absurd h h3, fun _ => ⟨rfl, rfl, ?_⟩⟩⟩
      simp only []
      rw [readULongs_length]
      simp [OutlinerParaObject.new]

/-- The loop `readValues` moves the cursor over `n` values of `w` bytes. -/
theorem readValues_eq_skip (w : Nat) : ∀ (n : Nat) (z : StarZone),
    readValues w n z = z.skip (w * n) := by
  intro n
  induction n with
  | zero => intro z; cases z; rfl
  | succ n ih =>
    intro z
    rw [readValues, ih]
    cases z
    simp only [StarZone.readULong, StarZone.skip, StarZone.mk.injEq, true_and, and_true]
    rw [Nat.mul_succ]
    omega

/-- The function `readSDRObjectSurrogate` on a descriptor byte that is not zero and
whose width `w` is not 3, with `page` the bytes of the page reference: the read of
the value, the page reference, the count and the children, as moves of the
cursor. -/
theorem readSDRObjectSurrogate_accept (z : StarZone) (w page : Nat)
    (h0 : leValue z.input z.pos 1 ≠ 0) (hw : w = 1 + (leValue z.input z.pos 1 >>> 6))
    (h3 : w ≠ 3)
    (hpage : page = if 0x10 ≤ leValue z.input z.pos 1 &&& 0x1f ∧
      leValue z.input z.pos 1 &&& 0x1f ≤ 0x1a then 2 else 0) :
    readSDRObjectSurrogate z =
      if leValue z.input z.pos 1 &&& 0x20 ≠ 0 then
        if z.pos + 1 + w + page + 2 + w * leValue z.input (z.pos + 1 + w + page) 2
            > z.getRecordLastPosition then
          (false, z.skip (1 + w + page + 2))
        else
          (true, z.skip (1 + w + page + 2 + w * leValue z.input (z.pos + 1 + w + page) 2))
      else (decide (z.pos + 1 + w + page ≤ z.getRecordLastPosition), z.skip (1 + w + page)) := by
  subst hw
  unfold readSDRObjectSurrogate
  simp only [StarZone.readULong, StarZone.tell, ne_eq, h0, not_false_eq_true, if_true, h3,
    decide_True, true_and, Bool.true_and]
  by_cases hk : 0x10 ≤ leValue z.input z.pos 1 &&& 0x1f ∧ leValue z.input z.pos 1 &&& 0x1f ≤ 0x1a
  · rw [if_pos hk] at hpage
    subst hpage
    simp only [hk, and_self, if_true, readValues_eq_skip, StarZone.skip]
    by_cases hb : leValue z.input z.pos 1 &&& 0x20 = 0
    · simp only [hb, not_true_eq_false, if_false]
      simp [Nat.add_assoc]
    · simp only [hb, not_false_eq_true, if_true]
      split_ifs with h1
      · simp [Nat.add_assoc]
      · have : z.pos + 1 + (1 + leValue z.input z.pos 1 >>> 6) + 2 + 2 +
            (1 + leValue z.input z.pos 1 >>> 6) *
              leValue z.input (z.pos + 1 + (1 + leValue z.input z.pos 1 >>> 6) + 2) 2
            ≤ z.getRecordLastPosition := by omega
        simpa [Nat.add_assoc] using this
  · rw [if_neg hk] at hpage
    subst hpage
    simp only [hk, if_false, readValues_eq_skip, StarZone.skip, Nat.add_zero]
    by_cases hb : leValue z.input z.pos 1 &&& 0x20 = 0
    · simp only [hb, not_true_eq_false, if_false]
      simp [Nat.add_assoc]
    · simp only [hb, not_false_eq_true, if_true]
      split_ifs with h1
      · simp [Nat.add_assoc]
      · have : z.pos + 1 + (1 + leValue z.input z.pos 1 >>> 6) + 2 +
            (1 + leValue z.input z.pos 1 >>> 6) *
              leValue z.input (z.pos + 1 + (1 + leValue z.input z.pos 1 >>> 6)) 2
            ≤ z.getRecordLastPosition := by omega
        simpa [Nat.add_assoc] using this

/-- The fixed fields of the header record take 31 bytes, and one more from the
format version 4 on, whatever the length of the record. -/
theorem readHeaderFixed_tell (z : StarZone) (g : SdrGraphic) :
    (readHeaderFixed z g).2.tell = z.tell + 31 + (if z.getHeaderVersion ≥ 4 then 1 else 0) := by
  by_cases hv4 : z.getHeaderVersion ≥ 4
  · simp [readHeaderFixed, readBox, readVec, StarZone.readLong, StarZone.readULong,
      StarZone.readBool, StarZone.readBoolIf, hv4, Nat.add_assoc]
  · simp [readHeaderFixed, readBox, readVec, StarZone.readLong, StarZone.readULong,
      StarZone.readBool, StarZone.readBoolIf, hv4, Nat.add_assoc]

/-- When the fixed fields of the header record end after its last position, nothing
more of the record is read. -/
theorem readHeaderFields_overrun (z : StarZone) (g : SdrGraphic)
    (h : (readHeaderFixed z g).2.tell > z.getRecordLastPosition) :
    readHeaderFields z g = (false, (readHeaderFixed z g).1, (readHeaderFixed z g).2) := by
  unfold readHeaderFields
  simp only []
  rw [if_pos h]

/-- The fixed fields of the text record take 26 bytes, whatever the length of the
record. -/
theorem readTextFixed_tell (z : StarZone) (g : SdrGraphicText) :
    (readTextFixed z g).2.2.tell = z.tell + 26 := by
  simp [readTextFixed, readBox, StarZone.readLong, StarZone.readULong, StarZone.readBool,
    Nat.add_assoc]

/-- The fixed fields of the measure record take 17 bytes, whatever the length of
the record. -/
theorem readMeasureFixed_tell (z : StarZone) (g : SdrGraphicMeasure) :
    (readMeasureFixed z g).2.tell = z.tell + 17 := by
  simp [readMeasureFixed, readVec, StarZone.readLong, StarZone.readBool, Nat.add_assoc]

/-- Once its record is open, `readSVDRObjectHeader` returns `true` with the cursor
at the last position of that record and the record closed, when the group reader
is good after the cursor. -/
theorem readSVDRObjectHeader_closes (env : Env) {grp : GroupReader} {L : Nat} (z : StarZone)
    (g : SdrGraphic) (hL : z.input.length = L)
    (hg : z.pos < L → GoodGroup grp L (z.pos + 1)) (ho : z.openRecord.1 = true) :
    ∃ g' z', readSVDRObjectHeader env grp z g = some (true, g', z') ∧
      z'.tell = z.openRecord.2.getRecordLastPosition ∧ z'.stack = z.stack := by
  obtain ⟨s, hst, hpo, hle, hlen, -⟩ := StarZone.openRecord_true ho
  have hlast : z.openRecord.2.getRecordLastPosition = s.endPos :=
    StarZone.getRecordLastPosition_cons hst
  have hlt : z.pos < L := by omega
  have close : ∀ zc : StarZone, zc.stack = s :: z.stack →
      zc.closeRecord.tell = z.openRecord.2.getRecordLastPosition ∧
        zc.closeRecord.stack = z.stack := by
    intro zc hzc
    simp [StarZone.closeRecord, hzc, hlast]
  unfold readSVDRObjectHeader
  simp only [ho, Bool.not_true, Bool.false_eq_true, if_false]
  by_cases h1 : (!(readHeaderFields z.openRecord.2 g).1) = true
  · rw [if_pos h1]
    exact ⟨_, _, rfl, close _ (by simp [hst])⟩
  · rw [if_neg h1]
    by_cases h2 : (!((readHeaderFields z.openRecord.2 g).2.2.readBoolIf
        (decide (z.openRecord.2.getHeaderVersion ≥ 11)) true).1) = true
    · rw [if_pos h2]
      exact ⟨_, _, rfl, close _ (by simp [hst])⟩
    · rw [if_neg h2]
      obtain ⟨ok, z', heq, -, hs, -⟩ := readSDRUserDataList_lands env (hg hlt)
        ((readHeaderFields z.openRecord.2 g).2.2.readBoolIf
          (decide (z.openRecord.2.getHeaderVersion ≥ 11)) true).2
        (decide (z.openRecord.2.getHeaderVersion ≥ 11)) (by simp [hL])
        (by
          have h1 := readHeaderFields_pos z.openRecord.2 g
          have h2 := StarZone.readBoolIf_pos (readHeaderFields z.openRecord.2 g).2.2
            (decide (z.openRecord.2.getHeaderVersion ≥ 11)) true
          omega)
        (by
          rw [StarZone.getRecordLastPosition_cons (s := s) (by simpa using hst)]; omega)
      rw [heq]
      exact ⟨_, _, rfl, close _ (by rw [hs]; simp [hst])⟩

/-- Once the item-set layer has succeeded and the text record is open,
`readSVDRObjectText` returns `true` with the cursor at the last position of that
record and the record closed. -/
theorem readSVDRObjectText_opened {env : Env} {grp : GroupReader} {z : StarZone}
    {g : SdrGraphicText} {base : SdrGraphicAttribute} {z1 : StarZone}
    (hA : readSVDRObjectAttrib env grp z g.toSdrGraphicAttribute = some (true, base, z1))
    (ho : z1.openRecord.1 = true) :
    ∃ g' z', readSVDRObjectText env grp z g = some (true, g', z') ∧
      z'.tell = z1.openRecord.2.getRecordLastPosition ∧ z'.stack = z1.stack := by
  obtain ⟨s, hst, -, -, -, -⟩ := StarZone.openRecord_true ho
  unfold readSVDRObjectText
  rw [hA]
  simp only [ho, Bool.not_true, Bool.false_eq_true, if_false]
  refine ⟨_, _, rfl, ?_, ?_⟩
  · simp [apply_ite Prod.snd, apply_ite StarZone.stack, hst,
      StarZone.getRecordLastPosition_cons hst]
  · simp [apply_ite Prod.snd, apply_ite StarZone.stack, hst]

/-- Once the text layer has succeeded and the measure record is open,
`readSVDRObjectMeasure` returns `true` with the cursor at the last position of that
record and the record closed. -/
theorem readSVDRObjectMeasure_opened {env : Env} {grp : GroupReader} {z : StarZone}
    {g : SdrGraphicMeasure} {base : SdrGraphicText} {z1 : StarZone}
    (hT : readSVDRObjectText env grp z g.toSdrGraphicText = some (true, base, z1))
    (ho : z1.openRecord.1 = true) :
    ∃ g' z', readSVDRObjectMeasure env grp z g = some (true, g', z') ∧
      z'.tell = z1.openRecord.2.getRecordLastPosition ∧ z'.stack = z1.stack := by
  obtain ⟨s, hst, -, -, -, -⟩ := StarZone.openRecord_true ho
  unfold readSVDRObjectMeasure
  rw [hT]
  simp only [ho, Bool.not_true, Bool.false_eq_true, if_false]
  refine ⟨_, _, rfl, ?_, ?_⟩
  · simp [hst, StarZone.getRecordLastPosition_cons hst]
  · simp [hst]

/-- The loop of `readSDRGluePointList` appends one glue point for each unit of
the declared count, whatever the stream holds. -/
theorem readSDRGluePoints_length (n : Nat) (acc : List GluePoint) (z : StarZone) :
    (readSDRGluePoints n acc z).1.length = acc.length + n := by
  induction n generalizing acc z with
  | zero => rfl
  | succ n ih =>
    unfold readSDRGluePoints
    simp only []
    rw [ih]
    simp only [List.length_append, List.length_singleton]
    omega

/-! ## Lemmas on chart objects, flagged lists, the edge info record, framing and loops -/

/-- The chart user data of an identifier from 1 to 7 is an object of the class
`SCHUGraphic` that carries the identifier. -/
theorem readSCHUData_some (z : StarZone) (identifier : Int)
    (h : 1 ≤ identifier ∧ identifier ≤ 7) :
    ∃ g, (readSCHUData z identifier).1 = some (.schu g) ∧ g.m_identifier = identifier := by
  have h0 : ¬ (identifier ≤ 0 ∨ identifier > 7) := by omega
  unfold readSCHUData
  simp only [h0, if_false]
  split_ifs <;> exact ⟨_, rfl, rfl⟩

/-- The chart user data of an identifier outside 1..7 is no object, and no byte is
read. -/
theorem readSCHUData_none (z : StarZone) (identifier : Int)
    (h : identifier ≤ 0 ∨ identifier > 7) : readSCHUData z identifier = (none, z) := by
  unfold readSCHUData
  simp only [h, if_true]

/-- The loop `readPoints` appends one point for each of its `n` turns. -/
theorem readPoints_length : ∀ (n : Nat) (acc : List STOFFVec2i) (z : StarZone),
    (readPoints n acc z).1.length = acc.length + n
  | 0, _, _ => rfl
  | n + 1, acc, z => by
    rw [readPoints]
    simp only []
    rw [readPoints_length n]
    simp only [List.length_append, List.length_singleton]
    omega

/-- The edge track keeps one flag per point. -/
theorem readEdgePolygon_flags (g : SdrGraphicEdge) (z : StarZone)
    (hg : g.m_edgePolygonFlags.length = g.m_edgePolygon.length) :
    (readEdgePolygon g z).2.1.m_edgePolygonFlags.length
      = (readEdgePolygon g z).2.1.m_edgePolygon.length := by
  unfold readEdgePolygon
  simp only []
  split_ifs
  · exact hg
  · simp only [readULongs_length, readPoints_length, hg]

/-- The start of the edge record keeps one flag per point. -/
theorem readEdgeTrack_flags (vers : Nat) (g : SdrGraphicEdge) (z : StarZone)
    (hg : g.m_edgePolygonFlags.length = g.m_edgePolygon.length) :
    (readEdgeTrack vers g z).2.1.m_edgePolygonFlags.length
      = (readEdgeTrack vers g z).2.1.m_edgePolygon.length := by
  unfold readEdgeTrack
  simp only []
  split_ifs
  · exact readEdgePolygon_flags g _ hg
  · exact hg

/-- The loop over the flagged point lists of a path keeps one flag per point. -/
theorem readPathPolys_flagged (lastPos : Nat) :
    ∀ (k : Nat) (g : SdrGraphicPath) (z : StarZone),
      g.m_pathPolygonFlags.length = g.m_pathPolygon.length →
      (readPathPolys 9 lastPos k g z).2.1.m_pathPolygonFlags.length
        = (readPathPolys 9 lastPos k g z).2.1.m_pathPolygon.length
  | 0, _, _, hg => hg
  | k + 1, g, z, hg => by
    rw [readPathPolys]
    simp only []
    split_ifs
    · exact hg
    · exact readPathPolys_flagged lastPos k _ _
        (by simp only [readULongs_length, readPoints_length, hg, if_true])

/-- The loop over the plain point lists of a path leaves the flags as they were. -/
theorem readPathPolys_plain (lastPos : Nat) :
    ∀ (k : Nat) (g : SdrGraphicPath) (z : StarZone),
      (readPathPolys 8 lastPos k g z).2.1.m_pathPolygonFlags = g.m_pathPolygonFlags
  | 0, _, _ => rfl
  | k + 1, g, z => by
    rw [readPathPolys]
    simp only []
    by_cases hc : (z.readULong 2).2.tell + 8 * (z.readULong 2).1 > lastPos
    · rw [if_pos hc]
    · rw [if_neg hc, readPathPolys_plain lastPos k]
      rfl

/-- The edge decoder keeps one flag per point, whatever its result. -/
theorem readSVDRObjectEdge_flags {env : Env} {grp : GroupReader} {z : StarZone}
    {g g' : SdrGraphicEdge} {ok : Bool} {z' : StarZone}
    (hg : g.m_edgePolygonFlags.length = g.m_edgePolygon.length)
    (h : readSVDRObjectEdge env grp z g = some (ok, g', z')) :
    g'.m_edgePolygonFlags.length = g'.m_edgePolygon.length := by
  unfold readSVDRObjectEdge at h
  cases hT : readSVDRObjectText env grp z g.toSdrGraphicText with
  | none => rw [hT] at h; exact absurd h (by simp)
  | some r =>
    obtain ⟨okT, base, z1⟩ := r
    rw [hT] at h
    simp only [] at h
    by_cases h1 : (!okT) = true
    · rw [if_pos h1] at h
      simp only [Option.some.injEq, Prod.mk.injEq] at h
      rw [← h.2.1]; exact hg
    · rw [if_neg h1] at h
      by_cases h2 : (!z1.openRecord.1) = true
      · rw [if_pos h2] at h
        simp only [Option.some.injEq, Prod.mk.injEq] at h
        rw [← h.2.1]; exact hg
      · rw [if_neg h2] at h
        simp only [Option.some.injEq, Prod.mk.injEq] at h
        rw [← h.2.1]
        have ht := readEdgeTrack_flags z1.openRecord.2.getHeaderVersion
          { g with toSdrGraphicText := base } z1.openRecord.2 hg
        split_ifs <;> first | exact ht | (unfold readEdgeInfo; split_ifs <;> exact ht)

/-- The path decoder leaves the flags as they were or keeps one flag per point,
whatever its result. -/
theorem readSVDRObjectPath_flags {env : Env} {grp : GroupReader} {z : StarZone}
    {g g' : SdrGraphicPath} {ok : Bool} {z' : StarZone}
    (hg : g.m_pathPolygonFlags.length = g.m_pathPolygon.length)
    (h : readSVDRObjectPath env grp z g = some (ok, g', z')) :
    g'.m_pathPolygonFlags = g.m_pathPolygonFlags ∨
      g'.m_pathPolygonFlags.length = g'.m_pathPolygon.length := by
  unfold readSVDRObjectPath at h
  cases hT : readSVDRObjectText env grp z g.toSdrGraphicText with
  | none => rw [hT] at h; exact absurd h (by simp)
  | some r =>
    obtain ⟨okT, base, z1⟩ := r
    rw [hT] at h
    simp only [] at h
    by_cases h1 : (!okT) = true
    · rw [if_pos h1] at h
      simp only [Option.some.injEq, Prod.mk.injEq] at h
      rw [← h.2.1]; exact Or.inl rfl
    · rw [if_neg h1] at h
      by_cases h2 : (!z1.openRecord.1) = true
      · rw [if_pos h2] at h
        simp only [Option.some.injEq, Prod.mk.injEq] at h
        rw [← h.2.1]; exact Or.inl rfl
      · rw [if_neg h2] at h
        simp only [Option.some.injEq, Prod.mk.injEq] at h
        rw [← h.2.1]
        split_ifs
        · left
          unfold readPathLegacy
          exact readPathPolys_plain _ _ _ _
        · right
          unfold readPathFlagged
          exact readPathPolys_flagged _ _ _ _ hg

/-- The zone after `n` points: 8 bytes further for each point. -/
theorem readPoints_zone : ∀ (n : Nat) (acc : List STOFFVec2i) (z : StarZone),
    (readPoints n acc z).2 = z.skip (8 * n)
  | 0, _, z => by cases z; rfl
  | n + 1, acc, z => by
    rw [readPoints]
    simp only []
    rw [readPoints_zone n]
    simp only [StarZone.readLong, StarZone.skip, StarZone.mk.injEq, true_and, and_true]
    rw [Nat.mul_succ]
    omega

/-- The record `SdrEdgeInfoRec` when 55 bytes are left before `lastPos`: five
points, two signed 32-bit angles, three unsigned 16-bit counters and one byte,
55 bytes in all. -/
theorem readEdgeInfo_read (lastPos : Nat) (g : SdrGraphicEdge) (z : StarZone)
    (h : z.tell + 55 ≤ lastPos) :
    readEdgeInfo lastPos g z
      = ({ g with m_info :=
            ⟨(readPoints 5 [] z).1,
              [toSigned 4 (leValue z.input (z.pos + 40) 4),
                toSigned 4 (leValue z.input (z.pos + 44) 4)],
              [leValue z.input (z.pos + 48) 2, leValue z.input (z.pos + 50) 2,
                leValue z.input (z.pos + 52) 2],
              leValue z.input (z.pos + 54) 1⟩ },
          z.skip 55) := by
  have hc : ¬ (z.tell + 5 * 8 + 2 * 4 + 3 * 2 + 1 > lastPos) := by omega
  unfold readEdgeInfo
  rw [if_neg hc]
  simp only [readPoints_zone, StarZone.readLong, StarZone.readULong, StarZone.skip,
    Nat.add_assoc]

/-- The record `SdrEdgeInfoRec` when fewer than 55 bytes are left before `lastPos`:
nothing is read. -/
theorem readEdgeInfo_skip (lastPos : Nat) (g : SdrGraphicEdge) (z : StarZone)
    (h : ¬ z.tell + 55 ≤ lastPos) : readEdgeInfo lastPos g z = (g, z) := by
  have hc : z.tell + 5 * 8 + 2 * 4 + 3 * 2 + 1 > lastPos := by omega
  unfold readEdgeInfo
  rw [if_pos hc]

/-- The start of the edge record leaves the info record as it was. -/
theorem readEdgeTrack_info (vers : Nat) (g : SdrGraphicEdge) (z : StarZone) :
    (readEdgeTrack vers g z).2.1.m_info = g.m_info := by
  unfold readEdgeTrack
  simp only []
  split_ifs
  · unfold readEdgePolygon
    simp only []
    split_ifs <;> rfl
  · rfl

/-- The info record of the edge that `readSVDRObjectEdge` returns once its record
is open: the one of the block `readEdgeInfo`, run when the flag `ok` holds and the
cursor is before the last position of the record, after the edge track `t`, the
connections `c` and the item `i`; otherwise the one at the entry. -/
theorem readSVDRObjectEdge_info_block {env : Env} {grp : GroupReader} {z : StarZone}
    {g : SdrGraphicEdge} {base : SdrGraphicText} {z1 : StarZone}
    (hT : readSVDRObjectText env grp z g.toSdrGraphicText = some (true, base, z1))
    (ho : z1.openRecord.1 = true)
    (L : Nat) (hL : L = z1.openRecord.2.getRecordLastPosition)
    (t : Bool × SdrGraphicEdge × StarZone)
    (ht : t = readEdgeTrack z1.openRecord.2.getHeaderVersion
      { g with toSdrGraphicText := base } z1.openRecord.2)
    (c : Bool × StarZone)
    (hc : c = if t.1 = true ∧ t.2.2.tell < L then readEdgeConnections 2 t.2.2 else (t.1, t.2.2))
    (i : Option StarItem × StarZone)
    (hi : i = loadItem env L 1146 (c.1 && decide (c.2.tell < L)) t.2.1.m_edgeItem c.2) :
    ∃ g' z', readSVDRObjectEdge env grp z g = some (true, g', z') ∧
      g'.m_info = (if c.1 = true ∧ i.2.tell < L then
          (readEdgeInfo L { t.2.1 with m_edgeItem := i.1 } i.2).1.m_info
        else g.m_info) := by
  subst hL ht hc hi
  unfold readSVDRObjectEdge
  rw [hT]
  simp only [ho, Bool.not_true, Bool.false_eq_true, if_false]
  refine ⟨_, _, rfl, ?_⟩
  rw [apply_ite Prod.fst, apply_ite SdrGraphicEdge.m_info]
  exact if_congr Iff.rfl rfl (readEdgeTrack_info _ _ _)

/-- Five points read in a row: ten signed 32-bit values, 40 bytes. -/
theorem readPoints_five (z : StarZone) :
    (readPoints 5 [] z).1
      = [⟨toSigned 4 (leValue z.input z.pos 4), toSigned 4 (leValue z.input (z.pos + 4) 4)⟩,
          ⟨toSigned 4 (leValue z.input (z.pos + 8) 4),
            toSigned 4 (leValue z.input (z.pos + 12) 4)⟩,
          ⟨toSigned 4 (leValue z.input (z.pos + 16) 4),
            toSigned 4 (leValue z.input (z.pos + 20) 4)⟩,
          ⟨toSigned 4 (leValue z.input (z.pos + 24) 4),
            toSigned 4 (leValue z.input (z.pos + 28) 4)⟩,
          ⟨toSigned 4 (leValue z.input (z.pos + 32) 4),
            toSigned 4 (leValue z.input (z.pos + 36) 4)⟩] := by
  simp [readPoints, StarZone.readLong, Nat.add_assoc]

/-- The result of `readSVDRObjectAttrib` is `true` exactly when `readSVDRObjectHeader` has
returned `true` and the record of the layer opens. -/
theorem readSVDRObjectAttrib_framing {env : Env} {grp : GroupReader} {z : StarZone}
    {g : SdrGraphicAttribute} {okI : Bool} {base : SdrGraphic} {z1 : StarZone}
    (h : readSVDRObjectHeader env grp z g.toSdrGraphic = some (okI, base, z1)) :
    ∃ g' z', readSVDRObjectAttrib env grp z g = some (okI && z1.openRecord.1, g', z') := by
  unfold readSVDRObjectAttrib
  rw [h]
  cases okI
  · exact ⟨_, _, rfl⟩
  · cases ho : z1.openRecord.1
    · simp only [ho, Bool.not_true, Bool.false_eq_true, if_false, Bool.not_false, if_true,
        Bool.and_false]
      exact ⟨_, _, rfl⟩
    · simp only [ho, Bool.not_true, Bool.false_eq_true, if_false, Bool.and_true]
      exact ⟨_, _, rfl⟩

/-- The result of `readSVDRObjectText` is `true` exactly when `readSVDRObjectAttrib` has
returned `true` and the record of the layer opens. -/
theorem readSVDRObjectText_framing {env : Env} {grp : GroupReader} {z : StarZone}
    {g : SdrGraphicText} {okI : Bool} {base : SdrGraphicAttribute} {z1 : StarZone}
    (h : readSVDRObjectAttrib env grp z g.toSdrGraphicAttribute = some (okI, base, z1)) :
    ∃ g' z', readSVDRObjectText env grp z g = some (okI && z1.openRecord.1, g', z') := by
  unfold readSVDRObjectText
  rw [h]
  cases okI
  · exact ⟨_, _, rfl⟩
  · cases ho : z1.openRecord.1
    · simp only [ho, Bool.not_true, Bool.false_eq_true, if_false, Bool.not_false, if_true,
        Bool.and_false]
      exact ⟨_, _, rfl⟩
    · simp only [ho, Bool.not_true, Bool.false_eq_true, if_false, Bool.and_true]
      exact ⟨_, _, rfl⟩

/-- The result of `readSVDRObjectCaption` is `true` exactly when `readSVDRObjectRect` has
returned `true` and the record of the layer opens. -/
theorem readSVDRObjectCaption_framing {env : Env} {grp : GroupReader} {z : StarZone}
    {g : SdrGraphicCaption} {okI : Bool} {base : SdrGraphicRect} {z1 : StarZone}
    (h : readSVDRObjectRect env grp z g.toSdrGraphicRect = some (okI, base, z1)) :
    ∃ g' z', readSVDRObjectCaption env grp z g = some (okI && z1.openRecord.1, g', z') := by
  unfold readSVDRObjectCaption
  rw [h]
  cases okI
  · exact ⟨_, _, rfl⟩
  · cases ho : z1.openRecord.1
    · simp only [ho, Bool.not_true, Bool.false_eq_true, if_false, Bool.not_false, if_true,
        Bool.and_false]
      exact ⟨_, _, rfl⟩
    · simp only [ho, Bool.not_true, Bool.false_eq_true, if_false, Bool.and_true]
      exact ⟨_, _, rfl⟩

/-- The result of `readSVDRObjectCircle` is `true` exactly when `readSVDRObjectRect` has
returned `true` and the record of the layer opens. -/
theorem readSVDRObjectCircle_framing {env : Env} {grp : GroupReader} {z : StarZone}
    {g : SdrGraphicCircle} {okI : Bool} {base : SdrGraphicRect} {z1 : StarZone}
    (h : readSVDRObjectRect env grp z g.toSdrGraphicRect = some (okI, base, z1)) :
    ∃ g' z', readSVDRObjectCircle env grp z g = some (okI && z1.openRecord.1, g', z') := by
  unfold readSVDRObjectCircle
  rw [h]
  cases okI
  · exact ⟨_, _, rfl⟩
  · cases ho : z1.openRecord.1
    · simp only [ho, Bool.not_true, Bool.false_eq_true, if_false, Bool.not_false, if_true,
        Bool.and_false]
      exact ⟨_, _, rfl⟩
    · simp only [ho, Bool.not_true, Bool.false_eq_true, if_false, Bool.and_true]
      exact ⟨_, _, rfl⟩

/-- The result of `readSVDRObjectEdge` is `true` exactly when `readSVDRObjectText` has
returned `true` and the record of the layer opens. -/
theorem readSVDRObjectEdge_framing {env : Env} {grp : GroupReader} {z : StarZone}
    {g : SdrGraphicEdge} {okI : Bool} {base : SdrGraphicText} {z1 : StarZone}
    (h : readSVDRObjectText env grp z g.toSdrGraphicText = some (okI, base, z1)) :
    ∃ g' z', readSVDRObjectEdge env grp z g = some (okI && z1.openRecord.1, g', z') := by
  unfold readSVDRObjectEdge
  rw [h]
  cases okI
  · exact ⟨_, _, rfl⟩
  · cases ho : z1.openRecord.1
    · simp only [ho, Bool.not_true, Bool.false_eq_true, if_false, Bool.not_false, if_true,
        Bool.and_false]
      exact ⟨_, _, rfl⟩
    · simp only [ho, Bool.not_true, Bool.false_eq_true, if_false, Bool.and_true]
      exact ⟨_, _, rfl⟩

/-- The result of `readSVDRObjectGraph` is `true` exactly when `readSVDRObjectRect` has
returned `true` and the record of the layer opens. -/
theorem readSVDRObjectGraph_framing {env : Env} {grp : GroupReader} {z : StarZone}
    {g : SdrGraphicGraph} {okI : Bool} {base : SdrGraphicRect} {z1 : StarZone}
    (h : readSVDRObjectRect env grp z g.toSdrGraphicRect = some (okI, base, z1)) :
    ∃ g' z', readSVDRObjectGraph env grp z g = some (okI && z1.openRecord.1, g', z') := by
  unfold readSVDRObjectGraph
  rw [h]
  cases okI
  · exact ⟨_, _, rfl⟩
  · cases ho : z1.openRecord.1
    · simp only [ho, Bool.not_true, Bool.false_eq_true, if_false, Bool.not_false, if_true,
        Bool.and_false]
      exact ⟨_, _, rfl⟩
    · simp only [ho, Bool.not_true, Bool.false_eq_true, if_false, Bool.and_true]
      exact ⟨_, _, rfl⟩

/-- The result of `readSVDRObjectMeasure` is `true` exactly when `readSVDRObjectText` has
returned `true` and the record of the layer opens. -/
theorem readSVDRObjectMeasure_framing {env : Env} {grp : GroupReader} {z : StarZone}
    {g : SdrGraphicMeasure} {okI : Bool} {base : SdrGraphicText} {z1 : StarZone}
    (h : readSVDRObjectText env grp z g.toSdrGraphicText = some (okI, base, z1)) :
    ∃ g' z', readSVDRObjectMeasure env grp z g = some (okI && z1.openRecord.1, g', z') := by
  unfold readSVDRObjectMeasure
  rw [h]
  cases okI
  · exact ⟨_, _, rfl⟩
  · cases ho : z1.openRecord.1
    · simp only [ho, Bool.not_true, Bool.false_eq_true, if_false, Bool.not_false, if_true,
        Bool.and_false]
      exact ⟨_, _, rfl⟩
    · simp only [ho, Bool.not_true, Bool.false_eq_true, if_false, Bool.and_true]
      exact ⟨_, _, rfl⟩

/-- The result of `readSVDRObjectOLE` is `true` exactly when `readSVDRObjectRect` has
returned `true` and the record of the layer opens. -/
theorem readSVDRObjectOLE_framing {env : Env} {grp : GroupReader} {z : StarZone}
    {g : SdrGraphicOLE} {okI : Bool} {base : SdrGraphicRect} {z1 : StarZone}
    (h : readSVDRObjectRect env grp z g.toSdrGraphicRect = some (okI, base, z1)) :
    ∃ g' z', readSVDRObjectOLE env grp z g = some (okI && z1.openRecord.1, g', z') := by
  unfold readSVDRObjectOLE
  rw [h]
  cases okI
  · exact ⟨_, _, rfl⟩
  · cases ho : z1.openRecord.1
    · simp only [ho, Bool.not_true, Bool.false_eq_true, if_false, Bool.not_false, if_true,
        Bool.and_false]
      exact ⟨_, _, rfl⟩
    · simp only [ho, Bool.not_true, Bool.false_eq_true, if_false, Bool.and_true]
      exact ⟨_, _, rfl⟩

/-- The result of `readSVDRObjectPath` is `true` exactly when `readSVDRObjectText` has
returned `true` and the record of the layer opens. -/
theorem readSVDRObjectPath_framing {env : Env} {grp : GroupReader} {z : StarZone}
    {g : SdrGraphicPath} {okI : Bool} {base : SdrGraphicText} {z1 : StarZone}
    (h : readSVDRObjectText env grp z g.toSdrGraphicText = some (okI, base, z1)) :
    ∃ g' z', readSVDRObjectPath env grp z g = some (okI && z1.openRecord.1, g', z') := by
  unfold readSVDRObjectPath
  rw [h]
  cases okI
  · exact ⟨_, _, rfl⟩
  · cases ho : z1.openRecord.1
    · simp only [ho, Bool.not_true, Bool.false_eq_true, if_false, Bool.not_false, if_true,
        Bool.and_false]
      exact ⟨_, _, rfl⟩
    · simp only [ho, Bool.not_true, Bool.false_eq_true, if_false, Bool.and_true]
      exact ⟨_, _, rfl⟩

/-- The result of `readSVDRObjectGroup` is `true` exactly when
`readSVDRObjectHeader` has returned `true` and the group record opens, when the
group reader of the children is good and the fuel covers the bytes left. -/
theorem readSVDRObjectGroupWith_framing (env : Env) {grp : GroupReader} {L b : Nat}
    (hg : GoodGroup grp L b) (k : Nat) {z : StarZone} {g : SdrGraphicGroup} {okI : Bool}
    {base : SdrGraphic} {z1 : StarZone}
    (h : readSVDRObjectHeader env grp z g.toSdrGraphic = some (okI, base, z1))
    (hL : z1.input.length = L) (hb : b ≤ z1.pos + 1) (hk : L ≤ z1.pos + k) :
    ∃ g' z', readSVDRObjectGroupWith env grp (k + 1) z g
      = some (okI && z1.openRecord.1, g', z') := by
  unfold readSVDRObjectGroupWith
  rw [h]
  cases okI
  · exact ⟨_, _, rfl⟩
  · cases ho : z1.openRecord.1
    · simp only [ho, Bool.not_true, Bool.false_eq_true, if_false, Bool.not_false, if_true,
        Bool.and_false]
      exact ⟨_, _, rfl⟩
    · obtain ⟨s, hst, hpo, -, -, -⟩ := StarZone.openRecord_true ho
      obtain ⟨okb, gb, zb, hbody, -⟩ := readGroupBody_lands env hg k
        z1.openRecord.2.getRecordLastPosition { g with toSdrGraphic := base } z1.openRecord.2
        (by simpa using hL) (by omega) (by omega)
      simp only [ho, Bool.not_true, Bool.false_eq_true, if_false, Bool.and_true, hbody]
      exact ⟨_, _, rfl⟩
/-- A layer whose result is the one of its inner layer and of the opening of its
record fails only on framing. -/
theorem failsOnlyOnFraming_of {α β : Type} {inner : Option (Bool × β × StarZone)}
    {outer : Option (Bool × α × StarZone)} {okI : Bool} {base : β} {z1 : StarZone}
    (hi : inner = some (okI, base, z1))
    (ho : ∃ g' z', outer = some (okI && z1.openRecord.1, g', z')) :
    FailsOnlyOnFraming inner outer := by
  obtain ⟨g', z', ho⟩ := ho
  refine ⟨okI, base, z1, _, g', z', hi, ho, ?_⟩
  cases okI <;> cases z1.openRecord.1 <;> simp

/-- The loop of `readSDRGluePointList` appends to the points it is given what it
reads from the zone. -/
theorem readSDRGluePoints_acc :
    ∀ (n : Nat) (acc : List GluePoint) (z : StarZone),
      readSDRGluePoints n acc z
        = (acc ++ (readSDRGluePoints n [] z).1, (readSDRGluePoints n [] z).2)
  | 0, acc, z => by simp [readSDRGluePoints]
  | n + 1, acc, z => by
    rw [readSDRGluePoints, readSDRGluePoints]
    simp only []
    rw [readSDRGluePoints_acc n (acc ++ _), readSDRGluePoints_acc n ([] ++ _)]
    simp only [List.nil_append, List.append_assoc]

/-- One more turn of the loop of `readSDRGluePointList` appends the point that
`readSDRGluePoint` returns on the zone left by the turns before. -/
theorem readSDRGluePoints_succ :
    ∀ (n : Nat) (z : StarZone),
      (readSDRGluePoints (n + 1) [] z).1
        = (readSDRGluePoints n [] z).1 ++ [(readSDRGluePoint (readSDRGluePoints n [] z).2).2.1] ∧
      (readSDRGluePoints (n + 1) [] z).2
        = (readSDRGluePoints 1 [] (readSDRGluePoints n [] z).2).2
  | 0, z => by simp [readSDRGluePoints]
  | n + 1, z => by
    have h1 : ∀ m, readSDRGluePoints (m + 1) [] z
        = ([(readSDRGluePoint z).2.1] ++ (readSDRGluePoints m [] (readSDRGluePoints 1 [] z).2).1,
            (readSDRGluePoints m [] (readSDRGluePoints 1 [] z).2).2) := by
      intro m
      rw [readSDRGluePoints]
      simp only []
      rw [readSDRGluePoints_acc m ([] ++ _)]
      simp [readSDRGluePoints]
    obtain ⟨ih1, ih2⟩ := readSDRGluePoints_succ n (readSDRGluePoints 1 [] z).2
    rw [h1 (n + 1), h1 n]
    simp only [ih1, ih2, List.append_assoc, and_self]

/-- The points that the loop of `readSDRGluePointList` returns: the one of each
turn, in order. -/
theorem readSDRGluePoints_range (z : StarZone) :
    ∀ n : Nat, (readSDRGluePoints n [] z).1
      = (List.range n).map (fun i => (readSDRGluePoint (readSDRGluePoints i [] z).2).2.1)
  | 0 => rfl
  | n + 1 => by
    rw [(readSDRGluePoints_succ n z).1, readSDRGluePoints_range z n, List.range_succ,
      List.map_append]
    rfl

/-- A glue point whose record does not open is the default glue point, and the
cursor stays where it was. -/
theorem readSDRGluePoint_default (z : StarZone) (ho : z.openRecord.1 = false) :
    readSDRGluePoint z = (false, GluePoint.new 0 0, z) := by
  unfold readSDRGluePoint
  simp only [ho, Bool.not_false, if_true]
  rw [StarZone.openRecord_false ho]
  rfl

/-- A magic-tagged scope that opens ends within the scope it was opened in. -/
theorem StarZone.openSDRHeader_nested {z : StarZone} {m : List Nat}
    (h : (z.openSDRHeader m).1 = true) :
    (z.openSDRHeader m).2.getRecordLastPosition ≤ z.getRecordLastPosition := by
  unfold StarZone.openSDRHeader at h ⊢; simp only [] at h ⊢
  split
  · rename_i hc
    simp only [StarZone.getRecordLastPosition]
    exact hc.2.2.2.2
  · rename_i hc; simp [hc] at h

/-- A child that `readSdrObject` reads starts with the tag `DrOb`, on a header that
opens. -/
theorem readSdrObject_true {env : Env} {grp : GroupReader} {fuel : Nat}
    {self obj : StarObjectSmallGraphic} {z zc : StarZone}
    (h : readSdrObject env grp fuel self z = some (true, obj, zc)) :
    z.readMagic.1 = magicDrOb ∧ (z.openSDRHeader magicDrOb).1 = true := by
  by_contra hn
  have hr : z.readMagic.1 ≠ magicDrOb ∨ (z.openSDRHeader magicDrOb).1 = false := by
    by_cases hm : z.readMagic.1 = magicDrOb
    · right
      by_contra ho
      exact hn ⟨hm, by simpa using ho⟩
    · exact Or.inl hm
  rw [readSdrObject_refuses env grp fuel self z hr] at h
  simp at h

/-- One turn of the loop over the children that reads a child: the child is
appended and the loop goes on from the zone that the child left. -/
theorem readGroupChildren_step
    {c : StarZone → Option (Bool × StarObjectSmallGraphic × StarZone)} {lastPos : Nat}
    {z zc : StarZone} {obj : StarObjectSmallGraphic} (k : Nat) (m_child : List (Option Graphic))
    (hlt : z.tell + 4 < lastPos) (hm : z.readMagic.1 = magicDrOb)
    (hc : c z = some (true, obj, zc)) :
    readGroupChildren c lastPos (k + 1) m_child z
      = readGroupChildren c lastPos k (m_child ++ [obj.m_graphic]) zc := by
  have hx : ¬ magicDrOb = magicDrXX := by decide
  rw [readGroupChildren]
  simp only [StarZone.readMagic_back, hm, hx, if_false, if_pos hlt, ne_eq, not_true_eq_false,
    Bool.false_eq_true, hc, Bool.not_true]

/-- One turn of the loop over the children that reads no child stops the loop,
with the children as they were. -/
theorem readGroupChildren_stop
    {c : StarZone → Option (Bool × StarObjectSmallGraphic × StarZone)} {lastPos : Nat}
    {z zc : StarZone} {obj : StarObjectSmallGraphic} (k : Nat) (m_child : List (Option Graphic))
    (hc : c z = some (false, obj, zc)) :
    ∃ ok z', readGroupChildren c lastPos (k + 1) m_child z = some (ok, m_child, z') := by
  rw [readGroupChildren]
  simp only [StarZone.readMagic_back]
  by_cases hlt : z.tell + 4 < lastPos
  · rw [if_pos hlt]
    by_cases hx : z.readMagic.1 = magicDrXX
    · have hd : z.readMagic.1 ≠ magicDrOb := by rw [hx]; decide
      rw [if_pos hx]
      cases ho : (z.openSDRHeader z.readMagic.1).1
      · simp only [ho, Bool.false_eq_true, if_false, hd, ne_eq, not_false_eq_true, if_true]
        exact ⟨_, _, rfl⟩
      · simp only [ho, if_true]
        exact ⟨_, _, rfl⟩
    · rw [if_neg hx]
      simp only [Bool.false_eq_true, if_false]
      by_cases hd : z.readMagic.1 = magicDrOb
      · simp only [hd, ne_eq, not_true_eq_false, if_false, hc, Bool.not_false, if_true]
        exact ⟨_, _, rfl⟩
      · simp only [ne_eq, hd, not_false_eq_true, if_true]
        exact ⟨_, _, rfl⟩
  · rw [if_neg hlt]
    exact ⟨_, _, rfl⟩

/-- The branch of the version 4 of `readSDROutlinerParaObject`: with `z8` the zone
after the count and the marker and `zt` the zone after the shared text object, the
depths are read when the text object is read and the cursor of `zt` plus twice the
count is not after the last position; otherwise the function returns `false` with
no depth, back on `z8`. -/
theorem readSDROutlinerParaObject_v4 (env : Env) (z : StarZone)
    (hv : outlinerVersion ((z.readULong 4).2.readULong 4).1 = 4)
    (z8 : StarZone) (hz8 : z8 = ((z.readULong 4).2.readULong 4).2)
    (zt : StarZone) (hzt : zt = z8.skip (env.smallTextRead z8 z.getRecordLastPosition).2) :
    ((readSDROutlinerParaObject env z).1 = true →
      (env.smallTextRead z8 z.getRecordLastPosition).1 = true ∧
      zt.tell + (z.readULong 4).1 * 2 ≤ z.getRecordLastPosition ∧
      (readSDROutlinerParaObject env z).2.1.m_depthList
        = (readULongs 2 (z.readULong 4).1 [] zt).1) ∧
    (¬ ((env.smallTextRead z8 z.getRecordLastPosition).1 = true ∧
        zt.tell + (z.readULong 4).1 * 2 ≤ z.getRecordLastPosition) →
      readSDROutlinerParaObject env z
        = (false, { OutlinerParaObject.new with m_version := 4 }, z8)) := by
  subst hz8 hzt
  have h0 : ¬ outlinerVersion ((z.readULong 4).2.readULong 4).1 = 0 := by omega
  have h3 : ¬ outlinerVersion ((z.readULong 4).2.readULong 4).1 ≤ 3 := by omega
  unfold readSDROutlinerParaObject
  simp only []
  rw [if_neg h0, if_neg h3]
  by_cases hc : (!(env.smallTextRead ((z.readULong 4).2.readULong 4).2
        z.getRecordLastPosition).1) = true ∨
      (((z.readULong 4).2.readULong 4).2.skip (env.smallTextRead
        ((z.readULong 4).2.readULong 4).2 z.getRecordLastPosition).2).tell
          + (z.readULong 4).1 * 2 > z.getRecordLastPosition
  · rw [if_pos hc]
    refine ⟨fun h => absurd h Bool.false_ne_true, fun _ => ?_⟩
    rw [hv]
    rfl
  · rw [if_neg hc]
    have hc' : (env.smallTextRead ((z.readULong 4).2.readULong 4).2
          z.getRecordLastPosition).1 = true ∧
        (((z.readULong 4).2.readULong 4).2.skip (env.smallTextRead
          ((z.readULong 4).2.readULong 4).2 z.getRecordLastPosition).2).tell
            + (z.readULong 4).1 * 2 ≤ z.getRecordLastPosition := by
      constructor
      · by_contra hf
        exact hc (Or.inl (by simpa using hf))
      · by_contra hf
        exact hc (Or.inr (by simpa using hf))
    exact ⟨fun _ => ⟨hc'.1, hc'.2, rfl⟩, fun hn => absurd hc' hn⟩

/-! ## Lemmas on the rounding of `float`, nested point lists and the loop of a path -/

/-- The leading bit found by halving is the one of `Nat.log2`. -/
theorem Float32.log2Aux_eq : ∀ (k a : Nat), a ≤ k → Float32.log2Aux k a = Nat.log2 a
  | 0, a, h => by
    have h0 : a = 0 := by omega
    subst h0
    rw [Float32.log2Aux, Nat.log2]
    simp
  | k + 1, a, h => by
    rw [Float32.log2Aux, Nat.log2]
    by_cases h2 : a < 2
    · rw [if_pos h2, if_neg (by omega)]
    · rw [if_neg h2, if_pos (by omega), Float32.log2Aux_eq k (a / 2) (by omega)]

/-- The function `Float32.log2` is the integer binary logarithm `Nat.log2`. -/
theorem Float32.log2_eq (a : Nat) : Float32.log2 a = Nat.log2 a :=
  Float32.log2Aux_eq a a (Nat.le_refl a)

/-- The leading bit of `a`, not zero, is at the position `Float32.log2 a`. -/
theorem Float32.log2_bounds {a : Nat} (h : a ≠ 0) :
    2 ^ Float32.log2 a ≤ a ∧ a < 2 ^ (Float32.log2 a + 1) := by
  rw [Float32.log2_eq]
  exact ⟨Nat.log2_self_le h, Nat.lt_log2_self⟩

/-- The integer `Float32.nearest p q` is within one half of `p / q`, and is even when
it is exactly one half away. -/
theorem Float32.nearest_spec (p q : Nat) (hq : 0 < q) :
    2 * (Float32.nearest p q * q) ≤ 2 * p + q ∧ 2 * p ≤ 2 * (Float32.nearest p q * q) + q ∧
    ((2 * (Float32.nearest p q * q) = 2 * p + q ∨ 2 * p = 2 * (Float32.nearest p q * q) + q) →
      Float32.nearest p q % 2 = 0) ∧
    p / q ≤ Float32.nearest p q ∧ Float32.nearest p q ≤ p / q + 1 := by
  have hp : p = p / q * q + p % q := by
    rw [Nat.mul_comm]; exact (Nat.div_add_mod p q).symm
  have hr : p % q < q := Nat.mod_lt p hq
  generalize hk : p / q = k at hp
  generalize hrr : p % q = r at hp hr
  have hK : (k + 1) * q = k * q + q := by ring
  unfold Float32.nearest
  rw [hk, hrr]
  generalize hKK : k * q = K at hp hK
  split_ifs with hc
  · rw [hK]
    refine ⟨by omega, by omega, ?_, by omega, by omega⟩
    intro ht
    rcases hc with hc | hc
    · omega
    · omega
  · rw [hKK]
    refine ⟨by omega, by omega, ?_, by omega, by omega⟩
    intro ht
    have : ¬ (2 * r = q ∧ k % 2 = 1) := fun h => hc (Or.inr h)
    have : ¬ (2 * r > q) := fun h => hc (Or.inl h)
    omega

/-- The exponent `e` of `Float32.exponent` puts `a / (d * 2 ^ e)` in the range from
`2 ^ 23` to `2 ^ 24`, the significands of 24 bits. -/
theorem Float32.exponent_spec (a d : Nat) (ha : 0 < a) (hd : 0 < d) :
    2 ^ 23 * (d * 2 ^ (Float32.exponent a d).toNat)
      ≤ a * 2 ^ (-(Float32.exponent a d)).toNat ∧
    a * 2 ^ (-(Float32.exponent a d)).toNat
      < 2 ^ 24 * (d * 2 ^ (Float32.exponent a d).toNat) := by
  obtain ⟨ha1, ha2⟩ := Float32.log2_bounds (Nat.pos_iff_ne_zero.mp ha)
  obtain ⟨hd1, hd2⟩ := Float32.log2_bounds (Nat.pos_iff_ne_zero.mp hd)
  unfold Float32.exponent
  generalize Float32.log2 a = la at ha1 ha2
  generalize Float32.log2 d = ld at hd1 hd2
  rw [pow_succ] at ha2 hd2
  simp only []
  rcases Nat.lt_or_ge la (ld + 23) with h | h
  swap
  · obtain ⟨k, rfl⟩ := Nat.exists_eq_add_of_le h
    have he0 : ((ld + 23 + k : Nat) : Int) - (ld : Int) - 23 = (k : Int) := by omega
    rw [he0]
    have hn : (-(k : Int)).toNat = 0 := by omega
    have hp : ((k : Int)).toNat = k := by omega
    rw [hn, hp, pow_zero, Nat.mul_one]
    have hS : 2 ^ (ld + 23 + k) = 8388608 * (2 ^ ld * 2 ^ k) := by
      rw [pow_add, pow_add]; ring
    rw [hS] at ha1 ha2
    have hQ : 0 < 2 ^ k := Nat.two_pow_pos k
    have hVW : 2 ^ ld * 2 ^ k ≤ d * 2 ^ k := Nat.mul_le_mul_right _ hd1
    have hWV : d * 2 ^ k < 2 ^ ld * 2 * 2 ^ k := Nat.mul_lt_mul_of_pos_right hd2 hQ
    have hdiv : a / (d * 2 ^ k) < 2 ^ 23 ↔ a < 2 ^ 23 * (d * 2 ^ k) :=
      Nat.div_lt_iff_lt_mul (Nat.mul_pos hd hQ)
    by_cases hc' : a / (d * 2 ^ k) < 2 ^ 23
    · rw [if_pos hc']
      have hc := hdiv.mp hc'
      clear hdiv hc'
      rcases Nat.eq_zero_or_pos k with hk | hk
      · subst hk
        have h1 : (((0 : Nat) : Int) - 1).toNat = 0 := by decide
        have h2 : (-(((0 : Nat) : Int) - 1)).toNat = 1 := by decide
        rw [h1, h2]
        simp only [pow_zero, pow_one, Nat.mul_one] at *
        constructor <;> omega
      · obtain ⟨j, rfl⟩ := Nat.exists_eq_add_of_le hk
        have h1 : (((1 + j : Nat) : Int) - 1).toNat = j := by omega
        have h2 : (-(((1 + j : Nat) : Int) - 1)).toNat = 0 := by omega
        rw [h1, h2]
        have hj : 2 ^ (1 + j) = 2 * 2 ^ j := by rw [pow_add, pow_one]
        rw [hj] at ha1 ha2 hc hVW hWV
        simp only [pow_zero, Nat.mul_one]
        generalize hV : 2 ^ ld * (2 * 2 ^ j) = V at *
        have e1 : d * (2 * 2 ^ j) = 2 * (d * 2 ^ j) := by ring
        have e2 : 2 ^ ld * 2 * (2 * 2 ^ j) = 2 * V := by rw [← hV]; ring
        rw [e1] at hc hVW hWV
        rw [e2] at hWV
        generalize d * 2 ^ j = W at *
        constructor <;> omega
    · rw [if_neg hc']
      have hc : ¬ a < 2 ^ 23 * (d * 2 ^ k) := fun h => hc' (hdiv.mpr h)
      clear hdiv hc'
      rw [hn, hp, pow_zero, Nat.mul_one]
      have e2 : 2 ^ ld * 2 * 2 ^ k = 2 * (2 ^ ld * 2 ^ k) := by ring
      rw [e2] at hWV
      generalize 2 ^ ld * 2 ^ k = V at *
      generalize d * 2 ^ k = W at *
      constructor <;> omega
  · obtain ⟨j, hj⟩ := Nat.exists_eq_add_of_lt h
    have he0 : ((la : Nat) : Int) - (ld : Int) - 23 = -((j + 1 : Nat) : Int) := by omega
    rw [he0]
    have hn : (-(-((j + 1 : Nat) : Int))).toNat = j + 1 := by omega
    have hp : (-((j + 1 : Nat) : Int)).toNat = 0 := by omega
    rw [hn, hp, pow_zero, Nat.mul_one]
    have hR : 0 < 2 ^ (j + 1) := Nat.two_pow_pos _
    have hS : 2 ^ la * 2 ^ (j + 1) = 8388608 * 2 ^ ld := by
      rw [← pow_add, show la + (j + 1) = ld + 23 by omega, pow_add]; ring
    have hX1 : 2 ^ la * 2 ^ (j + 1) ≤ a * 2 ^ (j + 1) := Nat.mul_le_mul_right _ ha1
    have hX2 : a * 2 ^ (j + 1) < 2 ^ la * 2 * 2 ^ (j + 1) := Nat.mul_lt_mul_of_pos_right ha2 hR
    have e2 : 2 ^ la * 2 * 2 ^ (j + 1) = 2 * (2 ^ la * 2 ^ (j + 1)) := by ring
    rw [e2, hS] at hX2
    rw [hS] at hX1
    have hdiv : a * 2 ^ (j + 1) / d < 2 ^ 23 ↔ a * 2 ^ (j + 1) < 2 ^ 23 * d :=
      Nat.div_lt_iff_lt_mul hd
    by_cases hc' : a * 2 ^ (j + 1) / d < 2 ^ 23
    · rw [if_pos hc']
      have hc := hdiv.mp hc'
      clear hdiv hc'
      have h1 : (-(-((j + 1 : Nat) : Int) - 1)).toNat = j + 1 + 1 := by omega
      have h2 : (-((j + 1 : Nat) : Int) - 1).toNat = 0 := by omega
      rw [h1, h2, pow_zero, Nat.mul_one]
      have e3 : a * 2 ^ (j + 1 + 1) = 2 * (a * 2 ^ (j + 1)) := by
        rw [pow_succ]; ring
      rw [e3]
      generalize a * 2 ^ (j + 1) = X at *
      generalize 2 ^ ld = P at *
      constructor <;> omega
    · rw [if_neg hc']
      have hc : ¬ a * 2 ^ (j + 1) < 2 ^ 23 * d := fun h => hc' (hdiv.mpr h)
      clear hdiv hc'
      rw [hn, hp, pow_zero, Nat.mul_one]
      generalize a * 2 ^ (j + 1) = X at *
      generalize 2 ^ ld = P at *
      constructor <;> omega

/-- A power of two with an integer exponent, as a quotient of two powers. -/
theorem Float32.two_zpow (e : Int) :
    (2 : ℚ) ^ e = (2 : ℚ) ^ e.toNat / (2 : ℚ) ^ (-e).toNat := by
  rcases Int.le_total 0 e with h | h
  · obtain ⟨k, rfl⟩ := Int.eq_ofNat_of_zero_le h
    have h1 : (-(k : Int)).toNat = 0 := by omega
    rw [h1, Int.toNat_ofNat, pow_zero, div_one, zpow_natCast]
  · obtain ⟨k, hk⟩ := Int.eq_ofNat_of_zero_le (Int.neg_nonneg_of_nonpos h)
    have he : e = -(k : Int) := by omega
    subst he
    have h1 : (-(k : Int)).toNat = 0 := by omega
    rw [h1, neg_neg, Int.toNat_ofNat, pow_zero, one_div, zpow_neg, zpow_natCast]

/-- The greatest common divisor of `m` and `2 ^ 24` is a power of two, which
`Float32.log2` gives back. -/
theorem Float32.two_pow_log2_gcd (m : Nat) :
    2 ^ Float32.log2 (Nat.gcd m (2 ^ 24)) = Nat.gcd m (2 ^ 24) := by
  obtain ⟨j, -, hj⟩ := (Nat.dvd_prime_pow Nat.prime_two).1 (Nat.gcd_dvd_right m (2 ^ 24))
  rw [hj]
  have hb := Float32.log2_bounds (a := 2 ^ j) (Nat.pos_iff_ne_zero.mp (Nat.two_pow_pos j))
  have h1 : Float32.log2 (2 ^ j) ≤ j := (Nat.pow_le_pow_iff_right (by decide)).1 hb.1
  have h2 : j < Float32.log2 (2 ^ j) + 1 := (Nat.pow_lt_pow_iff_right (by decide)).1 hb.2
  have h3 : Float32.log2 (2 ^ j) = j := by omega
  rw [h3]

/-- The value of `Float32.round n d` is a number `m * 2 ^ e`, with the sign of `n`
and a significand `m` of 24 bits, that is nearest to `n / d`: it is at most half a
unit of the last place `2 ^ e` away, and `m` is even when it is exactly half a unit
away (IEEE 754 round to nearest, ties to even). -/
theorem Float32.round_nearest (n : Int) (d : Nat) (hn : n ≠ 0) (hd : 0 < d) :
    ∃ (m : Nat) (e : Int), 2 ^ 23 ≤ m ∧ m ≤ 2 ^ 24 ∧
      (Float32.round n d).toRat = (if n < 0 then -1 else 1) * ((m : ℚ) * 2 ^ e) ∧
      |(n.natAbs : ℚ) / d - (m : ℚ) * 2 ^ e| ≤ 2 ^ e / 2 ∧
      (|(n.natAbs : ℚ) / d - (m : ℚ) * 2 ^ e| = 2 ^ e / 2 → m % 2 = 0) := by
  have ha : 0 < n.natAbs := Int.natAbs_pos.mpr hn
  obtain ⟨hr1, hr2⟩ := Float32.exponent_spec n.natAbs d ha hd
  have hq : 0 < d * 2 ^ (Float32.exponent n.natAbs d).toNat := Nat.mul_pos hd (Nat.two_pow_pos _)
  obtain ⟨hm1, hm2, hm3, hm4, hm5⟩ := Float32.nearest_spec
    (n.natAbs * 2 ^ (-(Float32.exponent n.natAbs d)).toNat)
    (d * 2 ^ (Float32.exponent n.natAbs d).toNat) hq
  refine ⟨Float32.nearest (n.natAbs * 2 ^ (-(Float32.exponent n.natAbs d)).toNat)
    (d * 2 ^ (Float32.exponent n.natAbs d).toNat), Float32.exponent n.natAbs d, ?_, ?_, ?_, ?_⟩
  · have := (Nat.le_div_iff_mul_le hq).2 hr1
    omega
  · have := (Nat.div_lt_iff_lt_mul hq).2 hr2
    omega
  · unfold Float32.round
    have hnd : ¬ (n = 0 ∨ d = 0) := by
      rintro (h | h)
      · exact hn h
      · omega
    rw [if_neg hnd]
    simp only [Float32.toRat]
    generalize Float32.nearest (n.natAbs * 2 ^ (-(Float32.exponent n.natAbs d)).toNat)
      (d * 2 ^ (Float32.exponent n.natAbs d).toNat) = m
    have ht := Float32.two_pow_log2_gcd m
    have hdvd : Nat.gcd m (2 ^ 24) ∣ m := Nat.gcd_dvd_left m (2 ^ 24)
    have hmul : m / Nat.gcd m (2 ^ 24) * 2 ^ Float32.log2 (Nat.gcd m (2 ^ 24)) = m := by
      rw [ht]; exact Nat.div_mul_cancel hdvd
    have hmq : ((m / Nat.gcd m (2 ^ 24) : Nat) : ℚ)
        * (2 : ℚ) ^ (Float32.log2 (Nat.gcd m (2 ^ 24)) : Int) = (m : ℚ) := by
      rw [zpow_natCast]
      exact_mod_cast hmul
    rw [zpow_add₀ (by norm_num : (2 : ℚ) ≠ 0), ← hmq]
    simp only [Int.cast_mul, Int.cast_natCast, Int.cast_ite, Int.cast_neg, Int.cast_one]
    ring
  · have h2 := Float32.two_zpow (Float32.exponent n.natAbs d)
    have hE : (0 : ℚ) < 2 ^ Float32.exponent n.natAbs d := zpow_pos (by norm_num) _
    generalize (-(Float32.exponent n.natAbs d)).toNat = N at *
    generalize (Float32.exponent n.natAbs d).toNat = P at *
    generalize (2 : ℚ) ^ Float32.exponent n.natAbs d = E at *
    generalize hm : Float32.nearest (n.natAbs * 2 ^ N) (d * 2 ^ P) = m at *
    have hdQ : (0 : ℚ) < d := by exact_mod_cast hd
    have hNQ : (0 : ℚ) < 2 ^ N := by positivity
    have hPQ : (0 : ℚ) < 2 ^ P := by positivity
    have hqQ : (0 : ℚ) < (d : ℚ) * 2 ^ P := by positivity
    have hm1' : (2 : ℚ) * (m * (d * 2 ^ P)) ≤ 2 * (n.natAbs * 2 ^ N) + d * 2 ^ P := by
      exact_mod_cast hm1
    have hm2' : (2 : ℚ) * (n.natAbs * 2 ^ N) ≤ 2 * (m * (d * 2 ^ P)) + d * 2 ^ P := by
      exact_mod_cast hm2
    have key : (n.natAbs : ℚ) / d - (m : ℚ) * E
        = E * (((n.natAbs : ℚ) * 2 ^ N - m * (d * 2 ^ P)) / (d * 2 ^ P)) := by
      rw [h2]
      field_simp
      ring
    rw [key, abs_mul, abs_of_pos hE, abs_div, abs_of_pos hqQ]
    have hle : |(n.natAbs : ℚ) * 2 ^ N - m * (d * 2 ^ P)| / (d * 2 ^ P) ≤ 1 / 2 := by
      rw [div_le_iff₀ hqQ, abs_le]
      constructor <;> linarith
    constructor
    · calc E * (|(n.natAbs : ℚ) * 2 ^ N - m * (d * 2 ^ P)| / (d * 2 ^ P))
          ≤ E * (1 / 2) := mul_le_mul_of_nonneg_left hle hE.le
        _ = E / 2 := by ring
    · intro heq
      have h3 : |(n.natAbs : ℚ) * 2 ^ N - m * (d * 2 ^ P)| / (d * 2 ^ P) = 1 / 2 := by
        have h4 : E * (|(n.natAbs : ℚ) * 2 ^ N - m * (d * 2 ^ P)| / (d * 2 ^ P)) = E * (1 / 2) := by
          rw [heq]; ring
        exact mul_left_cancel₀ hE.ne' h4
      rw [div_eq_iff hqQ.ne'] at h3
      apply hm3
      rcases abs_cases ((n.natAbs : ℚ) * 2 ^ N - m * (d * 2 ^ P)) with ⟨h5, -⟩ | ⟨h5, -⟩
      · right
        rw [h5] at h3
        have h6 : (2 : ℚ) * (n.natAbs * 2 ^ N) = 2 * (m * (d * 2 ^ P)) + d * 2 ^ P := by linarith
        exact_mod_cast h6
      · left
        rw [h5] at h3
        have h6 : (2 : ℚ) * (m * (d * 2 ^ P)) = 2 * (n.natAbs * 2 ^ N) + d * 2 ^ P := by linarith
        exact_mod_cast h6

/-- The conversion `float(v)` gives a value nearest to `v`, with ties to even. -/
theorem Float32.ofInt_nearest (v : Int) (hv : v ≠ 0) :
    ∃ (m : Nat) (e : Int), 2 ^ 23 ≤ m ∧ m ≤ 2 ^ 24 ∧
      (Float32.ofInt v).toRat = (if v < 0 then -1 else 1) * ((m : ℚ) * 2 ^ e) ∧
      |(|(v : ℚ)|) - (m : ℚ) * 2 ^ e| ≤ 2 ^ e / 2 ∧
      (|(|(v : ℚ)|) - (m : ℚ) * 2 ^ e| = 2 ^ e / 2 → m % 2 = 0) := by
  obtain ⟨m, e, h1, h2, h3, h4, h5⟩ := Float32.round_nearest v 1 hv Nat.one_pos
  have hc : ((v.natAbs : Nat) : ℚ) / ((1 : Nat) : ℚ) = |(v : ℚ)| := by
    rw [Nat.cast_one, div_one, Nat.cast_natAbs, Int.cast_abs]
  rw [hc] at h4 h5
  exact ⟨m, e, h1, h2, h3, h4, h5⟩

/-- The quotient of two `float` values, none zero, is a value nearest to the
quotient of the numbers they stand for, with ties to even. -/
theorem Float32.div_nearest (x y : Float32) (hx : x.mant ≠ 0) (hy : y.mant ≠ 0) :
    ∃ (m : Nat) (e : Int), 2 ^ 23 ≤ m ∧ m ≤ 2 ^ 24 ∧
      (x.div y).toRat = (if x.toRat / y.toRat < 0 then -1 else 1) * ((m : ℚ) * 2 ^ e) ∧
      |(|x.toRat / y.toRat|) - (m : ℚ) * 2 ^ e| ≤ 2 ^ e / 2 ∧
      (|(|x.toRat / y.toRat|) - (m : ℚ) * 2 ^ e| = 2 ^ e / 2 → m % 2 = 0) := by
  have hs : (if y.mant < 0 then (-1 : Int) else 1) ≠ 0 := by split_ifs <;> decide
  have hn : (if y.mant < 0 then (-1 : Int) else 1) * x.mant * 2 ^ (x.exp - y.exp).toNat ≠ 0 :=
    mul_ne_zero (mul_ne_zero hs hx) (pow_ne_zero _ (by decide))
  have hd : 0 < y.mant.natAbs * 2 ^ (y.exp - x.exp).toNat :=
    Nat.mul_pos (Int.natAbs_pos.mpr hy) (Nat.two_pow_pos _)
  obtain ⟨m, e, h1, h2, h3, h4, h5⟩ := Float32.round_nearest _ _ hn hd
  have hq : (((if y.mant < 0 then (-1 : Int) else 1) * x.mant * 2 ^ (x.exp - y.exp).toNat : Int) : ℚ)
      / ((y.mant.natAbs * 2 ^ (y.exp - x.exp).toNat : Nat) : ℚ) = x.toRat / y.toRat := by
    have hz := Float32.two_zpow (x.exp - y.exp)
    rw [neg_sub] at hz
    have hyQ : (y.mant : ℚ) ≠ 0 := by exact_mod_cast hy
    have hab : ((y.mant.natAbs : Nat) : ℚ) = (if y.mant < 0 then -1 else 1) * (y.mant : ℚ) := by
      rw [Nat.cast_natAbs, Int.cast_abs]
      split_ifs with h
      · rw [abs_of_neg (by exact_mod_cast h)]; ring
      · rw [abs_of_nonneg (by exact_mod_cast (not_lt.mp h))]; ring
    have hxy : x.toRat / y.toRat = (x.mant : ℚ) / y.mant * 2 ^ (x.exp - y.exp) := by
      unfold Float32.toRat
      rw [zpow_sub₀ (by norm_num : (2 : ℚ) ≠ 0)]
      field_simp
    rw [hxy, hz]
    push_cast
    rw [hab]
    split_ifs <;> field_simp
  have habs : (((((if y.mant < 0 then (-1 : Int) else 1) * x.mant
      * 2 ^ (x.exp - y.exp).toNat : Int)).natAbs : Nat) : ℚ)
      / ((y.mant.natAbs * 2 ^ (y.exp - x.exp).toNat : Nat) : ℚ) = |x.toRat / y.toRat| := by
    rw [← hq, abs_div, Nat.cast_natAbs, Int.cast_abs]
    congr 1
    exact (abs_of_pos (by exact_mod_cast hd)).symm
  have hsign : ((if y.mant < 0 then (-1 : Int) else 1) * x.mant * 2 ^ (x.exp - y.exp).toNat < 0)
      ↔ x.toRat / y.toRat < 0 := by
    rw [← hq]
    have hdQ : (0 : ℚ) < ((y.mant.natAbs * 2 ^ (y.exp - x.exp).toNat : Nat) : ℚ) := by
      exact_mod_cast hd
    rw [div_neg_iff]
    constructor
    · intro h
      right
      exact ⟨by exact_mod_cast h, hdQ⟩
    · rintro (⟨-, h⟩ | ⟨h, -⟩)
      · exact absurd h (not_lt.mpr hdQ.le)
      · exact_mod_cast h
  rw [habs] at h4 h5
  refine ⟨m, e, h1, h2, ?_, h4, h5⟩
  unfold Float32.div
  rw [h3]
  exact congrArg (fun s : ℚ => s * ((m : ℚ) * 2 ^ e)) (if_congr hsign rfl rfl)

/-- The literal `100.f` stands for 100. -/
theorem Float32.hundred_toRat : Float32.hundred.toRat = 100 := by
  unfold Float32.toRat Float32.hundred
  norm_num

/-- An overflowing count in the edge track of a format version from 11 on, tested
as the code does against the last position of the track record, which lies inside
the edge record: nothing is read after the count, and the track record is closed at
its last position. -/
theorem readEdgeTrack_overflow_nested (vers : Nat) (g : SdrGraphicEdge) (z : StarZone)
    (hv : 11 ≤ vers) (ho : z.openRecord.1 = true)
    (hover : (z.openRecord.2.readULong 2).2.tell + 9 * (z.openRecord.2.readULong 2).1
      > z.openRecord.2.getRecordLastPosition) :
    (readEdgeTrack vers g z).1 = false ∧ (readEdgeTrack vers g z).2.1 = g ∧
    (readEdgeTrack vers g z).2.2.tell = z.openRecord.2.getRecordLastPosition := by
  obtain ⟨s, hst, -, -, -, -⟩ := StarZone.openRecord_true ho
  have h2 : ¬ vers < 2 := by omega
  have h11 : ¬ vers < 11 := by omega
  have hover' : (z.openRecord.2.readULong 2).2.tell + 9 * (z.openRecord.2.readULong 2).1
      > (z.openRecord.2.readULong 2).2.getRecordLastPosition := hover
  have hlast : (z.openRecord.2.readULong 2).2.getRecordLastPosition = s.endPos :=
    StarZone.getRecordLastPosition_cons (by simpa using hst)
  unfold readEdgeTrack
  simp [h2, h11, hv, StarZone.openRecordIf, ho, readEdgePolygon_overflow g _ hover',
    StarZone.seekIf, StarZone.closeRecordIf, StarZone.closeRecord, StarZone.seek, hst,
    StarZone.getRecordLastPosition_cons hst]

/-- The loop over the point lists of a path, run for `j + m` lists, is the loop run
for `j` lists, followed by the loop run for `m` lists when none of the `j` lists
has stopped it. -/
theorem readPathPolys_add (w lastPos : Nat) :
    ∀ (j m : Nat) (g : SdrGraphicPath) (z : StarZone),
      readPathPolys w lastPos (j + m) g z
        = if (readPathPolys w lastPos j g z).1 = true then
            readPathPolys w lastPos m (readPathPolys w lastPos j g z).2.1
              (readPathPolys w lastPos j g z).2.2
          else readPathPolys w lastPos j g z
  | 0, m, g, z => by
    rw [Nat.zero_add]
    rfl
  | j + 1, m, g, z => by
    have hs : j + 1 + m = (j + m) + 1 := by omega
    by_cases hc : (z.readULong 2).2.tell + w * (z.readULong 2).1 > lastPos
    · rw [hs, readPathPolys_overflow w lastPos (j + m) g z hc,
        readPathPolys_overflow w lastPos j g z hc]
      rfl
    · have step : ∀ k, readPathPolys w lastPos (k + 1) g z
          = readPathPolys w lastPos k
              { g with
                m_pathPolygon := (readPoints (z.readULong 2).1 g.m_pathPolygon (z.readULong 2).2).1
                m_pathPolygonFlags :=
                  (readULongs 1 (if w = 9 then (z.readULong 2).1 else 0) g.m_pathPolygonFlags
                    (readPoints (z.readULong 2).1 g.m_pathPolygon (z.readULong 2).2).2).1 }
              (readULongs 1 (if w = 9 then (z.readULong 2).1 else 0) g.m_pathPolygonFlags
                (readPoints (z.readULong 2).1 g.m_pathPolygon (z.readULong 2).2).2).2 := by
        intro k
        rw [readPathPolys]
        exact if_neg hc
      rw [hs, step (j + m), step j]
      exact readPathPolys_add w lastPos j m _ _

/-- The loop over the point lists of a path whose list of index `j` has an
overflowing count: the loop returns the graphic as it stands after the `j` lists
before it, with the cursor right after that count. -/
theorem readPathPolys_overflow_at (w lastPos j m : Nat) (g : SdrGraphicPath) (z : StarZone)
    (hrun : (readPathPolys w lastPos j g z).1 = true)
    (hover : ((readPathPolys w lastPos j g z).2.2.readULong 2).2.tell
        + w * ((readPathPolys w lastPos j g z).2.2.readULong 2).1 > lastPos) :
    readPathPolys w lastPos (j + (m + 1)) g z
      = (false, (readPathPolys w lastPos j g z).2.1,
          ((readPathPolys w lastPos j g z).2.2.readULong 2).2) := by
  rw [readPathPolys_add, if_pos hrun, readPathPolys_overflow w lastPos m _ _ hover]

/-- The arguments of the loop over the point lists in `readSVDRObjectPath`, on the
open path record `zo`: the bytes of a point (8, or 9 with its flag), the number of
lists and the zone of the first list. -/
theorem readSVDRObjectPath_lists {env : Env} {grp : GroupReader} {z : StarZone}
    {g : SdrGraphicPath} {base : SdrGraphicText} {z1 : StarZone}
    (hT : readSVDRObjectText env grp z g.toSdrGraphicText = some (true, base, z1))
    (ho : z1.openRecord.1 = true)
    (l : Nat × Nat × StarZone)
    (hl : l = if z1.getHeaderVersion ≤ 6 ∧
          (base.m_identifier = 2 ∨ base.m_identifier = 8 ∨ base.m_identifier = 9) then
        (8, z1.openRecord.2.readULongIf (decide (base.m_identifier ≠ 2 ∧ base.m_identifier ≠ 8))
          2 (if base.m_identifier = 2 then 2 else 1))
      else
        (9, (z1.openRecord.2.openRecordIf (decide (z1.getHeaderVersion ≥ 11)) false).2.readULongIf
          (decide (z1.getHeaderVersion < 11) ||
            (z1.openRecord.2.openRecordIf (decide (z1.getHeaderVersion ≥ 11)) false).1) 2 0)) :
    ∃ z', readSVDRObjectPath env grp z g
        = some (true, (readPathPolys l.1 z1.openRecord.2.getRecordLastPosition l.2.1
            { g with toSdrGraphicText := base } l.2.2).2.1, z') ∧
      z'.tell = z1.openRecord.2.getRecordLastPosition := by
  obtain ⟨g', z', heq, hpos, -⟩ := readSVDRObjectPath_opened hT ho
  refine ⟨z', ?_, hpos⟩
  rw [heq]
  have hg : g' = (readPathPolys l.1 z1.openRecord.2.getRecordLastPosition l.2.1
      { g with toSdrGraphicText := base } l.2.2).2.1 := by
    unfold readSVDRObjectPath at heq
    rw [hT] at heq
    simp only [ho, Bool.not_true, Bool.false_eq_true, if_false, Option.some.injEq,
      Prod.mk.injEq, true_and] at heq
    rw [← heq.1, hl]
    by_cases hc : z1.getHeaderVersion ≤ 6 ∧
        (base.m_identifier = 2 ∨ base.m_identifier = 8 ∨ base.m_identifier = 9)
    · rw [if_pos hc, if_pos hc]
      rfl
    · rw [if_neg hc, if_neg hc]
      rfl
  rw [hg]

/-! ## The claims -/

attribute [local semireducible] leValue

/-- C1: when the next four bytes are not `DrOb`, `readSdrObject` returns `false`
and hands back the zone it was given, cursor included (so the same four bytes are
read again), and the object with its stored graphic unchanged; this needs no
fuel. -/
theorem readSdrObject_desync_safe (env : Env) (grp : GroupReader) (fuel : Nat)
    (self : StarObjectSmallGraphic) (z : StarZone) (h : z.readMagic.1 ≠ magicDrOb) :
    readSdrObject env grp fuel self z = some (false, self, z) :=
  readSdrObject_refuses env grp fuel self z (Or.inl h)

/-- C1, at a concrete input: a `DrXX` sentinel offered to `readSdrObject`. -/
theorem readSdrObject_desync_safe_witness :
    (zoneOf sentinel).readMagic.1 ≠ magicDrOb ∧
      readSdrObject testEnv noGroup 0 StarObjectSmallGraphic.new (zoneOf sentinel)
        = some (false, StarObjectSmallGraphic.new, zoneOf sentinel) :=
  ⟨by decide, readSdrObject_desync_safe testEnv noGroup 0 StarObjectSmallGraphic.new
    (zoneOf sentinel) (by decide)⟩

/-- C2: with more fuel than the stream has bytes, `readSdrObject` returns, and the
value it returns is `false` exactly when the initial check fails (the next four
bytes are not `DrOb`, or the `DrOb` header does not open); on every other input
it returns `true`. -/
theorem readSdrObject_false_iff (env : Env) (self : StarObjectSmallGraphic) (z : StarZone)
    (fuel : Nat) (hfuel : z.input.length < fuel) :
    ∃ ok self' z',
      readSdrObject env (readSVDRObjectGroup env fuel) fuel self z = some (ok, self', z') ∧
      (ok = false ↔ (z.readMagic.1 ≠ magicDrOb ∨ (z.openSDRHeader magicDrOb).1 = false)) := by
  by_cases h : z.readMagic.1 ≠ magicDrOb ∨ (z.openSDRHeader magicDrOb).1 = false
  · exact ⟨_, _, _, readSdrObject_refuses env _ fuel self z h, by simp [h]⟩
  · have hm : z.readMagic.1 = magicDrOb := by
      by_contra hm; exact h (Or.inl hm)
    have ho : (z.openSDRHeader magicDrOb).1 = true := by
      by_contra ho; exact h (Or.inr (by simpa using ho))
    obtain ⟨self', zc, heq, -⟩ := readSdrObject_opens env fuel self z rfl
      (fun _ => readSVDRObjectGroup_good_of_le env hfuel _) (by omega) hm ho
    exact ⟨_, _, _, heq, by simp [hm, ho]⟩

/-- C2, at a concrete input: a plain object (identifier 14) of 56 bytes, read with
57 units of fuel. -/
theorem readSdrObject_false_iff_witness :
    (zoneOf (plainObject 14)).input.length < 57 ∧
    ∃ ok self' z',
      readSdrObject testEnv (readSVDRObjectGroup testEnv 57) 57 StarObjectSmallGraphic.new
        (zoneOf (plainObject 14)) = some (ok, self', z') ∧
      (ok = false ↔ ((zoneOf (plainObject 14)).readMagic.1 ≠ magicDrOb ∨
        ((zoneOf (plainObject 14)).openSDRHeader magicDrOb).1 = false)) :=
  ⟨by decide, readSdrObject_false_iff testEnv StarObjectSmallGraphic.new
    (zoneOf (plainObject 14)) 57 (by decide)⟩

/-- C3: on every input whose `DrOb` header opens, `readSdrObject` (with more fuel
than the stream has bytes) returns `true` after closing the header on a zone `zc`
whose cursor is at the last position of the scope, as obtained right after the
opening, and whose open scopes are still those of the opening. -/
theorem readSdrObject_closes_at_end (env : Env) (self : StarObjectSmallGraphic) (z : StarZone)
    (fuel : Nat) (hfuel : z.input.length < fuel) (hm : z.readMagic.1 = magicDrOb)
    (ho : (z.openSDRHeader magicDrOb).1 = true) :
    ∃ (self' : StarObjectSmallGraphic) (zc : StarZone),
      readSdrObject env (readSVDRObjectGroup env fuel) fuel self z
        = some (true, self', zc.closeSDRHeader) ∧
      zc.tell = (z.openSDRHeader magicDrOb).2.getRecordLastPosition ∧
      zc.stack = (z.openSDRHeader magicDrOb).2.stack := by
  obtain ⟨self', zc, heq, -, hs, hp⟩ := readSdrObject_opens env fuel self z rfl
    (fun _ => readSVDRObjectGroup_good_of_le env hfuel _) (by omega) hm ho
  exact ⟨self', zc, heq, hp, hs⟩

/-- C3, at a concrete input: a rectangle object whose decoder stops four bytes
before the end of the scope. -/
theorem readSdrObject_closes_at_end_witness :
    (zoneOf rectObjectTrailing).input.length < 121 ∧
    (zoneOf rectObjectTrailing).readMagic.1 = magicDrOb ∧
    ((zoneOf rectObjectTrailing).openSDRHeader magicDrOb).1 = true ∧
    ∃ (self' : StarObjectSmallGraphic) (zc : StarZone),
      readSdrObject testEnv (readSVDRObjectGroup testEnv 121) 121 StarObjectSmallGraphic.new
        (zoneOf rectObjectTrailing) = some (true, self', zc.closeSDRHeader) ∧
      zc.tell = ((zoneOf rectObjectTrailing).openSDRHeader magicDrOb).2.getRecordLastPosition ∧
      zc.stack = ((zoneOf rectObjectTrailing).openSDRHeader magicDrOb).2.stack :=
  ⟨by decide, by decide, by decide,
    readSdrObject_closes_at_end testEnv StarObjectSmallGraphic.new (zoneOf rectObjectTrailing)
      121 (by decide) (by decide) (by decide)⟩

/-- C4: for every identifier, when the decoder selected by the switch of
`readSVDRObject` reports a failure, `readSVDRObject` returns the base-only graphic
`SdrGraphic(identifier)`, every other field at its default, and leaves the cursor
at the last position of the enclosing scope. -/
theorem readSVDRObject_failed_leaf (env : Env) (grp : GroupReader) (fuel : Nat) (z : StarZone)
    (identifier : Int) (g : Graphic) (z1 : StarZone)
    (h : readSVDRLeaf env grp z identifier = some (false, g, z1)) :
    ∃ z', readSVDRObject env grp fuel z identifier
        = some (some (.sdrGraphic (SdrGraphic.new identifier)), z') ∧
      z'.tell = z.getRecordLastPosition ∧ z'.input = z1.input ∧ z'.stack = z1.stack := by
  refine ⟨z1.seek z.getRecordLastPosition, ?_, rfl, rfl, rfl⟩
  unfold readSVDRObject
  rw [h]
  rfl

/-- C4, at a concrete input: the rectangle object cut after its header record,
whose item-set decoder fails. -/
theorem readSVDRObject_failed_leaf_witness :
    ∃ g z1, readSVDRLeaf testEnv noGroup (zoneInObject rectObjectCut) 3 = some (false, g, z1) ∧
    ∃ z', readSVDRObject testEnv noGroup 0 (zoneInObject rectObjectCut) 3
        = some (some (.sdrGraphic (SdrGraphic.new 3)), z') ∧
      z'.tell = (zoneInObject rectObjectCut).getRecordLastPosition ∧ z'.input = z1.input ∧
      z'.stack = z1.stack :=
  ⟨_, _, rfl, readSVDRObject_failed_leaf testEnv noGroup 0 (zoneInObject rectObjectCut) 3 _ _ rfl⟩
set_option maxRecDepth 100000 in
/-- C5, as stated, fails: on a rectangle object followed by one more record in
its scope (which ends at 120), the rectangle decoder succeeds with the cursor
at 116, and `readSVDRObject` yields the base-only `SdrGraphic(3)`, not the decoded
rectangle that it yields for the same object without the trailing record. -/
theorem readSVDRObject_trailing_counterexample :
    readSVDRLeaf testEnv noGroup (zoneInObject rectObjectTrailing) 3
      = some (true, .rect rectDecoded, ⟨rectObjectTrailing, 116, [⟨120, 4⟩]⟩) ∧
    (zoneInObject rectObjectTrailing).getRecordLastPosition = 120 ∧
    readSVDRObject testEnv noGroup 2 (zoneInObject rectObjectTrailing) 3
      = some (some (.sdrGraphic (SdrGraphic.new 3)), ⟨rectObjectTrailing, 120, [⟨120, 4⟩]⟩) ∧
    readSVDRObject testEnv noGroup 2 (zoneInObject rectObject) 3
      = some (some (.rect rectDecoded), ⟨rectObject, 116, [⟨116, 4⟩]⟩) ∧
    Graphic.sdrGraphic (SdrGraphic.new 3) ≠ Graphic.rect rectDecoded :=
  ⟨rfl, rfl, rfl, rfl, fun h => Graphic.noConfusion h⟩

/-- C5, amended: when the decoder selected by the switch of `readSVDRObject`
succeeds, `readSVDRObject` (with more fuel than the stream has bytes) always
yields an object; it is the decoded leaf object when the cursor is at the last
position of the scope, and the base-only `SdrGraphic(identifier)` when the cursor
has not reached it. -/
theorem readSVDRObject_trailing (env : Env) (grp : GroupReader) (fuel : Nat) (z : StarZone)
    (identifier : Int) (leaf : Graphic) (z1 : StarZone)
    (h : readSVDRLeaf env grp z identifier = some (true, leaf, z1))
    (hfuel : z1.input.length < fuel) :
    (z1.tell = z.getRecordLastPosition →
      readSVDRObject env grp fuel z identifier = some (some leaf, z1)) ∧
    (z1.tell ≠ z.getRecordLastPosition →
      ∃ z', readSVDRObject env grp fuel z identifier
        = some (some (.sdrGraphic (SdrGraphic.new identifier)), z')) := by
  unfold readSVDRObject
  rw [h]
  simp only [Bool.not_true, Bool.false_eq_true, if_false]
  refine ⟨fun ht => by rw [if_pos ht], fun ht => ?_⟩
  rw [if_neg ht]
  by_cases hid : identifier ≤ 0 ∨ identifier > 32
  · rw [if_pos hid]
    exact ⟨_, rfl⟩
  · rw [if_neg hid]
    obtain ⟨k, rfl⟩ : ∃ k, fuel = k + 1 := ⟨fuel - 1, by omega⟩
    obtain ⟨z', heq, -⟩ := skipUnknownRecords_lands z.getRecordLastPosition k z1 (by omega)
    rw [heq]
    exact ⟨_, rfl⟩

set_option maxRecDepth 100000 in
/-- C5 amended, at a concrete input: the rectangle object with a trailing record. -/
theorem readSVDRObject_trailing_witness :
    readSVDRLeaf testEnv noGroup (zoneInObject rectObjectTrailing) 3
      = some (true, .rect rectDecoded, ⟨rectObjectTrailing, 116, [⟨120, 4⟩]⟩) ∧
    (⟨rectObjectTrailing, 116, [⟨120, 4⟩]⟩ : StarZone).input.length < 121 ∧
    ((⟨rectObjectTrailing, 116, [⟨120, 4⟩]⟩ : StarZone).tell
        = (zoneInObject rectObjectTrailing).getRecordLastPosition →
      readSVDRObject testEnv noGroup 121 (zoneInObject rectObjectTrailing) 3
        = some (some (.rect rectDecoded), ⟨rectObjectTrailing, 116, [⟨120, 4⟩]⟩)) ∧
    ((⟨rectObjectTrailing, 116, [⟨120, 4⟩]⟩ : StarZone).tell
        ≠ (zoneInObject rectObjectTrailing).getRecordLastPosition →
      ∃ z', readSVDRObject testEnv noGroup 121 (zoneInObject rectObjectTrailing) 3
        = some (some (.sdrGraphic (SdrGraphic.new 3)), z')) :=
  ⟨rfl, by decide,
    readSVDRObject_trailing testEnv noGroup 121 (zoneInObject rectObjectTrailing) 3
      (.rect rectDecoded) ⟨rectObjectTrailing, 116, [⟨120, 4⟩]⟩ rfl (by decide)⟩

/-- C6, as stated, fails: on a `DrOb` record whose family tag is `XXXX`,
`readSdrObject` returns `true` and stores no graphic at all: the object it was
called on still has none, where the claim has `SdrGraphic(5)`. -/
theorem readSdrObject_unknown_family_counterexample :
    (((zoneOf unknownFamilyObject).openSDRHeader magicDrOb).2.readMagic.1 = [88, 88, 88, 88] ∧
      ((((zoneOf unknownFamilyObject).openSDRHeader magicDrOb).2.readMagic.2.readULong 2).1 = 5)) ∧
    readSdrObject testEnv noGroup 0 StarObjectSmallGraphic.new (zoneOf unknownFamilyObject)
      = some (true, ⟨none⟩, ⟨unknownFamilyObject, 16, []⟩) ∧
    (⟨none⟩ : StarObjectSmallGraphic).m_graphic ≠ some (.sdrGraphic (SdrGraphic.new 5)) :=
  ⟨⟨by decide, by decide⟩, rfl, fun h => Option.noConfusion h⟩

/-- C6, amended: on a `DrOb` record whose family tag is none of `SVDr`, `SCHU`,
`FM01`, or is `SCHU` with an identifier outside 1..7, or `FM01` with an identifier
other than 33, `readSdrObject` stores nothing (the object keeps the graphic it
had), moves to the end of the scope, closes it and returns `true`; this needs no
fuel. -/
theorem readSdrObject_unknown_family (env : Env) (grp : GroupReader) (fuel : Nat)
    (self : StarObjectSmallGraphic) (z : StarZone) (hm : z.readMagic.1 = magicDrOb)
    (ho : (z.openSDRHeader magicDrOb).1 = true)
    (hfam :
      ((z.openSDRHeader magicDrOb).2.readMagic.1 ≠ magicSVDr ∧
        (z.openSDRHeader magicDrOb).2.readMagic.1 ≠ magicSCHU ∧
        (z.openSDRHeader magicDrOb).2.readMagic.1 ≠ magicFM01) ∨
      ((z.openSDRHeader magicDrOb).2.readMagic.1 = magicSCHU ∧
        (((z.openSDRHeader magicDrOb).2.readMagic.2.readULong 2).1 = 0 ∨
          ((z.openSDRHeader magicDrOb).2.readMagic.2.readULong 2).1 > 7)) ∨
      ((z.openSDRHeader magicDrOb).2.readMagic.1 = magicFM01 ∧
        ((z.openSDRHeader magicDrOb).2.readMagic.2.readULong 2).1 ≠ 33)) :
    ∃ z', readSdrObject env grp fuel self z = some (true, self, z') ∧
      z'.tell = (z.openSDRHeader magicDrOb).2.getRecordLastPosition ∧
      z'.input = z.input ∧ z'.stack = z.stack := by
  obtain ⟨s, hst, hpo, hle, hlen⟩ := StarZone.openSDRHeader_true ho
  have hend : (z.openSDRHeader magicDrOb).2.getRecordLastPosition = s.endPos :=
    StarZone.getRecordLastPosition_cons hst
  have hd : (if (z.openSDRHeader magicDrOb).2.readMagic.1 = magicSVDr then
        readSVDRObject env grp fuel ((z.openSDRHeader magicDrOb).2.readMagic.2.readULong 2).2
          (((z.openSDRHeader magicDrOb).2.readMagic.2.readULong 2).1 : Int)
      else if (z.openSDRHeader magicDrOb).2.readMagic.1 = magicSCHU then
        readSCHUObject grp ((z.openSDRHeader magicDrOb).2.readMagic.2.readULong 2).2
          (((z.openSDRHeader magicDrOb).2.readMagic.2.readULong 2).1 : Int)
      else if (z.openSDRHeader magicDrOb).2.readMagic.1 = magicFM01 then
        readFmFormObject env grp ((z.openSDRHeader magicDrOb).2.readMagic.2.readULong 2).2
          (((z.openSDRHeader magicDrOb).2.readMagic.2.readULong 2).1 : Int)
      else some (none, ((z.openSDRHeader magicDrOb).2.readMagic.2.readULong 2).2))
        = some (none, ((z.openSDRHeader magicDrOb).2.readMagic.2.readULong 2).2) := by
    rcases hfam with ⟨h1, h2, h3⟩ | ⟨h1, h2⟩ | ⟨h1, h2⟩
    · rw [if_neg h1, if_neg h2, if_neg h3]
    · have hne : ¬ magicSCHU = magicSVDr := by decide
      rw [h1, if_neg hne, if_pos rfl]
      unfold readSCHUObject readSCHUData
      have hid1 : ¬ ((((z.openSDRHeader magicDrOb).2.readMagic.2.readULong 2).1 : Int) = 1) := by
        omega
      have hid2 : ((((z.openSDRHeader magicDrOb).2.readMagic.2.readULong 2).1 : Int) ≤ 0 ∨
          (((z.openSDRHeader magicDrOb).2.readMagic.2.readULong 2).1 : Int) > 7) := by
        omega
      rw [if_neg hid1, if_pos hid2]
    · have hne1 : ¬ magicFM01 = magicSVDr := by decide
      have hne2 : ¬ magicFM01 = magicSCHU := by decide
      rw [h1, if_neg hne1, if_neg hne2, if_pos rfl]
      unfold readFmFormObject
      have hid : ((((z.openSDRHeader magicDrOb).2.readMagic.2.readULong 2).1 : Int) ≠ 33) := by
        omega
      rw [if_pos hid]
  unfold readSdrObject
  simp only [StarZone.readMagic_seek_tell, StarZone.seek_tell, hm, ne_eq, not_true_eq_false,
    if_false, ho, Bool.not_true, Bool.false_eq_true]
  by_cases hlast : (z.openSDRHeader magicDrOb).2.getRecordLastPosition
      = (z.openSDRHeader magicDrOb).2.tell
  · rw [if_pos hlast]
    refine ⟨_, rfl, ?_, by simp, by simp [hst]⟩
    simp [hst, hend]
  · rw [if_neg hlast, hd]
    simp only [Option.isSome_none, Bool.false_eq_true, if_false, false_and]
    refine ⟨_, rfl, ?_, by simp, by simp [hst]⟩
    simp [hst, hend]

/-- C6 amended, at a concrete input: the object of family `XXXX`, read into an
object that already holds a graphic. -/
theorem readSdrObject_unknown_family_witness :
    (zoneOf unknownFamilyObject).readMagic.1 = magicDrOb ∧
    ((zoneOf unknownFamilyObject).openSDRHeader magicDrOb).1 = true ∧
    ((zoneOf unknownFamilyObject).openSDRHeader magicDrOb).2.readMagic.1 ≠ magicSVDr ∧
    ((zoneOf unknownFamilyObject).openSDRHeader magicDrOb).2.readMagic.1 ≠ magicSCHU ∧
    ((zoneOf unknownFamilyObject).openSDRHeader magicDrOb).2.readMagic.1 ≠ magicFM01 ∧
    ∃ z', readSdrObject testEnv noGroup 0 ⟨some (.sdrGraphic (SdrGraphic.new 9))⟩
        (zoneOf unknownFamilyObject)
        = some (true, ⟨some (.sdrGraphic (SdrGraphic.new 9))⟩, z') ∧
      z'.tell = ((zoneOf unknownFamilyObject).openSDRHeader magicDrOb).2.getRecordLastPosition ∧
      z'.input = (zoneOf unknownFamilyObject).input ∧
      z'.stack = (zoneOf unknownFamilyObject).stack :=
  ⟨by decide, by decide, by decide, by decide, by decide,
    readSdrObject_unknown_family testEnv noGroup 0 ⟨some (.sdrGraphic (SdrGraphic.new 9))⟩
      (zoneOf unknownFamilyObject) (by decide) (by decide)
      (Or.inl ⟨by decide, by decide, by decide⟩)⟩
/-- C7: the switch of `readSVDRObject` runs, for every identifier, the decoder of
the leaf kind that the dispatch table of the specification gives to it: 1 the
group; 2, 8..13, 26, 27 the path; 4..7 the circle; 3, 16, 17, 20, 21 the rect;
24 the edge; 22 the graph; 23, 31 the OLE; 25 the caption; 28 the page; 29 the
measure; 32 the uno; every other identifier the header layer alone, on a generic
base object. -/
theorem readSVDRLeaf_follows_dispatchTable (env : Env) (grp : GroupReader) (z : StarZone)
    (identifier : Int) :
    readSVDRLeaf env grp z identifier = runLeaf (specLeafKind identifier) env grp z identifier := by
  by_cases h : identifier = 1 ∨ identifier = 2 ∨ identifier = 8 ∨ identifier = 9 ∨
      identifier = 10 ∨ identifier = 11 ∨ identifier = 12 ∨ identifier = 13 ∨ identifier = 26 ∨
      identifier = 27 ∨ identifier = 4 ∨ identifier = 5 ∨ identifier = 6 ∨ identifier = 7 ∨
      identifier = 3 ∨ identifier = 16 ∨ identifier = 17 ∨ identifier = 20 ∨ identifier = 21 ∨
      identifier = 24 ∨ identifier = 22 ∨ identifier = 23 ∨ identifier = 31 ∨ identifier = 25 ∨
      identifier = 28 ∨ identifier = 29 ∨ identifier = 32
  · rcases h with rfl | rfl | rfl | rfl | rfl | rfl | rfl | rfl | rfl | rfl | rfl | rfl | rfl |
      rfl | rfl | rfl | rfl | rfl | rfl | rfl | rfl | rfl | rfl | rfl | rfl | rfl | rfl <;> rfl
  · simp only [not_or] at h
    obtain ⟨h1, h2, h8, h9, h10, h11, h12, h13, h26, h27, h4, h5, h6, h7, h3, h16, h17, h20, h21,
      h24, h22, h23, h31, h25, h28, h29, h32⟩ := h
    have hnone : ∀ l : List (Int × LeafKind), (∀ p ∈ l, ¬ identifier = p.1) →
        l.lookup identifier = none := by
      intro l
      induction l with
      | nil => intro _; rfl
      | cons p l ih =>
        intro hl
        obtain ⟨k, v⟩ := p
        have hk : (identifier == k) = false := by
          simpa using hl (k, v) (List.mem_cons_self _ _)
        rw [List.lookup, hk]
        exact ih (fun q hq => hl q (List.mem_cons_of_mem _ hq))
    have hk : specLeafKind identifier = .generic := by
      unfold specLeafKind
      rw [hnone dispatchTable (by simp [dispatchTable, *])]
      rfl
    rw [hk]
    simp [readSVDRLeaf, runLeaf, *]

/-- C8, as stated, fails: the dispatch table names the identifier 7 `cut`, and
`SdrGraphic::getName` of an object with the identifier 7 returns `ccut`. -/
theorem getName_cut_counterexample :
    (7, "cut") ∈ dispatchTableNames ∧ (SdrGraphic.new 7).getName = "ccut" ∧
      (SdrGraphic.new 7).getName ≠ "cut" := by
  refine ⟨by simp [dispatchTableNames], by decide, by decide⟩

/-- C8, amended: for every identifier that the dispatch table names in lowercase,
`SdrGraphic::getName` of an object with that identifier returns that name, except
for the identifier 7, where it returns `ccut`. -/
theorem getName_follows_dispatchTable (g : SdrGraphic) (name : String)
    (h : (g.m_identifier, name) ∈ dispatchTableNames) :
    g.getName = if g.m_identifier = 7 then "ccut" else name := by
  simp only [dispatchTableNames, List.mem_cons, Prod.mk.injEq, List.mem_singleton,
    List.not_mem_nil, or_false] at h
  rcases h with h | h | h | h | h | h | h | h | h | h | h | h | h | h | h | h | h | h | h | h <;>
    (obtain ⟨hid, rfl⟩ := h; simp only [SdrGraphic.getName, hid]; decide)

/-- C8 amended, at a concrete input: the identifier 17. -/
theorem getName_follows_dispatchTable_witness :
    ((SdrGraphic.new 17).m_identifier, "textextended") ∈ dispatchTableNames ∧
      (SdrGraphic.new 17).getName
        = if (SdrGraphic.new 17).m_identifier = 7 then "ccut" else "textextended" :=
  ⟨by simp [dispatchTableNames, SdrGraphic.new],
    getName_follows_dispatchTable (SdrGraphic.new 17) "textextended"
      (by simp [dispatchTableNames, SdrGraphic.new])⟩

/-- C9: for every identifier and every input, `readSVDRObject` (with more fuel
than the stream has bytes) returns a graphic, never none, and the identifier of
that graphic is the identifier it was called with. -/
theorem readSVDRObject_keeps_identifier (env : Env) (z : StarZone) (identifier : Int)
    (fuel : Nat) (hfuel : z.input.length < fuel) :
    ∃ g z', readSVDRObject env (readSVDRObjectGroup env fuel) fuel z identifier
        = some (some g, z') ∧ g.m_identifier = identifier := by
  obtain ⟨g, z', heq, -, -, hid⟩ := readSVDRObject_lands env
    (readSVDRObjectGroup_good_of_le env hfuel 0) fuel z identifier rfl (Nat.zero_le _)
    (by omega) (by omega)
  exact ⟨g, z', heq, hid⟩

set_option maxRecDepth 100000 in
/-- C9, at a concrete input: the rectangle object with a trailing record. -/
theorem readSVDRObject_keeps_identifier_witness :
    (zoneInObject rectObjectTrailing).input.length < 121 ∧
    ∃ g z', readSVDRObject testEnv (readSVDRObjectGroup testEnv 121) 121
        (zoneInObject rectObjectTrailing) 3 = some (some g, z') ∧ g.m_identifier = 3 :=
  ⟨by decide, readSVDRObject_keeps_identifier testEnv (zoneInObject rectObjectTrailing) 3 121
    (by decide)⟩

set_option maxRecDepth 100000 in
/-- Three children A, B, C are listed as `[A, B, C]`: the offsets of the encounter
order and the identifiers of the children that the loop produces. -/
theorem children_ABC_in_order :
    encounterOrder (zoneOf childrenABC) 176 201 0 = [0, 56, 112] ∧
    (readGroupChildren (readSdrObject testEnv (readSVDRObjectGroup testEnv 200) 201
        StarObjectSmallGraphic.new) 176 201 [] (zoneOf childrenABC)).map
      (fun r => (r.1, r.2.1.map (Option.map Graphic.m_identifier), r.2.2.pos))
      = some (true, [some 14, some 15, some 18], 168) := by
  refine ⟨by decide, by decide⟩

set_option maxRecDepth 100000 in
/-- A sentinel after B truncates the list to `[A, B]`: the object after the
sentinel is not listed. -/
theorem children_sentinel_truncates :
    encounterOrder (zoneOf childrenABSentinelC) 186 201 0 = [0, 56] ∧
    (readGroupChildren (readSdrObject testEnv (readSVDRObjectGroup testEnv 200) 201
        StarObjectSmallGraphic.new) 186 201 [] (zoneOf childrenABSentinelC)).map
      (fun r => (r.1, r.2.1.map (Option.map Graphic.m_identifier), r.2.2.pos))
      = some (true, [some 14, some 15], 122) := by
  refine ⟨by decide, by decide⟩

set_option maxRecDepth 100000 in
/-- A child whose own decode was substituted keeps its position: the second
child is the base-only `SdrGraphic(3)`, between the first and the third. -/
theorem children_substituted_keeps_position :
    childAt testEnv (readSVDRObjectGroup testEnv 200) 201 (zoneOf childrenASubstitutedC) 56
      = some (.sdrGraphic (SdrGraphic.new 3)) ∧
    (readGroupChildren (readSdrObject testEnv (readSVDRObjectGroup testEnv 200) 201
        StarObjectSmallGraphic.new) 176 201 [] (zoneOf childrenASubstitutedC)).map
      (fun r => (r.1, r.2.1.map (Option.map Graphic.m_identifier), r.2.2.pos))
      = some (true, [some 14, some 3, some 18], 168) := by
  refine ⟨rfl, by decide⟩

set_option maxRecDepth 100000 in
/-- The whole way through `readSdrObject`: a group object with the children A, B,
a sentinel and C is stored as a group (identifier 1) whose children are A and B. -/
theorem group_object_children :
    (readSdrObject testEnv (readSVDRObjectGroup testEnv 300) 300 StarObjectSmallGraphic.new
        (zoneOf (groupObject (plainObject 14 ++ plainObject 15 ++ sentinel ++ plainObject 18)))).map
      (fun r => (r.1, r.2.1.m_graphic.map Graphic.m_identifier, childIdentifiers r.2.1.m_graphic,
        r.2.2.pos))
      = some (true, some 1, [some 14, some 15], 257) := by
  decide

/-! ## The claims on counts, item sets and record layouts -/

/-- C11: an overflowing point count stops the read of its list, and the decoder
returns at the last position of its record.  With `L` the last position of the
record that the decoder has opened, and a 16-bit count `N` whose position after the
count plus `8*N` (`9*N` for a flagged list) is beyond the last position of the
record that holds the list:
`readSVDRObjectHeader` (format version below 11, fixed part inside the record),
`readSVDRObjectCaption` and `readSVDRObjectEdge` (format versions 2 to 10) return
with the polygon as it was and the cursor at `L`;
`readSVDRObjectEdge` from the format version 11 on, where the list lies in a track
record nested in the edge record and the count is tested against the last position
of that track record, reads no point and no flag, closes the track record at its
last position, which is not beyond `L`, and returns with the polygon and the flags
as they were and the cursor at `L`;
`readSVDRObjectPath`, whose loop `readPathPolys` is run on `l.2.1` lists of points
of `l.1` bytes from the zone `l.2.2`: when the `j` first lists are read and the
count of the list of index `j` overflows, the function returns the graphic as it
stands after these `j` lists (the graphic of the entry when `j = 0`), with the
cursor at `L`; a turn of the loop with an overflowing count returns the graphic as
it stands, with the cursor right after the count, and the loop over `j + m` lists
is the loop over `j` lists followed by the loop over `m` lists. -/
theorem point_count_overflow (env : Env) (grp : GroupReader) (z : StarZone) :
    (∀ g : SdrGraphic, z.openRecord.1 = true → z.getHeaderVersion < 11 →
      (readHeaderFixed z.openRecord.2 g).2.tell ≤ z.openRecord.2.getRecordLastPosition →
      ((readHeaderFixed z.openRecord.2 g).2.readULong 2).2.tell
          + 8 * ((readHeaderFixed z.openRecord.2 g).2.readULong 2).1
        > z.openRecord.2.getRecordLastPosition →
      ∃ g' z', readSVDRObjectHeader env grp z g = some (true, g', z') ∧
        g'.m_polygon = g.m_polygon ∧ z'.tell = z.openRecord.2.getRecordLastPosition) ∧
    (∀ (g : SdrGraphicCaption) (base : SdrGraphicRect) (z1 : StarZone),
      readSVDRObjectRect env grp z g.toSdrGraphicRect = some (true, base, z1) →
      z1.openRecord.1 = true →
      (z1.openRecord.2.readULong 2).2.tell + 8 * (z1.openRecord.2.readULong 2).1
        > z1.openRecord.2.getRecordLastPosition →
      ∃ g' z', readSVDRObjectCaption env grp z g = some (true, g', z') ∧
        g'.m_captionPolygon = g.m_captionPolygon ∧
        z'.tell = z1.openRecord.2.getRecordLastPosition) ∧
    (∀ (g : SdrGraphicEdge) (base : SdrGraphicText) (z1 : StarZone),
      readSVDRObjectText env grp z g.toSdrGraphicText = some (true, base, z1) →
      z1.openRecord.1 = true →
      2 ≤ z1.openRecord.2.getHeaderVersion → z1.openRecord.2.getHeaderVersion < 11 →
      (z1.openRecord.2.readULong 2).2.tell + 9 * (z1.openRecord.2.readULong 2).1
        > z1.openRecord.2.getRecordLastPosition →
      ∃ g' z', readSVDRObjectEdge env grp z g = some (true, g', z') ∧
        g'.m_edgePolygon = g.m_edgePolygon ∧
        g'.m_edgePolygonFlags = g.m_edgePolygonFlags ∧
        z'.tell = z1.openRecord.2.getRecordLastPosition) ∧
    (∀ (g : SdrGraphicEdge) (base : SdrGraphicText) (z1 : StarZone),
      readSVDRObjectText env grp z g.toSdrGraphicText = some (true, base, z1) →
      z1.openRecord.1 = true →
      11 ≤ z1.openRecord.2.getHeaderVersion → z1.openRecord.2.openRecord.1 = true →
      (z1.openRecord.2.openRecord.2.readULong 2).2.tell
          + 9 * (z1.openRecord.2.openRecord.2.readULong 2).1
        > z1.openRecord.2.openRecord.2.getRecordLastPosition →
      ∃ g' z', readSVDRObjectEdge env grp z g = some (true, g', z') ∧
        g'.m_edgePolygon = g.m_edgePolygon ∧
        g'.m_edgePolygonFlags = g.m_edgePolygonFlags ∧
        z'.tell = z1.openRecord.2.getRecordLastPosition ∧
        readEdgePolygon { g with toSdrGraphicText := base } z1.openRecord.2.openRecord.2
          = (false, { g with toSdrGraphicText := base },
              (z1.openRecord.2.openRecord.2.readULong 2).2) ∧
        (readEdgeTrack z1.openRecord.2.getHeaderVersion { g with toSdrGraphicText := base }
          z1.openRecord.2).2.2.tell = z1.openRecord.2.openRecord.2.getRecordLastPosition ∧
        z1.openRecord.2.openRecord.2.getRecordLastPosition
          ≤ z1.openRecord.2.getRecordLastPosition) ∧
    (∀ (g : SdrGraphicPath) (base : SdrGraphicText) (z1 : StarZone)
        (l : Nat × Nat × StarZone) (j m : Nat),
      readSVDRObjectText env grp z g.toSdrGraphicText = some (true, base, z1) →
      z1.openRecord.1 = true →
      l = (if z1.getHeaderVersion ≤ 6 ∧
            (base.m_identifier = 2 ∨ base.m_identifier = 8 ∨ base.m_identifier = 9) then
          (8, z1.openRecord.2.readULongIf
            (decide (base.m_identifier ≠ 2 ∧ base.m_identifier ≠ 8))
            2 (if base.m_identifier = 2 then 2 else 1))
        else
          (9, (z1.openRecord.2.openRecordIf
                (decide (z1.getHeaderVersion ≥ 11)) false).2.readULongIf
            (decide (z1.getHeaderVersion < 11) ||
              (z1.openRecord.2.openRecordIf (decide (z1.getHeaderVersion ≥ 11)) false).1)
            2 0)) →
      l.2.1 = j + (m + 1) →
      (readPathPolys l.1 z1.openRecord.2.getRecordLastPosition j
        { g with toSdrGraphicText := base } l.2.2).1 = true →
      ((readPathPolys l.1 z1.openRecord.2.getRecordLastPosition j
          { g with toSdrGraphicText := base } l.2.2).2.2.readULong 2).2.tell
        + l.1 * ((readPathPolys l.1 z1.openRecord.2.getRecordLastPosition j
          { g with toSdrGraphicText := base } l.2.2).2.2.readULong 2).1
        > z1.openRecord.2.getRecordLastPosition →
      readPathPolys l.1 z1.openRecord.2.getRecordLastPosition l.2.1
          { g with toSdrGraphicText := base } l.2.2
        = (false, (readPathPolys l.1 z1.openRecord.2.getRecordLastPosition j
            { g with toSdrGraphicText := base } l.2.2).2.1,
          ((readPathPolys l.1 z1.openRecord.2.getRecordLastPosition j
            { g with toSdrGraphicText := base } l.2.2).2.2.readULong 2).2) ∧
      ∃ z', readSVDRObjectPath env grp z g
          = some (true, (readPathPolys l.1 z1.openRecord.2.getRecordLastPosition j
              { g with toSdrGraphicText := base } l.2.2).2.1, z') ∧
        z'.tell = z1.openRecord.2.getRecordLastPosition) ∧
    (∀ (w L : Nat) (gk : SdrGraphicPath) (zk : StarZone),
      readPathPolys w L 0 gk zk = (true, gk, zk)) ∧
    (∀ (w L k : Nat) (gk : SdrGraphicPath) (zk : StarZone),
      (zk.readULong 2).2.tell + w * (zk.readULong 2).1 > L →
      readPathPolys w L (k + 1) gk zk = (false, gk, (zk.readULong 2).2)) ∧
    (∀ (w L j m : Nat) (gk : SdrGraphicPath) (zk : StarZone),
      readPathPolys w L (j + m) gk zk
        = if (readPathPolys w L j gk zk).1 = true then
            readPathPolys w L m (readPathPolys w L j gk zk).2.1 (readPathPolys w L j gk zk).2.2
          else readPathPolys w L j gk zk) := by
  refine ⟨?_, ?_, ?_, ?_, ?_, fun _ _ _ _ => rfl, ?_, ?_⟩
  · intro g ho hv hfit hover
    obtain ⟨heq, hpoly, hpos, -⟩ := readSVDRObjectHeader_overflow_eq env grp z g ho hv hfit hover
    exact ⟨_, _, heq, hpoly, hpos⟩
  · intro g base z1 hR ho hover
    obtain ⟨g', z', heq, hpos, -, -, hg⟩ := readSVDRObjectCaption_opened hR ho
    refine ⟨g', z', heq, ?_, hpos⟩
    rw [hg hover]
  · intro g base z1 hT ho hv2 hv hover
    obtain ⟨g', z', heq, hpos, -, -, hp, hf⟩ := readSVDRObjectEdge_opened hT ho
    rw [readEdgeTrack_overflow_inline _ _ _ hv2 hv hover] at hp hf
    exact ⟨g', z', heq, hp, hf, hpos⟩
  · intro g base z1 hT ho hv hin hover
    obtain ⟨g', z', heq, hpos, -, -, hp, hf⟩ := readSVDRObjectEdge_opened hT ho
    obtain ⟨-, hg, htell⟩ := readEdgeTrack_overflow_nested _
      { g with toSdrGraphicText := base } _ hv hin hover
    rw [hg] at hp hf
    exact ⟨g', z', heq, hp, hf, hpos, readEdgePolygon_overflow _ _ hover, htell,
      StarZone.openRecord_nested hin⟩
  · intro g base z1 l j m hT ho hl hn hrun hover
    obtain ⟨z', heq, hpos⟩ := readSVDRObjectPath_lists hT ho l hl
    have hloop := readPathPolys_overflow_at l.1 z1.openRecord.2.getRecordLastPosition j m
      { g with toSdrGraphicText := base } l.2.2 hrun hover
    rw [← hn] at hloop
    refine ⟨hloop, z', ?_, hpos⟩
    rw [heq, hloop]
  · intro w L k gk zk hover
    exact readPathPolys_overflow w L k gk zk hover
  · intro w L j m gk zk
    exact readPathPolys_add w L j m gk zk

set_option maxRecDepth 100000 in
/-- C11, at two concrete inputs: the edge object of format version 11 whose track
record declares 1 point and holds none, in an edge record that has room for the
point; the path whose second list declares 9 points that do not fit. -/
theorem point_count_overflow_witness :
    (readSVDRObjectText testEnv noGroup edgeNestedZone newEdge.toSdrGraphicText
        = some (true, edgeTextDecoded, edgeNestedZoneEdge) ∧
      edgeNestedZoneEdge.openRecord.1 = true ∧
      11 ≤ edgeNestedZoneEdge.openRecord.2.getHeaderVersion ∧
      edgeNestedZoneEdge.openRecord.2.openRecord.1 = true ∧
      (edgeNestedZoneEdge.openRecord.2.openRecord.2.readULong 2).2.tell
          + 9 * (edgeNestedZoneEdge.openRecord.2.openRecord.2.readULong 2).1
        > edgeNestedZoneEdge.openRecord.2.openRecord.2.getRecordLastPosition ∧
      ∃ g' z', readSVDRObjectEdge testEnv noGroup edgeNestedZone newEdge = some (true, g', z') ∧
        g'.m_edgePolygon = newEdge.m_edgePolygon ∧
        g'.m_edgePolygonFlags = newEdge.m_edgePolygonFlags ∧
        z'.tell = edgeNestedZoneEdge.openRecord.2.getRecordLastPosition ∧
        readEdgePolygon { newEdge with toSdrGraphicText := edgeTextDecoded }
            edgeNestedZoneEdge.openRecord.2.openRecord.2
          = (false, { newEdge with toSdrGraphicText := edgeTextDecoded },
              (edgeNestedZoneEdge.openRecord.2.openRecord.2.readULong 2).2) ∧
        (readEdgeTrack edgeNestedZoneEdge.openRecord.2.getHeaderVersion
          { newEdge with toSdrGraphicText := edgeTextDecoded }
          edgeNestedZoneEdge.openRecord.2).2.2.tell
            = edgeNestedZoneEdge.openRecord.2.openRecord.2.getRecordLastPosition ∧
        edgeNestedZoneEdge.openRecord.2.openRecord.2.getRecordLastPosition
          ≤ edgeNestedZoneEdge.openRecord.2.getRecordLastPosition) ∧
    (readSVDRObjectText testEnv noGroup pathOverflowZone (SdrGraphicPath.new 10).toSdrGraphicText
        = some (true, textDecodedFor 10, pathOverflowZonePath) ∧
      pathOverflowZonePath.openRecord.1 = true ∧
      ((9, 2, pathOverflowZoneAt 114) : Nat × Nat × StarZone)
        = (if pathOverflowZonePath.getHeaderVersion ≤ 6 ∧
            ((textDecodedFor 10).m_identifier = 2 ∨ (textDecodedFor 10).m_identifier = 8 ∨
              (textDecodedFor 10).m_identifier = 9) then
          (8, pathOverflowZonePath.openRecord.2.readULongIf
            (decide ((textDecodedFor 10).m_identifier ≠ 2 ∧ (textDecodedFor 10).m_identifier ≠ 8))
            2 (if (textDecodedFor 10).m_identifier = 2 then 2 else 1))
        else
          (9, (pathOverflowZonePath.openRecord.2.openRecordIf
                (decide (pathOverflowZonePath.getHeaderVersion ≥ 11)) false).2.readULongIf
            (decide (pathOverflowZonePath.getHeaderVersion < 11) ||
              (pathOverflowZonePath.openRecord.2.openRecordIf
                (decide (pathOverflowZonePath.getHeaderVersion ≥ 11)) false).1)
            2 0)) ∧
      2 = 1 + (0 + 1) ∧
      (readPathPolys 9 pathOverflowZonePath.openRecord.2.getRecordLastPosition 1
        { SdrGraphicPath.new 10 with toSdrGraphicText := textDecodedFor 10 }
        (pathOverflowZoneAt 114)).1 = true ∧
      ((readPathPolys 9 pathOverflowZonePath.openRecord.2.getRecordLastPosition 1
          { SdrGraphicPath.new 10 with toSdrGraphicText := textDecodedFor 10 }
          (pathOverflowZoneAt 114)).2.2.readULong 2).2.tell
        + 9 * ((readPathPolys 9 pathOverflowZonePath.openRecord.2.getRecordLastPosition 1
          { SdrGraphicPath.new 10 with toSdrGraphicText := textDecodedFor 10 }
          (pathOverflowZoneAt 114)).2.2.readULong 2).1
        > pathOverflowZonePath.openRecord.2.getRecordLastPosition ∧
      readPathPolys 9 pathOverflowZonePath.openRecord.2.getRecordLastPosition 2
          { SdrGraphicPath.new 10 with toSdrGraphicText := textDecodedFor 10 }
          (pathOverflowZoneAt 114)
        = (false, (readPathPolys 9 pathOverflowZonePath.openRecord.2.getRecordLastPosition 1
            { SdrGraphicPath.new 10 with toSdrGraphicText := textDecodedFor 10 }
            (pathOverflowZoneAt 114)).2.1,
          ((readPathPolys 9 pathOverflowZonePath.openRecord.2.getRecordLastPosition 1
            { SdrGraphicPath.new 10 with toSdrGraphicText := textDecodedFor 10 }
            (pathOverflowZoneAt 114)).2.2.readULong 2).2) ∧
      ∃ z', readSVDRObjectPath testEnv noGroup pathOverflowZone (SdrGraphicPath.new 10)
          = some (true, (readPathPolys 9 pathOverflowZonePath.openRecord.2.getRecordLastPosition 1
              { SdrGraphicPath.new 10 with toSdrGraphicText := textDecodedFor 10 }
              (pathOverflowZoneAt 114)).2.1, z') ∧
        z'.tell = pathOverflowZonePath.openRecord.2.getRecordLastPosition) :=
  ⟨⟨rfl, by decide, by decide, by decide, by decide,
    (point_count_overflow testEnv noGroup edgeNestedZone).2.2.2.1 newEdge edgeTextDecoded
      edgeNestedZoneEdge rfl (by decide) (by decide) (by decide) (by decide)⟩,
   ⟨rfl, by decide, rfl, rfl, by decide, by decide,
    (point_count_overflow testEnv noGroup pathOverflowZone).2.2.2.2.1 (SdrGraphicPath.new 10)
      (textDecodedFor 10) pathOverflowZonePath (9, 2, pathOverflowZoneAt 114) 1 0
      rfl (by decide) rfl rfl (by decide) (by decide)⟩⟩

set_option maxRecDepth 100000 in
/-- The edge object of format version 11 whose track record declares 1 point: the
count is read at the position 111, the track record ends at 113 and the edge
record at 125, so that the 9 bytes of the point fit in the edge record and not in
the track record; `readSVDRObjectEdge` returns at 125 with an empty polygon.  The
edge object whose track record declares 5 points, which fit in neither record,
returns at the end of its edge record, 115, with an empty polygon.  The path
whose second list declares 9 points: its first list is read up to the position
134, the count of the second list up to 136, where the path record ends, and
`readSVDRObjectPath` returns there with the two points and the two flags of the
first list. -/
theorem readSVDRObjectEdge_overflow_example :
    (edgeNestedZoneEdge.openRecord.2.openRecord.2.readULong 2).1 = 1 ∧
    (edgeNestedZoneEdge.openRecord.2.openRecord.2.readULong 2).2.tell = 113 ∧
    edgeNestedZoneEdge.openRecord.2.openRecord.2.getRecordLastPosition = 113 ∧
    edgeNestedZoneEdge.openRecord.2.getRecordLastPosition = 125 ∧
    readSVDRObjectEdge testEnv noGroup edgeNestedZone newEdge
      = some (true, edgeDecoded, edgeNestedZoneEnd) ∧
    readSVDRObjectText testEnv noGroup edgeZone newEdge.toSdrGraphicText
      = some (true, edgeTextDecoded, edgeZoneEdge) ∧
    readSVDRObjectEdge testEnv noGroup edgeZone newEdge = some (true, edgeDecoded, edgeZoneEnd) ∧
    readPathPolys 9 136 1 { SdrGraphicPath.new 10 with toSdrGraphicText := textDecodedFor 10 }
        (pathOverflowZoneAt 114)
      = (true, pathOverflowDecoded, pathOverflowZoneAt 134) ∧
    ((pathOverflowZoneAt 134).readULong 2).1 = 9 ∧
    readSVDRObjectPath testEnv noGroup pathOverflowZone (SdrGraphicPath.new 10)
      = some (true, pathOverflowDecoded, ⟨pathOverflow, 136, [⟨136, 4⟩]⟩) :=
  ⟨by decide, by decide, by decide, by decide, rfl, rfl, rfl, rfl, by decide, rfl⟩

set_option maxRecDepth 100000 in
/-- C12, as stated, fails: on a caption object of format version 4 whose caption
record declares 9 points and holds none, `readSVDRObjectCaption` returns `true` and
`readSVDRObject` returns the caption object, not the base-only `SdrGraphic(25)`. -/
theorem readSVDRObject_count_overflow_counterexample :
    readSVDRObjectRect testEnv noGroup captionZone newCaption.toSdrGraphicRect
      = some (true, captionRectDecoded, captionZoneCaption) ∧
    captionZoneCaption.openRecord.1 = true ∧
    (captionZoneCaption.openRecord.2.readULong 2).1 = 9 ∧
    (captionZoneCaption.openRecord.2.readULong 2).2.tell + 8 * 9
      > captionZoneCaption.openRecord.2.getRecordLastPosition ∧
    readSVDRObjectCaption testEnv noGroup captionZone newCaption
      = some (true, captionDecoded, captionZoneEnd) ∧
    readSVDRObject testEnv noGroup 2 captionZone 25
      = some (some (.caption captionDecoded), captionZoneEnd) ∧
    Graphic.caption captionDecoded ≠ Graphic.sdrGraphic (SdrGraphic.new 25) :=
  ⟨rfl, by decide, by decide, by decide, rfl, rfl, fun h => Graphic.noConfusion h⟩

/-- C12, amended: once the parent layer has succeeded and the leaf record of a
caption (identifier 25), an edge (24) or a path (2, 8 to 13, 26, 27) is open, the
leaf decoder returns `true` whatever point count the record declares, with the
cursor at the last position of that record; and `readSVDRObject` returns the
caption, the edge or the path object, not the base-only `SdrGraphic`, when that
position is the last position of the scope of the object. -/
theorem readSVDRObject_count_overflow (env : Env) (grp : GroupReader) (fuel : Nat)
    (z : StarZone) :
    (∀ (base : SdrGraphicRect) (z1 : StarZone),
      readSVDRObjectRect env grp z SdrGraphicCaption.new.toSdrGraphicRect
        = some (true, base, z1) →
      z1.openRecord.1 = true →
      ∃ c z', readSVDRLeaf env grp z 25 = some (true, .caption c, z') ∧
        z'.tell = z1.openRecord.2.getRecordLastPosition ∧
        (z'.tell = z.getRecordLastPosition →
          readSVDRObject env grp fuel z 25 = some (some (.caption c), z'))) ∧
    (∀ (base : SdrGraphicText) (z1 : StarZone),
      readSVDRObjectText env grp z SdrGraphicEdge.new.toSdrGraphicText
        = some (true, base, z1) →
      z1.openRecord.1 = true →
      ∃ c z', readSVDRLeaf env grp z 24 = some (true, .edge c, z') ∧
        z'.tell = z1.openRecord.2.getRecordLastPosition ∧
        (z'.tell = z.getRecordLastPosition →
          readSVDRObject env grp fuel z 24 = some (some (.edge c), z'))) ∧
    (∀ (identifier : Int) (base : SdrGraphicText) (z1 : StarZone),
      (identifier = 2 ∨ identifier = 8 ∨ identifier = 9 ∨ identifier = 10 ∨ identifier = 11
        ∨ identifier = 12 ∨ identifier = 13 ∨ identifier = 26 ∨ identifier = 27) →
      readSVDRObjectText env grp z (SdrGraphicPath.new identifier).toSdrGraphicText
        = some (true, base, z1) →
      z1.openRecord.1 = true →
      ∃ c z', readSVDRLeaf env grp z identifier = some (true, .path c, z') ∧
        z'.tell = z1.openRecord.2.getRecordLastPosition ∧
        (z'.tell = z.getRecordLastPosition →
          readSVDRObject env grp fuel z identifier = some (some (.path c), z'))) := by
  refine ⟨?_, ?_, ?_⟩
  · intro base z1 hR ho
    obtain ⟨c, z', heq, hpos, -⟩ := readSVDRObjectCaption_opened hR ho
    have hleaf : readSVDRLeaf env grp z 25 = some (true, .caption c, z') := by
      simp [readSVDRLeaf, heq]
    refine ⟨c, z', hleaf, hpos, fun hend => ?_⟩
    unfold readSVDRObject
    rw [hleaf]
    simp only [Bool.not_true, Bool.false_eq_true, if_false]
    rw [if_pos hend]
  · intro base z1 hT ho
    obtain ⟨c, z', heq, hpos, -⟩ := readSVDRObjectEdge_opened hT ho
    have hleaf : readSVDRLeaf env grp z 24 = some (true, .edge c, z') := by
      simp [readSVDRLeaf, heq]
    refine ⟨c, z', hleaf, hpos, fun hend => ?_⟩
    unfold readSVDRObject
    rw [hleaf]
    simp only [Bool.not_true, Bool.false_eq_true, if_false]
    rw [if_pos hend]
  · intro identifier base z1 hid hT ho
    obtain ⟨c, z', heq, hpos, -⟩ := readSVDRObjectPath_opened hT ho
    have h1 : identifier ≠ 1 := by omega
    have hleaf : readSVDRLeaf env grp z identifier = some (true, .path c, z') := by
      unfold readSVDRLeaf
      rw [if_neg h1, if_pos hid, heq]
      rfl
    refine ⟨c, z', hleaf, hpos, fun hend => ?_⟩
    unfold readSVDRObject
    rw [hleaf]
    simp only [Bool.not_true, Bool.false_eq_true, if_false]
    rw [if_pos hend]

set_option maxRecDepth 100000 in
/-- C12 amended, at a concrete input: the caption object whose caption record
declares 9 points and holds none. -/
theorem readSVDRObject_count_overflow_witness :
    readSVDRObjectRect testEnv noGroup captionZone SdrGraphicCaption.new.toSdrGraphicRect
      = some (true, captionRectDecoded, captionZoneCaption) ∧
    captionZoneCaption.openRecord.1 = true ∧
    ∃ c z', readSVDRLeaf testEnv noGroup captionZone 25 = some (true, .caption c, z') ∧
      z'.tell = captionZoneCaption.openRecord.2.getRecordLastPosition ∧
      (z'.tell = captionZone.getRecordLastPosition →
        readSVDRObject testEnv noGroup 2 captionZone 25 = some (some (.caption c), z')) :=
  ⟨rfl, by decide,
    (readSVDRObject_count_overflow testEnv noGroup 2 captionZone).1 captionRectDecoded
      captionZoneCaption rfl (by decide)⟩

set_option maxRecDepth 100000 in
/-- C13, as stated, fails: on a header record of format version 4 whose inline
polygon declares 9 points in a record that ends right after the count,
`readSVDRObjectHeader` returns `true`. -/
theorem readSVDRObjectHeader_overflow_counterexample :
    overflowZone.getHeaderVersion = 4 ∧
    ((readHeaderFixed overflowZone.openRecord.2 newPlain).2.readULong 2).1 = 9 ∧
    ((readHeaderFixed overflowZone.openRecord.2 newPlain).2.readULong 2).2.tell + 8 * 9
      > overflowZone.openRecord.2.getRecordLastPosition ∧
    readSVDRObjectHeader testEnv noGroup overflowZone newPlain
      = some (true, headerDecoded, ⟨mkSDR magicDrOb 4 headerOverflow, 48, [⟨48, 4⟩]⟩) := by
  refine ⟨by decide, by decide, by decide, rfl⟩

/-- C13, amended: on a header record of a format version below 11 whose fixed
part fits and whose inline point count `n` has the position after the count plus
`8*n` beyond the last position of the record, `readSVDRObjectHeader` reads no
point and no user data, closes its record and returns `true`, with the polygon of
the object as it was and the cursor at the last position of the record. -/
theorem readSVDRObjectHeader_overflow (env : Env) (grp : GroupReader) (z : StarZone)
    (g : SdrGraphic) (ho : z.openRecord.1 = true) (hv : z.getHeaderVersion < 11)
    (hfit : (readHeaderFixed z.openRecord.2 g).2.tell ≤ z.openRecord.2.getRecordLastPosition)
    (hover : ((readHeaderFixed z.openRecord.2 g).2.readULong 2).2.tell
        + 8 * ((readHeaderFixed z.openRecord.2 g).2.readULong 2).1
      > z.openRecord.2.getRecordLastPosition) :
    readSVDRObjectHeader env grp z g
      = some (true, (readHeaderFixed z.openRecord.2 g).1,
          ((readHeaderFixed z.openRecord.2 g).2.readULong 2).2.closeRecord) ∧
    (readHeaderFixed z.openRecord.2 g).1.m_polygon = g.m_polygon ∧
    ((readHeaderFixed z.openRecord.2 g).2.readULong 2).2.closeRecord.tell
      = z.openRecord.2.getRecordLastPosition ∧
    ((readHeaderFixed z.openRecord.2 g).2.readULong 2).2.closeRecord.stack = z.stack :=
  readSVDRObjectHeader_overflow_eq env grp z g ho hv hfit hover

set_option maxRecDepth 100000 in
/-- C13 amended, at a concrete input: the header record that declares 9 points. -/
theorem readSVDRObjectHeader_overflow_witness :
    overflowZone.openRecord.1 = true ∧ overflowZone.getHeaderVersion < 11 ∧
    (readHeaderFixed overflowZone.openRecord.2 newPlain).2.tell
      ≤ overflowZone.openRecord.2.getRecordLastPosition ∧
    ((readHeaderFixed overflowZone.openRecord.2 newPlain).2.readULong 2).2.tell
        + 8 * ((readHeaderFixed overflowZone.openRecord.2 newPlain).2.readULong 2).1
      > overflowZone.openRecord.2.getRecordLastPosition ∧
    (readSVDRObjectHeader testEnv noGroup overflowZone newPlain
      = some (true, (readHeaderFixed overflowZone.openRecord.2 newPlain).1,
          ((readHeaderFixed overflowZone.openRecord.2 newPlain).2.readULong 2).2.closeRecord) ∧
    (readHeaderFixed overflowZone.openRecord.2 newPlain).1.m_polygon = newPlain.m_polygon ∧
    ((readHeaderFixed overflowZone.openRecord.2 newPlain).2.readULong 2).2.closeRecord.tell
      = overflowZone.openRecord.2.getRecordLastPosition ∧
    ((readHeaderFixed overflowZone.openRecord.2 newPlain).2.readULong 2).2.closeRecord.stack
      = overflowZone.stack) :=
  ⟨by decide, by decide, by decide, by decide,
    readSVDRObjectHeader_overflow testEnv noGroup overflowZone newPlain (by decide) (by decide)
      (by decide) (by decide)⟩

set_option maxRecDepth 100000 in
/-- C14, as stated, fails: on a header record of format version 4 whose only
user-data entry has the type `XXXX`, `readSDRUserData` fails on that entry, outside
any record of its own, and `readSVDRObjectHeader` returns `true`. -/
theorem readSVDRObjectHeader_unknown_user_data_counterexample :
    unknownUserEntry.readMagic.1 = [88, 88, 88, 88] ∧
    readSDRUserData testEnv noGroup unknownUserEntry false
      = some (false, ⟨mkSDR magicDrOb 4 headerUnknownUserData, 56, [⟨56, 4⟩, ⟨56, 4⟩]⟩) ∧
    readSVDRObjectHeader testEnv noGroup unknownUserZone newPlain
      = some (true, headerDecoded, ⟨mkSDR magicDrOb 4 headerUnknownUserData, 56, [⟨56, 4⟩]⟩) := by
  refine ⟨by decide, rfl, rfl⟩

/-- C14, amended: a user-data entry of at least six bytes whose type is neither
`SCHU` nor `SDUD`, met outside a record of its own, makes `readSDRUserData` fail
with the cursor after the type and the id; the loop of `readSDRUserDataList` then
goes on with its next entry from the start of the failed one; and
`readSVDRObjectHeader` (with more fuel than the stream has bytes) returns `true`
whenever its record opens, whatever its user data. -/
theorem readSDRUserData_unknown_type (env : Env) (grp : GroupReader) (z : StarZone)
    (h6 : z.tell + 6 ≤ z.getRecordLastPosition) (hS : z.readMagic.1 ≠ magicSCHU)
    (hD : z.readMagic.1 ≠ magicSDUD) :
    readSDRUserData env grp z false = some (false, (z.readMagic.2.readULong 2).2) ∧
    (∀ n : Nat, readSDRUserDatas env grp false (n + 1) z = readSDRUserDatas env grp false n z) ∧
    (∀ (zh : StarZone) (g : SdrGraphic) (fuel : Nat), zh.input.length < fuel →
      zh.openRecord.1 = true →
      ∃ g' z', readSVDRObjectHeader env (readSVDRObjectGroup env fuel) zh g
        = some (true, g', z')) := by
  have h1 : readSDRUserData env grp z false = some (false, (z.readMagic.2.readULong 2).2) := by
    unfold readSDRUserData
    simp only [Bool.false_eq_true, if_false, Bool.not_true]
    rw [if_neg (by omega), if_neg hS, if_neg hD]
    rfl
  refine ⟨h1, fun n => ?_, fun zh g fuel hfuel ho => ?_⟩
  · rw [readSDRUserDatas, h1]
    rfl
  · obtain ⟨ok, g', z', heq, -⟩ := readSVDRObjectHeader_lands env zh g rfl
      (fun _ => readSVDRObjectGroup_good_of_le env hfuel _)
    obtain ⟨hok, -⟩ := readSVDRObjectHeader_graphic ho heq
    subst hok
    exact ⟨g', z', heq⟩

set_option maxRecDepth 100000 in
/-- C14 amended, at a concrete input: the user-data entry of type `XXXX`. -/
theorem readSDRUserData_unknown_type_witness :
    unknownUserEntry.tell + 6 ≤ unknownUserEntry.getRecordLastPosition ∧
    unknownUserEntry.readMagic.1 ≠ magicSCHU ∧ unknownUserEntry.readMagic.1 ≠ magicSDUD ∧
    (readSDRUserData testEnv noGroup unknownUserEntry false
      = some (false, (unknownUserEntry.readMagic.2.readULong 2).2) ∧
    (∀ n : Nat, readSDRUserDatas testEnv noGroup false (n + 1) unknownUserEntry
      = readSDRUserDatas testEnv noGroup false n unknownUserEntry) ∧
    (∀ (zh : StarZone) (g : SdrGraphic) (fuel : Nat), zh.input.length < fuel →
      zh.openRecord.1 = true →
      ∃ g' z', readSVDRObjectHeader testEnv (readSVDRObjectGroup testEnv fuel) zh g
        = some (true, g', z'))) :=
  ⟨by decide, by decide, by decide,
    readSDRUserData_unknown_type testEnv noGroup unknownUserEntry (by decide) (by decide)
      (by decide)⟩

/-- C15: once the header layer has succeeded and the item-set record is open,
`readSVDRObjectAttrib` returns `true` whatever the pool resolves; and the turn of
its loop in which the pool returns no item returns the item list as it stands, so
that the id of that turn is absent from the list of the object. -/
theorem readSVDRObjectAttrib_unresolved (env : Env) (grp : GroupReader) (z : StarZone)
    (g : SdrGraphicAttribute) (base : SdrGraphic) (z1 : StarZone)
    (hH : readSVDRObjectHeader env grp z g.toSdrGraphic = some (true, base, z1))
    (ho : z1.openRecord.1 = true) :
    (∃ g' z', readSVDRObjectAttrib env grp z g = some (true, g', z') ∧
      g'.m_itemList = (readAttribItems env z1.getHeaderVersion
        z1.openRecord.2.getRecordLastPosition 6 0 g.m_itemList z1.openRecord.2).2.1) ∧
    (∀ (vers lastPos k i : Nat) (items : List StarItem) (zc : StarZone),
      (env.loadSurrogate (zc.skipIf (decide (vers < 11)) 2) (attribWhich.getD i 0)).1 = none →
      (readAttribItems env vers lastPos (k + 1) i items zc).2.1 = items) := by
  refine ⟨readSVDRObjectAttrib_itemList hH ho, ?_⟩
  intro vers lastPos k i items zc hn
  rw [readAttribItems]
  simp only [hn, Option.isNone_none, true_or, if_true]

/-- C16: once the header layer has succeeded and the item-set record is open, when
every surrogate resolves inside the record, `readSVDRObjectAttrib` returns `true`
and appends to the item list the items resolved for the item-set ids of the
specification, in their order: the first 4, 5 or 6 ids of the table 1017, 1047,
1066, 1079, 1096, 1126 for a format version below 5, equal to 5, or above. -/
theorem readSVDRObjectAttrib_item_order (env : Env) (grp : GroupReader) (z : StarZone)
    (g : SdrGraphicAttribute) (base : SdrGraphic) (z1 : StarZone)
    (hH : readSVDRObjectHeader env grp z g.toSdrGraphic = some (true, base, z1))
    (ho : z1.openRecord.1 = true)
    (hall : resolveAllOk env z1.getHeaderVersion z1.openRecord.2.getRecordLastPosition
      (specItemSetIds z1.getHeaderVersion) z1.openRecord.2 = true) :
    (∃ g' z', readSVDRObjectAttrib env grp z g = some (true, g', z') ∧
      g'.m_itemList = g.m_itemList ++
        (resolveAll env z1.getHeaderVersion (specItemSetIds z1.getHeaderVersion)
          z1.openRecord.2).1 ∧
      g'.m_itemList.length = g.m_itemList.length +
        (if z1.getHeaderVersion < 5 then 4 else if z1.getHeaderVersion < 6 then 5 else 6)) ∧
    specItemSetIds z1.getHeaderVersion = attribWhich.take
      (if z1.getHeaderVersion < 5 then 4 else if z1.getHeaderVersion < 6 then 5 else 6) ∧
    attribWhich = [1017, 1047, 1066, 1079, 1096, 1126] := by
  have hspec : specItemSetIds z1.getHeaderVersion = attribWhich.take
      (if z1.getHeaderVersion < 5 then 4 else if z1.getHeaderVersion < 6 then 5 else 6) := by
    unfold specItemSetIds attribWhich
    split_ifs <;> rfl
  have hlen : (specItemSetIds z1.getHeaderVersion).length =
      (if z1.getHeaderVersion < 5 then 4 else if z1.getHeaderVersion < 6 then 5 else 6) := by
    unfold specItemSetIds
    split_ifs <;> rfl
  refine ⟨?_, hspec, rfl⟩
  obtain ⟨g', z', heq, hl⟩ := readSVDRObjectAttrib_itemList hH ho
  rw [readAttribItems_resolveAll env _ _ _ _ hall] at hl
  refine ⟨g', z', heq, hl, ?_⟩
  rw [hl, List.length_append, resolveAll_length env _ _ _ _ hall, hlen]

set_option maxRecDepth 100000 in
/-- C15, at a concrete input: an item-set record of format version 4 whose second
surrogate does not resolve. -/
theorem readSVDRObjectAttrib_unresolved_witness :
    readSVDRObjectHeader testEnv noGroup unresolvedZone newAttrib.toSdrGraphic
      = some (true, headerDecoded3, unresolvedZoneAttrib) ∧
    unresolvedZoneAttrib.openRecord.1 = true ∧
    (∃ g' z', readSVDRObjectAttrib testEnv noGroup unresolvedZone newAttrib = some (true, g', z') ∧
      g'.m_itemList = (readAttribItems testEnv unresolvedZoneAttrib.getHeaderVersion
        unresolvedZoneAttrib.openRecord.2.getRecordLastPosition 6 0 newAttrib.m_itemList unresolvedZoneAttrib.openRecord.2).2.1) ∧
    (∀ (vers lastPos k i : Nat) (items : List StarItem) (zc : StarZone),
      (testEnv.loadSurrogate (zc.skipIf (decide (vers < 11)) 2) (attribWhich.getD i 0)).1 = none →
      (readAttribItems testEnv vers lastPos (k + 1) i items zc).2.1 = items) :=
  ⟨rfl, by decide,
    readSVDRObjectAttrib_unresolved testEnv noGroup unresolvedZone newAttrib headerDecoded3
      unresolvedZoneAttrib rfl (by decide)⟩

set_option maxRecDepth 100000 in
/-- The item-set record whose second surrogate does not resolve gives the item
list `[1]`: the second id is absent, and so are the ids after it. -/
theorem readSVDRObjectAttrib_unresolved_example :
    (readSVDRObjectAttrib testEnv noGroup unresolvedZone newAttrib).map
      (fun r => (r.1, r.2.1.m_itemList, r.2.2.pos)) = some (true, [1], 72) := by
  decide

set_option maxRecDepth 100000 in
/-- C16, at a concrete input: the item-set record of the rectangle object of
format version 4, with four surrogates. -/
theorem readSVDRObjectAttrib_item_order_witness :
    readSVDRObjectHeader testEnv noGroup rectZone newAttrib.toSdrGraphic
      = some (true, headerDecoded3, rectZoneAttrib) ∧
    rectZoneAttrib.openRecord.1 = true ∧
    resolveAllOk testEnv rectZoneAttrib.getHeaderVersion
      rectZoneAttrib.openRecord.2.getRecordLastPosition
      (specItemSetIds rectZoneAttrib.getHeaderVersion) rectZoneAttrib.openRecord.2 = true ∧
    (∃ g' z', readSVDRObjectAttrib testEnv noGroup rectZone newAttrib = some (true, g', z') ∧
      g'.m_itemList = newAttrib.m_itemList ++
        (resolveAll testEnv rectZoneAttrib.getHeaderVersion (specItemSetIds rectZoneAttrib.getHeaderVersion)
          rectZoneAttrib.openRecord.2).1 ∧
      g'.m_itemList.length = newAttrib.m_itemList.length +
        (if rectZoneAttrib.getHeaderVersion < 5 then 4 else if rectZoneAttrib.getHeaderVersion < 6 then 5 else 6)) ∧
    specItemSetIds rectZoneAttrib.getHeaderVersion = attribWhich.take
      (if rectZoneAttrib.getHeaderVersion < 5 then 4 else if rectZoneAttrib.getHeaderVersion < 6 then 5 else 6) ∧
    attribWhich = [1017, 1047, 1066, 1079, 1096, 1126] :=
  ⟨rfl, by decide, by decide,
    readSVDRObjectAttrib_item_order testEnv noGroup rectZone newAttrib headerDecoded3
      rectZoneAttrib rfl (by decide) (by decide)⟩

set_option maxRecDepth 100000 in
/-- C17, as stated, fails: in an item-set record of format version 9 that ends at
the position 82, the six surrogates end at the position 78, the style-sheet name
read there is empty and ends at the position 80, with exactly two bytes left; and
one more 16-bit value is read after that empty name, up to the position 82. -/
theorem readSVDRObjectAttrib_style_counterexample :
    readSVDRObjectHeader testEnv noGroup styleZone newAttrib.toSdrGraphic
      = some (true, headerDecoded3, styleZoneAttrib) ∧
    styleZoneAttrib.openRecord = (true, styleZoneAt 54) ∧
    (styleZoneAt 54).getHeaderVersion = 9 ∧ (styleZoneAt 54).getRecordLastPosition = 82 ∧
    readAttribItems testEnv 9 82 6 0 [] (styleZoneAt 54)
      = (true, [1, 2, 3, 4, 5, 6], styleZoneAt 78) ∧
    readStringIn testEnv 82 (styleZoneAt 78) = (true, [], styleZoneAt 80) ∧
    readAttribStyle testEnv 9 82 styleDecoded (styleZoneAt 78)
      = (true, styleDecoded, styleZoneAt 80) ∧
    readAttribCharSetGuess 9 82 true (styleZoneAt 80) = styleZoneAt 82 ∧
    readSVDRObjectAttrib testEnv noGroup styleZone newAttrib
      = some (true, styleDecoded, ⟨styleBytes, 82, [⟨82, 9⟩]⟩) := by
  refine ⟨rfl, by decide, by decide, by decide, by decide, by decide, by decide, by decide, rfl⟩

/-- C17, amended: when the style-sheet name of `readSVDRObjectAttrib` is read
inside the record, it is stored and followed by a 16-bit family field if and only
if it is not empty, and a 16-bit character-set id follows the family exactly for
the format versions 1 to 10; then, for the format version 9 only, when exactly two
bytes are left before the last position of the record, one more 16-bit value is
read, also after an empty name.  The last part ties these two blocks to
`readSVDRObjectAttrib`: they run right after the loop over the item-set ids. -/
theorem readAttribStyle_layout (env : Env) (vers lastPos : Nat) (g : SdrGraphicAttribute)
    (z : StarZone) (hname : (readStringIn env lastPos z).1 = true) :
    readAttribStyle env vers lastPos g z
      = (true,
          (if (readStringIn env lastPos z).2.1 ≠ []
            then { g with m_sheetStyle := (readStringIn env lastPos z).2.1 } else g),
          (readStringIn env lastPos z).2.2.skip
            (if (readStringIn env lastPos z).2.1 = [] then 0
              else if 0 < vers ∧ vers < 11 then 4 else 2)) ∧
    (∀ (ok : Bool) (zc : StarZone), readAttribCharSetGuess vers lastPos ok zc
      = if ok = true ∧ vers = 9 ∧ zc.tell + 2 = lastPos then zc.skip 2 else zc) ∧
    (∀ (grp : GroupReader) (zf : StarZone) (gf : SdrGraphicAttribute) (base : SdrGraphic)
      (z1 : StarZone) (r : Bool × List StarItem × StarZone)
      (s : Bool × SdrGraphicAttribute × StarZone),
      readSVDRObjectHeader env grp zf gf.toSdrGraphic = some (true, base, z1) →
      z1.openRecord.1 = true →
      r = readAttribItems env z1.openRecord.2.getHeaderVersion
        z1.openRecord.2.getRecordLastPosition 6 0 gf.m_itemList z1.openRecord.2 →
      r.1 = true →
      s = readAttribStyle env z1.openRecord.2.getHeaderVersion
        z1.openRecord.2.getRecordLastPosition
        { gf with toSdrGraphic := base, m_itemList := r.2.1 } r.2.2 →
      readSVDRObjectAttrib env grp zf gf
        = some (true, s.2.1,
            ((readAttribCharSetGuess z1.openRecord.2.getHeaderVersion
              z1.openRecord.2.getRecordLastPosition s.1 s.2.2).seek
                z1.openRecord.2.getRecordLastPosition).closeRecord)) := by
  refine ⟨?_, ?_, ?_⟩
  · unfold readAttribStyle
    simp only [hname, Bool.not_true, Bool.false_eq_true, if_false]
    by_cases he : (readStringIn env lastPos z).2.1 = []
    · simp only [he, ne_eq, not_true_eq_false, if_false, if_true]
      rfl
    · by_cases hv : 0 < vers ∧ vers < 11
      · simp [he, hv, StarZone.readULongIf, StarZone.readULong, StarZone.skip]
      · simp [he, hv, StarZone.readULongIf, StarZone.readULong, StarZone.skip]
  · intro ok zc
    unfold readAttribCharSetGuess StarZone.readULongIf
    by_cases h : ok = true ∧ vers = 9 ∧ zc.tell + 2 = lastPos
    · have hb : (ok && decide (vers = 9 ∧ zc.tell + 2 = lastPos)) = true := by
        have h3 : zc.pos + 2 = lastPos := h.2.2
        simp [h.1, h.2.1, h3]
      rw [if_pos h, hb]
      rfl
    · have hb : (ok && decide (vers = 9 ∧ zc.tell + 2 = lastPos)) = false := by
        cases ok <;> simp_all
      rw [if_neg h, hb]
      rfl
  · intro grp zf gf base z1 r s hH ho hr hok hs
    subst hr hs
    unfold readSVDRObjectAttrib
    rw [hH]
    simp only [ho, Bool.not_true, Bool.false_eq_true, if_false, hok, if_true]

set_option maxRecDepth 100000 in
/-- C17 amended, at a concrete input: the empty style-sheet name of the item-set
record of format version 9. -/
theorem readAttribStyle_layout_witness :
    (readStringIn testEnv 82 (styleZoneAt 78)).1 = true ∧
    (readAttribStyle testEnv 9 82 styleDecoded (styleZoneAt 78)
      = (true,
          (if (readStringIn testEnv 82 (styleZoneAt 78)).2.1 ≠ []
            then { styleDecoded with m_sheetStyle := (readStringIn testEnv 82 (styleZoneAt 78)).2.1 } else styleDecoded),
          (readStringIn testEnv 82 (styleZoneAt 78)).2.2.skip
            (if (readStringIn testEnv 82 (styleZoneAt 78)).2.1 = [] then 0
              else if 0 < 9 ∧ 9 < 11 then 4 else 2)) ∧
    (∀ (ok : Bool) (zc : StarZone), readAttribCharSetGuess 9 82 ok zc
      = if ok = true ∧ 9 = 9 ∧ zc.tell + 2 = 82 then zc.skip 2 else zc) ∧
    (∀ (grp : GroupReader) (zf : StarZone) (gf : SdrGraphicAttribute) (base : SdrGraphic)
      (z1 : StarZone) (r : Bool × List StarItem × StarZone)
      (s : Bool × SdrGraphicAttribute × StarZone),
      readSVDRObjectHeader testEnv grp zf gf.toSdrGraphic = some (true, base, z1) →
      z1.openRecord.1 = true →
      r = readAttribItems testEnv z1.openRecord.2.getHeaderVersion
        z1.openRecord.2.getRecordLastPosition 6 0 gf.m_itemList z1.openRecord.2 →
      r.1 = true →
      s = readAttribStyle testEnv z1.openRecord.2.getHeaderVersion
        z1.openRecord.2.getRecordLastPosition
        { gf with toSdrGraphic := base, m_itemList := r.2.1 } r.2.2 →
      readSVDRObjectAttrib testEnv grp zf gf
        = some (true, s.2.1,
            ((readAttribCharSetGuess z1.openRecord.2.getHeaderVersion
              z1.openRecord.2.getRecordLastPosition s.1 s.2.2).seek
                z1.openRecord.2.getRecordLastPosition).closeRecord))) :=
  ⟨by decide, readAttribStyle_layout testEnv 9 82 styleDecoded (styleZoneAt 78) (by decide)⟩

/-- C18: once the record of `readSVDRObjectHeader` is open (its four length bytes
read), the fixed part reads the bounding box as four signed 32-bit values, the
16-bit layer id, the anchor as two signed 32-bit values and five 1-byte flags, 31
bytes in all; it reads a sixth flag, one more byte, exactly when the format
version is 4 or more, and otherwise leaves the sixth flag as it was, which is
`false` on a new object.  These are the fields of the graphic that the function
returns. -/
theorem readSVDRObjectHeader_fixed_layout (env : Env) (grp : GroupReader) (z : StarZone)
    (g g' : SdrGraphic) (ok : Bool) (z' : StarZone) (ho : z.openRecord.1 = true)
    (h : readSVDRObjectHeader env grp z g = some (ok, g', z')) :
    g'.m_bdbox =
      ⟨⟨toSigned 4 (leValue z.input (z.pos + 4) 4), toSigned 4 (leValue z.input (z.pos + 8) 4)⟩,
       ⟨toSigned 4 (leValue z.input (z.pos + 12) 4),
        toSigned 4 (leValue z.input (z.pos + 16) 4)⟩⟩ ∧
    g'.m_layerId = (leValue z.input (z.pos + 20) 2 : Nat) ∧
    g'.m_anchorPosition =
      ⟨toSigned 4 (leValue z.input (z.pos + 22) 4),
       toSigned 4 (leValue z.input (z.pos + 26) 4)⟩ ∧
    g'.m_flags =
      [decide (leValue z.input (z.pos + 30) 1 ≠ 0), decide (leValue z.input (z.pos + 31) 1 ≠ 0),
       decide (leValue z.input (z.pos + 32) 1 ≠ 0), decide (leValue z.input (z.pos + 33) 1 ≠ 0),
       decide (leValue z.input (z.pos + 34) 1 ≠ 0),
       if z.getHeaderVersion ≥ 4 then decide (leValue z.input (z.pos + 35) 1 ≠ 0)
       else g.m_flags.getD 5 false] ∧
    (readHeaderFixed z.openRecord.2 g).2.pos
      = z.pos + 4 + 31 + (if z.getHeaderVersion ≥ 4 then 1 else 0) ∧
    (SdrGraphic.new g.m_identifier).m_flags.getD 5 true = false := by
  obtain ⟨s, hst, hpo, -, -, hv⟩ := StarZone.openRecord_true ho
  have hver : z.openRecord.2.getHeaderVersion = z.getHeaderVersion := by
    rw [← hv]; unfold StarZone.getHeaderVersion; rw [hst]
  have hin : z.openRecord.2.input = z.input := StarZone.openRecord_input z
  obtain ⟨-, hg⟩ := readSVDRObjectHeader_graphic ho h
  obtain ⟨h1, h2, h3, h4⟩ := readHeaderFields_fixed z.openRecord.2 g
  subst hg
  rw [h1, h2, h3, h4]
  by_cases hv4 : z.getHeaderVersion ≥ 4
  · simp [readHeaderFixed, readBox, readVec, StarZone.readLong, StarZone.readULong,
      StarZone.readBool, StarZone.readBoolIf, hver, hin, hpo, hv4, Nat.add_assoc]
    rfl
  · simp [readHeaderFixed, readBox, readVec, StarZone.readLong, StarZone.readULong,
      StarZone.readBool, StarZone.readBoolIf, hver, hin, hpo, hv4, Nat.add_assoc]
    rfl

set_option maxRecDepth 100000 in
/-- C18, at a concrete input: the header record of a plain object of format
version 4. -/
theorem readSVDRObjectHeader_fixed_layout_witness :
    plainZone.openRecord.1 = true ∧
    readSVDRObjectHeader testEnv noGroup plainZone newPlain
      = some (true, headerDecoded, ⟨plainObject 14, 56, [⟨56, 4⟩]⟩) ∧
    headerDecoded.m_bdbox =
      ⟨⟨toSigned 4 (leValue plainZone.input (plainZone.pos + 4) 4), toSigned 4 (leValue plainZone.input (plainZone.pos + 8) 4)⟩,
       ⟨toSigned 4 (leValue plainZone.input (plainZone.pos + 12) 4),
        toSigned 4 (leValue plainZone.input (plainZone.pos + 16) 4)⟩⟩ ∧
    headerDecoded.m_layerId = (leValue plainZone.input (plainZone.pos + 20) 2 : Nat) ∧
    headerDecoded.m_anchorPosition =
      ⟨toSigned 4 (leValue plainZone.input (plainZone.pos + 22) 4),
       toSigned 4 (leValue plainZone.input (plainZone.pos + 26) 4)⟩ ∧
    headerDecoded.m_flags =
      [decide (leValue plainZone.input (plainZone.pos + 30) 1 ≠ 0), decide (leValue plainZone.input (plainZone.pos + 31) 1 ≠ 0),
       decide (leValue plainZone.input (plainZone.pos + 32) 1 ≠ 0), decide (leValue plainZone.input (plainZone.pos + 33) 1 ≠ 0),
       decide (leValue plainZone.input (plainZone.pos + 34) 1 ≠ 0),
       if plainZone.getHeaderVersion ≥ 4 then decide (leValue plainZone.input (plainZone.pos + 35) 1 ≠ 0)
       else newPlain.m_flags.getD 5 false] ∧
    (readHeaderFixed plainZone.openRecord.2 newPlain).2.pos
      = plainZone.pos + 4 + 31 + (if plainZone.getHeaderVersion ≥ 4 then 1 else 0) ∧
    (SdrGraphic.new newPlain.m_identifier).m_flags.getD 5 true = false :=
  ⟨by decide, rfl,
    readSVDRObjectHeader_fixed_layout testEnv noGroup plainZone newPlain headerDecoded true
      ⟨plainObject 14, 56, [⟨56, 4⟩]⟩ (by decide) rfl⟩

/-- C19: the layout of the text record.  Once the item-set layer has succeeded
and the text record is open (its four length bytes read), with `L` its last
position, `readSVDRObjectText` returns `true` with the object `b.1` at the closed
record, where `f` is the result of the fixed fields, `p` the one of the paragraph
block and `b` the one of the bound block.  The fixed fields are the text kind
read from 1 byte, the text rectangle from four signed 32-bit values, the rotation
and the shear from one signed 32-bit value each, then the 1-byte flag of the
paragraph object, 26 bytes in all.  When that flag is not set, no byte is read
for the paragraph object, which is left as it was; when it is set, the paragraph
object is read by `readSDROutlinerParaObject` (from the format version 11 on in a
record `r` of its own) and is stored when that read succeeds.  The flag of the text
bound is read exactly when the flag `ok` of `p` holds and the format version is at
least 10: the four signed 32-bit values of the bound are then read when the flag
is set (17 bytes), and only the flag is read when it is not set (1 byte);
otherwise, so for every format version below 10, no byte is read for the bound,
which is left as it was, the zero box on a new object. -/
theorem readSVDRObjectText_layout (env : Env) (grp : GroupReader) (z : StarZone)
    (g : SdrGraphicText) (base : SdrGraphicAttribute) (z1 : StarZone)
    (hA : readSVDRObjectAttrib env grp z g.toSdrGraphicAttribute = some (true, base, z1))
    (ho : z1.openRecord.1 = true)
    (f : Bool × SdrGraphicText × StarZone)
    (hf : f = readTextFixed z1.openRecord.2 { g with toSdrGraphicAttribute := base })
    (r : Bool × StarZone)
    (hr : r = f.2.2.openRecordIf (decide (z1.getHeaderVersion ≥ 11)) true)
    (o : Bool × OutlinerParaObject × StarZone)
    (hpara : o = readSDROutlinerParaObject env r.2)
    (p : Bool × SdrGraphicText × StarZone)
    (hp : p = if f.1 = true then
        readTextParaObject env z1.getHeaderVersion
          (decide (f.2.2.tell ≤ z1.openRecord.2.getRecordLastPosition)) f.2.1 f.2.2
      else (decide (f.2.2.tell ≤ z1.openRecord.2.getRecordLastPosition), f.2.1, f.2.2))
    (b : SdrGraphicText × StarZone)
    (hb : b = if p.1 = true ∧ z1.getHeaderVersion ≥ 10 then readTextBound p.2.1 p.2.2
      else (p.2.1, p.2.2)) :
    readSVDRObjectText env grp z g
      = some (true, b.1, (b.2.seek z1.openRecord.2.getRecordLastPosition).closeRecord) ∧
    f = (decide (leValue z1.input (z1.pos + 29) 1 ≠ 0),
         { g with toSdrGraphicAttribute := base,
                  m_textKind := leValue z1.input (z1.pos + 4) 1,
                  m_textRectangle :=
                    ⟨⟨toSigned 4 (leValue z1.input (z1.pos + 5) 4),
                      toSigned 4 (leValue z1.input (z1.pos + 9) 4)⟩,
                     ⟨toSigned 4 (leValue z1.input (z1.pos + 13) 4),
                      toSigned 4 (leValue z1.input (z1.pos + 17) 4)⟩⟩,
                  m_textDrehWink := toSigned 4 (leValue z1.input (z1.pos + 21) 4),
                  m_textShearWink := toSigned 4 (leValue z1.input (z1.pos + 25) 4) },
         z1.openRecord.2.skip 26) ∧
    f.2.2.pos = z1.pos + 4 + 26 ∧
    (b.1.toSdrGraphicAttribute = base ∧
      b.1.m_textKind = leValue z1.input (z1.pos + 4) 1 ∧
      b.1.m_textRectangle =
        ⟨⟨toSigned 4 (leValue z1.input (z1.pos + 5) 4),
          toSigned 4 (leValue z1.input (z1.pos + 9) 4)⟩,
         ⟨toSigned 4 (leValue z1.input (z1.pos + 13) 4),
          toSigned 4 (leValue z1.input (z1.pos + 17) 4)⟩⟩ ∧
      b.1.m_textDrehWink = toSigned 4 (leValue z1.input (z1.pos + 21) 4) ∧
      b.1.m_textShearWink = toSigned 4 (leValue z1.input (z1.pos + 25) 4)) ∧
    (f.1 = false →
      p = (decide (f.2.2.tell ≤ z1.openRecord.2.getRecordLastPosition), f.2.1, f.2.2) ∧
      b.1.m_outlinerParaObject = g.m_outlinerParaObject) ∧
    (f.1 = true →
      (z1.getHeaderVersion < 11 → r = (true, f.2.2)) ∧
      (11 ≤ z1.getHeaderVersion → r = f.2.2.openRecord) ∧
      (r.1 = false →
        p = (false, f.2.1, r.2) ∧ b.1.m_outlinerParaObject = g.m_outlinerParaObject) ∧
      (r.1 = true →
        p = (decide (z1.getHeaderVersion ≥ 11)
              || (o.1 && decide (f.2.2.tell ≤ z1.openRecord.2.getRecordLastPosition)),
            (if o.1 = true then { f.2.1 with m_outlinerParaObject := some o.2.1 } else f.2.1),
            o.2.2.closeRecordIf (decide (z1.getHeaderVersion ≥ 11))) ∧
        b.1.m_outlinerParaObject
          = if o.1 = true then some o.2.1 else g.m_outlinerParaObject)) ∧
    (p.1 = true → 10 ≤ z1.getHeaderVersion →
      (leValue p.2.2.input p.2.2.pos 1 ≠ 0 →
        b.1.m_textBound =
          ⟨⟨toSigned 4 (leValue p.2.2.input (p.2.2.pos + 1) 4),
            toSigned 4 (leValue p.2.2.input (p.2.2.pos + 5) 4)⟩,
           ⟨toSigned 4 (leValue p.2.2.input (p.2.2.pos + 9) 4),
            toSigned 4 (leValue p.2.2.input (p.2.2.pos + 13) 4)⟩⟩ ∧
        b.2 = p.2.2.skip 17) ∧
      (leValue p.2.2.input p.2.2.pos 1 = 0 →
        b.1.m_textBound = g.m_textBound ∧ b.2 = p.2.2.skip 1)) ∧
    (p.1 = false → b.1.m_textBound = g.m_textBound ∧ b.2 = p.2.2) ∧
    (z1.getHeaderVersion < 10 → b.1.m_textBound = g.m_textBound ∧ b.2 = p.2.2) ∧
    (∀ id : Int, (SdrGraphicText.new id).m_textBound = STOFFBox2i.zero ∧
      (SdrGraphicText.new id).m_outlinerParaObject = none) := by
  obtain ⟨s, hst, hpo, -, -, hv⟩ := StarZone.openRecord_true ho
  have hver : z1.openRecord.2.getHeaderVersion = z1.getHeaderVersion := by
    rw [← hv]; unfold StarZone.getHeaderVersion; rw [hst]
  have hin : z1.openRecord.2.input = z1.input := StarZone.openRecord_input z1
  have hfix : f =
      (decide (leValue z1.input (z1.pos + 29) 1 ≠ 0),
       { g with toSdrGraphicAttribute := base,
                m_textKind := leValue z1.input (z1.pos + 4) 1,
                m_textRectangle :=
                  ⟨⟨toSigned 4 (leValue z1.input (z1.pos + 5) 4),
                    toSigned 4 (leValue z1.input (z1.pos + 9) 4)⟩,
                   ⟨toSigned 4 (leValue z1.input (z1.pos + 13) 4),
                    toSigned 4 (leValue z1.input (z1.pos + 17) 4)⟩⟩,
                m_textDrehWink := toSigned 4 (leValue z1.input (z1.pos + 21) 4),
                m_textShearWink := toSigned 4 (leValue z1.input (z1.pos + 25) 4) },
       z1.openRecord.2.skip 26) := by
    rw [hf]
    simp [readTextFixed, readBox, StarZone.readLong, StarZone.readULong, StarZone.readBool,
      StarZone.skip, hin, hpo, Nat.add_assoc]
  have hpf : p.2.1.toSdrGraphicAttribute = f.2.1.toSdrGraphicAttribute ∧
      p.2.1.m_textKind = f.2.1.m_textKind ∧ p.2.1.m_textRectangle = f.2.1.m_textRectangle ∧
      p.2.1.m_textDrehWink = f.2.1.m_textDrehWink ∧
      p.2.1.m_textShearWink = f.2.1.m_textShearWink ∧
      p.2.1.m_textBound = g.m_textBound := by
    have hfb : f.2.1.m_textBound = g.m_textBound := by rw [hfix]
    rw [hp]
    by_cases hc : f.1 = true
    · rw [if_pos hc]
      simp only [readTextParaObject]
      split_ifs <;> exact ⟨rfl, rfl, rfl, rfl, rfl, hfb⟩
    · rw [if_neg hc]
      exact ⟨rfl, rfl, rfl, rfl, rfl, hfb⟩
  have hbp : b.1.toSdrGraphicAttribute = p.2.1.toSdrGraphicAttribute ∧
      b.1.m_textKind = p.2.1.m_textKind ∧ b.1.m_textRectangle = p.2.1.m_textRectangle ∧
      b.1.m_textDrehWink = p.2.1.m_textDrehWink ∧
      b.1.m_textShearWink = p.2.1.m_textShearWink ∧
      b.1.m_outlinerParaObject = p.2.1.m_outlinerParaObject := by
    rw [hb]
    by_cases hc : p.1 = true ∧ z1.getHeaderVersion ≥ 10
    · rw [if_pos hc]
      simp only [readTextBound]
      split_ifs <;> exact ⟨rfl, rfl, rfl, rfl, rfl, rfl⟩
    · rw [if_neg hc]
      exact ⟨rfl, rfl, rfl, rfl, rfl, rfl⟩
  have hfo : f.2.1.m_outlinerParaObject = g.m_outlinerParaObject := by rw [hfix]
  have hnb : ¬ (p.1 = true ∧ z1.getHeaderVersion ≥ 10) →
      b.1.m_textBound = g.m_textBound ∧ b.2 = p.2.2 := by
    intro hc
    rw [hb, if_neg hc]
    exact ⟨hpf.2.2.2.2.2, rfl⟩
  refine ⟨?_, hfix, ?_, ⟨?_, ?_, ?_, ?_, ?_⟩, ?_, ?_, ?_, ?_, ?_, fun _ => ⟨rfl, rfl⟩⟩
  · unfold readSVDRObjectText
    rw [hA]
    simp only [ho, Bool.not_true, Bool.false_eq_true, if_false, hver]
    rw [← hf]
    have hp' : p = if f.1 = true then
        readTextParaObject env z1.getHeaderVersion
          (decide (f.2.2.tell ≤ z1.openRecord.2.getRecordLastPosition)) f.2.1 f.2.2
      else (decide (f.2.2.tell ≤ z1.openRecord.2.getRecordLastPosition), f.2.1, f.2.2) := hp
    rw [← hp']
    rw [← hb]
  · rw [hfix]
    simp [StarZone.skip, hpo]
  · rw [hbp.1, hpf.1, hfix]
  · rw [hbp.2.1, hpf.2.1, hfix]
  · rw [hbp.2.2.1, hpf.2.2.1, hfix]
  · rw [hbp.2.2.2.1, hpf.2.2.2.1, hfix]
  · rw [hbp.2.2.2.2.1, hpf.2.2.2.2.1, hfix]
  · intro hf1
    have hpe : p = (decide (f.2.2.tell ≤ z1.openRecord.2.getRecordLastPosition), f.2.1, f.2.2) := by
      rw [hp, if_neg (by simp [hf1])]
    refine ⟨hpe, ?_⟩
    rw [hbp.2.2.2.2.2, hpe, hfo]
  · intro hf1
    have hpe : p = readTextParaObject env z1.getHeaderVersion
        (decide (f.2.2.tell ≤ z1.openRecord.2.getRecordLastPosition)) f.2.1 f.2.2 := by
      rw [hp, if_pos hf1]
    refine ⟨?_, ?_, ?_, ?_⟩
    · intro hlt
      have hn : ¬ z1.getHeaderVersion ≥ 11 := by omega
      rw [hr]
      simp [StarZone.openRecordIf, hn]
    · intro hge
      rw [hr]
      simp [StarZone.openRecordIf, hge]
    · intro hr1
      have hpe2 : p = (false, f.2.1, r.2) := by
        rw [hpe, hr]
        rw [hr] at hr1
        simp [readTextParaObject, hr1]
      refine ⟨hpe2, ?_⟩
      rw [hbp.2.2.2.2.2, hpe2, hfo]
    · intro hr1
      have hpe2 : p = (decide (z1.getHeaderVersion ≥ 11)
              || (o.1 && decide (f.2.2.tell ≤ z1.openRecord.2.getRecordLastPosition)),
            (if o.1 = true then { f.2.1 with m_outlinerParaObject := some o.2.1 } else f.2.1),
            o.2.2.closeRecordIf (decide (z1.getHeaderVersion ≥ 11))) := by
        rw [hpe, hpara, hr]
        rw [hr] at hr1
        simp [readTextParaObject, hr1]
      refine ⟨hpe2, ?_⟩
      rw [hbp.2.2.2.2.2, hpe2]
      by_cases ho1 : o.1 = true
      · simp [ho1]
      · simp [ho1, hfo]
  · intro hp1 hv10
    have hbe : b = readTextBound p.2.1 p.2.2 := by
      rw [hb, if_pos ⟨hp1, hv10⟩]
    refine ⟨fun hflag => ?_, fun hflag => ?_⟩
    · rw [hbe]
      simp [readTextBound, readBox, StarZone.readLong, StarZone.readBool, StarZone.skip, hflag,
        Nat.add_assoc]
    · rw [hbe]
      simp [readTextBound, StarZone.readBool, StarZone.skip, hflag, hpf.2.2.2.2.2]
  · intro hp1
    exact hnb (fun hc => by simp [hp1] at hc)
  · intro hlt
    exact hnb (fun hc => by omega)

set_option maxRecDepth 100000 in
/-- C19, at a concrete input: the text record of format version 10 with a paragraph
object and a text bound. -/
theorem readSVDRObjectText_layout_witness :
    (readSVDRObjectAttrib testEnv noGroup textBoundZone newText.toSdrGraphicAttribute = some (true, textBoundAttrib, textBoundZoneText)) ∧
    (textBoundZoneText.openRecord.1 = true) ∧
    (textBoundF = readTextFixed textBoundZoneText.openRecord.2 { newText with toSdrGraphicAttribute := textBoundAttrib }) ∧
    (((true, textBoundZoneAt 116) : Bool × StarZone) = textBoundF.2.2.openRecordIf (decide (textBoundZoneText.getHeaderVersion ≥ 11)) true) ∧
    (textBoundO = readSDROutlinerParaObject testEnv ((true, textBoundZoneAt 116) : Bool × StarZone).2) ∧
    (textBoundP = if textBoundF.1 = true then
        readTextParaObject testEnv textBoundZoneText.getHeaderVersion
          (decide (textBoundF.2.2.tell ≤ textBoundZoneText.openRecord.2.getRecordLastPosition)) textBoundF.2.1 textBoundF.2.2
      else (decide (textBoundF.2.2.tell ≤ textBoundZoneText.openRecord.2.getRecordLastPosition), textBoundF.2.1, textBoundF.2.2)) ∧
    (textBoundB = if textBoundP.1 = true ∧ textBoundZoneText.getHeaderVersion ≥ 10 then readTextBound textBoundP.2.1 textBoundP.2.2
      else (textBoundP.2.1, textBoundP.2.2)) ∧
    (readSVDRObjectText testEnv noGroup textBoundZone newText
      = some (true, textBoundB.1, (textBoundB.2.seek textBoundZoneText.openRecord.2.getRecordLastPosition).closeRecord) ∧
    textBoundF = (decide (leValue textBoundZoneText.input (textBoundZoneText.pos + 29) 1 ≠ 0),
         { newText with
                  toSdrGraphicAttribute := textBoundAttrib,
                  m_textKind := leValue textBoundZoneText.input (textBoundZoneText.pos + 4) 1,
                  m_textRectangle :=
                    ⟨⟨toSigned 4 (leValue textBoundZoneText.input (textBoundZoneText.pos + 5) 4),
                      toSigned 4 (leValue textBoundZoneText.input (textBoundZoneText.pos + 9) 4)⟩,
                     ⟨toSigned 4 (leValue textBoundZoneText.input (textBoundZoneText.pos + 13) 4),
                      toSigned 4 (leValue textBoundZoneText.input (textBoundZoneText.pos + 17) 4)⟩⟩,
                  m_textDrehWink := toSigned 4 (leValue textBoundZoneText.input (textBoundZoneText.pos + 21) 4),
                  m_textShearWink := toSigned 4 (leValue textBoundZoneText.input (textBoundZoneText.pos + 25) 4) },
         textBoundZoneText.openRecord.2.skip 26) ∧
    textBoundF.2.2.pos = textBoundZoneText.pos + 4 + 26 ∧
    (textBoundB.1.toSdrGraphicAttribute = textBoundAttrib ∧
      textBoundB.1.m_textKind = leValue textBoundZoneText.input (textBoundZoneText.pos + 4) 1 ∧
      textBoundB.1.m_textRectangle =
        ⟨⟨toSigned 4 (leValue textBoundZoneText.input (textBoundZoneText.pos + 5) 4),
          toSigned 4 (leValue textBoundZoneText.input (textBoundZoneText.pos + 9) 4)⟩,
         ⟨toSigned 4 (leValue textBoundZoneText.input (textBoundZoneText.pos + 13) 4),
          toSigned 4 (leValue textBoundZoneText.input (textBoundZoneText.pos + 17) 4)⟩⟩ ∧
      textBoundB.1.m_textDrehWink = toSigned 4 (leValue textBoundZoneText.input (textBoundZoneText.pos + 21) 4) ∧
      textBoundB.1.m_textShearWink = toSigned 4 (leValue textBoundZoneText.input (textBoundZoneText.pos + 25) 4)) ∧
    (textBoundF.1 = false →
      textBoundP = (decide (textBoundF.2.2.tell ≤ textBoundZoneText.openRecord.2.getRecordLastPosition), textBoundF.2.1, textBoundF.2.2) ∧
      textBoundB.1.m_outlinerParaObject = newText.m_outlinerParaObject) ∧
    (textBoundF.1 = true →
      (textBoundZoneText.getHeaderVersion < 11 → (((true, textBoundZoneAt 116) : Bool × StarZone)) = (true, textBoundF.2.2)) ∧
      (11 ≤ textBoundZoneText.getHeaderVersion → (((true, textBoundZoneAt 116) : Bool × StarZone)) = textBoundF.2.2.openRecord) ∧
      ((((true, textBoundZoneAt 116) : Bool × StarZone)).1 = false →
        textBoundP = (false, textBoundF.2.1, (((true, textBoundZoneAt 116) : Bool × StarZone)).2) ∧ textBoundB.1.m_outlinerParaObject = newText.m_outlinerParaObject) ∧
      ((((true, textBoundZoneAt 116) : Bool × StarZone)).1 = true →
        textBoundP = (decide (textBoundZoneText.getHeaderVersion ≥ 11)
              || (textBoundO.1 && decide (textBoundF.2.2.tell ≤ textBoundZoneText.openRecord.2.getRecordLastPosition)),
            (if textBoundO.1 = true then { textBoundF.2.1 with m_outlinerParaObject := some textBoundO.2.1 } else textBoundF.2.1),
            textBoundO.2.2.closeRecordIf (decide (textBoundZoneText.getHeaderVersion ≥ 11))) ∧
        textBoundB.1.m_outlinerParaObject
          = if textBoundO.1 = true then some textBoundO.2.1 else newText.m_outlinerParaObject)) ∧
    (textBoundP.1 = true → 10 ≤ textBoundZoneText.getHeaderVersion →
      (leValue textBoundP.2.2.input textBoundP.2.2.pos 1 ≠ 0 →
        textBoundB.1.m_textBound =
          ⟨⟨toSigned 4 (leValue textBoundP.2.2.input (textBoundP.2.2.pos + 1) 4),
            toSigned 4 (leValue textBoundP.2.2.input (textBoundP.2.2.pos + 5) 4)⟩,
           ⟨toSigned 4 (leValue textBoundP.2.2.input (textBoundP.2.2.pos + 9) 4),
            toSigned 4 (leValue textBoundP.2.2.input (textBoundP.2.2.pos + 13) 4)⟩⟩ ∧
        textBoundB.2 = textBoundP.2.2.skip 17) ∧
      (leValue textBoundP.2.2.input textBoundP.2.2.pos 1 = 0 →
        textBoundB.1.m_textBound = newText.m_textBound ∧ textBoundB.2 = textBoundP.2.2.skip 1)) ∧
    (textBoundP.1 = false → textBoundB.1.m_textBound = newText.m_textBound ∧ textBoundB.2 = textBoundP.2.2) ∧
    (textBoundZoneText.getHeaderVersion < 10 → textBoundB.1.m_textBound = newText.m_textBound ∧ textBoundB.2 = textBoundP.2.2) ∧
    (∀ id : Int, (SdrGraphicText.new id).m_textBound = STOFFBox2i.zero ∧
      (SdrGraphicText.new id).m_outlinerParaObject = none)) :=
  ⟨rfl, by decide, rfl, rfl, rfl, rfl, rfl,
    readSVDRObjectText_layout testEnv noGroup textBoundZone newText textBoundAttrib
      textBoundZoneText rfl (by decide) textBoundF rfl (true, textBoundZoneAt 116) rfl
      textBoundO rfl textBoundP rfl textBoundB rfl⟩

set_option maxRecDepth 100000 in
/-- The text record of format version 10 gives the text kind 2, the rectangle
(10, 20)-(30, 40), the rotation 50, the shear 60, the paragraph object of the
version 2 and the bound (1, 2)-(3, 4), with the cursor at the end of the record,
55 bytes after its start; the text record of format version 4 of the rectangle
object, whose paragraph flag is not set, gives no paragraph object and the zero box
as bound, with the cursor at the end of the record, 30 bytes after its start. -/
theorem readSVDRObjectText_layout_example :
    readSVDRObjectText testEnv noGroup textBoundZone newText
      = some (true, textBoundB.1, ⟨textBoundV10, 141, [⟨141, 10⟩]⟩) ∧
    textBoundB.1.m_textKind = 2 ∧
    textBoundB.1.m_textRectangle = ⟨⟨10, 20⟩, ⟨30, 40⟩⟩ ∧
    textBoundB.1.m_textDrehWink = 50 ∧ textBoundB.1.m_textShearWink = 60 ∧
    textBoundB.1.m_outlinerParaObject = some textBoundPara ∧
    textBoundB.1.m_textBound = ⟨⟨1, 2⟩, ⟨3, 4⟩⟩ ∧
    readSVDRObjectText testEnv noGroup rectZone newText = some (true, textDecoded, rectZoneRect) ∧
    rectZoneText.pos = 78 ∧ rectZoneRect.pos = 108 ∧
    textDecoded.m_outlinerParaObject = none ∧ textDecoded.m_textBound = STOFFBox2i.zero :=
  ⟨rfl, rfl, rfl, rfl, rfl, rfl, rfl, rfl, rfl, rfl, rfl, rfl⟩

/-- C20: after the text layer has succeeded, `readSVDRObjectRect` opens no
record, reads nothing and returns `true` when the format version is below 3 and
the identifier is 16, 17, 20 or 21; otherwise, when its record opens (four length
bytes), it returns `true` with the corner radius read from one signed 32-bit
value exactly when the format version is 5 or less, and left as it was (0 on a
new object) from the version 6 on, where no byte of the record is read. -/
theorem readSVDRObjectRect_layout (env : Env) (grp : GroupReader) (z : StarZone)
    (g : SdrGraphicRect) (base : SdrGraphicText) (z1 : StarZone)
    (hT : readSVDRObjectText env grp z g.toSdrGraphicText = some (true, base, z1)) :
    ((z1.getHeaderVersion < 3 ∧ (base.m_identifier = 16 ∨ base.m_identifier = 17 ∨
        base.m_identifier = 20 ∨ base.m_identifier = 21)) →
      readSVDRObjectRect env grp z g = some (true, { g with toSdrGraphicText := base }, z1)) ∧
    (¬ (z1.getHeaderVersion < 3 ∧ (base.m_identifier = 16 ∨ base.m_identifier = 17 ∨
        base.m_identifier = 20 ∨ base.m_identifier = 21)) → z1.openRecord.1 = true →
      readSVDRObjectRect env grp z g =
        some (true,
          { g with
              toSdrGraphicText := base,
              m_eckRag :=
                if z1.getHeaderVersion ≤ 5 then toSigned 4 (leValue z1.input (z1.pos + 4) 4)
                else g.m_eckRag },
          (z1.openRecord.2.skip (if z1.getHeaderVersion ≤ 5 then 4 else 0)).closeRecord)) ∧
    (SdrGraphicRect.new g.m_identifier).m_eckRag = 0 := by
  refine ⟨fun hc => ?_, fun hc ho => ?_, rfl⟩
  · unfold readSVDRObjectRect
    rw [hT]
    simp only [Bool.not_true, Bool.false_eq_true, if_false]
    rw [if_pos hc]
  · obtain ⟨s, hst, hpo, -, -, -⟩ := StarZone.openRecord_true ho
    have hin : z1.openRecord.2.input = z1.input := StarZone.openRecord_input z1
    unfold readSVDRObjectRect
    rw [hT]
    simp only [Bool.not_true, Bool.false_eq_true, if_false]
    rw [if_neg hc]
    simp only [ho, Bool.not_true, Bool.false_eq_true, if_false]
    by_cases h5 : z1.getHeaderVersion ≤ 5
    · simp [StarZone.readLongIf, StarZone.readLong, StarZone.skip, h5, hin, hpo]
    · simp only [StarZone.readLongIf, h5, decide_False, Bool.false_eq_true, if_false]
      rfl

set_option maxRecDepth 100000 in
/-- C20, at a concrete input: the last record of the rectangle object of format
version 4, which holds the corner radius 7. -/
theorem readSVDRObjectRect_layout_witness :
    readSVDRObjectText testEnv noGroup rectZone newRect.toSdrGraphicText
      = some (true, textDecoded, rectZoneRect) ∧
    ((rectZoneRect.getHeaderVersion < 3 ∧ (textDecoded.m_identifier = 16 ∨ textDecoded.m_identifier = 17 ∨
        textDecoded.m_identifier = 20 ∨ textDecoded.m_identifier = 21)) →
      readSVDRObjectRect testEnv noGroup rectZone newRect = some (true, { newRect with toSdrGraphicText := textDecoded }, rectZoneRect)) ∧
    (¬ (rectZoneRect.getHeaderVersion < 3 ∧ (textDecoded.m_identifier = 16 ∨ textDecoded.m_identifier = 17 ∨
        textDecoded.m_identifier = 20 ∨ textDecoded.m_identifier = 21)) → rectZoneRect.openRecord.1 = true →
      readSVDRObjectRect testEnv noGroup rectZone newRect =
        some (true,
          { newRect with
              toSdrGraphicText := textDecoded,
              m_eckRag :=
                if rectZoneRect.getHeaderVersion ≤ 5 then toSigned 4 (leValue rectZoneRect.input (rectZoneRect.pos + 4) 4)
                else newRect.m_eckRag },
          (rectZoneRect.openRecord.2.skip (if rectZoneRect.getHeaderVersion ≤ 5 then 4 else 0)).closeRecord)) ∧
    (SdrGraphicRect.new newRect.m_identifier).m_eckRag = 0 :=
  ⟨rfl,
    readSVDRObjectRect_layout testEnv noGroup rectZone newRect textDecoded rectZoneRect rfl⟩

/-! ## The claims on version gates, small records, scopes and failures -/

set_option maxRecDepth 100000 in
/-- C21, as stated, fails: on a rectangle object (identifier 3) of format version
6 whose rect record holds the 32-bit value 7, `readSVDRObjectRect` reads no byte
of that record: the corner radius of the rectangle returned is 0, not 7. -/
theorem readSVDRObjectRect_version_gate_counterexample :
    readSVDRObjectText testEnv noGroup rectZoneV6 newRect.toSdrGraphicText
      = some (true, textDecodedV6, rectZoneV6Rect) ∧
    rectZoneV6Rect.getHeaderVersion = 6 ∧
    rectZoneV6Rect.openRecord.1 = true ∧
    (rectZoneV6Rect.openRecord.2.readLong 4).1 = 7 ∧
    readSVDRObjectRect testEnv noGroup rectZoneV6 newRect
      = some (true, rectDecodedV6, rectZoneV6Rect.openRecord.2.closeRecord) ∧
    rectDecodedV6.m_eckRag = 0 ∧
    readSVDRObject testEnv noGroup 2 rectZoneV6 3
      = some (some (.rect rectDecodedV6), ⟨rectObjectV6, 124, [⟨124, 6⟩]⟩) :=
  ⟨rfl, by decide, by decide, by decide, rfl, rfl, rfl⟩

/-- C21, amended: once the text layer of a rectangle object (identifier 3) has
succeeded and its rect record is open, `readSVDRObjectRect` reads the corner
radius, one signed 32-bit value, for the format version 5, and reads no byte of
the record and leaves the corner radius as it was for the format versions 6 and
11. -/
theorem readSVDRObjectRect_version_gate (env : Env) (grp : GroupReader) (z : StarZone)
    (g : SdrGraphicRect) (base : SdrGraphicText) (z1 : StarZone)
    (hT : readSVDRObjectText env grp z g.toSdrGraphicText = some (true, base, z1))
    (hid : base.m_identifier = 3) (ho : z1.openRecord.1 = true) :
    (z1.getHeaderVersion = 5 →
      readSVDRObjectRect env grp z g =
        some (true,
          { g with
              toSdrGraphicText := base,
              m_eckRag := toSigned 4 (leValue z1.input (z1.pos + 4) 4) },
          (z1.openRecord.2.skip 4).closeRecord)) ∧
    (z1.getHeaderVersion = 6 ∨ z1.getHeaderVersion = 11 →
      readSVDRObjectRect env grp z g =
        some (true, { g with toSdrGraphicText := base }, z1.openRecord.2.closeRecord)) := by
  have hc : ¬ (z1.getHeaderVersion < 3 ∧ (base.m_identifier = 16 ∨ base.m_identifier = 17 ∨
      base.m_identifier = 20 ∨ base.m_identifier = 21)) := by
    rw [hid]; omega
  have h := readSVDRObjectRect_opened hT hc ho
  refine ⟨fun h5 => ?_, fun h6 => ?_⟩
  · rw [h]
    have h5' : z1.getHeaderVersion ≤ 5 := by omega
    simp only [h5', if_true]
  · rw [h]
    have h5' : ¬ z1.getHeaderVersion ≤ 5 := by omega
    simp only [h5', if_false]
    rfl

set_option maxRecDepth 100000 in
/-- C21 amended, at a concrete input: the rectangle object of format version 6
whose rect record holds the value 7. -/
theorem readSVDRObjectRect_version_gate_witness :
    readSVDRObjectText testEnv noGroup rectZoneV6 newRect.toSdrGraphicText
      = some (true, textDecodedV6, rectZoneV6Rect) ∧
    textDecodedV6.m_identifier = 3 ∧ rectZoneV6Rect.openRecord.1 = true ∧
    ((rectZoneV6Rect.getHeaderVersion = 5 →
      readSVDRObjectRect testEnv noGroup rectZoneV6 newRect =
        some (true,
          { newRect with
              toSdrGraphicText := textDecodedV6,
              m_eckRag := toSigned 4 (leValue rectZoneV6Rect.input (rectZoneV6Rect.pos + 4) 4) },
          (rectZoneV6Rect.openRecord.2.skip 4).closeRecord)) ∧
    (rectZoneV6Rect.getHeaderVersion = 6 ∨ rectZoneV6Rect.getHeaderVersion = 11 →
      readSVDRObjectRect testEnv noGroup rectZoneV6 newRect =
        some (true, { newRect with toSdrGraphicText := textDecodedV6 },
          rectZoneV6Rect.openRecord.2.closeRecord))) :=
  ⟨rfl, rfl, by decide,
    readSVDRObjectRect_version_gate testEnv noGroup rectZoneV6 newRect textDecodedV6
      rectZoneV6Rect rfl rfl (by decide)⟩

/-- C22: once the header layer has succeeded, the group record is open, and the
start of the record (the name, the reference point and the loop over the children)
has returned with the flag `okb`, `readSVDRObjectGroup` returns `true` after the
block of the trailing fields; that block reads the rotation and the shear, two
signed 32-bit values, exactly when `okb` holds and the format version is 2 or
more; otherwise it reads no byte and both fields are as they were, which is 0 on a
new group. -/
theorem readSVDRObjectGroup_trailing_fields (env : Env) (grp : GroupReader) (fuel : Nat)
    (z : StarZone) (g : SdrGraphicGroup) (base : SdrGraphic) (z1 : StarZone) (okb : Bool)
    (gb : SdrGraphicGroup) (zb : StarZone)
    (hH : readSVDRObjectHeader env grp z g.toSdrGraphic = some (true, base, z1))
    (ho : z1.openRecord.1 = true)
    (hb : readGroupBody env grp fuel z1.openRecord.2.getRecordLastPosition
      { g with toSdrGraphic := base } z1.openRecord.2 = some (okb, gb, zb)) :
    readSVDRObjectGroupWith env grp fuel z g
      = some (true, (readGroupAngles z1.openRecord.2.getHeaderVersion okb gb zb).1,
          ((readGroupAngles z1.openRecord.2.getHeaderVersion okb gb zb).2.seek
            z1.openRecord.2.getRecordLastPosition).closeRecord) ∧
    (okb = true ∧ 2 ≤ z1.openRecord.2.getHeaderVersion →
      readGroupAngles z1.openRecord.2.getHeaderVersion okb gb zb
        = ({ gb with
              m_groupDrehWink := toSigned 4 (leValue zb.input zb.pos 4),
              m_groupShearWink := toSigned 4 (leValue zb.input (zb.pos + 4) 4) },
            zb.skip 8)) ∧
    (¬ (okb = true ∧ 2 ≤ z1.openRecord.2.getHeaderVersion) →
      readGroupAngles z1.openRecord.2.getHeaderVersion okb gb zb = (gb, zb)) ∧
    gb.m_groupDrehWink = g.m_groupDrehWink ∧ gb.m_groupShearWink = g.m_groupShearWink ∧
    (SdrGraphicGroup.new g.m_identifier).m_groupDrehWink = 0 ∧
    (SdrGraphicGroup.new g.m_identifier).m_groupShearWink = 0 := by
  obtain ⟨ha1, ha2⟩ := readGroupBody_angles hb
  refine ⟨?_, readGroupAngles_read _ _ _ _, readGroupAngles_skip _ _ _ _, ha1, ha2, rfl, rfl⟩
  unfold readSVDRObjectGroupWith
  rw [hH]
  simp only [ho, Bool.not_true, Bool.false_eq_true, if_false, hb]

set_option maxRecDepth 100000 in
/-- C22, at a concrete input: a group of format version 4 with no child, the
rotation 5 and the shear 6. -/
theorem readSVDRObjectGroup_trailing_fields_witness :
    readSVDRObjectHeader testEnv noGroup groupZone newGroup.toSdrGraphic
      = some (true, headerDecoded1, groupZoneGroup) ∧
    groupZoneGroup.openRecord.1 = true ∧
    readGroupBody testEnv noGroup 2 groupZoneGroup.openRecord.2.getRecordLastPosition
      { newGroup with toSdrGraphic := headerDecoded1 } groupZoneGroup.openRecord.2
      = some (true, groupBodyDecoded, groupZoneAt 71) ∧
    (readSVDRObjectGroupWith testEnv noGroup 2 groupZone newGroup
      = some (true, (readGroupAngles groupZoneGroup.openRecord.2.getHeaderVersion true groupBodyDecoded (groupZoneAt 71)).1,
          ((readGroupAngles groupZoneGroup.openRecord.2.getHeaderVersion true groupBodyDecoded (groupZoneAt 71)).2.seek
            groupZoneGroup.openRecord.2.getRecordLastPosition).closeRecord) ∧
    (true = true ∧ 2 ≤ groupZoneGroup.openRecord.2.getHeaderVersion →
      readGroupAngles groupZoneGroup.openRecord.2.getHeaderVersion true groupBodyDecoded (groupZoneAt 71)
        = ({ groupBodyDecoded with
              m_groupDrehWink := toSigned 4 (leValue (groupZoneAt 71).input (groupZoneAt 71).pos 4),
              m_groupShearWink := toSigned 4 (leValue (groupZoneAt 71).input ((groupZoneAt 71).pos + 4) 4) },
            (groupZoneAt 71).skip 8)) ∧
    (¬ (true = true ∧ 2 ≤ groupZoneGroup.openRecord.2.getHeaderVersion) →
      readGroupAngles groupZoneGroup.openRecord.2.getHeaderVersion true groupBodyDecoded (groupZoneAt 71) = (groupBodyDecoded, (groupZoneAt 71))) ∧
    groupBodyDecoded.m_groupDrehWink = newGroup.m_groupDrehWink ∧ groupBodyDecoded.m_groupShearWink = newGroup.m_groupShearWink ∧
    (SdrGraphicGroup.new newGroup.m_identifier).m_groupDrehWink = 0 ∧
    (SdrGraphicGroup.new newGroup.m_identifier).m_groupShearWink = 0) :=
  ⟨rfl, by decide, rfl,
    readSVDRObjectGroup_trailing_fields testEnv noGroup 2 groupZone newGroup headerDecoded1
      groupZoneGroup true groupBodyDecoded (groupZoneAt 71) rfl (by decide) rfl⟩

set_option maxRecDepth 100000 in
/-- The group of format version 4 with the rotation 5 and the shear 6: both are
read, at the positions 71 and 75. -/
theorem readSVDRObjectGroup_angles_example :
    (readSVDRObjectGroupWith testEnv noGroup 2 groupZone newGroup).map
      (fun r => (r.1, r.2.1.m_groupDrehWink, r.2.1.m_groupShearWink, r.2.2))
      = some (true, 5, 6, ⟨groupAngles, 79, [⟨79, 4⟩]⟩) := by
  rfl

/-- C23: `readSDROutlinerParaObject` reads the paragraph count `N` and the sync
marker as two 32-bit values; the markers `0x12345678`, `0x22345678`, `0x32345678`
and `0x42345678` give the versions 1, 2, 3 and 4, which the object returned then
carries; for any other marker the function returns at once, with the cursor after
these eight bytes and the version of the new object left at 0, and its result is
`true` exactly when `N` is zero. -/
theorem readSDROutlinerParaObject_sync_marker (env : Env) (z : StarZone) (N syncRef : Nat)
    (hN : N = (z.readULong 4).1) (hs : syncRef = ((z.readULong 4).2.readULong 4).1) :
    (outlinerVersion 0x12345678 = 1 ∧ outlinerVersion 0x22345678 = 2 ∧
      outlinerVersion 0x32345678 = 3 ∧ outlinerVersion 0x42345678 = 4) ∧
    (outlinerVersion syncRef = 0 ↔
      syncRef ≠ 0x12345678 ∧ syncRef ≠ 0x22345678 ∧ syncRef ≠ 0x32345678 ∧
        syncRef ≠ 0x42345678) ∧
    (outlinerVersion syncRef ≠ 0 →
      (readSDROutlinerParaObject env z).2.1.m_version = outlinerVersion syncRef) ∧
    (outlinerVersion syncRef = 0 →
      readSDROutlinerParaObject env z = (decide (N = 0), OutlinerParaObject.new, z.skip 8) ∧
      OutlinerParaObject.new.m_version = 0 ∧
      ((readSDROutlinerParaObject env z).1 = true ↔ N = 0)) := by
  subst hN hs
  refine ⟨⟨rfl, rfl, rfl, rfl⟩, (outlinerVersion_cases _).2,
    fun hv => (readSDROutlinerParaObject_recognised env z hv).1, fun hv => ?_⟩
  have h1 : readSDROutlinerParaObject env z
      = (decide ((z.readULong 4).1 = 0), OutlinerParaObject.new, z.skip 8) := by
    unfold readSDROutlinerParaObject
    simp only []
    rw [if_pos hv]
    rfl
  refine ⟨h1, rfl, ?_⟩
  rw [h1]
  simp

set_option maxRecDepth 100000 in
/-- C23, at a concrete input: the paragraph count 2 with a marker that is not
recognised. -/
theorem readSDROutlinerParaObject_sync_marker_witness :
    2 = ((outlinerZone 2 0x52345678).readULong 4).1 ∧
    0x52345678 = (((outlinerZone 2 0x52345678).readULong 4).2.readULong 4).1 ∧
    ((outlinerVersion 0x12345678 = 1 ∧ outlinerVersion 0x22345678 = 2 ∧
      outlinerVersion 0x32345678 = 3 ∧ outlinerVersion 0x42345678 = 4) ∧
    (outlinerVersion 0x52345678 = 0 ↔
      0x52345678 ≠ 0x12345678 ∧ 0x52345678 ≠ 0x22345678 ∧ 0x52345678 ≠ 0x32345678 ∧
        0x52345678 ≠ 0x42345678) ∧
    (outlinerVersion 0x52345678 ≠ 0 →
      (readSDROutlinerParaObject testEnv (outlinerZone 2 0x52345678)).2.1.m_version
        = outlinerVersion 0x52345678) ∧
    (outlinerVersion 0x52345678 = 0 →
      readSDROutlinerParaObject testEnv (outlinerZone 2 0x52345678)
        = (decide (2 = 0), OutlinerParaObject.new, (outlinerZone 2 0x52345678).skip 8) ∧
      OutlinerParaObject.new.m_version = 0 ∧
      ((readSDROutlinerParaObject testEnv (outlinerZone 2 0x52345678)).1 = true ↔ 2 = 0))) :=
  ⟨by decide, by decide,
    readSDROutlinerParaObject_sync_marker testEnv (outlinerZone 2 0x52345678) 2 0x52345678
      (by decide) (by decide)⟩

set_option maxRecDepth 100000 in
/-- A marker that is not recognised fails with the paragraph count 2 and succeeds
with the paragraph count 0, the version staying 0. -/
theorem readSDROutlinerParaObject_marker_examples :
    (readSDROutlinerParaObject testEnv (outlinerZone 2 0x52345678)).1 = false ∧
    (readSDROutlinerParaObject testEnv (outlinerZone 0 0x52345678)).1 = true ∧
    (readSDROutlinerParaObject testEnv (outlinerZone 0 0x52345678)).2.1.m_version = 0 ∧
    (readSDROutlinerParaObject testEnv (outlinerZone 0 0x32345678)).2.1.m_version = 3 := by
  decide

set_option maxRecDepth 100000 in
/-- C24, as stated, fails: with the paragraph count 0 and the marker of the version
1, `readSDROutlinerParaObject` succeeds with no zone in the zone sequence and no
shared text object: none of the two representations is populated. -/
theorem readSDROutlinerParaObject_representation_counterexample :
    ((outlinerZone 0 0x12345678).readULong 4).1 = 0 ∧
    (((outlinerZone 0 0x12345678).readULong 4).2.readULong 4).1 = 0x12345678 ∧
    readSDROutlinerParaObject testEnv (outlinerZone 0 0x12345678)
      = (true, ⟨1, [], none, [], false⟩, (outlinerZone 0 0x12345678).skip 8) := by
  decide

/-- C24, amended: after a successful `readSDROutlinerParaObject` on a recognised
marker, with the paragraph count `N`: for a version up to 3 the zone sequence holds
exactly `N` zones, each with its text object, while the shared text object is
absent and the depth list is empty; for the version 4 the shared text object is
present and the depth list holds `N` depths, while the zone sequence is empty. -/
theorem readSDROutlinerParaObject_representation (env : Env) (z : StarZone) (N syncRef : Nat)
    (hN : N = (z.readULong 4).1) (hs : syncRef = ((z.readULong 4).2.readULong 4).1)
    (hv : outlinerVersion syncRef ≠ 0) (hok : (readSDROutlinerParaObject env z).1 = true) :
    (outlinerVersion syncRef ≤ 3 →
      (readSDROutlinerParaObject env z).2.1.m_zones.length = N ∧
      (∀ p ∈ (readSDROutlinerParaObject env z).2.1.m_zones, p.m_text.isSome = true) ∧
      (readSDROutlinerParaObject env z).2.1.m_textZone = none ∧
      (readSDROutlinerParaObject env z).2.1.m_depthList = []) ∧
    (outlinerVersion syncRef = 4 →
      (readSDROutlinerParaObject env z).2.1.m_textZone.isSome = true ∧
      (readSDROutlinerParaObject env z).2.1.m_zones = [] ∧
      (readSDROutlinerParaObject env z).2.1.m_depthList.length = N) := by
  subst hN hs
  obtain ⟨-, h⟩ := readSDROutlinerParaObject_recognised env z hv
  obtain ⟨h3, h4⟩ := h hok
  exact ⟨h3, fun hv4 => h4 (by omega)⟩

set_option maxRecDepth 100000 in
/-- C24 amended, at a concrete input: two paragraphs of the version 4, with a
text-object reader that succeeds. -/
theorem readSDROutlinerParaObject_representation_witness :
    2 = ((outlinerZone 2 0x42345678).readULong 4).1 ∧
    0x42345678 = (((outlinerZone 2 0x42345678).readULong 4).2.readULong 4).1 ∧
    outlinerVersion 0x42345678 ≠ 0 ∧
    (readSDROutlinerParaObject textEnv (outlinerZone 2 0x42345678)).1 = true ∧
    ((outlinerVersion 0x42345678 ≤ 3 →
      (readSDROutlinerParaObject textEnv (outlinerZone 2 0x42345678)).2.1.m_zones.length = 2 ∧
      (∀ p ∈ (readSDROutlinerParaObject textEnv (outlinerZone 2 0x42345678)).2.1.m_zones,
        p.m_text.isSome = true) ∧
      (readSDROutlinerParaObject textEnv (outlinerZone 2 0x42345678)).2.1.m_textZone = none ∧
      (readSDROutlinerParaObject textEnv (outlinerZone 2 0x42345678)).2.1.m_depthList = []) ∧
    (outlinerVersion 0x42345678 = 4 →
      (readSDROutlinerParaObject textEnv (outlinerZone 2 0x42345678)).2.1.m_textZone.isSome
        = true ∧
      (readSDROutlinerParaObject textEnv (outlinerZone 2 0x42345678)).2.1.m_zones = [] ∧
      (readSDROutlinerParaObject textEnv (outlinerZone 2 0x42345678)).2.1.m_depthList.length
        = 2)) :=
  ⟨by decide, by decide, by decide, by decide,
    readSDROutlinerParaObject_representation textEnv (outlinerZone 2 0x42345678) 2 0x42345678
      (by decide) (by decide) (by decide) (by decide)⟩

set_option maxRecDepth 100000 in
/-- One paragraph of the version 2 gives one zone with its text object and no
shared text object; two paragraphs of the version 4 give the shared text object and
two depths, and no zone. -/
theorem readSDROutlinerParaObject_representation_examples :
    readSDROutlinerParaObject textEnv (outlinerZone 1 0x22345678)
      = (true, ⟨2, [⟨some ⟨18⟩, 0, STOFFColor.white, [], []⟩], none, [], false⟩,
          (outlinerZone 1 0x22345678).skip 14) ∧
    readSDROutlinerParaObject textEnv (outlinerZone 2 0x42345678)
      = (true, ⟨4, [], some ⟨18⟩, [0, 0], false⟩, (outlinerZone 2 0x42345678).skip 13) := by
  decide

/-- C25: once its record is open (four length bytes), `readSDRGluePoint` reads 11
bytes: the two components of the position, the escape direction, the id and the
alignment as unsigned 16-bit values, then one flag byte; it returns `true` with
these fields, and with `m_percent` the negation of the flag: `false` for a flag
byte that is not zero, `true` for a zero flag byte. -/
theorem readSDRGluePoint_layout (z : StarZone) (ho : z.openRecord.1 = true) :
    readSDRGluePoint z
      = (true,
          ⟨⟨(leValue z.input (z.pos + 4) 2 : Nat), (leValue z.input (z.pos + 6) 2 : Nat)⟩,
            leValue z.input (z.pos + 8) 2, leValue z.input (z.pos + 10) 2,
            leValue z.input (z.pos + 12) 2, !decide (leValue z.input (z.pos + 14) 1 ≠ 0)⟩,
          (z.openRecord.2.skip 11).closeRecord) ∧
    (z.openRecord.2.skip 11).tell = z.pos + 4 + 11 ∧
    ((readSDRGluePoint z).2.1.m_percent = true ↔ leValue z.input (z.pos + 14) 1 = 0) := by
  obtain ⟨s, hst, hpo, -, -, -⟩ := StarZone.openRecord_true ho
  have hin : z.openRecord.2.input = z.input := StarZone.openRecord_input z
  have h1 : readSDRGluePoint z
      = (true,
          ⟨⟨(leValue z.input (z.pos + 4) 2 : Nat), (leValue z.input (z.pos + 6) 2 : Nat)⟩,
            leValue z.input (z.pos + 8) 2, leValue z.input (z.pos + 10) 2,
            leValue z.input (z.pos + 12) 2, !decide (leValue z.input (z.pos + 14) 1 ≠ 0)⟩,
          (z.openRecord.2.skip 11).closeRecord) := by
    unfold readSDRGluePoint
    simp [ho, StarZone.readULong, StarZone.readBool, StarZone.skip, hin, hpo, Nat.add_assoc]
  refine ⟨h1, by simp [StarZone.skip, hpo], ?_⟩
  rw [h1]
  simp

set_option maxRecDepth 100000 in
/-- C25, at a concrete input: a glue-point record with the position (1, 2), the
escape direction 3, the id 4, the alignment 5 and the flag byte 1. -/
theorem readSDRGluePoint_layout_witness :
    gluePointZone.openRecord.1 = true ∧
    (readSDRGluePoint gluePointZone
      = (true,
          ⟨⟨(leValue gluePointZone.input (gluePointZone.pos + 4) 2 : Nat),
            (leValue gluePointZone.input (gluePointZone.pos + 6) 2 : Nat)⟩,
            leValue gluePointZone.input (gluePointZone.pos + 8) 2,
            leValue gluePointZone.input (gluePointZone.pos + 10) 2,
            leValue gluePointZone.input (gluePointZone.pos + 12) 2,
            !decide (leValue gluePointZone.input (gluePointZone.pos + 14) 1 ≠ 0)⟩,
          (gluePointZone.openRecord.2.skip 11).closeRecord) ∧
    (gluePointZone.openRecord.2.skip 11).tell = gluePointZone.pos + 4 + 11 ∧
    ((readSDRGluePoint gluePointZone).2.1.m_percent = true ↔
      leValue gluePointZone.input (gluePointZone.pos + 14) 1 = 0)) :=
  ⟨by decide, readSDRGluePoint_layout gluePointZone (by decide)⟩

set_option maxRecDepth 100000 in
/-- The glue-point record with the fields 1, 2, 3, 4, 5 and the flag byte 1 gives
a glue point that is not in percent. -/
theorem readSDRGluePoint_example :
    readSDRGluePoint gluePointZone
      = (true, ⟨⟨1, 2⟩, 3, 4, 5, false⟩, ⟨gluePointBytes, 25, [⟨25, 11⟩]⟩) := by
  decide

/-- C26: on a descriptor byte `d` that is not zero, `readSDRObjectSurrogate` takes
the kind `d &&& 0x1f` and the width `w = 1 + (d >>> 6)`, between 1 and 4.  For the
width 3 it returns `false` right after the descriptor, reading no value.
Otherwise it reads a value of `w` bytes, then the 16-bit page reference exactly
when the kind is in `0x10..0x1a` (`page` bytes), then, exactly when the bit `0x20`
is set, a 16-bit count: it reads that many children of `w` bytes and returns
`true` when they end at or before the last position of the scope, and returns
`false` right after the count when they do not.  Without the bit `0x20` the
result is `true` exactly when the cursor is at or before that last position. -/
theorem readSDRObjectSurrogate_descriptor (z : StarZone) (d kind w page : Nat)
    (hd : d = leValue z.input z.pos 1) (h0 : d ≠ 0) (hkind : kind = d &&& 0x1f)
    (hw : w = 1 + (d >>> 6)) (hpage : page = if 0x10 ≤ kind ∧ kind ≤ 0x1a then 2 else 0) :
    (1 ≤ w ∧ w ≤ 4) ∧
    (w = 3 → readSDRObjectSurrogate z = (false, z.skip 1)) ∧
    (w ≠ 3 → d &&& 0x20 = 0 →
      readSDRObjectSurrogate z
        = (decide (z.pos + 1 + w + page ≤ z.getRecordLastPosition), z.skip (1 + w + page))) ∧
    (w ≠ 3 → d &&& 0x20 ≠ 0 →
      ∀ count : Nat, count = leValue z.input (z.pos + 1 + w + page) 2 →
        (z.pos + 1 + w + page + 2 + w * count ≤ z.getRecordLastPosition →
          readSDRObjectSurrogate z = (true, z.skip (1 + w + page + 2 + w * count))) ∧
        (z.pos + 1 + w + page + 2 + w * count > z.getRecordLastPosition →
          readSDRObjectSurrogate z = (false, z.skip (1 + w + page + 2)))) := by
  subst hd hkind
  have hlt : leValue z.input z.pos 1 < 256 := by
    rw [leValue, leValue]
    omega
  refine ⟨⟨by omega, ?_⟩, fun h3 => ?_, fun h3 hb => ?_, fun h3 hb count hc => ⟨fun hfit => ?_,
    fun hover => ?_⟩⟩
  · rw [hw, Nat.shiftRight_eq_div_pow]
    omega
  · subst hw
    unfold readSDRObjectSurrogate
    simp [StarZone.readULong, h0, h3, StarZone.skip]
  · rw [readSDRObjectSurrogate_accept z w page h0 hw h3 hpage]
    simp only [hb, ne_eq, not_true_eq_false, if_false]
  · subst hc
    rw [readSDRObjectSurrogate_accept z w page h0 hw h3 hpage, if_pos hb, if_neg (by omega)]
  · subst hc
    rw [readSDRObjectSurrogate_accept z w page h0 hw h3 hpage, if_pos hb, if_pos hover]

set_option maxRecDepth 100000 in
/-- C26, at a concrete input: the descriptor `0x71` (kind `0x11`, width 2, bit
`0x20` set), followed by a value, a page reference, the count 2 and two children
of two bytes, in a scope that ends after them. -/
theorem readSDRObjectSurrogate_descriptor_witness :
    (0x71 = leValue surrogateZone.input surrogateZone.pos 1) ∧ 0x71 ≠ 0 ∧
    0x11 = 0x71 &&& 0x1f ∧ 2 = 1 + (0x71 >>> 6) ∧
    (2 = if 0x10 ≤ 0x11 ∧ 0x11 ≤ 0x1a then 2 else 0) ∧
    ((1 ≤ 2 ∧ 2 ≤ 4) ∧
    (2 = 3 → readSDRObjectSurrogate surrogateZone = (false, surrogateZone.skip 1)) ∧
    (2 ≠ 3 → 0x71 &&& 0x20 = 0 →
      readSDRObjectSurrogate surrogateZone
        = (decide (surrogateZone.pos + 1 + 2 + 2 ≤ surrogateZone.getRecordLastPosition),
            surrogateZone.skip (1 + 2 + 2))) ∧
    (2 ≠ 3 → 0x71 &&& 0x20 ≠ 0 →
      ∀ count : Nat, count = leValue surrogateZone.input (surrogateZone.pos + 1 + 2 + 2) 2 →
        (surrogateZone.pos + 1 + 2 + 2 + 2 + 2 * count ≤ surrogateZone.getRecordLastPosition →
          readSDRObjectSurrogate surrogateZone
            = (true, surrogateZone.skip (1 + 2 + 2 + 2 + 2 * count))) ∧
        (surrogateZone.pos + 1 + 2 + 2 + 2 + 2 * count > surrogateZone.getRecordLastPosition →
          readSDRObjectSurrogate surrogateZone = (false, surrogateZone.skip (1 + 2 + 2 + 2))))) :=
  ⟨by decide, by decide, by decide, by decide, by decide,
    readSDRObjectSurrogate_descriptor surrogateZone 0x71 0x11 2 2 (by decide) (by decide)
      (by decide) (by decide) (by decide)⟩

set_option maxRecDepth 100000 in
/-- The surrogate of the descriptor `0x71` is read over 11 bytes; the one of the
descriptor `0x91`, of width 3, is refused after one byte; and the one of the
descriptor `0xc1`, of width 4, is read over 5 bytes. -/
theorem readSDRObjectSurrogate_examples :
    readSDRObjectSurrogate surrogateZone = (true, surrogateZone.skip 11) ∧
    readSDRObjectSurrogate (zoneInScope 11 ([0x91] ++ List.replicate 8 0))
      = (false, (zoneInScope 11 ([0x91] ++ List.replicate 8 0)).skip 1) ∧
    readSDRObjectSurrogate (zoneInScope 11 ([0xc1] ++ List.replicate 8 0))
      = (true, (zoneInScope 11 ([0xc1] ++ List.replicate 8 0)).skip 5) := by
  decide

/-- C27: every decode function returns with the open scopes it was entered with,
on every zone `z` and whatever its result, so that the nesting level at its return
is the one at its entry: each record or header it opened is closed again.  The
functions that can re-enter the group decoder are run with more fuel than the
stream has bytes, which makes them return. -/
theorem decoders_close_their_scopes (env : Env) (fuel : Nat) (z : StarZone)
    (hfuel : z.input.length < fuel) :
    (readSDRObjectSurrogate z).2.stack = z.stack ∧
    (readSDRObjectConnection z).2.stack = z.stack ∧
    (readSDRGluePoint z).2.2.stack = z.stack ∧
    (readSDRGluePointList z).2.2.stack = z.stack ∧
    (readSDROutlinerParaObject env z).2.2.stack = z.stack ∧
    (∀ identifier : Int, (readSDUDObject env z identifier).2.stack = z.stack) ∧
    (∀ identifier : Int, ∃ o z',
      readSCHUObject (readSVDRObjectGroup env fuel) z identifier = some (o, z') ∧
      z'.stack = z.stack) ∧
    (∀ inRecord : Bool, ∃ ok z',
      readSDRUserData env (readSVDRObjectGroup env fuel) z inRecord = some (ok, z') ∧
      z'.stack = z.stack) ∧
    (∀ inRecord : Bool, ∃ ok z',
      readSDRUserDataList env (readSVDRObjectGroup env fuel) z inRecord = some (ok, z') ∧
      z'.stack = z.stack) ∧
    (∀ g : SdrGraphic, ∃ ok g' z',
      readSVDRObjectHeader env (readSVDRObjectGroup env fuel) z g = some (ok, g', z') ∧
      z'.stack = z.stack) ∧
    (∀ g : SdrGraphicAttribute, ∃ ok g' z',
      readSVDRObjectAttrib env (readSVDRObjectGroup env fuel) z g = some (ok, g', z') ∧
      z'.stack = z.stack) ∧
    (∀ g : SdrGraphicText, ∃ ok g' z',
      readSVDRObjectText env (readSVDRObjectGroup env fuel) z g = some (ok, g', z') ∧
      z'.stack = z.stack) ∧
    (∀ g : SdrGraphicRect, ∃ ok g' z',
      readSVDRObjectRect env (readSVDRObjectGroup env fuel) z g = some (ok, g', z') ∧
      z'.stack = z.stack) ∧
    (∀ g : SdrGraphicCaption, ∃ ok g' z',
      readSVDRObjectCaption env (readSVDRObjectGroup env fuel) z g = some (ok, g', z') ∧
      z'.stack = z.stack) ∧
    (∀ g : SdrGraphicCircle, ∃ ok g' z',
      readSVDRObjectCircle env (readSVDRObjectGroup env fuel) z g = some (ok, g', z') ∧
      z'.stack = z.stack) ∧
    (∀ g : SdrGraphicEdge, ∃ ok g' z',
      readSVDRObjectEdge env (readSVDRObjectGroup env fuel) z g = some (ok, g', z') ∧
      z'.stack = z.stack) ∧
    (∀ g : SdrGraphicGraph, ∃ ok g' z',
      readSVDRObjectGraph env (readSVDRObjectGroup env fuel) z g = some (ok, g', z') ∧
      z'.stack = z.stack) ∧
    (∀ g : SdrGraphicMeasure, ∃ ok g' z',
      readSVDRObjectMeasure env (readSVDRObjectGroup env fuel) z g = some (ok, g', z') ∧
      z'.stack = z.stack) ∧
    (∀ g : SdrGraphicOLE, ∃ ok g' z',
      readSVDRObjectOLE env (readSVDRObjectGroup env fuel) z g = some (ok, g', z') ∧
      z'.stack = z.stack) ∧
    (∀ g : SdrGraphicPath, ∃ ok g' z',
      readSVDRObjectPath env (readSVDRObjectGroup env fuel) z g = some (ok, g', z') ∧
      z'.stack = z.stack) ∧
    (∀ g : SdrGraphicGroup, ∃ ok g' z',
      readSVDRObjectGroup env fuel z g = some (ok, g', z') ∧ z'.stack = z.stack) ∧
    (∀ identifier : Int, ∃ g z',
      readSVDRObject env (readSVDRObjectGroup env fuel) fuel z identifier = some (some g, z') ∧
      z'.stack = z.stack) ∧
    (∀ identifier : Int, ∃ o z',
      readFmFormObject env (readSVDRObjectGroup env fuel) z identifier = some (o, z') ∧
      z'.stack = z.stack) ∧
    (∀ self : StarObjectSmallGraphic, ∃ ok self' z',
      readSdrObject env (readSVDRObjectGroup env fuel) fuel self z = some (ok, self', z') ∧
      z'.stack = z.stack) ∧
    (∀ a b : StarZone, a.stack = b.stack → a.getRecordLevel = b.getRecordLevel) := by
  have hg : ∀ b : Nat, GoodGroup (readSVDRObjectGroup env fuel) z.input.length b :=
    fun b => readSVDRObjectGroup_good_of_le env hfuel b
  have fromLands : ∀ {α : Type} {r : Option (Bool × α × StarZone)} {P : α → Prop},
      Lands r z z.pos P → ∃ ok g' z', r = some (ok, g', z') ∧ z'.stack = z.stack :=
    fun h => by
      obtain ⟨ok, g', z', heq, -, hs, -, -⟩ := h
      exact ⟨ok, g', z', heq, hs⟩
  refine ⟨by simp, by simp, by simp, by simp, by simp, fun _ => by simp, fun id => ?_,
    fun b => ?_, fun b => ?_, fun g => ?_, fun g => ?_, fun g => ?_, fun g => ?_, fun g => ?_,
    fun g => ?_, fun g => ?_, fun g => ?_, fun g => ?_, fun g => ?_, fun g => ?_, fun g => ?_,
    fun id => ?_, fun id => ?_, fun self => ?_, fun a b h => ?_⟩
  · obtain ⟨o, z', heq, -, hs, -⟩ := readSCHUObject_lands (hg 0) z id rfl (Nat.zero_le _)
    exact ⟨o, z', heq, hs⟩
  · obtain ⟨ok, z', heq, -, hs, -⟩ := readSDRUserData_lands env (hg 0) z b rfl
      (Nat.zero_le _) (Nat.zero_le _)
    exact ⟨ok, z', heq, hs⟩
  · obtain ⟨ok, z', heq, -, hs, -⟩ := readSDRUserDataList_lands env (hg 0) z b rfl
      (Nat.zero_le _) (Nat.zero_le _)
    exact ⟨ok, z', heq, hs⟩
  · exact fromLands (readSVDRObjectHeader_lands env z g rfl (fun _ => hg _))
  · exact fromLands (readSVDRObjectAttrib_lands env z g rfl (fun _ => hg _))
  · exact fromLands (readSVDRObjectText_lands env z g rfl (fun _ => hg _))
  · exact fromLands (readSVDRObjectRect_lands env z g rfl (fun _ => hg _))
  · exact fromLands (readSVDRObjectCaption_lands env z g rfl (fun _ => hg _))
  · exact fromLands (readSVDRObjectCircle_lands env z g rfl (fun _ => hg _))
  · exact fromLands (readSVDRObjectEdge_lands env z g rfl (fun _ => hg _))
  · exact fromLands (readSVDRObjectGraph_lands env z g rfl (fun _ => hg _))
  · exact fromLands (readSVDRObjectMeasure_lands env z g rfl (fun _ => hg _))
  · exact fromLands (readSVDRObjectOLE_lands env z g rfl (fun _ => hg _))
  · exact fromLands (readSVDRObjectPath_lands env z g rfl (fun _ => hg _))
  · exact fromLands (hg z.pos z g rfl (Nat.le_refl _))
  · obtain ⟨g, z', heq, -, hs, -⟩ := readSVDRObject_lands env (hg 0) fuel z id rfl
      (Nat.zero_le _) (by omega) (by omega)
    exact ⟨g, z', heq, hs⟩
  · obtain ⟨o, z', heq, -, hs⟩ := readFmFormObject_lands env z id rfl (fun _ => hg _)
    exact ⟨o, z', heq, hs⟩
  · obtain ⟨ok, obj, z', heq, -, hs, -⟩ := readSdrObject_child env fuel (hg 0) self z rfl
      (Nat.zero_le _) (by omega)
    exact ⟨ok, obj, z', heq, hs⟩
  · unfold StarZone.getRecordLevel
    rw [h]

set_option maxRecDepth 100000 in
/-- C27, at a concrete input: the zone at the start of the rectangle object of
format version 4, of 116 bytes, with 117 units of fuel. -/
theorem decoders_close_their_scopes_witness :
    (zoneOf rectObject).input.length < 117 ∧
    ((readSDRObjectSurrogate (zoneOf rectObject)).2.stack = (zoneOf rectObject).stack ∧
    (readSDRObjectConnection (zoneOf rectObject)).2.stack = (zoneOf rectObject).stack ∧
    (readSDRGluePoint (zoneOf rectObject)).2.2.stack = (zoneOf rectObject).stack ∧
    (readSDRGluePointList (zoneOf rectObject)).2.2.stack = (zoneOf rectObject).stack ∧
    (readSDROutlinerParaObject testEnv (zoneOf rectObject)).2.2.stack = (zoneOf rectObject).stack ∧
    (∀ identifier : Int, (readSDUDObject testEnv (zoneOf rectObject) identifier).2.stack = (zoneOf rectObject).stack) ∧
    (∀ identifier : Int, ∃ o z',
      readSCHUObject (readSVDRObjectGroup testEnv 117) (zoneOf rectObject) identifier = some (o, z') ∧
      z'.stack = (zoneOf rectObject).stack) ∧
    (∀ inRecord : Bool, ∃ ok z',
      readSDRUserData testEnv (readSVDRObjectGroup testEnv 117) (zoneOf rectObject) inRecord = some (ok, z') ∧
      z'.stack = (zoneOf rectObject).stack) ∧
    (∀ inRecord : Bool, ∃ ok z',
      readSDRUserDataList testEnv (readSVDRObjectGroup testEnv 117) (zoneOf rectObject) inRecord = some (ok, z') ∧
      z'.stack = (zoneOf rectObject).stack) ∧
    (∀ g : SdrGraphic, ∃ ok g' z',
      readSVDRObjectHeader testEnv (readSVDRObjectGroup testEnv 117) (zoneOf rectObject) g = some (ok, g', z') ∧
      z'.stack = (zoneOf rectObject).stack) ∧
    (∀ g : SdrGraphicAttribute, ∃ ok g' z',
      readSVDRObjectAttrib testEnv (readSVDRObjectGroup testEnv 117) (zoneOf rectObject) g = some (ok, g', z') ∧
      z'.stack = (zoneOf rectObject).stack) ∧
    (∀ g : SdrGraphicText, ∃ ok g' z',
      readSVDRObjectText testEnv (readSVDRObjectGroup testEnv 117) (zoneOf rectObject) g = some (ok, g', z') ∧
      z'.stack = (zoneOf rectObject).stack) ∧
    (∀ g : SdrGraphicRect, ∃ ok g' z',
      readSVDRObjectRect testEnv (readSVDRObjectGroup testEnv 117) (zoneOf rectObject) g = some (ok, g', z') ∧
      z'.stack = (zoneOf rectObject).stack) ∧
    (∀ g : SdrGraphicCaption, ∃ ok g' z',
      readSVDRObjectCaption testEnv (readSVDRObjectGroup testEnv 117) (zoneOf rectObject) g = some (ok, g', z') ∧
      z'.stack = (zoneOf rectObject).stack) ∧
    (∀ g : SdrGraphicCircle, ∃ ok g' z',
      readSVDRObjectCircle testEnv (readSVDRObjectGroup testEnv 117) (zoneOf rectObject) g = some (ok, g', z') ∧
      z'.stack = (zoneOf rectObject).stack) ∧
    (∀ g : SdrGraphicEdge, ∃ ok g' z',
      readSVDRObjectEdge testEnv (readSVDRObjectGroup testEnv 117) (zoneOf rectObject) g = some (ok, g', z') ∧
      z'.stack = (zoneOf rectObject).stack) ∧
    (∀ g : SdrGraphicGraph, ∃ ok g' z',
      readSVDRObjectGraph testEnv (readSVDRObjectGroup testEnv 117) (zoneOf rectObject) g = some (ok, g', z') ∧
      z'.stack = (zoneOf rectObject).stack) ∧
    (∀ g : SdrGraphicMeasure, ∃ ok g' z',
      readSVDRObjectMeasure testEnv (readSVDRObjectGroup testEnv 117) (zoneOf rectObject) g = some (ok, g', z') ∧
      z'.stack = (zoneOf rectObject).stack) ∧
    (∀ g : SdrGraphicOLE, ∃ ok g' z',
      readSVDRObjectOLE testEnv (readSVDRObjectGroup testEnv 117) (zoneOf rectObject) g = some (ok, g', z') ∧
      z'.stack = (zoneOf rectObject).stack) ∧
    (∀ g : SdrGraphicPath, ∃ ok g' z',
      readSVDRObjectPath testEnv (readSVDRObjectGroup testEnv 117) (zoneOf rectObject) g = some (ok, g', z') ∧
      z'.stack = (zoneOf rectObject).stack) ∧
    (∀ g : SdrGraphicGroup, ∃ ok g' z',
      readSVDRObjectGroup testEnv 117 (zoneOf rectObject) g = some (ok, g', z') ∧ z'.stack = (zoneOf rectObject).stack) ∧
    (∀ identifier : Int, ∃ g z',
      readSVDRObject testEnv (readSVDRObjectGroup testEnv 117) 117 (zoneOf rectObject) identifier = some (some g, z') ∧
      z'.stack = (zoneOf rectObject).stack) ∧
    (∀ identifier : Int, ∃ o z',
      readFmFormObject testEnv (readSVDRObjectGroup testEnv 117) (zoneOf rectObject) identifier = some (o, z') ∧
      z'.stack = (zoneOf rectObject).stack) ∧
    (∀ self : StarObjectSmallGraphic, ∃ ok self' z',
      readSdrObject testEnv (readSVDRObjectGroup testEnv 117) 117 self (zoneOf rectObject) = some (ok, self', z') ∧
      z'.stack = (zoneOf rectObject).stack) ∧
    (∀ a b : StarZone, a.stack = b.stack → a.getRecordLevel = b.getRecordLevel)) :=
  ⟨by decide, decoders_close_their_scopes testEnv 117 (zoneOf rectObject) (by decide)⟩

set_option maxRecDepth 100000 in
/-- The rectangle object of format version 4 is read with the nesting level 0 at
the entry and at the return of `readSdrObject`. -/
theorem readSdrObject_level_example :
    (zoneOf rectObject).getRecordLevel = 0 ∧
    (readSdrObject testEnv noGroup 2 StarObjectSmallGraphic.new (zoneOf rectObject)).map
      (fun r => (r.1, r.2.2.getRecordLevel, r.2.2.pos)) = some (true, 0, 116) :=
  ⟨rfl, rfl⟩

set_option maxRecDepth 100000 in
/-- C28, as stated, fails: in an empty header record, open from the position 14
to its last position 14 and followed by 40 more bytes of the stream, the fixed
fields of `readSVDRObjectHeader` are read up to the position 46, with the record
still open. -/
theorem fixed_fields_read_unchecked_counterexample :
    shortHeaderZone.openRecord.1 = true ∧
    shortHeaderZone.openRecord.2.tell = 14 ∧
    shortHeaderZone.openRecord.2.getRecordLastPosition = 14 ∧
    (readHeaderFixed shortHeaderZone.openRecord.2 newPlain).2.tell = 46 ∧
    (readHeaderFixed shortHeaderZone.openRecord.2 newPlain).2.stack
      = shortHeaderZone.openRecord.2.stack ∧
    shortHeaderZone.openRecord.2.stack = [⟨14, 4⟩, ⟨54, 4⟩] ∧
    shortHeaderZone.input.length = 54 := by
  decide

/-- C28, amended: the fixed fields of `readSVDRObjectHeader` (31 bytes, 32 from
the format version 4 on), of `readSVDRObjectText` (26 bytes) and of
`readSVDRObjectMeasure` (17 bytes) are read without a test of the last position of
the record, which stays open, so that the cursor can be after that position; the
header compares the cursor with the last position after these reads and then
reads nothing more.  Once its record is open, each of the three decoders returns
`true` with the record closed and the cursor at the last position of the record
(the header with more fuel than the stream has bytes). -/
theorem fixed_fields_read_unchecked (env : Env) (fuel : Nat) (z : StarZone)
    (hfuel : z.input.length < fuel) :
    (∀ (zo : StarZone) (g : SdrGraphic),
      (readHeaderFixed zo g).2.tell
        = zo.tell + 31 + (if zo.getHeaderVersion ≥ 4 then 1 else 0) ∧
      (readHeaderFixed zo g).2.stack = zo.stack ∧
      ((readHeaderFixed zo g).2.tell > zo.getRecordLastPosition →
        readHeaderFields zo g = (false, (readHeaderFixed zo g).1, (readHeaderFixed zo g).2))) ∧
    (∀ (zo : StarZone) (g : SdrGraphicText),
      (readTextFixed zo g).2.2.tell = zo.tell + 26 ∧
      (readTextFixed zo g).2.2.stack = zo.stack) ∧
    (∀ (zo : StarZone) (g : SdrGraphicMeasure),
      (readMeasureFixed zo g).2.tell = zo.tell + 17 ∧
      (readMeasureFixed zo g).2.stack = zo.stack) ∧
    (∀ g : SdrGraphic, z.openRecord.1 = true →
      ∃ g' z', readSVDRObjectHeader env (readSVDRObjectGroup env fuel) z g
          = some (true, g', z') ∧
        z'.tell = z.openRecord.2.getRecordLastPosition ∧ z'.stack = z.stack) ∧
    (∀ (grp : GroupReader) (g : SdrGraphicText) (base : SdrGraphicAttribute) (z1 : StarZone),
      readSVDRObjectAttrib env grp z g.toSdrGraphicAttribute = some (true, base, z1) →
      z1.openRecord.1 = true →
      ∃ g' z', readSVDRObjectText env grp z g = some (true, g', z') ∧
        z'.tell = z1.openRecord.2.getRecordLastPosition ∧ z'.stack = z1.stack) ∧
    (∀ (grp : GroupReader) (g : SdrGraphicMeasure) (base : SdrGraphicText) (z1 : StarZone),
      readSVDRObjectText env grp z g.toSdrGraphicText = some (true, base, z1) →
      z1.openRecord.1 = true →
      ∃ g' z', readSVDRObjectMeasure env grp z g = some (true, g', z') ∧
        z'.tell = z1.openRecord.2.getRecordLastPosition ∧ z'.stack = z1.stack) := by
  refine ⟨fun zo g => ⟨readHeaderFixed_tell zo g, readHeaderFixed_stack zo g,
      readHeaderFields_overrun zo g⟩,
    fun zo g => ⟨readTextFixed_tell zo g, readTextFixed_stack zo g⟩,
    fun zo g => ⟨readMeasureFixed_tell zo g, readMeasureFixed_stack zo g⟩,
    fun g ho => ?_, fun grp g base z1 hA ho => readSVDRObjectText_opened hA ho,
    fun grp g base z1 hT ho => readSVDRObjectMeasure_opened hT ho⟩
  exact readSVDRObjectHeader_closes env z g rfl
    (fun _ => readSVDRObjectGroup_good_of_le env hfuel _) ho

set_option maxRecDepth 100000 in
/-- C28 amended, at a concrete input: the empty header record followed by 40
bytes, with 55 units of fuel. -/
theorem fixed_fields_read_unchecked_witness :
    shortHeaderZone.input.length < 55 ∧
    ((∀ (zo : StarZone) (g : SdrGraphic),
      (readHeaderFixed zo g).2.tell
        = zo.tell + 31 + (if zo.getHeaderVersion ≥ 4 then 1 else 0) ∧
      (readHeaderFixed zo g).2.stack = zo.stack ∧
      ((readHeaderFixed zo g).2.tell > zo.getRecordLastPosition →
        readHeaderFields zo g = (false, (readHeaderFixed zo g).1, (readHeaderFixed zo g).2))) ∧
    (∀ (zo : StarZone) (g : SdrGraphicText),
      (readTextFixed zo g).2.2.tell = zo.tell + 26 ∧
      (readTextFixed zo g).2.2.stack = zo.stack) ∧
    (∀ (zo : StarZone) (g : SdrGraphicMeasure),
      (readMeasureFixed zo g).2.tell = zo.tell + 17 ∧
      (readMeasureFixed zo g).2.stack = zo.stack) ∧
    (∀ g : SdrGraphic, shortHeaderZone.openRecord.1 = true →
      ∃ g' z', readSVDRObjectHeader testEnv (readSVDRObjectGroup testEnv 55) shortHeaderZone g
          = some (true, g', z') ∧
        z'.tell = shortHeaderZone.openRecord.2.getRecordLastPosition ∧ z'.stack = shortHeaderZone.stack) ∧
    (∀ (grp : GroupReader) (g : SdrGraphicText) (base : SdrGraphicAttribute) (z1 : StarZone),
      readSVDRObjectAttrib testEnv grp shortHeaderZone g.toSdrGraphicAttribute = some (true, base, z1) →
      z1.openRecord.1 = true →
      ∃ g' z', readSVDRObjectText testEnv grp shortHeaderZone g = some (true, g', z') ∧
        z'.tell = z1.openRecord.2.getRecordLastPosition ∧ z'.stack = z1.stack) ∧
    (∀ (grp : GroupReader) (g : SdrGraphicMeasure) (base : SdrGraphicText) (z1 : StarZone),
      readSVDRObjectText testEnv grp shortHeaderZone g.toSdrGraphicText = some (true, base, z1) →
      z1.openRecord.1 = true →
      ∃ g' z', readSVDRObjectMeasure testEnv grp shortHeaderZone g = some (true, g', z') ∧
        z'.tell = z1.openRecord.2.getRecordLastPosition ∧ z'.stack = z1.stack)) :=
  ⟨by decide, fixed_fields_read_unchecked testEnv 55 shortHeaderZone (by decide)⟩

set_option maxRecDepth 100000 in
/-- The empty header record: `readSVDRObjectHeader` returns `true` with the cursor
back at the last position 14 of the record, and the record closed. -/
theorem readSVDRObjectHeader_short_example :
    (readSVDRObjectHeader testEnv noGroup shortHeaderZone newPlain).map
      (fun r => (r.1, r.2.2.pos, r.2.2.stack)) = some (true, 14, [⟨54, 4⟩]) := by
  decide

/-- C29: a failure of the delegate propagates outward.  When
`readSVDRObjectHeader` returns `false`, `readSVDRObjectAttrib` returns `false`;
when Attrib returns `false`, `readSVDRObjectText` returns `false`; when Text
returns `false`, `readSVDRObjectRect`, `Path`, `Edge` and `Measure` return
`false`; when Rect returns `false`, `Circle`, `Caption`, `Graph` and `OLE` return
`false`.  In each case the outer layer returns the graphic it was given with
only the part filled by the delegate, and the stream as the delegate left it
(Attrib seeks back to the position of its entry): it reads none of its own
fields.  When the decoder chosen by `readSVDRObject` returns `false`, whatever
leaf it filled, `readSVDRObject` yields the generic placeholder of the
identifier. -/
theorem delegate_failure_propagates (env : Env) (grp : GroupReader) (z : StarZone) :
    (∀ (g : SdrGraphicAttribute) (base : SdrGraphic) (z1 : StarZone),
      readSVDRObjectHeader env grp z g.toSdrGraphic = some (false, base, z1) →
      readSVDRObjectAttrib env grp z g
        = some (false, { g with toSdrGraphic := base }, z1.seek z.tell)) ∧
    (∀ (g : SdrGraphicText) (base : SdrGraphicAttribute) (z1 : StarZone),
      readSVDRObjectAttrib env grp z g.toSdrGraphicAttribute = some (false, base, z1) →
      readSVDRObjectText env grp z g
        = some (false, { g with toSdrGraphicAttribute := base }, z1)) ∧
    (∀ (base : SdrGraphicText) (z1 : StarZone),
      (∀ g : SdrGraphicRect,
        readSVDRObjectText env grp z g.toSdrGraphicText = some (false, base, z1) →
        readSVDRObjectRect env grp z g
          = some (false, { g with toSdrGraphicText := base }, z1)) ∧
      (∀ g : SdrGraphicPath,
        readSVDRObjectText env grp z g.toSdrGraphicText = some (false, base, z1) →
        readSVDRObjectPath env grp z g
          = some (false, { g with toSdrGraphicText := base }, z1)) ∧
      (∀ g : SdrGraphicEdge,
        readSVDRObjectText env grp z g.toSdrGraphicText = some (false, base, z1) →
        readSVDRObjectEdge env grp z g
          = some (false, { g with toSdrGraphicText := base }, z1)) ∧
      (∀ g : SdrGraphicMeasure,
        readSVDRObjectText env grp z g.toSdrGraphicText = some (false, base, z1) →
        readSVDRObjectMeasure env grp z g
          = some (false, { g with toSdrGraphicText := base }, z1))) ∧
    (∀ (base : SdrGraphicRect) (z1 : StarZone),
      (∀ g : SdrGraphicCircle,
        readSVDRObjectRect env grp z g.toSdrGraphicRect = some (false, base, z1) →
        readSVDRObjectCircle env grp z g
          = some (false, { g with toSdrGraphicRect := base }, z1)) ∧
      (∀ g : SdrGraphicCaption,
        readSVDRObjectRect env grp z g.toSdrGraphicRect = some (false, base, z1) →
        readSVDRObjectCaption env grp z g
          = some (false, { g with toSdrGraphicRect := base }, z1)) ∧
      (∀ g : SdrGraphicGraph,
        readSVDRObjectRect env grp z g.toSdrGraphicRect = some (false, base, z1) →
        readSVDRObjectGraph env grp z g
          = some (false, { g with toSdrGraphicRect := base }, z1)) ∧
      (∀ g : SdrGraphicOLE,
        readSVDRObjectRect env grp z g.toSdrGraphicRect = some (false, base, z1) →
        readSVDRObjectOLE env grp z g
          = some (false, { g with toSdrGraphicRect := base }, z1))) ∧
    (∀ (fuel : Nat) (identifier : Int) (leaf : Graphic) (z1 : StarZone),
      readSVDRLeaf env grp z identifier = some (false, leaf, z1) →
      readSVDRObject env grp fuel z identifier
        = some (some (.sdrGraphic (SdrGraphic.new identifier)),
            z1.seek z.getRecordLastPosition)) := by
  refine ⟨?_, ?_, fun base z1 => ⟨?_, ?_, ?_, ?_⟩, fun base z1 => ⟨?_, ?_, ?_, ?_⟩, ?_⟩
  · intro g base z1 h
    unfold readSVDRObjectAttrib
    rw [h]; rfl
  · intro g base z1 h
    unfold readSVDRObjectText
    rw [h]; rfl
  · intro g h
    unfold readSVDRObjectRect
    rw [h]; rfl
  · intro g h
    unfold readSVDRObjectPath
    rw [h]; rfl
  · intro g h
    unfold readSVDRObjectEdge
    rw [h]; rfl
  · intro g h
    unfold readSVDRObjectMeasure
    rw [h]; rfl
  · intro g h
    unfold readSVDRObjectCircle
    rw [h]; rfl
  · intro g h
    unfold readSVDRObjectCaption
    rw [h]; rfl
  · intro g h
    unfold readSVDRObjectGraph
    rw [h]; rfl
  · intro g h
    unfold readSVDRObjectOLE
    rw [h]; rfl
  · intro fuel identifier leaf z1 h
    unfold readSVDRObject
    rw [h]; rfl

set_option maxRecDepth 100000 in
/-- C29 at a concrete input: the rectangle object cut after its header record,
read from the end of its scope, where no record opens.  The header decoder
returns `false`, and so does every layer above it, with no field read; the
dispatcher yields the placeholder of the identifier 3. -/
theorem delegate_failure_propagates_witness :
    readSVDRObjectHeader testEnv noGroup cutZone newPlain = some (false, newPlain, cutZone) ∧
    readSVDRObjectAttrib testEnv noGroup cutZone newAttrib = some (false, newAttrib, cutZone) ∧
    readSVDRObjectText testEnv noGroup cutZone newText = some (false, newText, cutZone) ∧
    readSVDRObjectRect testEnv noGroup cutZone newRect = some (false, newRect, cutZone) ∧
    readSVDRObjectCircle testEnv noGroup cutZone (SdrGraphicCircle.new 3)
      = some (false, SdrGraphicCircle.new 3, cutZone) ∧
    readSVDRObject testEnv noGroup 0 cutZone 3
      = some (some (.sdrGraphic (SdrGraphic.new 3)), cutZone) :=
  have hH : readSVDRObjectHeader testEnv noGroup cutZone newAttrib.toSdrGraphic
      = some (false, newAttrib.toSdrGraphic, cutZone) := by decide
  have hA := (delegate_failure_propagates testEnv noGroup cutZone).1 newAttrib _ _ hH
  have hT := (delegate_failure_propagates testEnv noGroup cutZone).2.1 newText _ _ hA
  have hR := ((delegate_failure_propagates testEnv noGroup cutZone).2.2.1 _ _).1 newRect hT
  have hC := ((delegate_failure_propagates testEnv noGroup cutZone).2.2.2.1 _ _).1
    (SdrGraphicCircle.new 3) hR
  have hL : readSVDRLeaf testEnv noGroup cutZone 3 = some (false, .rect newRect, cutZone) :=
    congrArg (Option.map fun (r : Bool × SdrGraphicRect × StarZone) =>
      (r.1, Graphic.rect r.2.1, r.2.2)) (hR.trans rfl)
  ⟨by decide, hA, hT, hR, hC,
    (delegate_failure_propagates testEnv noGroup cutZone).2.2.2.2 0 3 _ _ hL⟩

/-- C30, for `readSDRGluePointList`: once its record is open the function returns
`true` with as many glue points as the count declares, without any test of the
count against the last position of the record; the header, caption, edge, path
and animation polygons and the outliner depth list test their count first. -/
theorem readSDRGluePointList_count_unchecked (z : StarZone) (ho : z.openRecord.1 = true) :
    (readSDRGluePointList z).1 = true ∧
    (readSDRGluePointList z).2.1.length = (z.openRecord.2.readULong 2).1 := by
  unfold readSDRGluePointList
  simp only [ho, Bool.not_true, Bool.false_eq_true, if_false]
  exact ⟨trivial, by rw [readSDRGluePoints_length]; simp⟩

set_option maxRecDepth 100000 in
/-- C30 at a concrete input: the record `06 00 00 00 03 00`, whose 2 payload
bytes are the count 3. -/
theorem readSDRGluePointList_count_unchecked_witness :
    glueListZone.openRecord.1 = true ∧
    (readSDRGluePointList glueListZone).1 = true ∧
    (readSDRGluePointList glueListZone).2.1.length
      = (glueListZone.openRecord.2.readULong 2).1 :=
  ⟨by decide, readSDRGluePointList_count_unchecked glueListZone (by decide)⟩

set_option maxRecDepth 100000 in
/-- The record `06 00 00 00 03 00` declares 3 glue points and ends right after
the count, at the position 16: `readSDRGluePointList` returns `true` with 3
default glue points.  Inside a header record of format version 11 the same list
is stored in `m_polygon`. -/
theorem readSDRGluePointList_example :
    glueListZone.openRecord.2.getRecordLastPosition = 16 ∧
    (glueListZone.openRecord.2.readULong 2).2.tell = 16 ∧
    readSDRGluePointList glueListZone
      = (true, [GluePoint.new 0 0, GluePoint.new 0 0, GluePoint.new 0 0],
          ⟨glueListZone.input, 16, glueListZone.stack⟩) ∧
    (readSVDRObjectHeader testEnv noGroup headerGlueZone newPlain).map
        (fun r => (r.1, r.2.1.m_polygon.length, r.2.2.pos))
      = some (true, 3, 54) := by
  decide

/-! ## The claims on families, point lists, framing, loops and counts -/

/-- C31: with more fuel than the stream has bytes, `readSCHUObject` returns an
object for every identifier from 1 to 7, and returns no object, reading no byte,
for every identifier that is 0 or less, or more than 7.  For the identifier 1 the
object is the group that `readSVDRObjectGroup` has filled whenever that decode
returns `true`; when it returns `false` the object is the chart user data of the
identifier 1. -/
theorem readSCHUObject_identifier_range (env : Env) (fuel : Nat) (z : StarZone)
    (identifier : Int) (hfuel : z.input.length < fuel) :
    (1 ≤ identifier ∧ identifier ≤ 7 →
      ∃ g z', readSCHUObject (readSVDRObjectGroup env fuel) z identifier = some (some g, z')) ∧
    (identifier ≤ 0 ∨ identifier > 7 →
      readSCHUObject (readSVDRObjectGroup env fuel) z identifier = some (none, z)) ∧
    (∃ ok group z1,
      readSVDRObjectGroup env fuel z (SdrGraphicGroup.new 1) = some (ok, group, z1) ∧
      (ok = true →
        readSCHUObject (readSVDRObjectGroup env fuel) z 1 = some (some (.group group), z1)) ∧
      (ok = false →
        ∃ g z', readSCHUObject (readSVDRObjectGroup env fuel) z 1 = some (some (.schu g), z') ∧
          g.m_identifier = 1)) := by
  obtain ⟨ok, group, z1, heq, -, -, -, -⟩ :=
    readSVDRObjectGroup_good_of_le env (Nat.succ_le_of_lt hfuel) 0 z (SdrGraphicGroup.new 1) rfl
      (Nat.zero_le _)
  have h1 : ∀ okk, okk = ok → (okk = true →
        readSCHUObject (readSVDRObjectGroup env fuel) z 1 = some (some (.group group), z1)) ∧
      (okk = false →
        ∃ g z', readSCHUObject (readSVDRObjectGroup env fuel) z 1 = some (some (.schu g), z') ∧
          g.m_identifier = 1) := by
    intro okk hk
    subst hk
    refine ⟨fun ht => ?_, fun hf => ?_⟩
    · unfold readSCHUObject
      rw [if_pos rfl, heq, ht]; rfl
    · obtain ⟨g, hg, hid⟩ := readSCHUData_some z1 1 (by omega)
      refine ⟨g, (readSCHUData z1 1).2, ?_, hid⟩
      unfold readSCHUObject
      rw [if_pos rfl, heq, hf]
      simp only [Bool.false_eq_true, if_false]
      rw [← hg]
  refine ⟨fun hr => ?_, fun hr => ?_, ok, group, z1, heq, h1 ok rfl⟩
  · by_cases hid : identifier = 1
    · subst hid
      cases hok : ok
      · obtain ⟨g, z', h, -⟩ := (h1 ok rfl).2 hok
        exact ⟨_, _, h⟩
      · exact ⟨_, _, (h1 ok rfl).1 hok⟩
    · obtain ⟨g, hg, -⟩ := readSCHUData_some z identifier hr
      refine ⟨.schu g, (readSCHUData z identifier).2, ?_⟩
      unfold readSCHUObject
      rw [if_neg hid, ← hg]
  · have hid : identifier ≠ 1 := by omega
    unfold readSCHUObject
    rw [if_neg hid, readSCHUData_none z identifier hr]

set_option maxRecDepth 100000 in
/-- C31, at a concrete input: the group of format version 4 with no child, read as
a chart object of identifier 1, with 80 units of fuel for its 79 bytes. -/
theorem readSCHUObject_identifier_range_witness :
    groupZone.input.length < 80 ∧
    ((1 ≤ (1 : Int) ∧ (1 : Int) ≤ 7 →
      ∃ g z', readSCHUObject (readSVDRObjectGroup testEnv 80) groupZone (1 : Int) = some (some g, z')) ∧
    ((1 : Int) ≤ 0 ∨ (1 : Int) > 7 →
      readSCHUObject (readSVDRObjectGroup testEnv 80) groupZone (1 : Int) = some (none, groupZone)) ∧
    (∃ ok group z1,
      readSVDRObjectGroup testEnv 80 groupZone (SdrGraphicGroup.new 1) = some (ok, group, z1) ∧
      (ok = true →
        readSCHUObject (readSVDRObjectGroup testEnv 80) groupZone 1 = some (some (.group group), z1)) ∧
      (ok = false →
        ∃ g z', readSCHUObject (readSVDRObjectGroup testEnv 80) groupZone 1 = some (some (.schu g), z') ∧
          g.m_identifier = 1))) :=
  ⟨by decide, readSCHUObject_identifier_range testEnv 80 groupZone 1 (by decide)⟩

set_option maxRecDepth 100000 in
/-- The group of format version 4 read as a chart object of identifier 1 is a
group; on a zone where the group decode fails, the identifier 1 gives a chart user
data object, the identifier 3 reads its two fields, and the identifiers 0 and 8
give no object. -/
theorem readSCHUObject_examples :
    (readSCHUObject (readSVDRObjectGroup testEnv 2) groupZone 1).map
        (fun r => (r.1.map Graphic.m_identifier, childIdentifiers r.1, r.2.pos))
      = some (some 1, [], 79) ∧
    (readSCHUObject (readSVDRObjectGroup testEnv 2) cutZone 1).map
        (fun r => (r.1.map Graphic.m_identifier, r.2.pos)) = some (some 1, 58) ∧
    (readSCHUData (zoneOf [1, 0, 2, 0, 3, 0]) 3).1
      = some (.schu { SCHUGraphic.new 3 with m_adjust := 2, m_orientation := 3 }) ∧
    (readSCHUData (zoneOf [1, 0, 2, 0, 3, 0]) 0).1 = none ∧
    (readSCHUData (zoneOf [1, 0, 2, 0, 3, 0]) 8).1 = none := by
  refine ⟨by decide, by decide, rfl, rfl, rfl⟩

/-- C32: `readFmFormObject` returns no object, reading no byte, for every
identifier other than 33.  For the identifier 33 it runs the rectangle chain on a
new uno object (with more fuel than the stream has bytes, that chain returns);
when the chain returns `true` and the uno record opens, with `L` its last
position, the result is a uno object made of the rectangle part read by the
chain, whose identifier is 32, the one that the constructor `SdrGraphicUno()`
sets, and of the name read from the uno record: `m_unoName` is the string that
`readUnoName` returns when its result is `true`, and stays empty otherwise; an
empty record gives the empty name without a read, any other record is read by
`zone.readString`, which fails when the call fails or ends beyond `L`.  The zone
returned is the record closed, at `L`, with the scopes of the entry.  When the
chain returns `false` or the uno record does not open, there is no object. -/
theorem readFmFormObject_uno (env : Env) (fuel : Nat) (z : StarZone)
    (hfuel : z.input.length < fuel) :
    (∀ identifier : Int, identifier ≠ 33 →
      readFmFormObject env (readSVDRObjectGroup env fuel) z identifier = some (none, z)) ∧
    SdrGraphicUno.new.m_identifier = 32 ∧
    SdrGraphicUno.new.m_unoName = [] ∧
    (∃ okRect base z1,
      readSVDRObjectRect env (readSVDRObjectGroup env fuel) z SdrGraphicUno.new.toSdrGraphicRect
        = some (okRect, base, z1) ∧
      (okRect = true → z1.openRecord.1 = true →
        readFmFormObject env (readSVDRObjectGroup env fuel) z 33
          = some (some (.uno
              { toSdrGraphicRect := base,
                m_unoName := if (readUnoName env z1.openRecord.2).1 = true then
                  (readUnoName env z1.openRecord.2).2.1 else [] }),
            ((readUnoName env z1.openRecord.2).2.2.seekIf (!(readUnoName env z1.openRecord.2).1)
              z1.openRecord.2.getRecordLastPosition).closeRecord) ∧
        base.m_identifier = 32 ∧
        (Graphic.uno
          { toSdrGraphicRect := base,
            m_unoName := if (readUnoName env z1.openRecord.2).1 = true then
              (readUnoName env z1.openRecord.2).2.1 else [] }).m_identifier = 32 ∧
        (((readUnoName env z1.openRecord.2).2.2.seekIf (!(readUnoName env z1.openRecord.2).1)
            z1.openRecord.2.getRecordLastPosition).closeRecord).tell
          = z1.openRecord.2.getRecordLastPosition ∧
        (((readUnoName env z1.openRecord.2).2.2.seekIf (!(readUnoName env z1.openRecord.2).1)
            z1.openRecord.2.getRecordLastPosition).closeRecord).stack = z1.stack ∧
        (z1.openRecord.2.tell = z1.openRecord.2.getRecordLastPosition →
          readUnoName env z1.openRecord.2 = (true, [], z1.openRecord.2)) ∧
        (z1.openRecord.2.tell ≠ z1.openRecord.2.getRecordLastPosition →
          readUnoName env z1.openRecord.2
            = ((env.readString z1.openRecord.2).1 &&
                decide (¬ (z1.openRecord.2.skip (env.readString z1.openRecord.2).2.2).tell
                  > z1.openRecord.2.getRecordLastPosition),
              (env.readString z1.openRecord.2).2.1,
              z1.openRecord.2.skip (env.readString z1.openRecord.2).2.2))) ∧
      (okRect = false →
        readFmFormObject env (readSVDRObjectGroup env fuel) z 33 = some (none, z1)) ∧
      (z1.openRecord.1 = false →
        readFmFormObject env (readSVDRObjectGroup env fuel) z 33 = some (none, z1))) := by
  obtain ⟨okRect, base, z1, heq, -, -, -, hid⟩ :=
    readSVDRObjectRect_lands env z SdrGraphicUno.new.toSdrGraphicRect rfl
      (fun _ => readSVDRObjectGroup_good_of_le env (Nat.succ_le_of_lt hfuel) _)
  have hid' : base.m_identifier = 32 := hid
  refine ⟨fun identifier h => ?_, rfl, rfl, okRect, base, z1, heq, fun hok ho => ?_,
    fun hok => ?_, fun ho => ?_⟩
  · unfold readFmFormObject
    rw [if_pos h]
  · subst hok
    obtain ⟨s, hst, -, -, -, -⟩ := StarZone.openRecord_true ho
    have hstack : (readUnoName env z1.openRecord.2).2.2.stack = z1.openRecord.2.stack := by
      unfold readUnoName
      split_ifs <;> rfl
    have hlast : (readUnoName env z1.openRecord.2).2.2.getRecordLastPosition
        = z1.openRecord.2.getRecordLastPosition := by
      rw [StarZone.getRecordLastPosition_cons (hstack.trans hst),
        StarZone.getRecordLastPosition_cons hst]
    refine ⟨?_, hid', hid', ?_, ?_, fun he => ?_, fun hne => ?_⟩
    · unfold readFmFormObject
      rw [if_neg (by decide), heq]
      simp only [ho, Bool.not_true, Bool.false_eq_true, if_false, hlast]
      by_cases hn : (readUnoName env z1.openRecord.2).1 = true
      · simp only [hn, if_true]
      · simp only [hn, if_false]
        rfl
    · simp [StarZone.closeRecord, StarZone.seekIf, StarZone.seek, apply_ite StarZone.stack,
        hstack, hst, StarZone.getRecordLastPosition_cons hst]
    · simp [StarZone.closeRecord, StarZone.seekIf, StarZone.seek, apply_ite StarZone.stack,
        hstack, hst]
    · unfold readUnoName
      rw [if_neg (not_not.mpr he)]
    · unfold readUnoName
      rw [if_pos hne]
      rfl
  · subst hok
    unfold readFmFormObject
    rw [if_neg (by decide), heq]
    rfl
  · unfold readFmFormObject
    rw [if_neg (by decide), heq]
    cases okRect
    · rfl
    · simp only [ho, Bool.not_true, Bool.false_eq_true, if_false, Bool.not_false, if_true]
      rw [StarZone.openRecord_false ho]
      rfl

set_option maxRecDepth 100000 in
/-- C32, at a concrete input: the form object whose uno record holds the name
`AB`, with 125 units of fuel for its 124 bytes. -/
theorem readFmFormObject_uno_witness :
    formZone.input.length < 125 ∧
    ((∀ identifier : Int, identifier ≠ 33 →
      readFmFormObject testEnv (readSVDRObjectGroup testEnv 125) formZone identifier = some (none, formZone)) ∧
    SdrGraphicUno.new.m_identifier = 32 ∧
    SdrGraphicUno.new.m_unoName = [] ∧
    (∃ okRect base z1,
      readSVDRObjectRect testEnv (readSVDRObjectGroup testEnv 125) formZone SdrGraphicUno.new.toSdrGraphicRect
        = some (okRect, base, z1) ∧
      (okRect = true → z1.openRecord.1 = true →
        readFmFormObject testEnv (readSVDRObjectGroup testEnv 125) formZone 33
          = some (some (.uno
              { toSdrGraphicRect := base,
                m_unoName := if (readUnoName testEnv z1.openRecord.2).1 = true then
                  (readUnoName testEnv z1.openRecord.2).2.1 else [] }),
            ((readUnoName testEnv z1.openRecord.2).2.2.seekIf (!(readUnoName testEnv z1.openRecord.2).1)
              z1.openRecord.2.getRecordLastPosition).closeRecord) ∧
        base.m_identifier = 32 ∧
        (Graphic.uno
          { toSdrGraphicRect := base,
            m_unoName := if (readUnoName testEnv z1.openRecord.2).1 = true then
              (readUnoName testEnv z1.openRecord.2).2.1 else [] }).m_identifier = 32 ∧
        (((readUnoName testEnv z1.openRecord.2).2.2.seekIf (!(readUnoName testEnv z1.openRecord.2).1)
            z1.openRecord.2.getRecordLastPosition).closeRecord).tell
          = z1.openRecord.2.getRecordLastPosition ∧
        (((readUnoName testEnv z1.openRecord.2).2.2.seekIf (!(readUnoName testEnv z1.openRecord.2).1)
            z1.openRecord.2.getRecordLastPosition).closeRecord).stack = z1.stack ∧
        (z1.openRecord.2.tell = z1.openRecord.2.getRecordLastPosition →
          readUnoName testEnv z1.openRecord.2 = (true, [], z1.openRecord.2)) ∧
        (z1.openRecord.2.tell ≠ z1.openRecord.2.getRecordLastPosition →
          readUnoName testEnv z1.openRecord.2
            = ((testEnv.readString z1.openRecord.2).1 &&
                decide (¬ (z1.openRecord.2.skip (testEnv.readString z1.openRecord.2).2.2).tell
                  > z1.openRecord.2.getRecordLastPosition),
              (testEnv.readString z1.openRecord.2).2.1,
              z1.openRecord.2.skip (testEnv.readString z1.openRecord.2).2.2))) ∧
      (okRect = false →
        readFmFormObject testEnv (readSVDRObjectGroup testEnv 125) formZone 33 = some (none, z1)) ∧
      (z1.openRecord.1 = false →
        readFmFormObject testEnv (readSVDRObjectGroup testEnv 125) formZone 33 = some (none, z1)))) :=
  ⟨by decide, readFmFormObject_uno testEnv 125 formZone (by decide)⟩

set_option maxRecDepth 100000 in
/-- On the form object the rectangle chain succeeds and the uno record opens: the
identifier 33 gives the uno object of identifier 32 with the name `AB`, at the end
of the scope; the identifier 32 gives no object.  An empty uno record gives the
empty name.  A uno record whose name declares 5 bytes and holds 2 of them makes
`readUnoName` fail with the cursor 3 bytes beyond the record: the name stays empty,
and the zone returned is at the last position of the record, 124. -/
theorem readFmFormObject_example :
    readSVDRObjectRect testEnv noGroup formZone SdrGraphicUno.new.toSdrGraphicRect
      = some (true, rectDecodedFor 32, formZoneUno) ∧
    formZoneUno.openRecord.1 = true ∧
    readUnoName testEnv formZoneUno.openRecord.2
      = (true, [65, 66], ⟨formObject, 124, [⟨124, 4⟩, ⟨124, 4⟩]⟩) ∧
    readFmFormObject testEnv noGroup formZone 33
      = some (some (.uno { rectDecodedFor 32 with m_unoName := [65, 66] }),
          ⟨formObject, 124, [⟨124, 4⟩]⟩) ∧
    ({ rectDecodedFor 32 with m_unoName := [65, 66] } : SdrGraphicUno).m_identifier = 32 ∧
    readFmFormObject testEnv noGroup formZone 32 = some (none, formZone) ∧
    readFmFormObject testEnv noGroup (zoneInObject formObjectEmpty) 33
      = some (some (.uno { rectDecodedFor 32 with m_unoName := [] }),
          ⟨formObjectEmpty, 120, [⟨120, 4⟩]⟩) ∧
    readUnoName testEnv ⟨formObjectLong, 120, [⟨124, 4⟩, ⟨124, 4⟩]⟩
      = (false, [65, 66, 67, 68, 69], ⟨formObjectLong, 127, [⟨124, 4⟩, ⟨124, 4⟩]⟩) ∧
    readFmFormObject testEnv noGroup (zoneInObject formObjectLong) 33
      = some (some (.uno { rectDecodedFor 32 with m_unoName := [] }),
          ⟨formObjectLong, 124, [⟨124, 4⟩]⟩) :=
  ⟨rfl, by decide, rfl, rfl, rfl, rfl, rfl, rfl, rfl⟩

/-- C33: flagged point lists keep one flag per point.  With more fuel than the
stream has bytes, `readSVDRObjectEdge` and `readSVDRObjectPath` return on every
zone; on a graphic that enters with one flag per point (a new object has no point
and no flag), the edge returned has as many flags as points, and the path
returned has its flags as they were at the entry (empty on a new object, the
layout without flags) or has as many flags as points; this holds whatever the
result and the counts read. -/
theorem flagged_lists_one_flag_per_point (env : Env) (fuel : Nat) (z : StarZone)
    (hfuel : z.input.length < fuel) :
    (∀ g : SdrGraphicEdge, g.m_edgePolygonFlags.length = g.m_edgePolygon.length →
      ∃ ok g' z', readSVDRObjectEdge env (readSVDRObjectGroup env fuel) z g = some (ok, g', z') ∧
        g'.m_edgePolygonFlags.length = g'.m_edgePolygon.length) ∧
    (∀ g : SdrGraphicPath, g.m_pathPolygonFlags.length = g.m_pathPolygon.length →
      ∃ ok g' z', readSVDRObjectPath env (readSVDRObjectGroup env fuel) z g = some (ok, g', z') ∧
        (g'.m_pathPolygonFlags = g.m_pathPolygonFlags ∨
          g'.m_pathPolygonFlags.length = g'.m_pathPolygon.length)) ∧
    (SdrGraphicEdge.new.m_edgePolygon = [] ∧ SdrGraphicEdge.new.m_edgePolygonFlags = []) ∧
    (∀ id : Int, (SdrGraphicPath.new id).m_pathPolygon = [] ∧
      (SdrGraphicPath.new id).m_pathPolygonFlags = []) := by
  have hgood := fun (_ : z.pos < z.input.length) =>
    readSVDRObjectGroup_good_of_le env (Nat.succ_le_of_lt hfuel) (z.pos + 1)
  refine ⟨fun g hg => ?_, fun g hg => ?_, ⟨rfl, rfl⟩, fun _ => ⟨rfl, rfl⟩⟩
  · obtain ⟨ok, g', z', heq, -⟩ := readSVDRObjectEdge_lands env z g rfl hgood
    exact ⟨ok, g', z', heq, readSVDRObjectEdge_flags hg heq⟩
  · obtain ⟨ok, g', z', heq, -⟩ := readSVDRObjectPath_lands env z g rfl hgood
    exact ⟨ok, g', z', heq, readSVDRObjectPath_flags hg heq⟩

set_option maxRecDepth 100000 in
/-- C33, at a concrete input: the edge record with two points and two flags, with
133 units of fuel for its 132 bytes. -/
theorem flagged_lists_one_flag_per_point_witness :
    (zoneInObject edgePoints).input.length < 133 ∧
    ((∀ g : SdrGraphicEdge, g.m_edgePolygonFlags.length = g.m_edgePolygon.length →
      ∃ ok g' z', readSVDRObjectEdge testEnv (readSVDRObjectGroup testEnv 133) (zoneInObject edgePoints) g = some (ok, g', z') ∧
        g'.m_edgePolygonFlags.length = g'.m_edgePolygon.length) ∧
    (∀ g : SdrGraphicPath, g.m_pathPolygonFlags.length = g.m_pathPolygon.length →
      ∃ ok g' z', readSVDRObjectPath testEnv (readSVDRObjectGroup testEnv 133) (zoneInObject edgePoints) g = some (ok, g', z') ∧
        (g'.m_pathPolygonFlags = g.m_pathPolygonFlags ∨
          g'.m_pathPolygonFlags.length = g'.m_pathPolygon.length)) ∧
    (SdrGraphicEdge.new.m_edgePolygon = [] ∧ SdrGraphicEdge.new.m_edgePolygonFlags = []) ∧
    (∀ id : Int, (SdrGraphicPath.new id).m_pathPolygon = [] ∧
      (SdrGraphicPath.new id).m_pathPolygonFlags = [])) :=
  ⟨by decide, flagged_lists_one_flag_per_point testEnv 133 (zoneInObject edgePoints) (by decide)⟩

set_option maxRecDepth 100000 in
/-- Two points with the flags 5 and 6: the edge and the flagged path keep both
flags; the path in the layout without flags keeps no flag; the flagged path whose
second list declares 9 points that do not fit keeps the two points and the two
flags of its first list. -/
theorem flagged_lists_examples :
    (readSVDRObjectEdge testEnv noGroup (zoneInObject edgePoints) SdrGraphicEdge.new).map
        (fun r => (r.1, r.2.1.m_edgePolygon, r.2.1.m_edgePolygonFlags))
      = some (true, [⟨1, 2⟩, ⟨3, 4⟩], [5, 6]) ∧
    (readSVDRObjectPath testEnv noGroup (zoneInObject pathFlagged) (SdrGraphicPath.new 10)).map
        (fun r => (r.1, r.2.1.m_pathPolygon, r.2.1.m_pathPolygonFlags))
      = some (true, [⟨1, 2⟩, ⟨3, 4⟩], [5, 6]) ∧
    (readSVDRObjectPath testEnv noGroup (zoneInObject pathLegacy) (SdrGraphicPath.new 8)).map
        (fun r => (r.1, r.2.1.m_pathPolygon, r.2.1.m_pathPolygonFlags))
      = some (true, [⟨1, 2⟩, ⟨3, 4⟩], []) ∧
    (readSVDRObjectPath testEnv noGroup (zoneInObject pathOverflow) (SdrGraphicPath.new 10)).map
        (fun r => (r.1, r.2.1.m_pathPolygon, r.2.1.m_pathPolygonFlags))
      = some (true, [⟨1, 2⟩, ⟨3, 4⟩], [5, 6]) := by
  decide

/-- C34: the info record of `readSVDRObjectEdge`.  Once the text layer has
succeeded and the edge record is open, with `L` its last position, the function
returns `true`; with `t` the result of the edge track, `c` the one of the
connections and `i` the one of the item, which is where the info record starts:
when the flag `ok` of `c` holds and 55 bytes are left before `L`, the info record
is read as five points of two signed 32-bit values, two signed 32-bit angles,
three unsigned 16-bit counters and one byte, and the block consumes 55 bytes;
when fewer than 55 bytes are left, or the flag does not hold, the info record is
as it was, the defaults on a new edge, and the block reads no byte. -/
theorem readSVDRObjectEdge_info (env : Env) (grp : GroupReader) (z : StarZone)
    (g : SdrGraphicEdge) (base : SdrGraphicText) (z1 : StarZone)
    (hT : readSVDRObjectText env grp z g.toSdrGraphicText = some (true, base, z1))
    (ho : z1.openRecord.1 = true)
    (L : Nat) (hL : L = z1.openRecord.2.getRecordLastPosition)
    (t : Bool × SdrGraphicEdge × StarZone)
    (ht : t = readEdgeTrack z1.openRecord.2.getHeaderVersion
      { g with toSdrGraphicText := base } z1.openRecord.2)
    (c : Bool × StarZone)
    (hc : c = if t.1 = true ∧ t.2.2.tell < L then readEdgeConnections 2 t.2.2 else (t.1, t.2.2))
    (i : Option StarItem × StarZone)
    (hi : i = loadItem env L 1146 (c.1 && decide (c.2.tell < L)) t.2.1.m_edgeItem c.2) :
    ∃ g' z', readSVDRObjectEdge env grp z g = some (true, g', z') ∧
      (c.1 = true → i.2.tell + 55 ≤ L →
        g'.m_info =
          ⟨[⟨toSigned 4 (leValue i.2.input i.2.pos 4),
              toSigned 4 (leValue i.2.input (i.2.pos + 4) 4)⟩,
            ⟨toSigned 4 (leValue i.2.input (i.2.pos + 8) 4),
              toSigned 4 (leValue i.2.input (i.2.pos + 12) 4)⟩,
            ⟨toSigned 4 (leValue i.2.input (i.2.pos + 16) 4),
              toSigned 4 (leValue i.2.input (i.2.pos + 20) 4)⟩,
            ⟨toSigned 4 (leValue i.2.input (i.2.pos + 24) 4),
              toSigned 4 (leValue i.2.input (i.2.pos + 28) 4)⟩,
            ⟨toSigned 4 (leValue i.2.input (i.2.pos + 32) 4),
              toSigned 4 (leValue i.2.input (i.2.pos + 36) 4)⟩],
            [toSigned 4 (leValue i.2.input (i.2.pos + 40) 4),
              toSigned 4 (leValue i.2.input (i.2.pos + 44) 4)],
            [leValue i.2.input (i.2.pos + 48) 2, leValue i.2.input (i.2.pos + 50) 2,
              leValue i.2.input (i.2.pos + 52) 2],
            leValue i.2.input (i.2.pos + 54) 1⟩ ∧
        (readEdgeInfo L { t.2.1 with m_edgeItem := i.1 } i.2).2 = i.2.skip 55) ∧
      (¬ (c.1 = true ∧ i.2.tell + 55 ≤ L) → g'.m_info = g.m_info) ∧
      (¬ i.2.tell + 55 ≤ L →
        readEdgeInfo L { t.2.1 with m_edgeItem := i.1 } i.2
          = ({ t.2.1 with m_edgeItem := i.1 }, i.2)) ∧
      SdrGraphicEdge.new.m_info = ⟨List.replicate 5 ⟨0, 0⟩, [0, 0], [0, 0, 0], 0⟩ := by
  obtain ⟨g', z', heq, hinfo⟩ := readSVDRObjectEdge_info_block hT ho L hL t ht c hc i hi
  refine ⟨g', z', heq, fun hok h55 => ?_, fun hn => ?_, fun hn => readEdgeInfo_skip _ _ _ hn, rfl⟩
  · have hlt : i.2.tell < L := by omega
    rw [hinfo, if_pos ⟨hok, hlt⟩, readEdgeInfo_read _ _ _ h55, readPoints_five]
    exact ⟨rfl, rfl⟩
  · rw [hinfo]
    by_cases hcond : c.1 = true ∧ i.2.tell < L
    · rw [if_pos hcond, readEdgeInfo_skip _ _ _ (fun h55 => hn ⟨hcond.1, h55⟩)]
      subst ht
      exact readEdgeTrack_info _ _ _
    · rw [if_neg hcond]

set_option maxRecDepth 100000 in
/-- C34, at a concrete input: an edge of format version 4 whose record ends with
the 55 bytes of the info record, which starts at the position 186. -/
theorem readSVDRObjectEdge_info_witness :
    readSVDRObjectText testEnv noGroup edgeInfoZone newEdge.toSdrGraphicText
      = some (true, textDecodedFor 24, edgeInfoZoneEdge) ∧
    edgeInfoZoneEdge.openRecord.1 = true ∧
    241 = edgeInfoZoneEdge.openRecord.2.getRecordLastPosition ∧
    edgeInfoT
      = readEdgeTrack edgeInfoZoneEdge.openRecord.2.getHeaderVersion
          { newEdge with toSdrGraphicText := textDecodedFor 24 } edgeInfoZoneEdge.openRecord.2 ∧
    edgeInfoC
      = (if edgeInfoT.1 = true ∧ edgeInfoT.2.2.tell < 241 then
          readEdgeConnections 2 edgeInfoT.2.2
        else (edgeInfoT.1, edgeInfoT.2.2)) ∧
    edgeInfoI
      = loadItem testEnv 241 1146 (edgeInfoC.1 && decide (edgeInfoC.2.tell < 241))
          edgeInfoT.2.1.m_edgeItem edgeInfoC.2 ∧
    (∃ g' z', readSVDRObjectEdge testEnv noGroup edgeInfoZone newEdge = some (true, g', z') ∧
      (edgeInfoC.1 = true → edgeInfoI.2.tell + 55 ≤ 241 →
        g'.m_info =
          ⟨[⟨toSigned 4 (leValue edgeInfoI.2.input edgeInfoI.2.pos 4),
              toSigned 4 (leValue edgeInfoI.2.input (edgeInfoI.2.pos + 4) 4)⟩,
            ⟨toSigned 4 (leValue edgeInfoI.2.input (edgeInfoI.2.pos + 8) 4),
              toSigned 4 (leValue edgeInfoI.2.input (edgeInfoI.2.pos + 12) 4)⟩,
            ⟨toSigned 4 (leValue edgeInfoI.2.input (edgeInfoI.2.pos + 16) 4),
              toSigned 4 (leValue edgeInfoI.2.input (edgeInfoI.2.pos + 20) 4)⟩,
            ⟨toSigned 4 (leValue edgeInfoI.2.input (edgeInfoI.2.pos + 24) 4),
              toSigned 4 (leValue edgeInfoI.2.input (edgeInfoI.2.pos + 28) 4)⟩,
            ⟨toSigned 4 (leValue edgeInfoI.2.input (edgeInfoI.2.pos + 32) 4),
              toSigned 4 (leValue edgeInfoI.2.input (edgeInfoI.2.pos + 36) 4)⟩],
            [toSigned 4 (leValue edgeInfoI.2.input (edgeInfoI.2.pos + 40) 4),
              toSigned 4 (leValue edgeInfoI.2.input (edgeInfoI.2.pos + 44) 4)],
            [leValue edgeInfoI.2.input (edgeInfoI.2.pos + 48) 2, leValue edgeInfoI.2.input (edgeInfoI.2.pos + 50) 2,
              leValue edgeInfoI.2.input (edgeInfoI.2.pos + 52) 2],
            leValue edgeInfoI.2.input (edgeInfoI.2.pos + 54) 1⟩ ∧
        (readEdgeInfo 241 { edgeInfoT.2.1 with m_edgeItem := edgeInfoI.1 } edgeInfoI.2).2 = edgeInfoI.2.skip 55) ∧
      (¬ (edgeInfoC.1 = true ∧ edgeInfoI.2.tell + 55 ≤ 241) → g'.m_info = newEdge.m_info) ∧
      (¬ edgeInfoI.2.tell + 55 ≤ 241 →
        readEdgeInfo 241 { edgeInfoT.2.1 with m_edgeItem := edgeInfoI.1 } edgeInfoI.2
          = ({ edgeInfoT.2.1 with m_edgeItem := edgeInfoI.1 }, edgeInfoI.2)) ∧
      SdrGraphicEdge.new.m_info = ⟨List.replicate 5 ⟨0, 0⟩, [0, 0], [0, 0, 0], 0⟩) :=
  ⟨rfl, by decide, by decide, by decide, by decide, by decide,
    readSVDRObjectEdge_info testEnv noGroup edgeInfoZone newEdge (textDecodedFor 24)
      edgeInfoZoneEdge rfl (by decide) 241 (by decide) edgeInfoT (by decide) edgeInfoC
      (by decide) edgeInfoI (by decide)⟩

set_option maxRecDepth 100000 in
/-- The edge whose record ends with the 55 bytes of the info record carries that
record; with one byte less after the item, the info record keeps its defaults. -/
theorem readSVDRObjectEdge_info_examples :
    (readSVDRObjectEdge testEnv noGroup edgeInfoZone newEdge).map
        (fun r => (r.1, r.2.1.m_edgeItem, r.2.1.m_info, r.2.2.pos))
      = some (true, some 9, edgeInfoDecoded, 241) ∧
    (readSVDRObjectEdge testEnv noGroup (zoneInObject (edgeWithInfo (edgeInfoBytes.take 54)))
        newEdge).map (fun r => (r.1, r.2.1.m_edgeItem, r.2.1.m_info, r.2.2.pos))
      = some (true, some 9, EdgeInformation.new, 240) := by
  decide

/-- C35: each layer of the chain reports a failure only for a framing error.  With
more fuel than the stream has bytes, on every zone and every graphic, the inner
layer returns and `readSVDRObjectAttrib`, `Text`, `Caption`, `Circle`, `Edge`,
`Graph`, `Measure`, `OLE`, `Path` and `Group` return, and their result is `false`
exactly when the inner layer has returned `false` or no record opens where the
inner layer stopped; so, once the record of the layer is open, the result is `true`
whatever the record holds. -/
theorem layers_fail_only_on_framing (env : Env) (fuel : Nat) (z : StarZone)
    (hfuel : z.input.length < fuel) :
    (∀ g : SdrGraphicAttribute,
      FailsOnlyOnFraming (readSVDRObjectHeader env (readSVDRObjectGroup env fuel) z g.toSdrGraphic)
        (readSVDRObjectAttrib env (readSVDRObjectGroup env fuel) z g)) ∧
    (∀ g : SdrGraphicText,
      FailsOnlyOnFraming (readSVDRObjectAttrib env (readSVDRObjectGroup env fuel) z g.toSdrGraphicAttribute)
        (readSVDRObjectText env (readSVDRObjectGroup env fuel) z g)) ∧
    (∀ g : SdrGraphicCaption,
      FailsOnlyOnFraming (readSVDRObjectRect env (readSVDRObjectGroup env fuel) z g.toSdrGraphicRect)
        (readSVDRObjectCaption env (readSVDRObjectGroup env fuel) z g)) ∧
    (∀ g : SdrGraphicCircle,
      FailsOnlyOnFraming (readSVDRObjectRect env (readSVDRObjectGroup env fuel) z g.toSdrGraphicRect)
        (readSVDRObjectCircle env (readSVDRObjectGroup env fuel) z g)) ∧
    (∀ g : SdrGraphicEdge,
      FailsOnlyOnFraming (readSVDRObjectText env (readSVDRObjectGroup env fuel) z g.toSdrGraphicText)
        (readSVDRObjectEdge env (readSVDRObjectGroup env fuel) z g)) ∧
    (∀ g : SdrGraphicGraph,
      FailsOnlyOnFraming (readSVDRObjectRect env (readSVDRObjectGroup env fuel) z g.toSdrGraphicRect)
        (readSVDRObjectGraph env (readSVDRObjectGroup env fuel) z g)) ∧
    (∀ g : SdrGraphicMeasure,
      FailsOnlyOnFraming (readSVDRObjectText env (readSVDRObjectGroup env fuel) z g.toSdrGraphicText)
        (readSVDRObjectMeasure env (readSVDRObjectGroup env fuel) z g)) ∧
    (∀ g : SdrGraphicOLE,
      FailsOnlyOnFraming (readSVDRObjectRect env (readSVDRObjectGroup env fuel) z g.toSdrGraphicRect)
        (readSVDRObjectOLE env (readSVDRObjectGroup env fuel) z g)) ∧
    (∀ g : SdrGraphicPath,
      FailsOnlyOnFraming (readSVDRObjectText env (readSVDRObjectGroup env fuel) z g.toSdrGraphicText)
        (readSVDRObjectPath env (readSVDRObjectGroup env fuel) z g)) ∧
    (∀ g : SdrGraphicGroup,
      FailsOnlyOnFraming (readSVDRObjectHeader env (readSVDRObjectGroup env fuel) z g.toSdrGraphic)
        (readSVDRObjectGroup env (fuel + 1) z g)) := by
  have hgood := fun (_ : z.pos < z.input.length) =>
    readSVDRObjectGroup_good_of_le env (Nat.succ_le_of_lt hfuel) (z.pos + 1)
  refine ⟨?_, ?_, ?_, ?_, ?_, ?_, ?_, ?_, ?_, ?_⟩
  · intro g
    obtain ⟨okI, base, z1, heq, -⟩ := readSVDRObjectHeader_lands env z g.toSdrGraphic rfl hgood
    exact failsOnlyOnFraming_of heq (readSVDRObjectAttrib_framing heq)
  · intro g
    obtain ⟨okI, base, z1, heq, -⟩ := readSVDRObjectAttrib_lands env z g.toSdrGraphicAttribute rfl hgood
    exact failsOnlyOnFraming_of heq (readSVDRObjectText_framing heq)
  · intro g
    obtain ⟨okI, base, z1, heq, -⟩ := readSVDRObjectRect_lands env z g.toSdrGraphicRect rfl hgood
    exact failsOnlyOnFraming_of heq (readSVDRObjectCaption_framing heq)
  · intro g
    obtain ⟨okI, base, z1, heq, -⟩ := readSVDRObjectRect_lands env z g.toSdrGraphicRect rfl hgood
    exact failsOnlyOnFraming_of heq (readSVDRObjectCircle_framing heq)
  · intro g
    obtain ⟨okI, base, z1, heq, -⟩ := readSVDRObjectText_lands env z g.toSdrGraphicText rfl hgood
    exact failsOnlyOnFraming_of heq (readSVDRObjectEdge_framing heq)
  · intro g
    obtain ⟨okI, base, z1, heq, -⟩ := readSVDRObjectRect_lands env z g.toSdrGraphicRect rfl hgood
    exact failsOnlyOnFraming_of heq (readSVDRObjectGraph_framing heq)
  · intro g
    obtain ⟨okI, base, z1, heq, -⟩ := readSVDRObjectText_lands env z g.toSdrGraphicText rfl hgood
    exact failsOnlyOnFraming_of heq (readSVDRObjectMeasure_framing heq)
  · intro g
    obtain ⟨okI, base, z1, heq, -⟩ := readSVDRObjectRect_lands env z g.toSdrGraphicRect rfl hgood
    exact failsOnlyOnFraming_of heq (readSVDRObjectOLE_framing heq)
  · intro g
    obtain ⟨okI, base, z1, heq, -⟩ := readSVDRObjectText_lands env z g.toSdrGraphicText rfl hgood
    exact failsOnlyOnFraming_of heq (readSVDRObjectPath_framing heq)
  · intro g
    obtain ⟨okI, base, z1, heq, hi, -, hp, -⟩ :=
      readSVDRObjectHeader_lands env z g.toSdrGraphic rfl hgood
    exact failsOnlyOnFraming_of heq
      (readSVDRObjectGroupWith_framing env
        (readSVDRObjectGroup_good_of_le env (Nat.succ_le_of_lt hfuel) 0) fuel heq
        (congrArg List.length hi) (Nat.zero_le _) (by omega))

set_option maxRecDepth 100000 in
/-- C35, at a concrete input: the rectangle object of format version 4, with 117
units of fuel for its 116 bytes. -/
theorem layers_fail_only_on_framing_witness :
    rectZone.input.length < 117 ∧
    ((∀ g : SdrGraphicAttribute,
      FailsOnlyOnFraming (readSVDRObjectHeader testEnv (readSVDRObjectGroup testEnv 117) rectZone g.toSdrGraphic)
        (readSVDRObjectAttrib testEnv (readSVDRObjectGroup testEnv 117) rectZone g)) ∧
    (∀ g : SdrGraphicText,
      FailsOnlyOnFraming (readSVDRObjectAttrib testEnv (readSVDRObjectGroup testEnv 117) rectZone g.toSdrGraphicAttribute)
        (readSVDRObjectText testEnv (readSVDRObjectGroup testEnv 117) rectZone g)) ∧
    (∀ g : SdrGraphicCaption,
      FailsOnlyOnFraming (readSVDRObjectRect testEnv (readSVDRObjectGroup testEnv 117) rectZone g.toSdrGraphicRect)
        (readSVDRObjectCaption testEnv (readSVDRObjectGroup testEnv 117) rectZone g)) ∧
    (∀ g : SdrGraphicCircle,
      FailsOnlyOnFraming (readSVDRObjectRect testEnv (readSVDRObjectGroup testEnv 117) rectZone g.toSdrGraphicRect)
        (readSVDRObjectCircle testEnv (readSVDRObjectGroup testEnv 117) rectZone g)) ∧
    (∀ g : SdrGraphicEdge,
      FailsOnlyOnFraming (readSVDRObjectText testEnv (readSVDRObjectGroup testEnv 117) rectZone g.toSdrGraphicText)
        (readSVDRObjectEdge testEnv (readSVDRObjectGroup testEnv 117) rectZone g)) ∧
    (∀ g : SdrGraphicGraph,
      FailsOnlyOnFraming (readSVDRObjectRect testEnv (readSVDRObjectGroup testEnv 117) rectZone g.toSdrGraphicRect)
        (readSVDRObjectGraph testEnv (readSVDRObjectGroup testEnv 117) rectZone g)) ∧
    (∀ g : SdrGraphicMeasure,
      FailsOnlyOnFraming (readSVDRObjectText testEnv (readSVDRObjectGroup testEnv 117) rectZone g.toSdrGraphicText)
        (readSVDRObjectMeasure testEnv (readSVDRObjectGroup testEnv 117) rectZone g)) ∧
    (∀ g : SdrGraphicOLE,
      FailsOnlyOnFraming (readSVDRObjectRect testEnv (readSVDRObjectGroup testEnv 117) rectZone g.toSdrGraphicRect)
        (readSVDRObjectOLE testEnv (readSVDRObjectGroup testEnv 117) rectZone g)) ∧
    (∀ g : SdrGraphicPath,
      FailsOnlyOnFraming (readSVDRObjectText testEnv (readSVDRObjectGroup testEnv 117) rectZone g.toSdrGraphicText)
        (readSVDRObjectPath testEnv (readSVDRObjectGroup testEnv 117) rectZone g)) ∧
    (∀ g : SdrGraphicGroup,
      FailsOnlyOnFraming (readSVDRObjectHeader testEnv (readSVDRObjectGroup testEnv 117) rectZone g.toSdrGraphic)
        (readSVDRObjectGroup testEnv (117 + 1) rectZone g))) :=
  ⟨by decide, layers_fail_only_on_framing testEnv 117 rectZone (by decide)⟩

set_option maxRecDepth 100000 in
/-- A caption whose count of points does not fit, a content error, gives `true`;
the rectangle object cut after its header record, where no item-set record opens,
gives `false` for the item-set layer and for the text layer above it. -/
theorem layers_fail_only_on_framing_examples :
    (readSVDRObjectCaption testEnv noGroup captionZone newCaption).map (fun r => r.1)
      = some true ∧
    (readSVDRObjectHeader testEnv noGroup (zoneInObject rectObjectCut) newAttrib.toSdrGraphic).map
        (fun r => (r.1, r.2.2.openRecord.1)) = some (true, false) ∧
    (readSVDRObjectAttrib testEnv noGroup (zoneInObject rectObjectCut) newAttrib).map
        (fun r => r.1) = some false ∧
    (readSVDRObjectText testEnv noGroup (zoneInObject rectObjectCut) newText).map
        (fun r => r.1) = some false := by
  decide

/-- C36: whenever `readSDRGluePointList` opens its record it returns `true` with
exactly `n` glue points, `n` being the 16-bit count it reads; the point of the
index `i` is the one that `readSDRGluePoint` returns on the zone left by the `i`
turns before it, and a glue point whose record does not open is the default glue
point (position (0, 0), direction 0, id 0, alignment 0, not in percent), with the
cursor left where it was.  The list holds nothing else: the function starts from
the empty list. -/
theorem readSDRGluePointList_entries (z : StarZone) (ho : z.openRecord.1 = true)
    (n : Nat) (hn : n = (z.openRecord.2.readULong 2).1)
    (z0 : StarZone) (hz : z0 = (z.openRecord.2.readULong 2).2) :
    (readSDRGluePointList z).1 = true ∧
    (readSDRGluePointList z).2.1
      = (List.range n).map (fun i => (readSDRGluePoint (readSDRGluePoints i [] z0).2).2.1) ∧
    (readSDRGluePointList z).2.1.length = n ∧
    (∀ zi : StarZone, zi.openRecord.1 = false →
      readSDRGluePoint zi = (false, GluePoint.new 0 0, zi)) ∧
    GluePoint.new 0 0 = ⟨⟨0, 0⟩, 0, 0, 0, false⟩ := by
  subst hn hz
  have h : readSDRGluePointList z
      = (true, (readSDRGluePoints (z.openRecord.2.readULong 2).1 []
            (z.openRecord.2.readULong 2).2).1,
          (readSDRGluePoints (z.openRecord.2.readULong 2).1 []
            (z.openRecord.2.readULong 2).2).2.closeRecord) := by
    unfold readSDRGluePointList
    simp only [ho, Bool.not_true, Bool.false_eq_true, if_false]
  refine ⟨by rw [h], ?_, ?_, readSDRGluePoint_default, rfl⟩
  · rw [h]
    exact readSDRGluePoints_range _ _
  · rw [h]
    simp only [readSDRGluePoints_length, List.length_nil, Nat.zero_add]

set_option maxRecDepth 100000 in
/-- C36, at a concrete input: a list record that declares 3 glue points and holds
one. -/
theorem readSDRGluePointList_entries_witness :
    glueMixedZone.openRecord.1 = true ∧
    3 = (glueMixedZone.openRecord.2.readULong 2).1 ∧
    glueMixedZone.openRecord.2.skip 2 = (glueMixedZone.openRecord.2.readULong 2).2 ∧
    ((readSDRGluePointList glueMixedZone).1 = true ∧
    (readSDRGluePointList glueMixedZone).2.1
      = (List.range 3).map (fun i => (readSDRGluePoint (readSDRGluePoints i [] (glueMixedZone.openRecord.2.skip 2)).2).2.1) ∧
    (readSDRGluePointList glueMixedZone).2.1.length = 3 ∧
    (∀ zi : StarZone, zi.openRecord.1 = false →
      readSDRGluePoint zi = (false, GluePoint.new 0 0, zi)) ∧
    GluePoint.new 0 0 = ⟨⟨0, 0⟩, 0, 0, 0, false⟩) :=
  ⟨by decide, by decide, by decide,
    readSDRGluePointList_entries glueMixedZone (by decide) 3 (by decide) (glueMixedZone.openRecord.2.skip 2)
      (by decide)⟩

set_option maxRecDepth 100000 in
/-- The list record that declares 3 glue points and holds one gives the point read
and two default glue points, in this order. -/
theorem readSDRGluePointList_mixed_example :
    (readSDRGluePointList glueMixedZone).1 = true ∧
    (readSDRGluePointList glueMixedZone).2.1
      = [⟨⟨1, 2⟩, 3, 4, 5, true⟩, GluePoint.new 0 0, GluePoint.new 0 0] := by
  decide

/-- C37: the loop over the children of `readSVDRObjectGroup` terminates.  With
more fuel than the stream has bytes, `child` being the reader of a child that
`readSVDRObjectGroup` with `fuel + 1` levels uses: the loop returns; it reads
nothing unless the cursor plus 4 is before `lastPos`; the reader of a child
returns, and a turn that runs either reads a child, which is then appended while
the cursor moves to the end of the scope of the child, at least 10 bytes further
and not after the end of the enclosing scope, or stops the loop with the children as
they were; the scope that a child opens starts 10 bytes after the cursor and ends
within the enclosing scope, so the decoder is re-entered on fewer bytes; and the
group decoder itself returns. -/
theorem readGroupChildren_terminates (env : Env) (fuel : Nat) (z : StarZone) (lastPos : Nat)
    (m_child : List (Option Graphic)) (hfuel : z.input.length < fuel)
    (child : StarZone → Option (Bool × StarObjectSmallGraphic × StarZone))
    (hchild : child
      = readSdrObject env (readSVDRObjectGroup env fuel) (fuel + 1) StarObjectSmallGraphic.new) :
    (∃ ok cs z', readGroupChildren child lastPos (fuel + 1) m_child z = some (ok, cs, z')) ∧
    (¬ z.tell + 4 < lastPos →
      ∀ k, readGroupChildren child lastPos (k + 1) m_child z = some (true, m_child, z)) ∧
    (∃ okc obj zc, child z = some (okc, obj, zc) ∧
      (z.tell + 4 < lastPos → okc = true →
        zc.pos = (z.openSDRHeader magicDrOb).2.getRecordLastPosition ∧
        z.pos + 10 ≤ zc.pos ∧ zc.pos ≤ z.getRecordLastPosition ∧
        ∀ k, readGroupChildren child lastPos (k + 1) m_child z
          = readGroupChildren child lastPos k (m_child ++ [obj.m_graphic]) zc) ∧
      (okc = false →
        ∀ k, ∃ ok z', readGroupChildren child lastPos (k + 1) m_child z
          = some (ok, m_child, z'))) ∧
    ((z.openSDRHeader magicDrOb).1 = true →
      (z.openSDRHeader magicDrOb).2.pos = z.pos + 10 ∧
      z.pos + 10 ≤ (z.openSDRHeader magicDrOb).2.getRecordLastPosition ∧
      (z.openSDRHeader magicDrOb).2.getRecordLastPosition ≤ z.getRecordLastPosition) ∧
    (∀ g : SdrGraphicGroup, ∃ r, readSVDRObjectGroup env (fuel + 1) z g = some r) := by
  subst hchild
  have hg : ∀ b, GoodGroup (readSVDRObjectGroup env fuel) z.input.length b :=
    fun b => readSVDRObjectGroup_good_of_le env (Nat.succ_le_of_lt hfuel) b
  have hscope : (z.openSDRHeader magicDrOb).1 = true →
      (z.openSDRHeader magicDrOb).2.pos = z.pos + 10 ∧
      z.pos + 10 ≤ (z.openSDRHeader magicDrOb).2.getRecordLastPosition ∧
      (z.openSDRHeader magicDrOb).2.getRecordLastPosition ≤ z.getRecordLastPosition := by
    intro ho
    obtain ⟨s, hst, hpo, hle, -⟩ := StarZone.openSDRHeader_true ho
    rw [StarZone.getRecordLastPosition_cons hst] at *
    refine ⟨hpo, hle, ?_⟩
    have := StarZone.openSDRHeader_nested ho
    rwa [StarZone.getRecordLastPosition_cons hst] at this
  refine ⟨?_, fun hn k => ?_, ?_, hscope, fun g => ?_⟩
  · obtain ⟨ok, cs, z', h, -⟩ := readGroupChildren_lands
      (fun zz hL hb => readSdrObject_child env (fuel + 1) (hg 0) StarObjectSmallGraphic.new zz hL
        (Nat.zero_le _) (by omega)) lastPos fuel m_child z rfl (Nat.zero_le _) (by omega)
    exact ⟨ok, cs, z', h⟩
  · rw [readGroupChildren, if_neg hn]
  · obtain ⟨okc, obj, zc, heq, -, -, -⟩ := readSdrObject_child env (fuel + 1) (hg 0)
      StarObjectSmallGraphic.new z rfl (Nat.zero_le _) (by omega)
    refine ⟨okc, obj, zc, heq, fun hlt hok => ?_, fun hok k => ?_⟩
    · subst hok
      obtain ⟨hm, ho⟩ := readSdrObject_true heq
      obtain ⟨self', zc0, heq0, -, hs0, hp0⟩ := readSdrObject_opens env (fuel + 1)
        StarObjectSmallGraphic.new z rfl (fun _ => hg _) (by omega) hm ho
      obtain ⟨s, hst, -, -, -⟩ := StarZone.openSDRHeader_true ho
      have hzc : zc = zc0.closeSDRHeader := by
        rw [heq0] at heq
        simp only [Option.some.injEq, Prod.mk.injEq, true_and] at heq
        exact heq.2.symm
      have hpos : zc.pos = (z.openSDRHeader magicDrOb).2.getRecordLastPosition := by
        rw [hzc, StarZone.getRecordLastPosition_cons hst]
        simp [StarZone.closeSDRHeader, StarZone.closeRecord, hs0, hst]
      obtain ⟨-, h1, h2⟩ := hscope ho
      exact ⟨hpos, by omega, by omega, fun k => readGroupChildren_step k m_child hlt hm heq⟩
    · subst hok
      exact readGroupChildren_stop k m_child heq
  · obtain ⟨ok, g', z', h, -⟩ := readSVDRObjectGroup_good_of_le env
      (Nat.succ_le_of_lt (Nat.lt_succ_of_lt hfuel)) 0 z g rfl (Nat.zero_le _)
    exact ⟨_, h⟩

set_option maxRecDepth 100000 in
/-- C37, at a concrete input: three children, with 177 units of fuel for their 176
bytes. -/
theorem readGroupChildren_terminates_witness :
    (zoneOf childrenABC).input.length < 177 ∧
    childReader
      = readSdrObject testEnv (readSVDRObjectGroup testEnv 177) (177 + 1)
          StarObjectSmallGraphic.new ∧
    ((∃ ok cs z', readGroupChildren childReader 176 (177 + 1) [] (zoneOf childrenABC) = some (ok, cs, z')) ∧
    (¬ (zoneOf childrenABC).tell + 4 < 176 →
      ∀ k, readGroupChildren childReader 176 (k + 1) [] (zoneOf childrenABC) = some (true, [], (zoneOf childrenABC))) ∧
    (∃ okc obj zc, childReader (zoneOf childrenABC) = some (okc, obj, zc) ∧
      ((zoneOf childrenABC).tell + 4 < 176 → okc = true →
        zc.pos = ((zoneOf childrenABC).openSDRHeader magicDrOb).2.getRecordLastPosition ∧
        (zoneOf childrenABC).pos + 10 ≤ zc.pos ∧ zc.pos ≤ (zoneOf childrenABC).getRecordLastPosition ∧
        ∀ k, readGroupChildren childReader 176 (k + 1) [] (zoneOf childrenABC)
          = readGroupChildren childReader 176 k ([] ++ [obj.m_graphic]) zc) ∧
      (okc = false →
        ∀ k, ∃ ok z', readGroupChildren childReader 176 (k + 1) [] (zoneOf childrenABC)
          = some (ok, [], z'))) ∧
    (((zoneOf childrenABC).openSDRHeader magicDrOb).1 = true →
      ((zoneOf childrenABC).openSDRHeader magicDrOb).2.pos = (zoneOf childrenABC).pos + 10 ∧
      (zoneOf childrenABC).pos + 10 ≤ ((zoneOf childrenABC).openSDRHeader magicDrOb).2.getRecordLastPosition ∧
      ((zoneOf childrenABC).openSDRHeader magicDrOb).2.getRecordLastPosition ≤ (zoneOf childrenABC).getRecordLastPosition) ∧
    (∀ g : SdrGraphicGroup, ∃ r, readSVDRObjectGroup testEnv (177 + 1) (zoneOf childrenABC) g = some r)) :=
  ⟨by decide, rfl,
    readGroupChildren_terminates testEnv 177 (zoneOf childrenABC) 176 [] (by decide) childReader
      rfl⟩

set_option maxRecDepth 100000 in
/-- On three children of 56 bytes each: the first turn reads the child of
identifier 14 and leaves the cursor at 56, the end of its scope; the loop ends
after the three children, at the position 168, where fewer than 5 bytes are left
before the last position 172. -/
theorem readGroupChildren_progress_example :
    (childReader (zoneOf childrenABC)).map
        (fun r => (r.1, r.2.1.m_graphic.map Graphic.m_identifier, r.2.2.pos))
      = some (true, some 14, 56) ∧
    ((zoneOf childrenABC).openSDRHeader magicDrOb).2.getRecordLastPosition = 56 ∧
    (readGroupChildren childReader 172 178 [] (zoneOf childrenABC)).map
        (fun r => (r.1, r.2.1.map (Option.map Graphic.m_identifier), r.2.2.pos))
      = some (true, [some 14, some 15, some 18], 168) := by
  refine ⟨by decide, by decide, by decide⟩

/-- C38: the angles of `readSVDRObjectCircle`.  With more fuel than the stream has
bytes, once the rectangle chain has succeeded and the circle record is open, with
`L` its last position: the function returns `true`; the two angles are read, as
signed 32-bit values taking 8 bytes, each stored as the `float` given by
`float(v)/100.f`, exactly when the identifier of the object is not 4; for the
identifier 4 no byte is read for them and they are as they were, 0 on a new
circle.  With `za` the zone after the angles, the item 1179 is looked up exactly
when the cursor of `za` is not at `L`; when it is at `L`, the item is as it was
and no byte is read. -/
theorem readSVDRObjectCircle_angles (env : Env) (fuel : Nat) (z : StarZone)
    (g : SdrGraphicCircle) (base : SdrGraphicRect) (z1 : StarZone)
    (hfuel : z.input.length < fuel)
    (hR : readSVDRObjectRect env (readSVDRObjectGroup env fuel) z g.toSdrGraphicRect
      = some (true, base, z1))
    (ho : z1.openRecord.1 = true)
    (L : Nat) (hL : L = z1.openRecord.2.getRecordLastPosition)
    (za : StarZone) (hza : za = z1.openRecord.2.skip (if g.m_identifier ≠ 4 then 8 else 0)) :
    readSVDRObjectCircle env (readSVDRObjectGroup env fuel) z g
      = some (true,
          { g with
              toSdrGraphicRect := base,
              m_angles :=
                if g.m_identifier ≠ 4 then
                  ((Float32.ofInt (z1.openRecord.2.readLong 4).1).div Float32.hundred,
                    (Float32.ofInt ((z1.openRecord.2.readLong 4).2.readLong 4).1).div
                      Float32.hundred)
                else g.m_angles,
              m_circleItem := (loadItem env L 1179 (decide (za.tell ≠ L)) g.m_circleItem za).1 },
          (loadItem env L 1179 (decide (za.tell ≠ L)) g.m_circleItem za).2.closeRecord) ∧
    (za.tell = L →
      loadItem env L 1179 (decide (za.tell ≠ L)) g.m_circleItem za = (g.m_circleItem, za)) ∧
    (za.tell ≠ L →
      loadItem env L 1179 (decide (za.tell ≠ L)) g.m_circleItem za
        = ((if (env.loadSurrogate za 1179).1.isNone ∨
                (za.skip (env.loadSurrogate za 1179).2).tell > L then g.m_circleItem
            else (env.loadSurrogate za 1179).1),
          za.skip (env.loadSurrogate za 1179).2)) ∧
    (∀ id : Int, (SdrGraphicCircle.new id).m_angles = (⟨0, 0⟩, ⟨0, 0⟩)) := by
  subst hL hza
  obtain ⟨ok', g', z', heq, -, -, -, hid⟩ := readSVDRObjectRect_lands env z g.toSdrGraphicRect rfl
    (fun _ => readSVDRObjectGroup_good_of_le env (Nat.succ_le_of_lt hfuel) (z.pos + 1))
  rw [hR] at heq
  simp only [Option.some.injEq, Prod.mk.injEq, true_and] at heq
  have hid' : base.m_identifier = g.m_identifier := by
    rw [heq.2.1]; exact hid
  refine ⟨?_, fun h => ?_, fun h => ?_, fun _ => rfl⟩
  · unfold readSVDRObjectCircle
    rw [hR]
    simp only [ho, Bool.not_true, Bool.false_eq_true, if_false, hid']
    by_cases h4 : g.m_identifier = 4
    · have hc : decide (g.m_identifier ≠ 4) = false := by simp [h4]
      have hn : ¬ g.m_identifier ≠ 4 := by simp [h4]
      have hs0 : z1.openRecord.2.skip 0 = z1.openRecord.2 := rfl
      simp only [hc, StarZone.readAngleIf, Bool.false_eq_true, if_false, if_neg hn, hs0]
    · have hc : decide (g.m_identifier ≠ 4) = true := by simp [h4]
      have hn : g.m_identifier ≠ 4 := h4
      have hs8 : ((z1.openRecord.2.readLong 4).2.readLong 4).2 = z1.openRecord.2.skip 8 := rfl
      simp only [hc, StarZone.readAngleIf, if_true, if_pos hn, hs8]
  · have hc : decide ((z1.openRecord.2.skip (if g.m_identifier ≠ 4 then 8 else 0)).tell
        ≠ z1.openRecord.2.getRecordLastPosition) = false :=
      decide_eq_false (not_not.mpr h)
    unfold loadItem
    rw [hc]
    rfl
  · have hc : decide ((z1.openRecord.2.skip (if g.m_identifier ≠ 4 then 8 else 0)).tell
        ≠ z1.openRecord.2.getRecordLastPosition) = true := decide_eq_true h
    unfold loadItem
    rw [hc]
    rfl

set_option maxRecDepth 100000 in
/-- C38, at a concrete input: a section of circle (identifier 5) with the angle
values 9000 and 3333 and the item 9, with 131 units of fuel for its 130 bytes. -/
theorem readSVDRObjectCircle_angles_witness :
    circleZone.input.length < 131 ∧
    readSVDRObjectRect testEnv (readSVDRObjectGroup testEnv 131) circleZone
        (SdrGraphicCircle.new 5).toSdrGraphicRect
      = some (true, rectDecodedFor 5, circleZoneCircle) ∧
    circleZoneCircle.openRecord.1 = true ∧
    130 = circleZoneCircle.openRecord.2.getRecordLastPosition ∧
    circleZoneAt 128
      = circleZoneCircle.openRecord.2.skip (if (SdrGraphicCircle.new 5).m_identifier ≠ 4 then 8
          else 0) ∧
    (readSVDRObjectCircle testEnv (readSVDRObjectGroup testEnv 131) circleZone (SdrGraphicCircle.new 5)
      = some (true,
          { (SdrGraphicCircle.new 5) with
              toSdrGraphicRect := (rectDecodedFor 5),
              m_angles :=
                if (SdrGraphicCircle.new 5).m_identifier ≠ 4 then
                  ((Float32.ofInt (circleZoneCircle.openRecord.2.readLong 4).1).div Float32.hundred,
                    (Float32.ofInt ((circleZoneCircle.openRecord.2.readLong 4).2.readLong 4).1).div
                      Float32.hundred)
                else (SdrGraphicCircle.new 5).m_angles,
              m_circleItem := (loadItem testEnv 130 1179 (decide ((circleZoneAt 128).tell ≠ 130)) (SdrGraphicCircle.new 5).m_circleItem (circleZoneAt 128)).1 },
          (loadItem testEnv 130 1179 (decide ((circleZoneAt 128).tell ≠ 130)) (SdrGraphicCircle.new 5).m_circleItem (circleZoneAt 128)).2.closeRecord) ∧
    ((circleZoneAt 128).tell = 130 →
      loadItem testEnv 130 1179 (decide ((circleZoneAt 128).tell ≠ 130)) (SdrGraphicCircle.new 5).m_circleItem (circleZoneAt 128) = ((SdrGraphicCircle.new 5).m_circleItem, (circleZoneAt 128))) ∧
    ((circleZoneAt 128).tell ≠ 130 →
      loadItem testEnv 130 1179 (decide ((circleZoneAt 128).tell ≠ 130)) (SdrGraphicCircle.new 5).m_circleItem (circleZoneAt 128)
        = ((if (testEnv.loadSurrogate (circleZoneAt 128) 1179).1.isNone ∨
                ((circleZoneAt 128).skip (testEnv.loadSurrogate (circleZoneAt 128) 1179).2).tell > 130 then (SdrGraphicCircle.new 5).m_circleItem
            else (testEnv.loadSurrogate (circleZoneAt 128) 1179).1),
          (circleZoneAt 128).skip (testEnv.loadSurrogate (circleZoneAt 128) 1179).2)) ∧
    (∀ id : Int, (SdrGraphicCircle.new id).m_angles = (⟨0, 0⟩, ⟨0, 0⟩))) :=
  ⟨by decide, rfl, by decide, by decide, by decide,
    readSVDRObjectCircle_angles testEnv 131 circleZone (SdrGraphicCircle.new 5) (rectDecodedFor 5)
      circleZoneCircle (by decide) rfl (by decide) 130 (by decide) (circleZoneAt 128)
      (by decide)⟩

set_option maxRecDepth 100000 in
/-- The section of circle gives the angles 90 (`45 * 2 ^ 1`) and the `float`
nearest to 33.33 (`2184315 * 2 ^ -16`), and the item 9.  The same record under the
identifier 4 gives no angle: its first two bytes are read as the item, 9000.  An
empty record under the identifier 4 gives no angle and no item; a record of 8
bytes under the identifier 6 gives the two angles and no item, here -45 from the
value -4500 and the `float` nearest to 0.01 (`5368709 * 2 ^ -29`) from the value
1.  The values 2147483647, 16777217 and 16777219, which are not values of the type
`float`, are rounded when converted, to `2 ^ 31`, `2 ^ 24` and 16777220, the last
two being ties that go to the even significand. -/
theorem readSVDRObjectCircle_examples :
    (readSVDRObjectCircle testEnv noGroup circleZone (SdrGraphicCircle.new 5)).map
        (fun r => (r.1, r.2.1.m_angles, r.2.1.m_circleItem, r.2.2.pos))
      = some (true, (⟨45, 1⟩, ⟨2184315, -16⟩), some 9, 130) ∧
    (readSVDRObjectCircle testEnv noGroup
        (zoneInObject (circleObject 4 (le32 9000 ++ le32 3333 ++ le16 9)))
        (SdrGraphicCircle.new 4)).map
        (fun r => (r.1, r.2.1.m_angles, r.2.1.m_circleItem, r.2.2.pos))
      = some (true, (⟨0, 0⟩, ⟨0, 0⟩), some 9000, 130) ∧
    (readSVDRObjectCircle testEnv noGroup (zoneInObject (circleObject 4 []))
        (SdrGraphicCircle.new 4)).map
        (fun r => (r.1, r.2.1.m_angles, r.2.1.m_circleItem, r.2.2.pos))
      = some (true, (⟨0, 0⟩, ⟨0, 0⟩), none, 120) ∧
    (readSVDRObjectCircle testEnv noGroup
        (zoneInObject (circleObject 6 (le32 4294962796 ++ le32 1)))
        (SdrGraphicCircle.new 6)).map
        (fun r => (r.1, r.2.1.m_angles, r.2.1.m_circleItem, r.2.2.pos))
      = some (true, (⟨-45, 0⟩, ⟨5368709, -29⟩), none, 128) ∧
    Float32.ofInt 9000 = ⟨1125, 3⟩ ∧ Float32.ofInt 2147483647 = ⟨1, 31⟩ ∧
    Float32.ofInt 16777217 = ⟨1, 24⟩ ∧ Float32.ofInt 16777219 = ⟨4194305, 2⟩ ∧
    (Float32.ofInt 2147483647).div Float32.hundred = ⟨5368709, 2⟩ := by
  exact ⟨rfl, rfl, rfl, rfl, rfl, rfl, rfl, rfl, rfl⟩

/-- C39: when the `DrOb` header opens on a scope with no payload, the cursor being
at the last position of the scope right after the header, `readSdrObject` returns
`true` with the object as it was and the header closed, 10 bytes after its entry
and with the open scopes of its entry, whatever the group reader and the fuel: no
family tag is read and no decoder is run.  A new object stores no graphic, so as
a child of a group it is appended as a child without graphic, and the loop over
the children goes on after it. -/
theorem readSdrObject_empty_scope (env : Env) (grp : GroupReader) (fuel : Nat)
    (self : StarObjectSmallGraphic) (z : StarZone) (hm : z.readMagic.1 = magicDrOb)
    (ho : (z.openSDRHeader magicDrOb).1 = true)
    (hempty : (z.openSDRHeader magicDrOb).2.getRecordLastPosition
      = (z.openSDRHeader magicDrOb).2.tell) :
    readSdrObject env grp fuel self z
      = some (true, self, (z.openSDRHeader magicDrOb).2.closeSDRHeader) ∧
    (z.openSDRHeader magicDrOb).2.closeSDRHeader = z.skip 10 ∧
    StarObjectSmallGraphic.new.m_graphic = none ∧
    (∀ (lastPos k : Nat) (m_child : List (Option Graphic)), z.tell + 4 < lastPos →
      readGroupChildren (readSdrObject env grp fuel StarObjectSmallGraphic.new) lastPos (k + 1)
          m_child z
        = readGroupChildren (readSdrObject env grp fuel StarObjectSmallGraphic.new) lastPos k
            (m_child ++ [none]) (z.skip 10)) := by
  obtain ⟨s, hst, hpo, -, -⟩ := StarZone.openSDRHeader_true ho
  have hin : (z.openSDRHeader magicDrOb).2.input = z.input := StarZone.openSDRHeader_input z _
  have hread : ∀ self : StarObjectSmallGraphic, readSdrObject env grp fuel self z
      = some (true, self, (z.openSDRHeader magicDrOb).2.closeSDRHeader) := by
    intro self
    unfold readSdrObject
    simp only [StarZone.readMagic_seek_tell, StarZone.seek_tell, hm, ne_eq, not_true_eq_false,
      if_false, ho, Bool.not_true, Bool.false_eq_true, hempty, if_true]
  have hclose : (z.openSDRHeader magicDrOb).2.closeSDRHeader = z.skip 10 := by
    have he : s.endPos = z.pos + 10 := by
      rw [StarZone.getRecordLastPosition_cons hst, StarZone.tell_eq, hpo] at hempty
      exact hempty
    simp only [StarZone.closeSDRHeader, StarZone.closeRecord, hst, he, hin, StarZone.skip]
  refine ⟨hread self, hclose, rfl, fun lastPos k m_child hlt => ?_⟩
  rw [← hclose]
  exact readGroupChildren_step k m_child hlt hm (hread StarObjectSmallGraphic.new)

set_option maxRecDepth 100000 in
/-- C39, at a concrete input: a `DrOb` scope with no payload, followed by an object
of identifier 14. -/
theorem readSdrObject_empty_scope_witness :
    (zoneOf childrenEmptyA).readMagic.1 = magicDrOb ∧
    ((zoneOf childrenEmptyA).openSDRHeader magicDrOb).1 = true ∧
    ((zoneOf childrenEmptyA).openSDRHeader magicDrOb).2.getRecordLastPosition
      = ((zoneOf childrenEmptyA).openSDRHeader magicDrOb).2.tell ∧
    (readSdrObject testEnv noGroup 0 StarObjectSmallGraphic.new (zoneOf childrenEmptyA)
      = some (true, StarObjectSmallGraphic.new, ((zoneOf childrenEmptyA).openSDRHeader magicDrOb).2.closeSDRHeader) ∧
    ((zoneOf childrenEmptyA).openSDRHeader magicDrOb).2.closeSDRHeader = (zoneOf childrenEmptyA).skip 10 ∧
    StarObjectSmallGraphic.new.m_graphic = none ∧
    (∀ (lastPos k : Nat) (m_child : List (Option Graphic)), (zoneOf childrenEmptyA).tell + 4 < lastPos →
      readGroupChildren (readSdrObject testEnv noGroup 0 StarObjectSmallGraphic.new) lastPos (k + 1)
          m_child (zoneOf childrenEmptyA)
        = readGroupChildren (readSdrObject testEnv noGroup 0 StarObjectSmallGraphic.new) lastPos k
            (m_child ++ [none]) ((zoneOf childrenEmptyA).skip 10))) :=
  ⟨by decide, by decide, by decide,
    readSdrObject_empty_scope testEnv noGroup 0 StarObjectSmallGraphic.new (zoneOf childrenEmptyA)
      (by decide) (by decide) (by decide)⟩

set_option maxRecDepth 100000 in
/-- The scope with no payload is read as an object without graphic, the cursor
going from 0 to 10; as the first child of a group it is listed as a child without
graphic, before the child of identifier 14. -/
theorem readSdrObject_empty_scope_example :
    (childReader (zoneOf childrenEmptyA)).map (fun r => (r.1, r.2.1.m_graphic.isSome, r.2.2.pos))
      = some (true, false, 10) ∧
    (readGroupChildren childReader 70 178 [] (zoneOf childrenEmptyA)).map
        (fun r => (r.1, r.2.1.map (Option.map Graphic.m_identifier), r.2.2.pos))
      = some (true, [none, some 14], 66) := by
  refine ⟨by decide, by decide⟩

/-- C40: whenever `readSDROutlinerParaObject` returns `true` on a recognised
marker, `N` being the paragraph count it has read: for a version up to 3 the zone
sequence has exactly `N` entries, each with its own text object; for the version 4
the depth list has exactly `N` entries, read as 16-bit values from the zone `zt`
left by the shared text object, and the cursor of `zt` plus `2*N` is not after the
last position `L` of the record.  When that test fails the function returns
`false` with no depth read. -/
theorem readSDROutlinerParaObject_counts (env : Env) (z : StarZone) (N syncRef : Nat)
    (hN : N = (z.readULong 4).1) (hs : syncRef = ((z.readULong 4).2.readULong 4).1)
    (hv : outlinerVersion syncRef ≠ 0)
    (L : Nat) (hL : L = z.getRecordLastPosition)
    (zt : StarZone)
    (hzt : zt = ((z.readULong 4).2.readULong 4).2.skip
      (env.smallTextRead ((z.readULong 4).2.readULong 4).2 L).2) :
    ((readSDROutlinerParaObject env z).1 = true →
      (outlinerVersion syncRef ≤ 3 →
        (readSDROutlinerParaObject env z).2.1.m_zones.length = N ∧
        ∀ p ∈ (readSDROutlinerParaObject env z).2.1.m_zones, p.m_text.isSome = true) ∧
      (outlinerVersion syncRef = 4 →
        (readSDROutlinerParaObject env z).2.1.m_depthList.length = N ∧
        (readSDROutlinerParaObject env z).2.1.m_depthList = (readULongs 2 N [] zt).1 ∧
        zt.tell + 2 * N ≤ L)) ∧
    (outlinerVersion syncRef = 4 → zt.tell + 2 * N > L →
      (readSDROutlinerParaObject env z).1 = false ∧
      (readSDROutlinerParaObject env z).2.1.m_depthList = []) := by
  subst hN hs hL
  obtain ⟨-, h⟩ := readSDROutlinerParaObject_recognised env z hv
  refine ⟨fun hok => ⟨fun h3 => ?_, fun h4 => ?_⟩, fun h4 hover => ?_⟩
  · exact ⟨((h hok).1 h3).1, ((h hok).1 h3).2.1⟩
  · obtain ⟨-, hle, hd⟩ := (readSDROutlinerParaObject_v4 env z h4 _ rfl zt hzt).1 hok
    exact ⟨((h hok).2 (by omega)).2.2, hd, by omega⟩
  · rw [(readSDROutlinerParaObject_v4 env z h4 _ rfl zt hzt).2 (fun hc => by omega)]
    exact ⟨rfl, rfl⟩

set_option maxRecDepth 100000 in
/-- C40, at a concrete input: two paragraphs of the version 4, with a text-object
reader that succeeds without reading a byte. -/
theorem readSDROutlinerParaObject_counts_witness :
    2 = ((outlinerZone 2 0x42345678).readULong 4).1 ∧
    0x42345678 = (((outlinerZone 2 0x42345678).readULong 4).2.readULong 4).1 ∧
    outlinerVersion 0x42345678 ≠ 0 ∧
    26 = (outlinerZone 2 0x42345678).getRecordLastPosition ∧
    (outlinerZone 2 0x42345678).skip 8
      = (((outlinerZone 2 0x42345678).readULong 4).2.readULong 4).2.skip
          (textEnv.smallTextRead (((outlinerZone 2 0x42345678).readULong 4).2.readULong 4).2 26).2 ∧
    (((readSDROutlinerParaObject textEnv (outlinerZone 2 0x42345678)).1 = true →
      (outlinerVersion (0x42345678) ≤ 3 →
        (readSDROutlinerParaObject textEnv (outlinerZone 2 0x42345678)).2.1.m_zones.length = 2 ∧
        ∀ p ∈ (readSDROutlinerParaObject textEnv (outlinerZone 2 0x42345678)).2.1.m_zones, p.m_text.isSome = true) ∧
      (outlinerVersion (0x42345678) = 4 →
        (readSDROutlinerParaObject textEnv (outlinerZone 2 0x42345678)).2.1.m_depthList.length = 2 ∧
        (readSDROutlinerParaObject textEnv (outlinerZone 2 0x42345678)).2.1.m_depthList = (readULongs 2 2 [] ((outlinerZone 2 0x42345678).skip 8)).1 ∧
        ((outlinerZone 2 0x42345678).skip 8).tell + 2 * 2 ≤ 26)) ∧
    (outlinerVersion (0x42345678) = 4 → ((outlinerZone 2 0x42345678).skip 8).tell + 2 * 2 > 26 →
      (readSDROutlinerParaObject textEnv (outlinerZone 2 0x42345678)).1 = false ∧
      (readSDROutlinerParaObject textEnv (outlinerZone 2 0x42345678)).2.1.m_depthList = [])) :=
  ⟨by decide, by decide, by decide, by decide, by decide,
    readSDROutlinerParaObject_counts textEnv (outlinerZone 2 0x42345678) 2 0x42345678 (by decide)
      (by decide) (by decide) 26 (by decide) ((outlinerZone 2 0x42345678).skip 8) (by decide)⟩

set_option maxRecDepth 100000 in
/-- With 8 bytes left after the marker, the version 4 reads 2 depths, and 4 depths,
which end at the last position; for 5 paragraphs the 10 bytes of the depths do not
fit: the function returns `false` and no depth is read.  Three paragraphs of the
version 2 give three zones. -/
theorem readSDROutlinerParaObject_counts_examples :
    (readSDROutlinerParaObject textEnv (outlinerZone 2 0x42345678)).1 = true ∧
    (readSDROutlinerParaObject textEnv (outlinerZone 2 0x42345678)).2.1.m_depthList = [0, 0] ∧
    (readSDROutlinerParaObject textEnv (outlinerZone 4 0x42345678)).1 = true ∧
    (readSDROutlinerParaObject textEnv (outlinerZone 4 0x42345678)).2.1.m_depthList.length = 4 ∧
    (readSDROutlinerParaObject textEnv (outlinerZone 5 0x42345678)).1 = false ∧
    (readSDROutlinerParaObject textEnv (outlinerZone 5 0x42345678)).2.1.m_depthList = [] ∧
    (readSDROutlinerParaObject textEnv (zoneInScope 4
      (le32 3 ++ le32 0x22345678 ++ List.replicate 26 0))).1 = true ∧
    (readSDROutlinerParaObject textEnv (zoneInScope 4
      (le32 3 ++ le32 0x22345678 ++ List.replicate 26 0))).2.1.m_zones.length = 3 := by
  decide

end StarOffice
